import Mathlib

/-!
# Notification lifecycle of `gfx/gfx_widgets.c`

A shallow embedding of the message-queue part of `gfx/gfx_widgets.c`:
the intake queue (`msg_queue`), the on-screen registry (`current_msgs`),
the per-notification record (`menu_widget_msg_t`) and the functions that
move a notification through its life; and of its achievement popups: the
ring `cheevo_popup_queue` with its two indices and the functions that fill
and drain it.

Conventions of the embedding

* A pointer is `Option Nat`: `none` is `NULL`, `some h` a handle into the
  store of the pointed-to objects (`State.msgs` for notifications,
  `State.tasks` for tasks).  `calloc` hands out the handles
  `0, 1, 2, ...` in this order (`State.msgs_next`); `free` records the
  handle in `State.msgs_freed` and leaves the cell as it is.
* `unsigned` values are `Nat` reduced modulo `2^32` where the C code does
  arithmetic on them, `size_t` values modulo `2^64`.
* `float` fields are `Int`.  The offsets are sums and differences of
  `unsigned` values, which the C code computes exactly;
  `msg_transition_animation` is kept in half pixels (its only target is
  `msg_queue_height / 2.0f`) and `Config.M_PI` stands for the constant of
  `math.h` in the unit of `hourglass_rotation`.
* The timer and animation service is not part of this file.  Its state is
  the list of the animations and timers that were pushed and neither
  completed nor cancelled; completion writes the target into the subject
  and runs the callback.  Durations are recorded, the order of completion
  is left open.
-/

namespace GfxWidgets

/-- Constants of `gfx_widgets.h` and functions of other modules that
`gfx_widgets.c` uses without defining them. -/
structure Config where
  MSG_QUEUE_PENDING_MAX : Nat
  MSG_QUEUE_ONSCREEN_MAX : Nat
  MSG_QUEUE_ANIMATION_DURATION : Nat
  TASK_FINISHED_DURATION : Nat
  HOURGLASS_INTERVAL : Nat
  HOURGLASS_DURATION : Nat
  M_PI : Int
  font_driver_get_message_width : String → Nat → Nat
  word_wrap : String → Nat → String
  font_driver_get_message_width_regular : Option String → Nat → Nat
  MSG_ACHIEVEMENT_UNLOCKED : String

/-- Reduction of an `unsigned` (32 bit) result. -/
def u32 (n : Nat) : Nat := n % 4294967296

/-- Reduction of a `size_t` (64 bit) result. -/
def u64 (n : Nat) : Nat := n % 18446744073709551616

/-- The C function `strlen` on the bytes of a string. -/
def strlen (str : String) : Nat := str.utf8ByteSize

/-- The fields of `retro_task_t` that `gfx_widgets.c` reads or writes.
`title_ptr` is the address held in `title`, `title` the text stored there. -/
structure retro_task_t where
  title : String
  title_ptr : Nat
  error : Option String
  cancelled : Bool
  finished : Bool
  progress : Int
  ident : Nat
  alternative_look : Bool
  frontend_userdata : Option Nat
deriving DecidableEq

/-- The record `menu_widget_msg_t`.  The two timer fields are the keys of
`State.timers`. -/
structure menu_widget_msg_t where
  msg : Option String
  msg_new : Option String
  msg_transition_animation : Int
  msg_len : Nat
  duration : Nat
  text_height : Nat
  offset_y : Int
  alpha : Int
  dying : Bool
  expired : Bool
  width : Nat
  expiration_timer_started : Bool
  task_ptr : Option Nat
  task_title_ptr : Nat
  task_count : Nat
  task_progress : Int
  task_finished : Bool
  task_error : Bool
  task_cancelled : Bool
  task_ident : Nat
  unfolded : Bool
  unfolding : Bool
  unfold : Int
  hourglass_rotation : Int
deriving DecidableEq

/-- The float field of a notification that an animation drives. -/
inductive anim_subject where
  | offset_y
  | alpha
  | unfold
  | msg_transition_animation
  | hourglass_rotation
deriving DecidableEq

/-- The completion callbacks that this file hands to `gfx_animation_push`. -/
inductive anim_cb where
  | NULL
  | gfx_widgets_move_end
  | gfx_widgets_unfold_end
  | gfx_widgets_msg_queue_kill_end
  | msg_widget_msg_transition_animation_done
  | gfx_widgets_hourglass_end
deriving DecidableEq

/-- The record `gfx_animation_ctx_entry_t`; the easing is `EASING_OUT_QUAD`
in every entry of this file and is left out.  `subject` names the
notification and its field. -/
structure gfx_animation_ctx_entry_t where
  duration : Nat
  target_value : Int
  subject : Nat × anim_subject
  tag : Nat
  cb : anim_cb
  userdata : Option Nat
deriving DecidableEq

/-- The two `gfx_timer_t` fields of a notification. -/
inductive timer_field where
  | expiration_timer
  | hourglass_timer
deriving DecidableEq

/-- The callbacks that this file hands to `gfx_timer_start`. -/
inductive timer_cb where
  | gfx_widgets_msg_queue_expired
  | gfx_widgets_hourglass_tick
deriving DecidableEq

/-- The record `gfx_timer_ctx_entry_t` together with the timer it was
started on. -/
structure gfx_timer_ctx_entry_t where
  timer : Nat × timer_field
  duration : Nat
  cb : timer_cb
  userdata : Option Nat
deriving DecidableEq

/-- Modelled from the spec: the intake queue `fifo_buffer_t` of
`queues/fifo_queue.h`, a bounded FIFO of pending notification handles.
`buffer` holds the handles, oldest first; `size` is the capacity counted in
handles (the byte capacity divided by `sizeof(menu_widget_msg_t*)`). -/
structure fifo_buffer_t where
  buffer : List Nat
  size : Nat
deriving DecidableEq

/-- Modelled from the spec: `fifo_new`, an empty queue of the capacity. -/
def fifo_new (size : Nat) : fifo_buffer_t := { buffer := [], size := size }

/-- Modelled from the spec: `fifo_write_avail`, the free room of the
queue, counted in handles. -/
def fifo_write_avail (q : fifo_buffer_t) : Nat := q.size - q.buffer.length

/-- Modelled from the spec: `fifo_read_avail`, the number of pending
handles. -/
def fifo_read_avail (q : fifo_buffer_t) : Nat := q.buffer.length

/-- Modelled from the spec: `fifo_write` of one handle at the end. -/
def fifo_write (q : fifo_buffer_t) (h : Nat) : fifo_buffer_t :=
  { q with buffer := q.buffer ++ [h] }

/-- Modelled from the spec: `fifo_read` of the oldest handle. -/
def fifo_read (q : fifo_buffer_t) : Option Nat × fifo_buffer_t :=
  (q.buffer.head?, { q with buffer := q.buffer.tail })

/-- Modelled from the spec: the registry `file_list_t` of
`lists/file_list.h`, an ordered sequence with a reserved capacity.  `list`
holds the `userdata` pointer of every allocated item (its length is the
capacity), the first `size` items are the registry. -/
structure file_list_t where
  list : List (Option Nat)
  size : Nat
deriving DecidableEq

/-- The live items of the registry: the first `size` slots. -/
def file_list_t.entries (l : file_list_t) : List (Option Nat) := l.list.take l.size

/-- Modelled from the spec: `file_list_reserve`, which grows the capacity
to `n` items; the new items are zeroed. -/
def file_list_reserve (l : file_list_t) (n : Nat) : file_list_t :=
  { l with list := l.list ++ List.replicate (n - l.list.length) none }

/-- Modelled from the spec: the growth step at the head of
`file_list_append` and `file_list_insert`. -/
def file_list_expand (l : file_list_t) : file_list_t :=
  if l.size ≥ l.list.length then file_list_reserve l (l.list.length * 2 + 1) else l

/-- Modelled from the spec: `file_list_append`, which adds a zeroed item
at the end of the registry. -/
def file_list_append (l : file_list_t) : file_list_t :=
  let l1 := file_list_expand l
  { list := l1.list.set l1.size none, size := u64 (l1.size + 1) }

/-- Modelled from the spec: `file_list_insert`, which moves the items from
`idx` on up by one slot and puts a zeroed item at `idx`. -/
def file_list_insert (l : file_list_t) (idx : Nat) : file_list_t :=
  let l1 := file_list_expand l
  if idx ≤ l1.size then
    { list := l1.list.take idx ++ none :: ((l1.list.drop idx).take (l1.size - idx)
                ++ l1.list.drop (l1.size + 1)),
      size := u64 (l1.size + 1) }
  else
    { list := l1.list.set idx none, size := u64 (l1.size + 1) }

/-- Modelled from the spec: `file_list_set_userdata`. -/
def file_list_set_userdata (l : file_list_t) (idx : Nat) (userdata : Option Nat) :
    file_list_t :=
  { l with list := l.list.set idx userdata }

/-- The read `list->list[idx].userdata`; a slot outside the capacity reads
as `NULL`. -/
def file_list_get_userdata (l : file_list_t) (idx : Nat) : Option Nat :=
  (l.list.get? idx).join

/-- A registry whose size is within its capacity, the capacity being a
`size_t` that `file_list_expand` can double. -/
def file_list_t.wf (l : file_list_t) : Prop :=
  l.size ≤ l.list.length ∧ l.list.length < 9223372036854775808

/-- The layout values that `gfx_widgets_layout` computes from the font
metrics and the display size. -/
structure layout_t where
  simple_widget_padding : Nat
  msg_queue_height : Nat
  msg_queue_spacing : Nat
  msg_queue_default_rect_width_menu_alive : Nat
  msg_queue_default_rect_width : Nat
  msg_queue_line_height : Nat
  regular_line_height : Nat
deriving DecidableEq

/-- The constant `CHEEVO_QUEUE_SIZE` (line 55). -/
def CHEEVO_QUEUE_SIZE : Int := 8

/-- The record `cheevo_popup`: the title, `none` for `NULL`, and the
texture of the badge, 0 for none. -/
structure cheevo_popup where
  title : Option String
  badge : Nat
deriving DecidableEq

/-- The float field of `dispgfx_widget_t` that an animation of the
achievement popup drives. -/
inductive cheevo_subject where
  | cheevo_y
deriving DecidableEq

/-- The completion callbacks of the animations that the functions of the
achievement ring push. -/
inductive cheevo_cb where
  | gfx_widgets_achievement_unfold
deriving DecidableEq

/-- An entry `gfx_animation_ctx_entry_t` with the tag
`gfx_widgets_generic_tag` and the userdata `NULL`. -/
structure cheevo_animation_entry where
  duration : Nat
  target_value : Int
  subject : cheevo_subject
  cb : cheevo_cb
deriving DecidableEq

/-- The part of `dispgfx_widget_t` that the message queue and the
achievement popups use, together with the stores of the objects its
pointers refer to and the pending animations and timers of the animation
service.  `cheevo_popup_queue` is the array of `CHEEVO_QUEUE_SIZE` slots as
a function of the index: the slots are the indices from 0 below
`CHEEVO_QUEUE_SIZE`, an access outside of them is undefined in C.
`generic_anims` holds the pending animations whose tag is
`gfx_widgets_generic_tag`, `anims` the ones tagged with a notification. -/
structure State where
  widgets_active : Bool
  widgets_moving : Bool
  widgets_inited : Bool
  widgets_persisting : Bool
  msg_queue_has_icons : Bool
  msg_queue_kill : Nat
  msg_queue_tasks_count : Nat
  simple_widget_padding : Nat
  msg_queue_height : Nat
  msg_queue_spacing : Nat
  msg_queue_default_rect_width_menu_alive : Nat
  msg_queue_default_rect_width : Nat
  msg_queue_line_height : Nat
  msg_queue : Option fifo_buffer_t
  current_msgs : Option file_list_t
  msgs : Nat → menu_widget_msg_t
  msgs_next : Nat
  msgs_freed : List Nat
  tasks : Nat → retro_task_t
  anims : List gfx_animation_ctx_entry_t
  timers : List gfx_timer_ctx_entry_t
  regular_line_height : Nat
  cheevo_popup_queue : Int → cheevo_popup
  cheevo_popup_queue_read_index : Int
  cheevo_popup_queue_write_index : Int
  cheevo_unfold : Int
  cheevo_y : Int
  cheevo_width : Nat
  cheevo_height : Nat
  generic_anims : List cheevo_animation_entry

/-- A zeroed `menu_widget_msg_t`, as `calloc` returns it. -/
def menu_widget_msg_zero : menu_widget_msg_t :=
  { msg := none, msg_new := none, msg_transition_animation := 0, msg_len := 0,
    duration := 0, text_height := 0, offset_y := 0, alpha := 0, dying := false,
    expired := false, width := 0, expiration_timer_started := false,
    task_ptr := none, task_title_ptr := 0, task_count := 0, task_progress := 0,
    task_finished := false, task_error := false, task_cancelled := false,
    task_ident := 0, unfolded := false, unfolding := false, unfold := 0,
    hourglass_rotation := 0 }

/-- A task without title, error and notification. -/
def retro_task_zero : retro_task_t :=
  { title := "", title_ptr := 0, error := none, cancelled := false, finished := false,
    progress := 0, ident := 0, alternative_look := false, frontend_userdata := none }

/-- The zero-initialised static `dispwidget_st` of `dispwidget_get_ptr`,
with no object allocated and nothing scheduled. -/
def dispwidget_st : State :=
  { widgets_active := false, widgets_moving := false, widgets_inited := false,
    widgets_persisting := false, msg_queue_has_icons := false, msg_queue_kill := 0,
    msg_queue_tasks_count := 0, simple_widget_padding := 0, msg_queue_height := 0,
    msg_queue_spacing := 0, msg_queue_default_rect_width_menu_alive := 0,
    msg_queue_default_rect_width := 0, msg_queue_line_height := 0,
    msg_queue := none, current_msgs := none,
    msgs := fun _ => menu_widget_msg_zero, msgs_next := 0, msgs_freed := [],
    tasks := fun _ => retro_task_zero, anims := [], timers := [],
    regular_line_height := 0,
    cheevo_popup_queue := fun _ => { title := none, badge := 0 },
    cheevo_popup_queue_read_index := 0, cheevo_popup_queue_write_index := 0,
    cheevo_unfold := 0, cheevo_y := 0, cheevo_width := 0, cheevo_height := 0,
    generic_anims := [] }

/-- Store `m` in the notification cell `h`. -/
def set_msg (s : State) (h : Nat) (m : menu_widget_msg_t) : State :=
  { s with msgs := fun k => if k = h then m else s.msgs k }

/-- Store `r` in the task cell `t`. -/
def set_task (s : State) (t : Nat) (r : retro_task_t) : State :=
  { s with tasks := fun k => if k = t then r else s.tasks k }

/-- Store the layout values in the state. -/
def set_layout (s : State) (v : layout_t) : State :=
  { s with simple_widget_padding := v.simple_widget_padding,
           msg_queue_height := v.msg_queue_height,
           msg_queue_spacing := v.msg_queue_spacing,
           msg_queue_default_rect_width_menu_alive := v.msg_queue_default_rect_width_menu_alive,
           msg_queue_default_rect_width := v.msg_queue_default_rect_width,
           msg_queue_line_height := v.msg_queue_line_height,
           regular_line_height := v.regular_line_height }

/-- Assignment to the field `widgets_active`. -/
def set_widgets_active (s : State) (v : Bool) : State :=
  { s with widgets_active := v }

/-- Assignment to the field `widgets_moving`. -/
def set_widgets_moving (s : State) (v : Bool) : State :=
  { s with widgets_moving := v }

/-- Assignment to the field `widgets_inited`. -/
def set_widgets_inited (s : State) (v : Bool) : State :=
  { s with widgets_inited := v }

/-- Assignment to the field `msg_queue_has_icons`. -/
def set_msg_queue_has_icons (s : State) (v : Bool) : State :=
  { s with msg_queue_has_icons := v }

/-- Assignment to the field `msg_queue_kill`. -/
def set_msg_queue_kill (s : State) (v : Nat) : State :=
  { s with msg_queue_kill := v }

/-- Assignment to the field `msg_queue_tasks_count`. -/
def set_msg_queue_tasks_count (s : State) (v : Nat) : State :=
  { s with msg_queue_tasks_count := v }

/-- Assignment to the field `msg_queue`. -/
def set_msg_queue (s : State) (v : Option fifo_buffer_t) : State :=
  { s with msg_queue := v }

/-- Assignment to the field `current_msgs`. -/
def set_current_msgs (s : State) (v : Option file_list_t) : State :=
  { s with current_msgs := v }

/-- Assignment to the field `msgs_next`. -/
def set_msgs_next (s : State) (v : Nat) : State :=
  { s with msgs_next := v }

/-- Assignment to the field `msgs_freed`. -/
def set_msgs_freed (s : State) (v : List Nat) : State :=
  { s with msgs_freed := v }

/-- Assignment to the field `anims`. -/
def set_anims (s : State) (v : List gfx_animation_ctx_entry_t) : State :=
  { s with anims := v }

/-- Assignment to the field `timers`. -/
def set_timers (s : State) (v : List gfx_timer_ctx_entry_t) : State :=
  { s with timers := v }

/-- Assignment to the array `cheevo_popup_queue`. -/
def set_cheevo_popup_queue (s : State) (v : Int → cheevo_popup) : State :=
  { s with cheevo_popup_queue := v }

/-- Assignment to the field `cheevo_popup_queue_read_index`. -/
def set_cheevo_popup_queue_read_index (s : State) (v : Int) : State :=
  { s with cheevo_popup_queue_read_index := v }

/-- Assignment to the field `cheevo_popup_queue_write_index`. -/
def set_cheevo_popup_queue_write_index (s : State) (v : Int) : State :=
  { s with cheevo_popup_queue_write_index := v }

/-- Assignment to the field `cheevo_unfold`. -/
def set_cheevo_unfold (s : State) (v : Int) : State :=
  { s with cheevo_unfold := v }

/-- Assignment to the field `cheevo_y`. -/
def set_cheevo_y (s : State) (v : Int) : State :=
  { s with cheevo_y := v }

/-- Assignment to the field `cheevo_width`. -/
def set_cheevo_width (s : State) (v : Nat) : State :=
  { s with cheevo_width := v }

/-- Assignment to the field `cheevo_height`. -/
def set_cheevo_height (s : State) (v : Nat) : State :=
  { s with cheevo_height := v }

/-- Assignment to the list of the pending animations with the tag
`gfx_widgets_generic_tag`. -/
def set_generic_anims (s : State) (v : List cheevo_animation_entry) : State :=
  { s with generic_anims := v }

/-- Modelled from the spec: `gfx_animation_push`, which schedules the
entry. -/
def gfx_animation_push (s : State) (entry : gfx_animation_ctx_entry_t) : State :=
  set_anims s (s.anims ++ [entry])

/-- Modelled from the spec: `gfx_animation_kill_by_tag`, which cancels
every pending animation of the tag. -/
def gfx_animation_kill_by_tag (s : State) (tag : Nat) : State :=
  set_anims s (s.anims.filter (fun e => decide (e.tag ≠ tag)))

/-- Modelled from the spec: `gfx_timer_kill`, which cancels the timer. -/
def gfx_timer_kill (s : State) (timer : Nat × timer_field) : State :=
  set_timers s (s.timers.filter (fun e => decide (e.timer ≠ timer)))

/-- Modelled from the spec: `gfx_timer_start`, which restarts the timer
with the entry. -/
def gfx_timer_start (s : State) (entry : gfx_timer_ctx_entry_t) : State :=
  set_timers s ((s.timers.filter (fun e => decide (e.timer ≠ entry.timer))) ++ [entry])

/-- The C function `string_is_empty` on a `char *`. -/
def string_is_empty (str : Option String) : Bool :=
  match str with
  | none => true
  | some t => t = ""

/-- The C function `string_is_equal` on two `char *`. -/
def string_is_equal (a b : Option String) : Bool :=
  match a, b with
  | some x, some y => x = y
  | _, _ => false

/-- The C function `msg_widget_msg_transition_animation_done`: the shown
text becomes a copy of the pending text. -/
def msg_widget_msg_transition_animation_done (s : State) (userdata : Nat) : State :=
  set_msg s userdata
    { s.msgs userdata with msg := (s.msgs userdata).msg_new, msg_transition_animation := 0 }

/-- The fields that "Spawn a new notification" of
`gfx_widgets_msg_queue_push` sets for every new notification (lines 471 to
503). -/
def gfx_widgets_msg_queue_push_new_msg (s : State) (task : Option Nat) (duration : Nat) :
    menu_widget_msg_t :=
  { menu_widget_msg_zero with
      duration := duration, offset_y := 0, alpha := 1, dying := false, expired := false,
      task_ptr := task, expiration_timer_started := false, msg_new := none,
      msg_transition_animation := 0, text_height := 0,
      unfolded := !s.msg_queue_has_icons, unfolding := false,
      unfold := if s.msg_queue_has_icons then 0 else 1 }

/-- The new notification of the task `t` (lines 505 to 530). -/
def gfx_widgets_msg_queue_push_task_msg (cfg : Config) (s : State) (t : Nat) (duration : Nat) :
    menu_widget_msg_t :=
  { gfx_widgets_msg_queue_push_new_msg s (some t) duration with
      msg := some (s.tasks t).title, msg_new := some (s.tasks t).title,
      msg_len := u32 (strlen (s.tasks t).title),
      task_error := !string_is_empty (s.tasks t).error,
      task_cancelled := (s.tasks t).cancelled,
      task_finished := (s.tasks t).finished,
      task_progress := (s.tasks t).progress,
      task_ident := (s.tasks t).ident,
      task_title_ptr := (s.tasks t).title_ptr,
      task_count := 1,
      unfolded := true,
      width := u32 (cfg.font_driver_get_message_width (s.tasks t).title
                     (u32 (strlen (s.tasks t).title)) + s.simple_widget_padding / 2),
      hourglass_rotation := 0 }

/-- The width of the rectangle of a plain notification before the padding
is added (lines 538 to 563): `width` is the default width, `text_width` the
measured width of the text. -/
def gfx_widgets_msg_queue_push_rect_width (width text_width : Nat) : Nat :=
  if text_width > width then
    if text_width - text_width / 4 < width then text_width - text_width / 4 else width
  else text_width

/-- The new plain notification with the text `title` (lines 531 to 569). -/
def gfx_widgets_msg_queue_push_plain_msg (cfg : Config) (s : State) (title : String)
    (duration : Nat) (menu_is_alive : Bool) : menu_widget_msg_t :=
  if cfg.font_driver_get_message_width title (u32 (strlen title))
      > (if menu_is_alive then s.msg_queue_default_rect_width_menu_alive
         else s.msg_queue_default_rect_width) then
    { gfx_widgets_msg_queue_push_new_msg s none duration with
        text_height := u32 (s.msg_queue_line_height * 2),
        msg := some (cfg.word_wrap title
          (u32 (u32 (strlen title)
                * gfx_widgets_msg_queue_push_rect_width
                    (if menu_is_alive then s.msg_queue_default_rect_width_menu_alive
                     else s.msg_queue_default_rect_width)
                    (cfg.font_driver_get_message_width title (u32 (strlen title))))
            / cfg.font_driver_get_message_width title (u32 (strlen title)))),
        msg_len := u32 (strlen (cfg.word_wrap title
          (u32 (u32 (strlen title)
                * gfx_widgets_msg_queue_push_rect_width
                    (if menu_is_alive then s.msg_queue_default_rect_width_menu_alive
                     else s.msg_queue_default_rect_width)
                    (cfg.font_driver_get_message_width title (u32 (strlen title))))
            / cfg.font_driver_get_message_width title (u32 (strlen title))))),
        width := u32 (gfx_widgets_msg_queue_push_rect_width
                        (if menu_is_alive then s.msg_queue_default_rect_width_menu_alive
                         else s.msg_queue_default_rect_width)
                        (cfg.font_driver_get_message_width title (u32 (strlen title)))
                      + s.simple_widget_padding / 2) }
  else
    { gfx_widgets_msg_queue_push_new_msg s none duration with
        text_height := s.msg_queue_line_height,
        msg := some title, msg_len := u32 (strlen title),
        width := u32 (gfx_widgets_msg_queue_push_rect_width
                        (if menu_is_alive then s.msg_queue_default_rect_width_menu_alive
                         else s.msg_queue_default_rect_width)
                        (cfg.font_driver_get_message_width title (u32 (strlen title)))
                      + s.simple_widget_padding / 2) }

/-- The branch "Spawn a new notification" of `gfx_widgets_msg_queue_push`
(lines 467 to 572) for a queue `q` with free room: `calloc` hands out the
handle `msgs_next`, the notification is filled in, stored in the
back-reference of the task if there is one, and written to the queue. -/
def gfx_widgets_msg_queue_push_spawn (cfg : Config) (s : State) (q : fifo_buffer_t)
    (task : Option Nat) (msg : String) (duration : Nat) (menu_is_alive : Bool) : State :=
  match task with
  | some t =>
    set_msg_queue
      (set_task
        (set_msg (set_msgs_next s (s.msgs_next + 1)) s.msgs_next
          (gfx_widgets_msg_queue_push_task_msg cfg s t duration))
        t { s.tasks t with frontend_userdata := some s.msgs_next })
      (some (fifo_write q s.msgs_next))
  | none =>
    set_msg_queue
      (set_msg (set_msgs_next s (s.msgs_next + 1)) s.msgs_next
        (gfx_widgets_msg_queue_push_plain_msg cfg s msg duration menu_is_alive))
      (some (fifo_write q s.msgs_next))

/-- The stop of a started expiration timer in the branch "Update task
info" of `gfx_widgets_msg_queue_push` (lines 576 to 580). -/
def gfx_widgets_msg_queue_push_update_timer (s : State) (msg_widget : Nat) : State :=
  if (s.msgs msg_widget).expiration_timer_started then
    set_msg (gfx_timer_kill s (msg_widget, timer_field.expiration_timer)) msg_widget
      { s.msgs msg_widget with expiration_timer_started := false }
  else s

/-- The change of the title in the branch "Update task info" of
`gfx_widgets_msg_queue_push` (lines 582 to 622), for the task `t` and its
notification `msg_widget`. -/
def gfx_widgets_msg_queue_push_update_title (cfg : Config) (s : State) (t msg_widget : Nat) :
    State :=
  if !string_is_equal (some (s.tasks t).title) (s.msgs msg_widget).msg_new then
    let s3 := set_msg s msg_widget
      { s.msgs msg_widget with
          msg_new := some (s.tasks t).title,
          msg_len := u32 (strlen (s.tasks t).title),
          task_title_ptr := (s.tasks t).title_ptr,
          msg_transition_animation := 0 }
    let s4 :=
      if !(s.tasks t).alternative_look then
        gfx_animation_push s3
          { tag := msg_widget,
            duration := cfg.MSG_QUEUE_ANIMATION_DURATION * 2,
            target_value := s.msg_queue_height,
            subject := (msg_widget, anim_subject.msg_transition_animation),
            cb := anim_cb.msg_widget_msg_transition_animation_done,
            userdata := some msg_widget }
      else msg_widget_msg_transition_animation_done s3 msg_widget
    set_msg s4 msg_widget
      { s4.msgs msg_widget with
          task_count := ((s4.msgs msg_widget).task_count + 1) % 256,
          width := cfg.font_driver_get_message_width (s.tasks t).title
                     (u32 (strlen (s.tasks t).title)) }
  else s

/-- The branch "Update task info" of `gfx_widgets_msg_queue_push` (lines
574 to 628) for the task `t` and its notification `msg_widget`. -/
def gfx_widgets_msg_queue_push_update (cfg : Config) (s : State) (t : Nat)
    (msg_widget : Nat) : State :=
  set_msg
    (gfx_widgets_msg_queue_push_update_title cfg
      (gfx_widgets_msg_queue_push_update_timer s msg_widget) t msg_widget)
    msg_widget
    { (gfx_widgets_msg_queue_push_update_title cfg
        (gfx_widgets_msg_queue_push_update_timer s msg_widget) t msg_widget).msgs msg_widget with
        task_error := !string_is_empty (s.tasks t).error,
        task_cancelled := (s.tasks t).cancelled,
        task_finished := (s.tasks t).finished,
        task_progress := (s.tasks t).progress }

/-- The C function `gfx_widgets_msg_queue_push`.  The parameters `title`,
`icon`, `category`, `prio` and `flush` are not read by the body. -/
def gfx_widgets_msg_queue_push (cfg : Config) (s : State) (task : Option Nat) (msg : String)
    (duration : Nat) (_title : Option String) (_icon _category _prio : Nat)
    (_flush : Bool) (menu_is_alive : Bool) : State :=
  if !s.widgets_active then s
  else
    match s.msg_queue with
    | none => s
    | some q =>
      if fifo_write_avail q > 0 then
        match task with
        | some t =>
          match (s.tasks t).frontend_userdata with
          | some msg_widget =>
            gfx_widgets_msg_queue_push_update cfg
              (set_msg s msg_widget { s.msgs msg_widget with task_ptr := some t }) t msg_widget
          | none => gfx_widgets_msg_queue_push_spawn cfg s q task msg duration menu_is_alive
        | none => gfx_widgets_msg_queue_push_spawn cfg s q task msg duration menu_is_alive
      else s

/-- The C function `gfx_widgets_unfold_end`. -/
def gfx_widgets_unfold_end (s : State) (userdata : Nat) : State :=
  set_widgets_moving (set_msg s userdata { s.msgs userdata with unfolding := false }) false

/-- The C function `gfx_widgets_move_end`. -/
def gfx_widgets_move_end (cfg : Config) (s : State) (userdata : Option Nat) : State :=
  match userdata with
  | some unfold =>
    let s1 := gfx_animation_push s
      { cb := anim_cb.gfx_widgets_unfold_end,
        duration := cfg.MSG_QUEUE_ANIMATION_DURATION,
        subject := (unfold, anim_subject.unfold),
        tag := unfold,
        target_value := 1,
        userdata := some unfold }
    set_msg s1 unfold { s1.msgs unfold with unfolded := true, unfolding := true }
  | none => set_widgets_moving s false

/-- The C function `gfx_widgets_msg_queue_expired`. -/
def gfx_widgets_msg_queue_expired (s : State) (userdata : Option Nat) : State :=
  match userdata with
  | some msg =>
    if !(s.msgs msg).expired then set_msg s msg { s.msgs msg with expired := true } else s
  | none => s

/-- The running offset of `gfx_widgets_msg_queue_move` after the
notification `msg` (lines 690 and 691). -/
def gfx_widgets_msg_queue_move_y (s : State) (y : Int) (msg : Nat) : Int :=
  y + ((u32 (s.msg_queue_height / (if (s.msgs msg).task_ptr.isSome then 2 else 1)
              + s.msg_queue_spacing) : Nat) : Int)

/-- The variable `unfold` of `gfx_widgets_msg_queue_move` after the
notification `msg` (lines 693 and 694). -/
def gfx_widgets_msg_queue_move_unfold (s : State) (unfold : Option Nat) (msg : Nat) :
    Option Nat :=
  if !(s.msgs msg).unfolded then some msg else unfold

/-- The animation of `gfx_widgets_msg_queue_move` for the notification
`msg` at the index `i` (lines 696 to 711), with the new running offset `y`
and the new value of `unfold`. -/
def gfx_widgets_msg_queue_move_entry (cfg : Config) (s : State) (i msg : Nat) (y : Int)
    (unfold : Option Nat) : State :=
  if (s.msgs msg).offset_y ≠ y then
    set_widgets_moving
      (gfx_animation_push s
        { cb := if i = 0 then anim_cb.gfx_widgets_move_end else anim_cb.NULL,
          duration := cfg.MSG_QUEUE_ANIMATION_DURATION,
          subject := (msg, anim_subject.offset_y),
          tag := msg,
          target_value := y,
          userdata := unfold })
      true
  else s

/-- The loop of `gfx_widgets_msg_queue_move` over the registry `l`: the
first argument is `i + 1` for the index `i` visited next, `y` the offset
summed so far and `unfold` the last notification seen that is not
unfolded. -/
def gfx_widgets_msg_queue_move_loop (cfg : Config) (l : file_list_t) :
    Nat → Int → Option Nat → State → State
  | 0, _, _, s => s
  | i + 1, y, unfold, s =>
    match file_list_get_userdata l i with
    | none => gfx_widgets_msg_queue_move_loop cfg l i y unfold s
    | some msg =>
      if (s.msgs msg).dying then gfx_widgets_msg_queue_move_loop cfg l i y unfold s
      else
        gfx_widgets_msg_queue_move_loop cfg l i
          (gfx_widgets_msg_queue_move_y s y msg)
          (gfx_widgets_msg_queue_move_unfold s unfold msg)
          (gfx_widgets_msg_queue_move_entry cfg s i msg
            (gfx_widgets_msg_queue_move_y s y msg)
            (gfx_widgets_msg_queue_move_unfold s unfold msg))

/-- The C function `gfx_widgets_msg_queue_move`. -/
def gfx_widgets_msg_queue_move (cfg : Config) (s : State) : State :=
  match s.current_msgs with
  | none => s
  | some l => gfx_widgets_msg_queue_move_loop cfg l l.size 0 none s

/-- The loop `list[i] = list[i + 1]` of `gfx_widgets_msg_queue_free`,
started at `i` and run `n` times. -/
def gfx_widgets_msg_queue_free_shift (list : List (Option Nat)) :
    Nat → Nat → List (Option Nat)
  | 0, _ => list
  | n + 1, i =>
    gfx_widgets_msg_queue_free_shift (list.set i (list.get? (i + 1)).join) n (i + 1)

/-- The first block of `gfx_widgets_msg_queue_free` (lines 722 to 732): the
back-reference of the task and the count of task notifications. -/
def gfx_widgets_msg_queue_free_task (s : State) (msg : Nat) : State :=
  match (s.msgs msg).task_ptr with
  | some t =>
    set_msg_queue_tasks_count
      (if !(s.msgs msg).task_finished && !(s.msgs msg).task_error
            && !(s.msgs msg).task_cancelled then
          set_task s t { s.tasks t with frontend_userdata := none }
        else s)
      (u32 (s.msg_queue_tasks_count + 4294967295))
  | none => s

/-- The blocks "Kill all animations" and "Kill all timers" of
`gfx_widgets_msg_queue_free` (lines 734 to 740). -/
def gfx_widgets_msg_queue_free_kill (s : State) (msg : Nat) : State :=
  if (s.msgs msg).expiration_timer_started then
    gfx_timer_kill
      (gfx_animation_kill_by_tag (gfx_timer_kill s (msg, timer_field.hourglass_timer)) msg)
      (msg, timer_field.expiration_timer)
  else gfx_animation_kill_by_tag (gfx_timer_kill s (msg, timer_field.hourglass_timer)) msg

/-- The block "Remove it from the list" of `gfx_widgets_msg_queue_free`
(lines 750 to 761).  `file_list_free_userdata` releases the object of the
slot `msg_queue_kill` and clears the slot.  For `size = 0` the bound
`size - 1` of the C loop wraps around; the loop of the embedding does not
run there. -/
def gfx_widgets_msg_queue_free_list (s : State) : State :=
  match s.current_msgs with
  | none => s
  | some l =>
    set_msgs_freed
      (set_current_msgs s
        (some { list := gfx_widgets_msg_queue_free_shift (l.list.set s.msg_queue_kill none)
                          (l.size - 1 - s.msg_queue_kill) s.msg_queue_kill,
                size := u64 (l.size + 18446744073709551615) }))
      (s.msgs_freed ++ (file_list_get_userdata l s.msg_queue_kill).toList)

/-- The C function `gfx_widgets_msg_queue_free`.  The two `free` calls on
the strings of the notification have no effect on the state of the
embedding. -/
def gfx_widgets_msg_queue_free (s : State) (msg : Nat) (touch_list : Bool) : State :=
  set_widgets_moving
    (if touch_list then
      gfx_widgets_msg_queue_free_list
        (gfx_widgets_msg_queue_free_kill (gfx_widgets_msg_queue_free_task s msg) msg)
    else gfx_widgets_msg_queue_free_kill (gfx_widgets_msg_queue_free_task s msg) msg)
    false

/-- The C function `gfx_widgets_msg_queue_kill_end`. -/
def gfx_widgets_msg_queue_kill_end (s : State) : State :=
  match s.current_msgs with
  | none => s
  | some l =>
    match file_list_get_userdata l s.msg_queue_kill with
    | some msg => gfx_widgets_msg_queue_free s msg true
    | none => s

/-- The body of `gfx_widgets_msg_queue_kill` before the reflow (lines 787
to 809) for the notification `msg` found at `idx`. -/
def gfx_widgets_msg_queue_kill_start (cfg : Config) (s : State) (idx msg : Nat) : State :=
  gfx_animation_push
    (gfx_animation_push
      (set_msg_queue_kill
        (set_msg (set_widgets_moving s true) msg { s.msgs msg with dying := true }) idx)
      { cb := anim_cb.NULL,
        duration := cfg.MSG_QUEUE_ANIMATION_DURATION,
        tag := msg,
        userdata := none,
        subject := (msg, anim_subject.offset_y),
        target_value := (s.msgs msg).offset_y - ((s.msg_queue_height / 4 : Nat) : Int) })
    { cb := anim_cb.gfx_widgets_msg_queue_kill_end,
      duration := cfg.MSG_QUEUE_ANIMATION_DURATION,
      tag := msg,
      userdata := none,
      subject := (msg, anim_subject.alpha),
      target_value := 0 }

/-- The C function `gfx_widgets_msg_queue_kill`. -/
def gfx_widgets_msg_queue_kill (cfg : Config) (s : State) (idx : Nat) : State :=
  match s.current_msgs with
  | none => s
  | some l =>
    match file_list_get_userdata l idx with
    | none => s
    | some msg =>
      if l.size ≠ 0 then
        gfx_widgets_msg_queue_move cfg (gfx_widgets_msg_queue_kill_start cfg s idx msg)
      else gfx_widgets_msg_queue_kill_start cfg s idx msg

/-- The C function `gfx_widgets_start_msg_expiration_timer`. -/
def gfx_widgets_start_msg_expiration_timer (s : State) (msg_widget : Nat) (duration : Nat) :
    State :=
  let s1 := gfx_timer_start s
    { timer := (msg_widget, timer_field.expiration_timer),
      cb := timer_cb.gfx_widgets_msg_queue_expired,
      duration := duration,
      userdata := some msg_widget }
  set_msg s1 msg_widget { s1.msgs msg_widget with expiration_timer_started := true }

/-- The C function `gfx_widgets_hourglass_end`. -/
def gfx_widgets_hourglass_end (cfg : Config) (s : State) (userdata : Nat) : State :=
  let s1 := set_msg s userdata { s.msgs userdata with hourglass_rotation := 0 }
  gfx_timer_start s1
    { timer := (userdata, timer_field.hourglass_timer),
      cb := timer_cb.gfx_widgets_hourglass_tick,
      duration := cfg.HOURGLASS_INTERVAL,
      userdata := some userdata }

/-- The C function `gfx_widgets_hourglass_tick`. -/
def gfx_widgets_hourglass_tick (cfg : Config) (s : State) (userdata : Nat) : State :=
  gfx_animation_push s
    { tag := userdata,
      duration := cfg.HOURGLASS_DURATION,
      target_value := -(2 * cfg.M_PI),
      subject := (userdata, anim_subject.hourglass_rotation),
      cb := anim_cb.gfx_widgets_hourglass_end,
      userdata := some userdata }

/-- The condition of the block "Consume one message if available" of
`gfx_widgets_iterate` (lines 1066 to 1068). -/
def gfx_widgets_iterate_consumes (cfg : Config) (s : State) (q : fifo_buffer_t)
    (l : file_list_t) : Bool :=
  decide (fifo_read_avail q > 0) && !s.widgets_moving
    && decide (l.size < cfg.MSG_QUEUE_ONSCREEN_MAX)

/-- The registry after the admission of `msg_widget` (lines 1074 to
1103): the notification is appended when it is bound to a task or no task
notification is registered, and inserted at `size - msg_queue_tasks_count`
otherwise. -/
def gfx_widgets_iterate_consume_list (s : State) (l : file_list_t) (msg_widget : Nat) :
    file_list_t :=
  if s.msg_queue_tasks_count = 0 ∨ (s.msgs msg_widget).task_ptr.isSome then
    file_list_set_userdata (file_list_append l)
      (u64 ((file_list_append l).size + 18446744073709551615)) (some msg_widget)
  else
    file_list_set_userdata
      (file_list_insert l (u32 (u64 (l.size + 18446744073709551616 - s.msg_queue_tasks_count))))
      (u32 (u64 (l.size + 18446744073709551616 - s.msg_queue_tasks_count))) (some msg_widget)

/-- The timers that the admission of `msg_widget` starts (lines 1105 to
1118): the expiration timer of a plain notification, the hourglass timer
and the count of a task notification. -/
def gfx_widgets_iterate_consume_timer (cfg : Config) (s : State) (msg_widget : Nat) : State :=
  if !(s.msgs msg_widget).task_ptr.isSome then
    if !(s.msgs msg_widget).expiration_timer_started then
      gfx_widgets_start_msg_expiration_timer s msg_widget
        (u32 (cfg.MSG_QUEUE_ANIMATION_DURATION * 2 + (s.msgs msg_widget).duration))
    else s
  else
    gfx_widgets_hourglass_end cfg
      (set_msg_queue_tasks_count s (u32 (s.msg_queue_tasks_count + 1))) msg_widget

/-- The block "Consume one message if available" of `gfx_widgets_iterate`
(lines 1065 to 1122). -/
def gfx_widgets_iterate_consume (cfg : Config) (s : State) : State :=
  match s.msg_queue, s.current_msgs with
  | some q, some l =>
    if gfx_widgets_iterate_consumes cfg s q l then
      match (fifo_read q).1 with
      | none => s
      | some msg_widget =>
        if (gfx_widgets_iterate_consume_list s l msg_widget).size ≠ 0 then
          gfx_widgets_msg_queue_move cfg
            (gfx_widgets_iterate_consume_timer cfg
              (set_current_msgs (set_msg_queue s (some (fifo_read q).2))
                (some (gfx_widgets_iterate_consume_list s l msg_widget)))
              msg_widget)
        else
          gfx_widgets_iterate_consume_timer cfg
            (set_current_msgs (set_msg_queue s (some (fifo_read q).2))
              (some (gfx_widgets_iterate_consume_list s l msg_widget)))
            msg_widget
    else s
  | _, _ => s

/-- The start of the expiration timer of a dead task in the loop of
`gfx_widgets_iterate` (lines 1134 to 1137). -/
def gfx_widgets_iterate_loop_timer (cfg : Config) (s : State) (msg_widget : Nat) : State :=
  if (s.msgs msg_widget).task_ptr.isSome
      && ((s.msgs msg_widget).task_finished || (s.msgs msg_widget).task_cancelled)
      && !(s.msgs msg_widget).expiration_timer_started then
    gfx_widgets_start_msg_expiration_timer s msg_widget cfg.TASK_FINISHED_DURATION
  else s

/-- The loop "Kill first expired message / Start expiration timer of dead
tasks" of `gfx_widgets_iterate` (lines 1126 to 1145), with `n` rounds left
and `i` the index visited next. -/
def gfx_widgets_iterate_loop (cfg : Config) : Nat → Nat → State → State
  | 0, _, s => s
  | n + 1, i, s =>
    match s.current_msgs with
    | none => s
    | some l =>
      if i < l.size then
        match file_list_get_userdata l i with
        | none => gfx_widgets_iterate_loop cfg n (i + 1) s
        | some msg_widget =>
          if ((gfx_widgets_iterate_loop_timer cfg s msg_widget).msgs msg_widget).expired
              && !(gfx_widgets_iterate_loop_timer cfg s msg_widget).widgets_moving then
            gfx_widgets_msg_queue_kill cfg (gfx_widgets_iterate_loop_timer cfg s msg_widget) i
          else
            gfx_widgets_iterate_loop cfg n (i + 1)
              (gfx_widgets_iterate_loop_timer cfg s msg_widget)
      else s

/-- The second half of `gfx_widgets_iterate` (lines 1124 to 1145). -/
def gfx_widgets_iterate_expire (cfg : Config) (s : State) : State :=
  match s.current_msgs with
  | none => s
  | some l => gfx_widgets_iterate_loop cfg l.size 0 s

/-- The head of `gfx_widgets_iterate` (lines 1032 to 1051): `relayout` is
the result of `gfx_widgets_layout` when the scale factor or the display size
changed, and `none` otherwise. -/
def gfx_widgets_iterate_layout (s : State) (relayout : Option layout_t) : State :=
  match relayout with
  | some v => set_layout s v
  | none => s

/-- The C function `gfx_widgets_iterate`.  The `iterate` hooks of the other
widgets do not touch the message queue. -/
def gfx_widgets_iterate (cfg : Config) (s : State) (relayout : Option layout_t) : State :=
  if !s.widgets_active then s
  else
    gfx_widgets_iterate_expire cfg
      (gfx_widgets_iterate_consume cfg (gfx_widgets_iterate_layout s relayout))

/-- The C function `gfx_widgets_init` on its path without an allocation
error.  `has_icons` and `layout` are what `gfx_widgets_context_reset` finds:
whether the three icon textures loaded, and the layout values.  The
assignment of -1 to `cheevo_popup_queue_read_index` (line 2044) comes
first on every path. -/
def gfx_widgets_init (cfg : Config) (s : State) (has_icons : Bool) (layout : layout_t) :
    State :=
  let s1 :=
    if !s.widgets_inited then
      set_widgets_inited
        (set_current_msgs
          (set_msg_queue (set_cheevo_popup_queue_read_index s (-1))
            (some (fifo_new cfg.MSG_QUEUE_PENDING_MAX)))
          (some (file_list_reserve { list := [], size := 0 } cfg.MSG_QUEUE_ONSCREEN_MAX)))
        true
    else set_cheevo_popup_queue_read_index s (-1)
  set_widgets_active (set_layout (set_msg_queue_has_icons s1 has_icons) layout) true

/-- Completion of an animation writes the target value into the subject. -/
def gfx_animation_set_subject (s : State) (subject : Nat × anim_subject) (v : Int) : State :=
  match subject.2 with
  | anim_subject.offset_y => set_msg s subject.1 { s.msgs subject.1 with offset_y := v }
  | anim_subject.alpha => set_msg s subject.1 { s.msgs subject.1 with alpha := v }
  | anim_subject.unfold => set_msg s subject.1 { s.msgs subject.1 with unfold := v }
  | anim_subject.msg_transition_animation =>
    set_msg s subject.1 { s.msgs subject.1 with msg_transition_animation := v }
  | anim_subject.hourglass_rotation =>
    set_msg s subject.1 { s.msgs subject.1 with hourglass_rotation := v }

/-- The call of a completion callback with its `userdata`.  A callback
that dereferences `userdata` is not run on `NULL`. -/
def gfx_animation_run_cb (cfg : Config) (s : State) (cb : anim_cb) (userdata : Option Nat) :
    State :=
  match cb, userdata with
  | anim_cb.NULL, _ => s
  | anim_cb.gfx_widgets_move_end, u => gfx_widgets_move_end cfg s u
  | anim_cb.gfx_widgets_unfold_end, some u => gfx_widgets_unfold_end s u
  | anim_cb.gfx_widgets_msg_queue_kill_end, _ => gfx_widgets_msg_queue_kill_end s
  | anim_cb.msg_widget_msg_transition_animation_done, some u =>
    msg_widget_msg_transition_animation_done s u
  | anim_cb.gfx_widgets_hourglass_end, some u => gfx_widgets_hourglass_end cfg s u
  | _, none => s

/-- Modelled from the spec: the animation service completes the pending
animation number `i`: the entry leaves the list, the subject takes the
target value and the completion callback runs. -/
def gfx_animation_complete (cfg : Config) (s : State) (i : Nat) : State :=
  match s.anims.get? i with
  | none => s
  | some e =>
    gfx_animation_run_cb cfg
      (gfx_animation_set_subject (set_anims s (s.anims.eraseIdx i)) e.subject e.target_value)
      e.cb e.userdata

/-- Modelled from the spec: the timer service fires the pending timer
number `i`: the entry leaves the list and its callback runs. -/
def gfx_timer_fire (cfg : Config) (s : State) (i : Nat) : State :=
  match s.timers.get? i with
  | none => s
  | some e =>
    let s1 := set_timers s (s.timers.eraseIdx i)
    match e.cb, e.userdata with
    | timer_cb.gfx_widgets_msg_queue_expired, u => gfx_widgets_msg_queue_expired s1 u
    | timer_cb.gfx_widgets_hourglass_tick, some u => gfx_widgets_hourglass_tick cfg s1 u
    | timer_cb.gfx_widgets_hourglass_tick, none => s1

/-- The registry of a state: the `userdata` pointers of the live items of
`current_msgs`, top of the stack first; empty when `current_msgs` is
`NULL`. -/
def registry (s : State) : List (Option Nat) :=
  match s.current_msgs with
  | none => []
  | some l => l.entries

/-- The pending handles of the intake queue, oldest first. -/
def pending (s : State) : List Nat :=
  match s.msg_queue with
  | none => []
  | some q => q.buffer

/-- An entry of the registry whose notification has `expired` set. -/
def expired_entry (s : State) (entry : Option Nat) : Bool :=
  match entry with
  | some h => (s.msgs h).expired
  | none => false

/-- The expired entry of the registry with the lowest index, if there is
one. -/
def first_expired (s : State) : Option (Option Nat) :=
  (registry s).find? (expired_entry s)

/-- A notification is bound to a task when its `task_ptr` is not `NULL`. -/
def task_bound (s : State) (h : Nat) : Bool := (s.msgs h).task_ptr.isSome

/-- The states the message queue runs through: `gfx_widgets_init` on the
fresh `dispwidget_st`, then pushes, ticks, completions of pending
animations and timers in any order, and the task system changing a task.
The task system may rewrite every field of a task; the back-reference
`frontend_userdata` it may keep, clear or hand over from another task. -/
inductive Reachable (cfg : Config) : State → Prop
  | init (has_icons : Bool) (layout : layout_t) :
      Reachable cfg (gfx_widgets_init cfg dispwidget_st has_icons layout)
  | push (s : State) (task : Option Nat) (msg : String) (duration : Nat)
      (title : Option String) (icon category prio : Nat) (flush menu_is_alive : Bool) :
      Reachable cfg s →
      Reachable cfg (gfx_widgets_msg_queue_push cfg s task msg duration title icon category
        prio flush menu_is_alive)
  | iterate (s : State) (relayout : Option layout_t) :
      Reachable cfg s → Reachable cfg (gfx_widgets_iterate cfg s relayout)
  | animation (s : State) (i : Nat) :
      Reachable cfg s → Reachable cfg (gfx_animation_complete cfg s i)
  | timer (s : State) (i : Nat) :
      Reachable cfg s → Reachable cfg (gfx_timer_fire cfg s i)
  | task (s : State) (t : Nat) (r : retro_task_t) :
      Reachable cfg s →
      (r.frontend_userdata = none ∨ ∃ t0, r.frontend_userdata = (s.tasks t0).frontend_userdata) →
      Reachable cfg (set_task s t r)


/-- Two states agree on what the registry invariant reads: the queue, the
registry, the kill index, the task count, the next handle, which
notifications are bound to a task, and the back-references of the tasks. -/
structure same_core (s1 s : State) : Prop where
  msg_queue : s1.msg_queue = s.msg_queue
  current_msgs : s1.current_msgs = s.current_msgs
  msg_queue_kill : s1.msg_queue_kill = s.msg_queue_kill
  msg_queue_tasks_count : s1.msg_queue_tasks_count = s.msg_queue_tasks_count
  msgs_next : s1.msgs_next = s.msgs_next
  task_ptr : ∀ h, (s1.msgs h).task_ptr.isSome = (s.msgs h).task_ptr.isSome
  frontend_userdata : ∀ t, (s1.tasks t).frontend_userdata = (s.tasks t).frontend_userdata

/-- The invariant of the registry, for the queue `q`, the registry `l`, the
plain notifications `P` at the top and the task notifications `T` at the
bottom: the registry is within `MSG_QUEUE_ONSCREEN_MAX` and its capacity,
its entries are `P` followed by `T`, the count is the length of `T`, every
handle in use was handed out before, every back-reference of a task points
to a task notification, and a populated slot at `msg_queue_kill` lies inside
the registry. -/
structure registry_inv (cfg : Config) (s : State) (q : fifo_buffer_t) (l : file_list_t)
    (P T : List Nat) : Prop where
  hq : s.msg_queue = some q
  hl : s.current_msgs = some l
  hsize : l.size ≤ cfg.MSG_QUEUE_ONSCREEN_MAX
  hcap : cfg.MSG_QUEUE_ONSCREEN_MAX ≤ l.list.length
  hcap2 : l.list.length < 9223372036854775808
  hent : l.entries = (P ++ T).map some
  hplain : ∀ h ∈ P, (s.msgs h).task_ptr.isSome = false
  htask : ∀ h ∈ T, (s.msgs h).task_ptr.isSome = true
  hcount : s.msg_queue_tasks_count = T.length
  hreg_lt : ∀ h ∈ P ++ T, h < s.msgs_next
  hpend_lt : ∀ h ∈ q.buffer, h < s.msgs_next
  hback : ∀ t h, (s.tasks t).frontend_userdata = some h →
    h < s.msgs_next ∧ (s.msgs h).task_ptr.isSome = true
  hkill : ∀ m, file_list_get_userdata l s.msg_queue_kill = some m → s.msg_queue_kill < l.size

/-! ### Sample values -/

/-- A sample configuration: four notifications on screen, 32 pending, a
text width of ten pixels per byte and a word wrap that leaves the text as
it is. -/
def sample_cfg : Config :=
  { MSG_QUEUE_PENDING_MAX := 32, MSG_QUEUE_ONSCREEN_MAX := 4,
    MSG_QUEUE_ANIMATION_DURATION := 330, TASK_FINISHED_DURATION := 3000,
    HOURGLASS_INTERVAL := 5000, HOURGLASS_DURATION := 1000, M_PI := 3,
    font_driver_get_message_width := (fun _ len => 10 * len),
    word_wrap := (fun text _ => text),
    font_driver_get_message_width_regular := (fun text _ => 12 * strlen (text.getD "")),
    MSG_ACHIEVEMENT_UNLOCKED := "Achievement Unlocked" }

/-- A sample layout with a notification height of 30 and a spacing of 10. -/
def sample_layout : layout_t :=
  { simple_widget_padding := 20, msg_queue_height := 30, msg_queue_spacing := 10,
    msg_queue_default_rect_width_menu_alive := 400, msg_queue_default_rect_width := 600,
    msg_queue_line_height := 12, regular_line_height := 30 }

/-- The sample state right after `gfx_widgets_init`, with the icons loaded. -/
def sample_init : State := gfx_widgets_init sample_cfg dispwidget_st true sample_layout

/-- A push of a plain message in the sample configuration. -/
def sample_push (s : State) (msg : String) (duration : Nat) : State :=
  gfx_widgets_msg_queue_push sample_cfg s none msg duration none 0 0 0 false false

/-- A push for the task `t` in the sample configuration. -/
def sample_push_task (s : State) (t : Nat) : State :=
  gfx_widgets_msg_queue_push sample_cfg s (some t) "" 0 none 0 0 0 false false

/-- A tick without a change of the layout in the sample configuration. -/
def sample_tick (s : State) : State := gfx_widgets_iterate sample_cfg s none

/-- The sample state with the plain message "Saved state" admitted. -/
def sample_one : State := sample_tick (sample_push sample_init "Saved state" 1000)

/-- A state with a full intake queue: the sample configuration with room
for one pending notification, after one push. -/
def sample_full : State :=
  gfx_widgets_msg_queue_push { sample_cfg with MSG_QUEUE_PENDING_MAX := 1 }
    (gfx_widgets_init { sample_cfg with MSG_QUEUE_PENDING_MAX := 1 } dispwidget_st true
      sample_layout)
    none "first" 1000 none 0 0 0 false false

/-- The sample state `sample_one` after its reflow and unfold animations
completed and its expiration timer fired. -/
def sample_expired : State :=
  gfx_timer_fire sample_cfg
    (gfx_animation_complete sample_cfg (gfx_animation_complete sample_cfg sample_one 0) 0) 0

/-- The sample state after `n` pushes of a plain message without a tick in
between. -/
def sample_pushes : Nat → State
  | 0 => sample_init
  | n + 1 => sample_push (sample_pushes n) "Saved state" 1000

/-- The sample state with 31 of the 32 places of the intake queue taken and
a task 0 titled "Scanning" that has no notification yet. -/
def sample_nearly_full : State :=
  set_task (sample_pushes 31) 0 { retro_task_zero with title := "Scanning" }

/-- The task 0 of `sample_nearly_full` after its first push, retitled by the
task system; the back-reference is the one the push stored. -/
def sample_retitled : State :=
  set_task (sample_push_task sample_nearly_full 0) 0
    { retro_task_zero with title := "Scanning 50%", progress := 50,
                           frontend_userdata := some 31 }

/-- The sample state in which the task 0 was pushed and admitted, its
reflow completed, and then the plain message "Saved state" was pushed and
admitted. -/
def sample_mixed : State :=
  sample_tick
    (sample_push
      (gfx_animation_complete sample_cfg (sample_tick (sample_push_task sample_init 0)) 0)
      "Saved state" 1000)

/-! ### One unfold at a time -/

/-- The entries of the registry whose notification has `unfolded == false`. -/
def not_unfolded (s : State) : List (Option Nat) :=
  (registry s).filter
    (fun entry => match entry with
      | some h => !(s.msgs h).unfolded
      | none => false)

/-- A layout whose stride `msg_queue_height + msg_queue_spacing` is not zero
as an `unsigned`. -/
def layout_t.positive (v : layout_t) : Prop :=
  0 < u32 (v.msg_queue_height + v.msg_queue_spacing)

/-- No completion callback that releases `widgets_moving` or continues a
reflow is pending: no `gfx_widgets_move_end`, `gfx_widgets_unfold_end` or
`gfx_widgets_msg_queue_kill_end`. -/
def settled (s : State) : Prop :=
  ∀ e ∈ s.anims, e.cb ≠ anim_cb.gfx_widgets_move_end
    ∧ e.cb ≠ anim_cb.gfx_widgets_unfold_end
    ∧ e.cb ≠ anim_cb.gfx_widgets_msg_queue_kill_end

/-- The tick of the state would admit a notification. -/
def admits_next (cfg : Config) (s : State) : Prop :=
  ∃ q l, s.msg_queue = some q ∧ s.current_msgs = some l
    ∧ gfx_widgets_iterate_consumes cfg s q l = true

/-- The states reached when every layout is positive and a tick that admits
a notification runs only in a settled state; otherwise as `Reachable`. -/
inductive ReachableSettled (cfg : Config) : State → Prop
  | init (has_icons : Bool) (layout : layout_t) :
      layout.positive →
      ReachableSettled cfg (gfx_widgets_init cfg dispwidget_st has_icons layout)
  | push (s : State) (task : Option Nat) (msg : String) (duration : Nat)
      (title : Option String) (icon category prio : Nat) (flush menu_is_alive : Bool) :
      ReachableSettled cfg s →
      ReachableSettled cfg (gfx_widgets_msg_queue_push cfg s task msg duration title icon
        category prio flush menu_is_alive)
  | iterate (s : State) (relayout : Option layout_t) :
      ReachableSettled cfg s →
      (∀ v, relayout = some v → v.positive) →
      (admits_next cfg s → settled s) →
      ReachableSettled cfg (gfx_widgets_iterate cfg s relayout)
  | animation (s : State) (i : Nat) :
      ReachableSettled cfg s → ReachableSettled cfg (gfx_animation_complete cfg s i)
  | timer (s : State) (i : Nat) :
      ReachableSettled cfg s → ReachableSettled cfg (gfx_timer_fire cfg s i)
  | task (s : State) (t : Nat) (r : retro_task_t) :
      ReachableSettled cfg s →
      (r.frontend_userdata = none ∨ ∃ t0, r.frontend_userdata = (s.tasks t0).frontend_userdata) →
      ReachableSettled cfg (set_task s t r)

/-- The reflow lock is held for the notification `u`: `widgets_moving` is
set, and of the callbacks that release it none is pending but
`gfx_widgets_move_end` with `u` as its `userdata`. -/
def locked (s : State) (u : Nat) : Prop :=
  s.widgets_moving = true
  ∧ ∀ e ∈ s.anims, e.cb ≠ anim_cb.gfx_widgets_unfold_end
      ∧ e.cb ≠ anim_cb.gfx_widgets_msg_queue_kill_end
      ∧ (e.cb = anim_cb.gfx_widgets_move_end → e.userdata = some u)

/-- The invariant behind the single unfold: the stride of the layout is
positive, no handle is pending or registered twice, a task notification is
unfolded, a pending notification is not dying and has the offset 0, an
offset animation belongs to a notification that is not pending, and a
registered notification that is not unfolded holds the reflow lock and is
the only such one. -/
structure unfold_inv (s : State) : Prop where
  hpos : 0 < u32 (s.msg_queue_height + s.msg_queue_spacing)
  hpend_nodup : (pending s).Nodup
  hreg_nodup : (registry s).Nodup
  hdisj : ∀ h ∈ pending s, some h ∉ registry s
  htask_unf : ∀ h, (s.msgs h).task_ptr.isSome = true → (s.msgs h).unfolded = true
  hpend : ∀ h ∈ pending s, (s.msgs h).dying = false ∧ (s.msgs h).offset_y = 0
  hsubj : ∀ e ∈ s.anims, e.subject.2 = anim_subject.offset_y →
    e.subject.1 < s.msgs_next ∧ e.subject.1 ∉ pending s
  hlock : ∀ u, some u ∈ registry s → (s.msgs u).unfolded = false →
    locked s u ∧ ∀ v, some v ∈ registry s → (s.msgs v).unfolded = false → v = u

/-- Every notification of the registry is unfolded. -/
def all_unfolded (s : State) : Prop :=
  ∀ u, some u ∈ registry s → (s.msgs u).unfolded = true

/-- A step that leaves the queue, the registry, the lock, the layout and the
flags of the notifications as they are; it may cancel animations and add
animations that are neither offset animations nor carry a callback of the
reflow; it changes an offset only where an offset animation was pending. -/
structure quiet (s1 s : State) : Prop where
  msg_queue : s1.msg_queue = s.msg_queue
  current_msgs : s1.current_msgs = s.current_msgs
  msgs_next : s1.msgs_next = s.msgs_next
  task_ptr : ∀ h, (s1.msgs h).task_ptr.isSome = (s.msgs h).task_ptr.isSome
  moving : s1.widgets_moving = s.widgets_moving
  height : s1.msg_queue_height = s.msg_queue_height
  spacing : s1.msg_queue_spacing = s.msg_queue_spacing
  unfolded : ∀ h, (s1.msgs h).unfolded = (s.msgs h).unfolded
  dying : ∀ h, (s1.msgs h).dying = (s.msgs h).dying
  offset : ∀ h, (∀ e ∈ s.anims, e.subject ≠ (h, anim_subject.offset_y)) →
    (s1.msgs h).offset_y = (s.msgs h).offset_y
  anims : ∀ e ∈ s1.anims, e ∈ s.anims
    ∨ ((e.cb = anim_cb.NULL ∨ e.cb = anim_cb.msg_widget_msg_transition_animation_done
          ∨ e.cb = anim_cb.gfx_widgets_hourglass_end)
        ∧ e.subject.2 ≠ anim_subject.offset_y)

/-! ### A run in which two reflows overlap -/

/-- The sample state with the plain messages "A" and "B" pushed. -/
def sample_pushed_two : State :=
  sample_push (sample_push sample_init "A" 5000) "B" 1000

/-- The tick after the two pushes: "A" is admitted and not unfolded yet, "B"
is pending and the reflow of "A" holds `widgets_moving`. -/
def sample_first_admitted : State := sample_tick sample_pushed_two

/-- Both messages admitted and unfolded: the reflow and the unfold of "A"
completed, a tick admitted "B", and its reflows and its unfold completed. -/
def sample_both_unfolded : State :=
  gfx_animation_complete sample_cfg
    (gfx_animation_complete sample_cfg
      (gfx_animation_complete sample_cfg
        (sample_tick
          (gfx_animation_complete sample_cfg
            (gfx_animation_complete sample_cfg sample_first_admitted 0) 0)) 0) 0) 0

/-- The expiration timer of "B" fired and a tick started its kill.  Pending
are the drop of "B", its fade with `gfx_widgets_msg_queue_kill_end`, and the
reflow of "A" with `gfx_widgets_move_end` and a `NULL` userdata. -/
def sample_killing : State :=
  sample_tick (gfx_timer_fire sample_cfg sample_both_unfolded 1)

/-- The reflow of "A" completed before the fade of "B":
`gfx_widgets_move_end` cleared `widgets_moving` while
`gfx_widgets_msg_queue_kill_end` is still pending. -/
def sample_released : State := gfx_animation_complete sample_cfg sample_killing 2

/-- The messages "C" and "D" were pushed and a tick admitted "C", whose
reflow holds `widgets_moving`. -/
def sample_third_admitted : State :=
  sample_tick (sample_push (sample_push sample_released "C" 1000) "D" 1000)

/-- The fade of "B" completed: `gfx_widgets_msg_queue_kill_end` freed "B"
and cleared `widgets_moving` while "C" is not unfolded. -/
def sample_released_again : State :=
  gfx_animation_complete sample_cfg sample_third_admitted 1

/-- The next tick admitted "D" as well: "C" and "D" are both registered and
not unfolded. -/
def sample_two_folded : State := sample_tick sample_released_again

/-- A layout in which a notification has no height and no spacing. -/
def sample_flat_layout : layout_t :=
  { simple_widget_padding := 0, msg_queue_height := 0, msg_queue_spacing := 0,
    msg_queue_default_rect_width_menu_alive := 400, msg_queue_default_rect_width := 600,
    msg_queue_line_height := 0, regular_line_height := 0 }

/-- Two messages pushed and one tick with the flat layout: "A" is admitted
and the reflow has nothing to move. -/
def sample_flat_first : State :=
  gfx_widgets_iterate sample_cfg
    (gfx_widgets_msg_queue_push sample_cfg
      (gfx_widgets_msg_queue_push sample_cfg
        (gfx_widgets_init sample_cfg dispwidget_st true sample_flat_layout)
        none "A" 5000 none 0 0 0 false false)
      none "B" 1000 none 0 0 0 false false)
    none

/-- Two messages pushed and two ticks with the flat layout: no reflow has
anything to move, so both messages are admitted. -/
def sample_flat : State := gfx_widgets_iterate sample_cfg sample_flat_first none

/-! ### The achievement ring

The lock `cheevo_popup_queue_lock` has no counterpart: the embedding runs
one call at a time. -/

/-- The conversion `(int)` of an `unsigned` value. -/
def int_of_unsigned (n : Nat) : Int :=
  if u32 n < 2147483648 then ((u32 n : Nat) : Int) else ((u32 n : Nat) : Int) - 4294967296

/-- Store the popup `v` in the slot `i` of `cheevo_popup_queue`. -/
def set_cheevo_popup (s : State) (i : Int) (v : cheevo_popup) : State :=
  set_cheevo_popup_queue s (fun k => if k = i then v else s.cheevo_popup_queue k)

/-- The C function `gfx_widgets_start_achievement_notification`: the size
and the start position of the popup of the slot at the read index, and the
animation that slides it down. -/
def gfx_widgets_start_achievement_notification (cfg : Config) (s : State) : State :=
  let s1 := set_cheevo_height s (u32 (s.regular_line_height * 4))
  let s2 := set_cheevo_width s1
    (max (cfg.font_driver_get_message_width_regular (some cfg.MSG_ACHIEVEMENT_UNLOCKED) 0)
      (cfg.font_driver_get_message_width_regular
        (s1.cheevo_popup_queue s1.cheevo_popup_queue_read_index).title 0))
  let s3 := set_cheevo_width s2 (u32 (s2.cheevo_width + s2.simple_widget_padding * 2))
  let s4 := set_cheevo_y s3 (-(int_of_unsigned s3.cheevo_height))
  let s5 := set_cheevo_unfold s4 0
  set_generic_anims s5
    (s5.generic_anims ++
      [{ cb := cheevo_cb.gfx_widgets_achievement_unfold,
         duration := cfg.MSG_QUEUE_ANIMATION_DURATION,
         subject := cheevo_subject.cheevo_y,
         target_value := 0 }])

/-- The C function `gfx_widgets_achievement_free_current`. -/
def gfx_widgets_achievement_free_current (s : State) : State :=
  let s1 :=
    if (s.cheevo_popup_queue s.cheevo_popup_queue_read_index).title.isSome then
      set_cheevo_popup s s.cheevo_popup_queue_read_index
        { s.cheevo_popup_queue s.cheevo_popup_queue_read_index with title := none }
    else s
  let s2 :=
    if (s1.cheevo_popup_queue s1.cheevo_popup_queue_read_index).badge ≠ 0 then
      set_cheevo_popup s1 s1.cheevo_popup_queue_read_index
        { s1.cheevo_popup_queue s1.cheevo_popup_queue_read_index with badge := 0 }
    else s1
  set_cheevo_popup_queue_read_index s2
    (Int.tmod (s2.cheevo_popup_queue_read_index + 1) CHEEVO_QUEUE_SIZE)

/-- The C function `gfx_widgets_achievement_next`, the completion callback
of the last animation of a display. -/
def gfx_widgets_achievement_next (cfg : Config) (s : State) : State :=
  if ((gfx_widgets_achievement_free_current s).cheevo_popup_queue
        (gfx_widgets_achievement_free_current s).cheevo_popup_queue_read_index).title.isSome
  then
    gfx_widgets_start_achievement_notification cfg (gfx_widgets_achievement_free_current s)
  else gfx_widgets_achievement_free_current s

/-- The block "queue uninitialized" of `gfx_widgets_push_achievement`
(lines 2837 to 2847): the `memset` of the array and the read index 0. -/
def gfx_widgets_push_achievement_init (s : State) : State :=
  if s.cheevo_popup_queue_read_index < 0 then
    set_cheevo_popup_queue_read_index
      (set_cheevo_popup_queue s (fun _ => { title := none, badge := 0 })) 0
  else s

/-- The test "queue full" of `gfx_widgets_push_achievement` (lines 2851 to
2861). -/
def gfx_widgets_push_achievement_full (s : State) : Bool :=
  decide (s.cheevo_popup_queue_write_index = s.cheevo_popup_queue_read_index)
    && (s.cheevo_popup_queue s.cheevo_popup_queue_write_index).title.isSome

/-- The store of `gfx_widgets_push_achievement` (lines 2866 to 2870):
`badge` is the texture that `cheevos_get_badge_texture` returns, the title
is copied. -/
def gfx_widgets_push_achievement_store (s : State) (title : String) (badge : Nat) : State :=
  set_cheevo_popup_queue_write_index
    (set_cheevo_popup s s.cheevo_popup_queue_write_index { title := some title, badge := badge })
    (Int.tmod (s.cheevo_popup_queue_write_index + 1) CHEEVO_QUEUE_SIZE)

/-- The C function `gfx_widgets_push_achievement`.  `badge` is the texture
of the badge, the result of `cheevos_get_badge_texture`. -/
def gfx_widgets_push_achievement (cfg : Config) (s : State) (title : String) (badge : Nat) :
    State :=
  if !s.widgets_active then s
  else if gfx_widgets_push_achievement_full (gfx_widgets_push_achievement_init s) then
    gfx_widgets_push_achievement_init s
  else if (gfx_widgets_push_achievement_init s).cheevo_popup_queue_write_index
      = (gfx_widgets_push_achievement_init s).cheevo_popup_queue_read_index then
    gfx_widgets_start_achievement_notification cfg
      (gfx_widgets_push_achievement_store (gfx_widgets_push_achievement_init s) title badge)
  else gfx_widgets_push_achievement_store (gfx_widgets_push_achievement_init s) title badge

/-- The slots of the ring, the slot 0 first. -/
def cheevo_slots (s : State) : List cheevo_popup :=
  (List.range CHEEVO_QUEUE_SIZE.toNat).map (fun (i : Nat) => s.cheevo_popup_queue (Int.ofNat i))

/-! ### Teardown -/

/-- The loop "Purge everything from the fifo" of `gfx_widgets_free` (lines
2488 to 2497) with `n` rounds left: the handle is read, the notification
is freed without touching the registry, and the object is released. -/
def gfx_widgets_free_fifo : Nat → State → State
  | 0, s => s
  | n + 1, s =>
    match s.msg_queue with
    | none => s
    | some q =>
      if fifo_read_avail q > 0 then
        match (fifo_read q).1 with
        | none => s
        | some msg_widget =>
          gfx_widgets_free_fifo n
            (set_msgs_freed
              (gfx_widgets_msg_queue_free (set_msg_queue s (some (fifo_read q).2))
                msg_widget false)
              ((gfx_widgets_msg_queue_free (set_msg_queue s (some (fifo_read q).2))
                msg_widget false).msgs_freed ++ [msg_widget]))
      else s

/-- The loop "Purge everything from the list" of `gfx_widgets_free` (lines
2506 to 2512) over the registry `l`, with `n` rounds left and `i` the index
visited next.  The result is `none` where the C code hands a `NULL`
userdata to `gfx_widgets_msg_queue_free`, which dereferences it. -/
def gfx_widgets_free_list (l : file_list_t) : Nat → Nat → State → Option State
  | 0, _, s => some s
  | n + 1, i, s =>
    if i < l.size then
      match file_list_get_userdata l i with
      | some msg => gfx_widgets_free_list l n (i + 1) (gfx_widgets_msg_queue_free s msg false)
      | none => none
    else some s

/-- Modelled from the spec: `file_list_free` of `lists/file_list.h`, which
releases the userdata of every live item and then the list. -/
def file_list_free (s : State) (l : file_list_t) : State :=
  set_current_msgs (set_msgs_freed s (s.msgs_freed ++ l.entries.filterMap id)) none

/-- The loop that drains the achievement ring in `gfx_widgets_free` (lines
2527 to 2529), with room for `fuel` rounds: `none` when the slot at the read
index still holds a title after them. -/
def gfx_widgets_free_cheevos : Nat → State → Option State
  | 0, s =>
    if (s.cheevo_popup_queue s.cheevo_popup_queue_read_index).title.isSome then none
    else some s
  | fuel + 1, s =>
    if (s.cheevo_popup_queue s.cheevo_popup_queue_read_index).title.isSome then
      gfx_widgets_free_cheevos fuel (gfx_widgets_achievement_free_current s)
    else some s

/-- The message-queue part of `gfx_widgets_free` (lines 2472 to 2519): the
two flags, the cancellation of the animations with the tag
`gfx_widgets_generic_tag`, the purge of the queue and of the registry, and
the reset of the count.  The `free` hooks of the other widgets do not touch
the state of the embedding. -/
def gfx_widgets_free_queue (s : State) : Option State :=
  let s1 := set_generic_anims (set_widgets_active (set_widgets_inited s false) false) []
  let s2 :=
    match s1.msg_queue with
    | some q => gfx_widgets_free_fifo (fifo_read_avail q) s1
    | none => s1
  let s3 := set_msg_queue s2 none
  match s3.current_msgs with
  | some l =>
    (gfx_widgets_free_list l l.size 0 s3).map
      (fun s4 => set_msg_queue_tasks_count (file_list_free s4 l) 0)
  | none => some (set_msg_queue_tasks_count s3 0)

/-- The C function `gfx_widgets_free`, with room for `fuel` rounds of the
loop that drains the achievement ring.  The release of the fonts has no
counterpart in the embedding. -/
def gfx_widgets_free (s : State) (fuel : Nat) : Option State :=
  match gfx_widgets_free_queue s with
  | none => none
  | some s1 =>
    if 0 ≤ s1.cheevo_popup_queue_read_index then gfx_widgets_free_cheevos fuel s1
    else some s1

/-! ### The text of a task notification -/

/-- The buffer `task_percentage` of `gfx_widgets_draw_task_msg` after lines
1239 to 1256: zeroed, then filled according to the state of the task; `%i`
prints the progress in decimal. -/
def gfx_widgets_draw_task_msg_task_percentage (msg : menu_widget_msg_t) : String :=
  if msg.task_finished then
    if msg.task_error then "Task failed" else " "
  else if 0 ≤ msg.task_progress ∧ msg.task_progress ≤ 100 then
    toString msg.task_progress ++ "%"
  else ""

/-! ### Sample states of the achievement ring -/

/-- The sample state after the first achievement "First Blood" was pushed:
the ring is initialised, the popup is in the slot 0 and its display runs. -/
def sample_unlocked : State := gfx_widgets_push_achievement sample_cfg sample_init "First Blood" 5

/-- The sample state with a second achievement waiting in the slot 1. -/
def sample_unlocked_two : State :=
  gfx_widgets_push_achievement sample_cfg sample_unlocked "Speed Runner" 6

/-- Calls of `gfx_widgets_push_achievement`, one for every title and badge
of the list, in their order. -/
def gfx_widgets_push_achievements (cfg : Config) (s : State) (entries : List (String × Nat)) :
    State :=
  entries.foldl (fun st e => gfx_widgets_push_achievement cfg st e.1 e.2) s

/-- The ring holds `k` popups from the read index `r` on: the state is
active, the write index is `k` places after `r`, and the slots with a title
are the `k` slots from `r` on, modulo `CHEEVO_QUEUE_SIZE`. -/
def cheevo_filled (s : State) (r : Int) (k : Nat) : Prop :=
  s.widgets_active = true
  ∧ s.cheevo_popup_queue_read_index = r
  ∧ s.cheevo_popup_queue_write_index = (r + k) % CHEEVO_QUEUE_SIZE
  ∧ ∀ i, 0 ≤ i → i < CHEEVO_QUEUE_SIZE →
      ((s.cheevo_popup_queue i).title.isSome = true ↔ (i - r) % CHEEVO_QUEUE_SIZE < k)

/-- Eight achievements for the sample ring. -/
def sample_achievements : List (String × Nat) :=
  [("One", 1), ("Two", 2), ("Three", 3), ("Four", 4), ("Five", 5), ("Six", 6),
   ("Seven", 7), ("Eight", 8)]

/-- The teardown of the sample state in which "First Blood" is shown. -/
def sample_torn_down : Option State := gfx_widgets_free sample_unlocked 8

/-- A second `gfx_widgets_init` after the teardown. -/
def sample_reinit : Option State :=
  sample_torn_down.map (fun s => gfx_widgets_init sample_cfg s true sample_layout)

/-- The first achievement pushed after the second `gfx_widgets_init`. -/
def sample_reinit_unlocked : Option State :=
  sample_reinit.map (fun s => gfx_widgets_push_achievement sample_cfg s "Second Wind" 6)

/-- Six more achievements pushed after it. -/
def sample_reinit_wrapped : Option State :=
  sample_reinit_unlocked.map
    (fun s => gfx_widgets_push_achievements sample_cfg s (sample_achievements.take 6))

/-- The indices of the ring, the titles of its slots and the number of
pending animations with the tag `gfx_widgets_generic_tag`. -/
def cheevo_view (s : State) : Int × Int × List (Option String) × Nat :=
  (s.cheevo_popup_queue_read_index, s.cheevo_popup_queue_write_index,
   (cheevo_slots s).map (fun p => p.title), s.generic_anims.length)

/-- What the purge loops of `gfx_widgets_free` keep from the state `s` they
started in: the queue is only read, the registry and the notifications are
as they were, animations are only cancelled, objects only released, and a
back-reference of a task is only cleared. -/
structure torn (s1 s : State) : Prop where
  current_msgs : s1.current_msgs = s.current_msgs
  msgs : s1.msgs = s.msgs
  anims : ∀ e ∈ s1.anims, e ∈ s.anims
  freed : ∀ h ∈ s.msgs_freed, h ∈ s1.msgs_freed
  backref : ∀ t, (s1.tasks t).frontend_userdata = none
    ∨ (s1.tasks t).frontend_userdata = (s.tasks t).frontend_userdata
  widgets_inited : s1.widgets_inited = s.widgets_inited
  widgets_active : s1.widgets_active = s.widgets_active
  read_index : s1.cheevo_popup_queue_read_index = s.cheevo_popup_queue_read_index

/-- The back-reference of the task of the notification `h` of the state `s`
is cleared in the state `s1`, if the notification is bound to a task and
none of `task_finished`, `task_error` and `task_cancelled` is set. -/
def backref_cleared (s1 s : State) (h : Nat) : Prop :=
  ∀ t, (s.msgs h).task_ptr = some t → (s.msgs h).task_finished = false →
    (s.msgs h).task_error = false → (s.msgs h).task_cancelled = false →
    (s1.tasks t).frontend_userdata = none

/-- The sample state `sample_mixed` with a notification of the task 1
pending in the intake queue. -/
def sample_pending_task : State := sample_push_task sample_mixed 1

/-- The sample state `sample_one` after its expiration timer has fired and
its two animations have completed: the reflow, and the unfold that the
reflow starts. -/
def sample_one_settled : State :=
  gfx_animation_complete sample_cfg
    (gfx_animation_complete sample_cfg (gfx_timer_fire sample_cfg sample_one 0) 0) 0

/-- The tick after `sample_one_settled`, which kills the notification. -/
def sample_one_dying : State := sample_tick sample_one_settled

/-- The state `sample_one_dying` after the completion of the fade of the
kill animation. -/
def sample_one_gone : State := gfx_animation_complete sample_cfg sample_one_dying 1

/-- The states reached when the calls of the achievement ring are mixed in
with the steps of `Reachable`: `gfx_widgets_push_achievement` at any time,
and `gfx_widgets_achievement_next`, the end of a display, once the ring is
initialised. -/
inductive ReachableCheevos (cfg : Config) : State → Prop
  | init (has_icons : Bool) (layout : layout_t) :
      ReachableCheevos cfg (gfx_widgets_init cfg dispwidget_st has_icons layout)
  | push (s : State) (task : Option Nat) (msg : String) (duration : Nat)
      (title : Option String) (icon category prio : Nat) (flush menu_is_alive : Bool) :
      ReachableCheevos cfg s →
      ReachableCheevos cfg (gfx_widgets_msg_queue_push cfg s task msg duration title icon
        category prio flush menu_is_alive)
  | iterate (s : State) (relayout : Option layout_t) :
      ReachableCheevos cfg s → ReachableCheevos cfg (gfx_widgets_iterate cfg s relayout)
  | animation (s : State) (i : Nat) :
      ReachableCheevos cfg s → ReachableCheevos cfg (gfx_animation_complete cfg s i)
  | timer (s : State) (i : Nat) :
      ReachableCheevos cfg s → ReachableCheevos cfg (gfx_timer_fire cfg s i)
  | task (s : State) (t : Nat) (r : retro_task_t) :
      ReachableCheevos cfg s →
      (r.frontend_userdata = none ∨ ∃ t0, r.frontend_userdata = (s.tasks t0).frontend_userdata) →
      ReachableCheevos cfg (set_task s t r)
  | push_achievement (s : State) (title : String) (badge : Nat) :
      ReachableCheevos cfg s →
      ReachableCheevos cfg (gfx_widgets_push_achievement cfg s title badge)
  | achievement_next (s : State) :
      ReachableCheevos cfg s → 0 ≤ s.cheevo_popup_queue_read_index →
      ReachableCheevos cfg (gfx_widgets_achievement_next cfg s)

/-- The sample state `sample_pending_task` with the achievement "First Blood"
on display. -/
def sample_pending_unlocked : State :=
  gfx_widgets_push_achievement sample_cfg sample_pending_task "First Blood" 5

/-! ### Sample states of a task notification -/

/-- The sample state after the first push of the task 0, titled "Scanning":
its notification 0 is pending in the intake queue. -/
def sample_task_pushed : State :=
  sample_push_task (set_task sample_init 0 { retro_task_zero with title := "Scanning" }) 0

/-- The task 0 of `sample_task_pushed` retitled by the task system, with a
progress of 50; the back-reference is the one the push stored. -/
def sample_task_retitled : State :=
  set_task sample_task_pushed 0
    { retro_task_zero with title := "Scanning 50%", title_ptr := 1, progress := 50,
                           frontend_userdata := some 0 }

/-- The four fields of a notification that mirror the state of its task:
`task_finished`, `task_cancelled`, `task_progress` and `task_error`. -/
def menu_widget_msg_t.task_status (m : menu_widget_msg_t) : Bool × Bool × Int × Bool :=
  (m.task_finished, m.task_cancelled, m.task_progress, m.task_error)

/-- What a push copies from a task into these four fields (lines 624 to
627): `finished`, `cancelled`, `progress` and whether `error` is a
non-empty string. -/
def retro_task_t.status (r : retro_task_t) : Bool × Bool × Int × Bool :=
  (r.finished, r.cancelled, r.progress, !string_is_empty r.error)

/-- The sample configuration with room for one pending and one registered
notification. -/
def sample_small_cfg : Config :=
  { sample_cfg with MSG_QUEUE_PENDING_MAX := 1, MSG_QUEUE_ONSCREEN_MAX := 1 }

/-- The task 0, titled "Scanning", pushed and admitted in the small
configuration: the registry is at its capacity of one entry and the intake
queue is empty. -/
def sample_small_admitted : State :=
  gfx_widgets_iterate sample_small_cfg
    (gfx_widgets_msg_queue_push sample_small_cfg
      (set_task (gfx_widgets_init sample_small_cfg dispwidget_st true sample_layout) 0
        { retro_task_zero with title := "Scanning" })
      (some 0) "" 0 none 0 0 0 false false)
    none

/-- The task 0 of `sample_small_admitted` retitled by the task system, with
a progress of 50. -/
def sample_small_retitled : State :=
  set_task sample_small_admitted 0
    { retro_task_zero with title := "Scanning 50%", title_ptr := 1, progress := 50,
                           frontend_userdata := some 0 }

/-- The state `sample_small_retitled` with the plain message "A" pushed
before the task was retitled: the intake queue is full as well. -/
def sample_small_blocked : State :=
  set_task
    (gfx_widgets_msg_queue_push sample_small_cfg sample_small_admitted none "A" 1000 none 0 0 0
      false false)
    0
    { retro_task_zero with title := "Scanning 50%", title_ptr := 1, progress := 50,
                           frontend_userdata := some 0 }

/-! ### The expiration timer of a task notification -/

/-- The expiration timer of the notification `h` is armed with the duration
`TASK_FINISHED_DURATION`: `expiration_timer_started` is set and the timer
is pending. -/
def expiration_armed (cfg : Config) (s : State) (h : Nat) : Prop :=
  (s.msgs h).expiration_timer_started = true
  ∧ ({ timer := (h, timer_field.expiration_timer),
       cb := timer_cb.gfx_widgets_msg_queue_expired,
       duration := cfg.TASK_FINISHED_DURATION,
       userdata := some h } : gfx_timer_ctx_entry_t) ∈ s.timers

/-- The entry `entry` of the registry stops the loop of
`gfx_widgets_iterate`: its notification has `expired` set while
`widgets_moving` is clear, so it is killed and the loop left. -/
def stops_loop (s : State) (entry : Option Nat) : Prop :=
  ∃ w, entry = some w ∧ (s.msgs w).expired = true ∧ s.widgets_moving = false

/-- A step that arms no expiration timer for the notification `h`: the
binding to a task, `task_finished`, `task_cancelled` and
`expiration_timer_started` of `h` are as they were, and every pending
expiration timer of `h` was pending before. -/
structure timer_calm (s1 s : State) (h : Nat) : Prop where
  task_ptr : (s1.msgs h).task_ptr.isSome = (s.msgs h).task_ptr.isSome
  task_finished : (s1.msgs h).task_finished = (s.msgs h).task_finished
  task_cancelled : (s1.msgs h).task_cancelled = (s.msgs h).task_cancelled
  started : (s1.msgs h).expiration_timer_started = (s.msgs h).expiration_timer_started
  timers : ∀ e ∈ s1.timers, e.timer = (h, timer_field.expiration_timer) → e ∈ s.timers

/-- The sample state in which the task 0 finished and pushed again, after
its notification was admitted and its reflow completed. -/
def sample_task_finished : State :=
  sample_push_task
    (set_task (gfx_animation_complete sample_cfg (sample_tick sample_task_pushed) 0) 0
      { retro_task_zero with title := "Scanning", finished := true,
                             frontend_userdata := some 0 })
    0

/-- The notification of the task 0 on its way out: after
`sample_task_finished` a tick armed the expiration timer, the timer fired
and the next tick started the kill. -/
def sample_task_dying : State :=
  sample_tick (gfx_timer_fire sample_cfg (sample_tick sample_task_finished) 1)

/-- The task 0 retitled "Done" while its notification is dying. -/
def sample_task_dying_retitled : State :=
  set_task sample_task_dying 0
    { retro_task_zero with title := "Done", title_ptr := 2, finished := true,
                           frontend_userdata := some 0 }

/-! ### The reflow, as the specification words it -/

/-- What the entry at the index `j` of the registry `l` adds to the stack:
nothing for an empty slot or a dying notification, and otherwise the height
of the notification, halved for a task notification, plus the spacing, in
`unsigned` arithmetic. -/
def reflow_contribution (s : State) (l : file_list_t) (j : Nat) : Int :=
  match file_list_get_userdata l j with
  | none => 0
  | some msg =>
    if (s.msgs msg).dying then 0
    else ((u32 (s.msg_queue_height / (if (s.msgs msg).task_ptr.isSome then 2 else 1)
                  + s.msg_queue_spacing) : Nat) : Int)

/-- The target offset of the entry at the index `i`: the sum of the
contributions of the entries at the indices `i` and after. -/
def reflow_target (s : State) (l : file_list_t) (i : Nat) : Int :=
  ((List.range' i (l.size - i)).map (reflow_contribution s l)).sum

/-- The notification that is not unfolded and not dying at the lowest index
from `i` on, if there is one. -/
def reflow_unfold (s : State) (l : file_list_t) (i : Nat) : Option Nat :=
  ((List.range' i (l.size - i)).filterMap
    (fun j =>
      match file_list_get_userdata l j with
      | none => none
      | some msg =>
        if !(s.msgs msg).dying && !(s.msgs msg).unfolded then some msg else none)).head?

/-- The offset animation of the reflow for the entry at the index `i`: none
for an empty slot, a dying notification or a notification that is at its
target. -/
def reflow_animation (cfg : Config) (s : State) (l : file_list_t) (i : Nat) :
    Option gfx_animation_ctx_entry_t :=
  match file_list_get_userdata l i with
  | none => none
  | some msg =>
    if (s.msgs msg).dying then none
    else if (s.msgs msg).offset_y = reflow_target s l i then none
    else
      some { cb := if i = 0 then anim_cb.gfx_widgets_move_end else anim_cb.NULL,
             duration := cfg.MSG_QUEUE_ANIMATION_DURATION,
             subject := (msg, anim_subject.offset_y),
             tag := msg,
             target_value := reflow_target s l i,
             userdata := reflow_unfold s l i }

/-- The offset animations of the reflow for the entries below the index `n`,
in the order the reflow pushes them: the highest index first. -/
def reflow_animations (cfg : Config) (s : State) (l : file_list_t) : Nat →
    List gfx_animation_ctx_entry_t
  | 0 => []
  | i + 1 => (reflow_animation cfg s l i).toList ++ reflow_animations cfg s l i

/-- The state of `sample_killing` before its reflow: the kill of "B" at the
index 1 has set `dying` and pushed the drop and the fade. -/
def sample_kill_started : State :=
  gfx_widgets_msg_queue_kill_start sample_cfg (gfx_timer_fire sample_cfg sample_both_unfolded 1)
    1 1

/-- The tick that admits "B" below "A": the reflow pushes the offset
animation of "B" at the index 1 and then the one of "A" at the index 0. -/
def sample_second_admitted : State :=
  sample_tick
    (gfx_animation_complete sample_cfg
      (gfx_animation_complete sample_cfg sample_first_admitted 0) 0)

/-- After `sample_released` the expiration timer of "A" fired and a tick
started the kill of "A" at the index 0, while the fade of "B", killed at the
index 1, is still pending: `msg_queue_kill` is 0 now. -/
def sample_double_kill : State :=
  sample_tick (gfx_timer_fire sample_cfg sample_released 0)

/-- The fade of "B" completed in `sample_double_kill`:
`gfx_widgets_msg_queue_kill_end` released the entry at the index 0. -/
def sample_wrong_release : State := gfx_animation_complete sample_cfg sample_double_kill 1

/-- The message "C" pushed after `sample_wrong_release` and admitted by a
tick at the index 1, below the dying "B". -/
def sample_stuck : State := sample_tick (sample_push sample_wrong_release "C" 1000)

/-! ### The wrap column of a plain notification -/

/-- The division of two `unsigned` values in C: `none` for the divisor 0,
where the behaviour is undefined. -/
def unsigned_div (a b : Nat) : Option Nat :=
  if b = 0 then none else some (a / b)

/-- The third argument `(title_length * width) / text_width` of the call of
`word_wrap` in `gfx_widgets_msg_queue_push` (lines 548 to 557), for the
default width `width` and the measured width `text_width`: `none` when the
text fits and the call is not reached, and the outcome of the division
otherwise. -/
def gfx_widgets_msg_queue_push_wrap_column (title_length width text_width : Nat) :
    Option (Option Nat) :=
  if text_width > width then
    some (unsigned_div
      (u32 (title_length * gfx_widgets_msg_queue_push_rect_width width text_width)) text_width)
  else none

/-- The task 0 finished and retitled "Done" after its notification was
admitted and its reflow completed, and pushed again: the transition to the
new title is pending. -/
def sample_task_done : State :=
  sample_push_task
    (set_task (gfx_animation_complete sample_cfg (sample_tick sample_task_pushed) 0) 0
      { retro_task_zero with title := "Done", title_ptr := 2, finished := true,
                             frontend_userdata := some 0 })
    0

/-- After `sample_task_done` a tick armed the expiration timer of the
notification and the timer fired, the transition still pending. -/
def sample_task_done_expired : State :=
  gfx_timer_fire sample_cfg (sample_tick sample_task_done) 1

/-! ### The notification that the completion of a kill releases -/

/-- The completion of a kill started on `m` finds `m`: the index
`msg_queue_kill` lies inside the registry, the entry there is `m`, and `m` is
dying. -/
def kill_target (s : State) (m : Nat) : Prop :=
  ∃ l, s.current_msgs = some l ∧ s.msg_queue_kill < l.size
    ∧ file_list_get_userdata l s.msg_queue_kill = some m ∧ (s.msgs m).dying = true

/-- No completion `gfx_widgets_msg_queue_kill_end` is pending. -/
def no_kill_pending (s : State) : Prop :=
  ∀ e ∈ s.anims, e.cb ≠ anim_cb.gfx_widgets_msg_queue_kill_end

/-- Every pending completion `gfx_widgets_msg_queue_kill_end` finds the
notification its kill was started on; `gfx_widgets_msg_queue_kill` pushes
the completion with that notification as its tag. -/
def kill_inv (s : State) : Prop :=
  ∀ e ∈ s.anims, e.cb = anim_cb.gfx_widgets_msg_queue_kill_end → kill_target s e.tag

/-- A step that leaves the registry, the index `msg_queue_kill` and the flag
`dying` of the notifications handed out so far as they are, and adds no
completion `gfx_widgets_msg_queue_kill_end`. -/
structure kill_calm (s1 s : State) : Prop where
  current_msgs : s1.current_msgs = s.current_msgs
  msg_queue_kill : s1.msg_queue_kill = s.msg_queue_kill
  dying : ∀ h, h < s.msgs_next → (s1.msgs h).dying = (s.msgs h).dying
  anims : ∀ e ∈ s1.anims, e ∈ s.anims ∨ e.cb ≠ anim_cb.gfx_widgets_msg_queue_kill_end

/-- The states reached when a tick that finds `widgets_moving` clear runs
only while no completion `gfx_widgets_msg_queue_kill_end` is pending;
otherwise as `Reachable`. -/
inductive ReachableGuarded (cfg : Config) : State → Prop
  | init (has_icons : Bool) (layout : layout_t) :
      ReachableGuarded cfg (gfx_widgets_init cfg dispwidget_st has_icons layout)
  | push (s : State) (task : Option Nat) (msg : String) (duration : Nat)
      (title : Option String) (icon category prio : Nat) (flush menu_is_alive : Bool) :
      ReachableGuarded cfg s →
      ReachableGuarded cfg (gfx_widgets_msg_queue_push cfg s task msg duration title icon
        category prio flush menu_is_alive)
  | iterate (s : State) (relayout : Option layout_t) :
      ReachableGuarded cfg s →
      (s.widgets_moving = false →
        ∀ e ∈ s.anims, e.cb ≠ anim_cb.gfx_widgets_msg_queue_kill_end) →
      ReachableGuarded cfg (gfx_widgets_iterate cfg s relayout)
  | animation (s : State) (i : Nat) :
      ReachableGuarded cfg s → ReachableGuarded cfg (gfx_animation_complete cfg s i)
  | timer (s : State) (i : Nat) :
      ReachableGuarded cfg s → ReachableGuarded cfg (gfx_timer_fire cfg s i)
  | task (s : State) (t : Nat) (r : retro_task_t) :
      ReachableGuarded cfg s →
      (r.frontend_userdata = none ∨ ∃ t0, r.frontend_userdata = (s.tasks t0).frontend_userdata) →
      ReachableGuarded cfg (set_task s t r)

/-! ### Projections of the state helpers -/

@[simp]
theorem set_msg_proj (s : State) (h : Nat) (m : menu_widget_msg_t) :
    ((set_msg s h m).widgets_active = (s.widgets_active)) ∧
    ((set_msg s h m).widgets_moving = (s.widgets_moving)) ∧
    ((set_msg s h m).widgets_inited = (s.widgets_inited)) ∧
    ((set_msg s h m).widgets_persisting = (s.widgets_persisting)) ∧
    ((set_msg s h m).msg_queue_has_icons = (s.msg_queue_has_icons)) ∧
    ((set_msg s h m).msg_queue_kill = (s.msg_queue_kill)) ∧
    ((set_msg s h m).msg_queue_tasks_count = (s.msg_queue_tasks_count)) ∧
    ((set_msg s h m).simple_widget_padding = (s.simple_widget_padding)) ∧
    ((set_msg s h m).msg_queue_height = (s.msg_queue_height)) ∧
    ((set_msg s h m).msg_queue_spacing = (s.msg_queue_spacing)) ∧
    ((set_msg s h m).msg_queue_default_rect_width_menu_alive = (s.msg_queue_default_rect_width_menu_alive)) ∧
    ((set_msg s h m).msg_queue_default_rect_width = (s.msg_queue_default_rect_width)) ∧
    ((set_msg s h m).msg_queue_line_height = (s.msg_queue_line_height)) ∧
    ((set_msg s h m).msg_queue = (s.msg_queue)) ∧
    ((set_msg s h m).current_msgs = (s.current_msgs)) ∧
    ((set_msg s h m).msgs = (fun k => if k = h then m else s.msgs k)) ∧
    ((set_msg s h m).msgs_next = (s.msgs_next)) ∧
    ((set_msg s h m).msgs_freed = (s.msgs_freed)) ∧
    ((set_msg s h m).tasks = (s.tasks)) ∧
    ((set_msg s h m).anims = (s.anims)) ∧
    ((set_msg s h m).timers = (s.timers)) ∧
    ((set_msg s h m).regular_line_height = (s.regular_line_height)) ∧
    ((set_msg s h m).cheevo_popup_queue = (s.cheevo_popup_queue)) ∧
    ((set_msg s h m).cheevo_popup_queue_read_index = (s.cheevo_popup_queue_read_index)) ∧
    ((set_msg s h m).cheevo_popup_queue_write_index = (s.cheevo_popup_queue_write_index)) ∧
    ((set_msg s h m).cheevo_unfold = (s.cheevo_unfold)) ∧
    ((set_msg s h m).cheevo_y = (s.cheevo_y)) ∧
    ((set_msg s h m).cheevo_width = (s.cheevo_width)) ∧
    ((set_msg s h m).cheevo_height = (s.cheevo_height)) ∧
    ((set_msg s h m).generic_anims = (s.generic_anims)) :=
  ⟨rfl, rfl, rfl, rfl, rfl, rfl, rfl, rfl, rfl, rfl, rfl, rfl, rfl, rfl, rfl, rfl, rfl, rfl, rfl, rfl, rfl, rfl, rfl, rfl, rfl, rfl, rfl, rfl, rfl, rfl⟩

@[simp]
theorem set_task_proj (s : State) (t : Nat) (r : retro_task_t) :
    ((set_task s t r).widgets_active = (s.widgets_active)) ∧
    ((set_task s t r).widgets_moving = (s.widgets_moving)) ∧
    ((set_task s t r).widgets_inited = (s.widgets_inited)) ∧
    ((set_task s t r).widgets_persisting = (s.widgets_persisting)) ∧
    ((set_task s t r).msg_queue_has_icons = (s.msg_queue_has_icons)) ∧
    ((set_task s t r).msg_queue_kill = (s.msg_queue_kill)) ∧
    ((set_task s t r).msg_queue_tasks_count = (s.msg_queue_tasks_count)) ∧
    ((set_task s t r).simple_widget_padding = (s.simple_widget_padding)) ∧
    ((set_task s t r).msg_queue_height = (s.msg_queue_height)) ∧
    ((set_task s t r).msg_queue_spacing = (s.msg_queue_spacing)) ∧
    ((set_task s t r).msg_queue_default_rect_width_menu_alive = (s.msg_queue_default_rect_width_menu_alive)) ∧
    ((set_task s t r).msg_queue_default_rect_width = (s.msg_queue_default_rect_width)) ∧
    ((set_task s t r).msg_queue_line_height = (s.msg_queue_line_height)) ∧
    ((set_task s t r).msg_queue = (s.msg_queue)) ∧
    ((set_task s t r).current_msgs = (s.current_msgs)) ∧
    ((set_task s t r).msgs = (s.msgs)) ∧
    ((set_task s t r).msgs_next = (s.msgs_next)) ∧
    ((set_task s t r).msgs_freed = (s.msgs_freed)) ∧
    ((set_task s t r).tasks = (fun k => if k = t then r else s.tasks k)) ∧
    ((set_task s t r).anims = (s.anims)) ∧
    ((set_task s t r).timers = (s.timers)) ∧
    ((set_task s t r).regular_line_height = (s.regular_line_height)) ∧
    ((set_task s t r).cheevo_popup_queue = (s.cheevo_popup_queue)) ∧
    ((set_task s t r).cheevo_popup_queue_read_index = (s.cheevo_popup_queue_read_index)) ∧
    ((set_task s t r).cheevo_popup_queue_write_index = (s.cheevo_popup_queue_write_index)) ∧
    ((set_task s t r).cheevo_unfold = (s.cheevo_unfold)) ∧
    ((set_task s t r).cheevo_y = (s.cheevo_y)) ∧
    ((set_task s t r).cheevo_width = (s.cheevo_width)) ∧
    ((set_task s t r).cheevo_height = (s.cheevo_height)) ∧
    ((set_task s t r).generic_anims = (s.generic_anims)) :=
  ⟨rfl, rfl, rfl, rfl, rfl, rfl, rfl, rfl, rfl, rfl, rfl, rfl, rfl, rfl, rfl, rfl, rfl, rfl, rfl, rfl, rfl, rfl, rfl, rfl, rfl, rfl, rfl, rfl, rfl, rfl⟩

@[simp]
theorem gfx_animation_push_proj (s : State) (e : gfx_animation_ctx_entry_t) :
    ((gfx_animation_push s e).widgets_active = (s.widgets_active)) ∧
    ((gfx_animation_push s e).widgets_moving = (s.widgets_moving)) ∧
    ((gfx_animation_push s e).widgets_inited = (s.widgets_inited)) ∧
    ((gfx_animation_push s e).widgets_persisting = (s.widgets_persisting)) ∧
    ((gfx_animation_push s e).msg_queue_has_icons = (s.msg_queue_has_icons)) ∧
    ((gfx_animation_push s e).msg_queue_kill = (s.msg_queue_kill)) ∧
    ((gfx_animation_push s e).msg_queue_tasks_count = (s.msg_queue_tasks_count)) ∧
    ((gfx_animation_push s e).simple_widget_padding = (s.simple_widget_padding)) ∧
    ((gfx_animation_push s e).msg_queue_height = (s.msg_queue_height)) ∧
    ((gfx_animation_push s e).msg_queue_spacing = (s.msg_queue_spacing)) ∧
    ((gfx_animation_push s e).msg_queue_default_rect_width_menu_alive = (s.msg_queue_default_rect_width_menu_alive)) ∧
    ((gfx_animation_push s e).msg_queue_default_rect_width = (s.msg_queue_default_rect_width)) ∧
    ((gfx_animation_push s e).msg_queue_line_height = (s.msg_queue_line_height)) ∧
    ((gfx_animation_push s e).msg_queue = (s.msg_queue)) ∧
    ((gfx_animation_push s e).current_msgs = (s.current_msgs)) ∧
    ((gfx_animation_push s e).msgs = (s.msgs)) ∧
    ((gfx_animation_push s e).msgs_next = (s.msgs_next)) ∧
    ((gfx_animation_push s e).msgs_freed = (s.msgs_freed)) ∧
    ((gfx_animation_push s e).tasks = (s.tasks)) ∧
    ((gfx_animation_push s e).anims = (s.anims ++ [e])) ∧
    ((gfx_animation_push s e).timers = (s.timers)) ∧
    ((gfx_animation_push s e).regular_line_height = (s.regular_line_height)) ∧
    ((gfx_animation_push s e).cheevo_popup_queue = (s.cheevo_popup_queue)) ∧
    ((gfx_animation_push s e).cheevo_popup_queue_read_index = (s.cheevo_popup_queue_read_index)) ∧
    ((gfx_animation_push s e).cheevo_popup_queue_write_index = (s.cheevo_popup_queue_write_index)) ∧
    ((gfx_animation_push s e).cheevo_unfold = (s.cheevo_unfold)) ∧
    ((gfx_animation_push s e).cheevo_y = (s.cheevo_y)) ∧
    ((gfx_animation_push s e).cheevo_width = (s.cheevo_width)) ∧
    ((gfx_animation_push s e).cheevo_height = (s.cheevo_height)) ∧
    ((gfx_animation_push s e).generic_anims = (s.generic_anims)) :=
  ⟨rfl, rfl, rfl, rfl, rfl, rfl, rfl, rfl, rfl, rfl, rfl, rfl, rfl, rfl, rfl, rfl, rfl, rfl, rfl, rfl, rfl, rfl, rfl, rfl, rfl, rfl, rfl, rfl, rfl, rfl⟩

@[simp]
theorem gfx_animation_kill_by_tag_proj (s : State) (tag : Nat) :
    ((gfx_animation_kill_by_tag s tag).widgets_active = (s.widgets_active)) ∧
    ((gfx_animation_kill_by_tag s tag).widgets_moving = (s.widgets_moving)) ∧
    ((gfx_animation_kill_by_tag s tag).widgets_inited = (s.widgets_inited)) ∧
    ((gfx_animation_kill_by_tag s tag).widgets_persisting = (s.widgets_persisting)) ∧
    ((gfx_animation_kill_by_tag s tag).msg_queue_has_icons = (s.msg_queue_has_icons)) ∧
    ((gfx_animation_kill_by_tag s tag).msg_queue_kill = (s.msg_queue_kill)) ∧
    ((gfx_animation_kill_by_tag s tag).msg_queue_tasks_count = (s.msg_queue_tasks_count)) ∧
    ((gfx_animation_kill_by_tag s tag).simple_widget_padding = (s.simple_widget_padding)) ∧
    ((gfx_animation_kill_by_tag s tag).msg_queue_height = (s.msg_queue_height)) ∧
    ((gfx_animation_kill_by_tag s tag).msg_queue_spacing = (s.msg_queue_spacing)) ∧
    ((gfx_animation_kill_by_tag s tag).msg_queue_default_rect_width_menu_alive = (s.msg_queue_default_rect_width_menu_alive)) ∧
    ((gfx_animation_kill_by_tag s tag).msg_queue_default_rect_width = (s.msg_queue_default_rect_width)) ∧
    ((gfx_animation_kill_by_tag s tag).msg_queue_line_height = (s.msg_queue_line_height)) ∧
    ((gfx_animation_kill_by_tag s tag).msg_queue = (s.msg_queue)) ∧
    ((gfx_animation_kill_by_tag s tag).current_msgs = (s.current_msgs)) ∧
    ((gfx_animation_kill_by_tag s tag).msgs = (s.msgs)) ∧
    ((gfx_animation_kill_by_tag s tag).msgs_next = (s.msgs_next)) ∧
    ((gfx_animation_kill_by_tag s tag).msgs_freed = (s.msgs_freed)) ∧
    ((gfx_animation_kill_by_tag s tag).tasks = (s.tasks)) ∧
    ((gfx_animation_kill_by_tag s tag).anims = (s.anims.filter (fun e => decide (e.tag ≠ tag)))) ∧
    ((gfx_animation_kill_by_tag s tag).timers = (s.timers)) ∧
    ((gfx_animation_kill_by_tag s tag).regular_line_height = (s.regular_line_height)) ∧
    ((gfx_animation_kill_by_tag s tag).cheevo_popup_queue = (s.cheevo_popup_queue)) ∧
    ((gfx_animation_kill_by_tag s tag).cheevo_popup_queue_read_index = (s.cheevo_popup_queue_read_index)) ∧
    ((gfx_animation_kill_by_tag s tag).cheevo_popup_queue_write_index = (s.cheevo_popup_queue_write_index)) ∧
    ((gfx_animation_kill_by_tag s tag).cheevo_unfold = (s.cheevo_unfold)) ∧
    ((gfx_animation_kill_by_tag s tag).cheevo_y = (s.cheevo_y)) ∧
    ((gfx_animation_kill_by_tag s tag).cheevo_width = (s.cheevo_width)) ∧
    ((gfx_animation_kill_by_tag s tag).cheevo_height = (s.cheevo_height)) ∧
    ((gfx_animation_kill_by_tag s tag).generic_anims = (s.generic_anims)) :=
  ⟨rfl, rfl, rfl, rfl, rfl, rfl, rfl, rfl, rfl, rfl, rfl, rfl, rfl, rfl, rfl, rfl, rfl, rfl, rfl, rfl, rfl, rfl, rfl, rfl, rfl, rfl, rfl, rfl, rfl, rfl⟩

@[simp]
theorem gfx_timer_kill_proj (s : State) (timer : Nat × timer_field) :
    ((gfx_timer_kill s timer).widgets_active = (s.widgets_active)) ∧
    ((gfx_timer_kill s timer).widgets_moving = (s.widgets_moving)) ∧
    ((gfx_timer_kill s timer).widgets_inited = (s.widgets_inited)) ∧
    ((gfx_timer_kill s timer).widgets_persisting = (s.widgets_persisting)) ∧
    ((gfx_timer_kill s timer).msg_queue_has_icons = (s.msg_queue_has_icons)) ∧
    ((gfx_timer_kill s timer).msg_queue_kill = (s.msg_queue_kill)) ∧
    ((gfx_timer_kill s timer).msg_queue_tasks_count = (s.msg_queue_tasks_count)) ∧
    ((gfx_timer_kill s timer).simple_widget_padding = (s.simple_widget_padding)) ∧
    ((gfx_timer_kill s timer).msg_queue_height = (s.msg_queue_height)) ∧
    ((gfx_timer_kill s timer).msg_queue_spacing = (s.msg_queue_spacing)) ∧
    ((gfx_timer_kill s timer).msg_queue_default_rect_width_menu_alive = (s.msg_queue_default_rect_width_menu_alive)) ∧
    ((gfx_timer_kill s timer).msg_queue_default_rect_width = (s.msg_queue_default_rect_width)) ∧
    ((gfx_timer_kill s timer).msg_queue_line_height = (s.msg_queue_line_height)) ∧
    ((gfx_timer_kill s timer).msg_queue = (s.msg_queue)) ∧
    ((gfx_timer_kill s timer).current_msgs = (s.current_msgs)) ∧
    ((gfx_timer_kill s timer).msgs = (s.msgs)) ∧
    ((gfx_timer_kill s timer).msgs_next = (s.msgs_next)) ∧
    ((gfx_timer_kill s timer).msgs_freed = (s.msgs_freed)) ∧
    ((gfx_timer_kill s timer).tasks = (s.tasks)) ∧
    ((gfx_timer_kill s timer).anims = (s.anims)) ∧
    ((gfx_timer_kill s timer).timers = (s.timers.filter (fun e => decide (e.timer ≠ timer)))) ∧
    ((gfx_timer_kill s timer).regular_line_height = (s.regular_line_height)) ∧
    ((gfx_timer_kill s timer).cheevo_popup_queue = (s.cheevo_popup_queue)) ∧
    ((gfx_timer_kill s timer).cheevo_popup_queue_read_index = (s.cheevo_popup_queue_read_index)) ∧
    ((gfx_timer_kill s timer).cheevo_popup_queue_write_index = (s.cheevo_popup_queue_write_index)) ∧
    ((gfx_timer_kill s timer).cheevo_unfold = (s.cheevo_unfold)) ∧
    ((gfx_timer_kill s timer).cheevo_y = (s.cheevo_y)) ∧
    ((gfx_timer_kill s timer).cheevo_width = (s.cheevo_width)) ∧
    ((gfx_timer_kill s timer).cheevo_height = (s.cheevo_height)) ∧
    ((gfx_timer_kill s timer).generic_anims = (s.generic_anims)) :=
  ⟨rfl, rfl, rfl, rfl, rfl, rfl, rfl, rfl, rfl, rfl, rfl, rfl, rfl, rfl, rfl, rfl, rfl, rfl, rfl, rfl, rfl, rfl, rfl, rfl, rfl, rfl, rfl, rfl, rfl, rfl⟩

@[simp]
theorem set_cheevo_popup_proj (s : State) (i : Int) (v : cheevo_popup) :
    ((set_cheevo_popup s i v).widgets_active = (s.widgets_active)) ∧
    ((set_cheevo_popup s i v).widgets_moving = (s.widgets_moving)) ∧
    ((set_cheevo_popup s i v).widgets_inited = (s.widgets_inited)) ∧
    ((set_cheevo_popup s i v).widgets_persisting = (s.widgets_persisting)) ∧
    ((set_cheevo_popup s i v).msg_queue_has_icons = (s.msg_queue_has_icons)) ∧
    ((set_cheevo_popup s i v).msg_queue_kill = (s.msg_queue_kill)) ∧
    ((set_cheevo_popup s i v).msg_queue_tasks_count = (s.msg_queue_tasks_count)) ∧
    ((set_cheevo_popup s i v).simple_widget_padding = (s.simple_widget_padding)) ∧
    ((set_cheevo_popup s i v).msg_queue_height = (s.msg_queue_height)) ∧
    ((set_cheevo_popup s i v).msg_queue_spacing = (s.msg_queue_spacing)) ∧
    ((set_cheevo_popup s i v).msg_queue_default_rect_width_menu_alive = (s.msg_queue_default_rect_width_menu_alive)) ∧
    ((set_cheevo_popup s i v).msg_queue_default_rect_width = (s.msg_queue_default_rect_width)) ∧
    ((set_cheevo_popup s i v).msg_queue_line_height = (s.msg_queue_line_height)) ∧
    ((set_cheevo_popup s i v).msg_queue = (s.msg_queue)) ∧
    ((set_cheevo_popup s i v).current_msgs = (s.current_msgs)) ∧
    ((set_cheevo_popup s i v).msgs = (s.msgs)) ∧
    ((set_cheevo_popup s i v).msgs_next = (s.msgs_next)) ∧
    ((set_cheevo_popup s i v).msgs_freed = (s.msgs_freed)) ∧
    ((set_cheevo_popup s i v).tasks = (s.tasks)) ∧
    ((set_cheevo_popup s i v).anims = (s.anims)) ∧
    ((set_cheevo_popup s i v).timers = (s.timers)) ∧
    ((set_cheevo_popup s i v).regular_line_height = (s.regular_line_height)) ∧
    ((set_cheevo_popup s i v).cheevo_popup_queue = (fun k => if k = i then v else s.cheevo_popup_queue k)) ∧
    ((set_cheevo_popup s i v).cheevo_popup_queue_read_index = (s.cheevo_popup_queue_read_index)) ∧
    ((set_cheevo_popup s i v).cheevo_popup_queue_write_index = (s.cheevo_popup_queue_write_index)) ∧
    ((set_cheevo_popup s i v).cheevo_unfold = (s.cheevo_unfold)) ∧
    ((set_cheevo_popup s i v).cheevo_y = (s.cheevo_y)) ∧
    ((set_cheevo_popup s i v).cheevo_width = (s.cheevo_width)) ∧
    ((set_cheevo_popup s i v).cheevo_height = (s.cheevo_height)) ∧
    ((set_cheevo_popup s i v).generic_anims = (s.generic_anims)) :=
  ⟨rfl, rfl, rfl, rfl, rfl, rfl, rfl, rfl, rfl, rfl, rfl, rfl, rfl, rfl, rfl, rfl, rfl, rfl, rfl, rfl, rfl, rfl, rfl, rfl, rfl, rfl, rfl, rfl, rfl, rfl⟩

@[simp]
theorem gfx_timer_start_proj (s : State) (e : gfx_timer_ctx_entry_t) :
    ((gfx_timer_start s e).widgets_active = (s.widgets_active)) ∧
    ((gfx_timer_start s e).widgets_moving = (s.widgets_moving)) ∧
    ((gfx_timer_start s e).widgets_inited = (s.widgets_inited)) ∧
    ((gfx_timer_start s e).widgets_persisting = (s.widgets_persisting)) ∧
    ((gfx_timer_start s e).msg_queue_has_icons = (s.msg_queue_has_icons)) ∧
    ((gfx_timer_start s e).msg_queue_kill = (s.msg_queue_kill)) ∧
    ((gfx_timer_start s e).msg_queue_tasks_count = (s.msg_queue_tasks_count)) ∧
    ((gfx_timer_start s e).simple_widget_padding = (s.simple_widget_padding)) ∧
    ((gfx_timer_start s e).msg_queue_height = (s.msg_queue_height)) ∧
    ((gfx_timer_start s e).msg_queue_spacing = (s.msg_queue_spacing)) ∧
    ((gfx_timer_start s e).msg_queue_default_rect_width_menu_alive = (s.msg_queue_default_rect_width_menu_alive)) ∧
    ((gfx_timer_start s e).msg_queue_default_rect_width = (s.msg_queue_default_rect_width)) ∧
    ((gfx_timer_start s e).msg_queue_line_height = (s.msg_queue_line_height)) ∧
    ((gfx_timer_start s e).msg_queue = (s.msg_queue)) ∧
    ((gfx_timer_start s e).current_msgs = (s.current_msgs)) ∧
    ((gfx_timer_start s e).msgs = (s.msgs)) ∧
    ((gfx_timer_start s e).msgs_next = (s.msgs_next)) ∧
    ((gfx_timer_start s e).msgs_freed = (s.msgs_freed)) ∧
    ((gfx_timer_start s e).tasks = (s.tasks)) ∧
    ((gfx_timer_start s e).anims = (s.anims)) ∧
    ((gfx_timer_start s e).timers = ((s.timers.filter (fun x => decide (x.timer ≠ e.timer))) ++ [e])) ∧
    ((gfx_timer_start s e).regular_line_height = (s.regular_line_height)) ∧
    ((gfx_timer_start s e).cheevo_popup_queue = (s.cheevo_popup_queue)) ∧
    ((gfx_timer_start s e).cheevo_popup_queue_read_index = (s.cheevo_popup_queue_read_index)) ∧
    ((gfx_timer_start s e).cheevo_popup_queue_write_index = (s.cheevo_popup_queue_write_index)) ∧
    ((gfx_timer_start s e).cheevo_unfold = (s.cheevo_unfold)) ∧
    ((gfx_timer_start s e).cheevo_y = (s.cheevo_y)) ∧
    ((gfx_timer_start s e).cheevo_width = (s.cheevo_width)) ∧
    ((gfx_timer_start s e).cheevo_height = (s.cheevo_height)) ∧
    ((gfx_timer_start s e).generic_anims = (s.generic_anims)) :=
  ⟨rfl, rfl, rfl, rfl, rfl, rfl, rfl, rfl, rfl, rfl, rfl, rfl, rfl, rfl, rfl, rfl, rfl, rfl, rfl, rfl, rfl, rfl, rfl, rfl, rfl, rfl, rfl, rfl, rfl, rfl⟩

@[simp]
theorem set_layout_proj (s : State) (v : layout_t) :
    ((set_layout s v).widgets_active = (s.widgets_active)) ∧
    ((set_layout s v).widgets_moving = (s.widgets_moving)) ∧
    ((set_layout s v).widgets_inited = (s.widgets_inited)) ∧
    ((set_layout s v).widgets_persisting = (s.widgets_persisting)) ∧
    ((set_layout s v).msg_queue_has_icons = (s.msg_queue_has_icons)) ∧
    ((set_layout s v).msg_queue_kill = (s.msg_queue_kill)) ∧
    ((set_layout s v).msg_queue_tasks_count = (s.msg_queue_tasks_count)) ∧
    ((set_layout s v).simple_widget_padding = (v.simple_widget_padding)) ∧
    ((set_layout s v).msg_queue_height = (v.msg_queue_height)) ∧
    ((set_layout s v).msg_queue_spacing = (v.msg_queue_spacing)) ∧
    ((set_layout s v).msg_queue_default_rect_width_menu_alive = (v.msg_queue_default_rect_width_menu_alive)) ∧
    ((set_layout s v).msg_queue_default_rect_width = (v.msg_queue_default_rect_width)) ∧
    ((set_layout s v).msg_queue_line_height = (v.msg_queue_line_height)) ∧
    ((set_layout s v).msg_queue = (s.msg_queue)) ∧
    ((set_layout s v).current_msgs = (s.current_msgs)) ∧
    ((set_layout s v).msgs = (s.msgs)) ∧
    ((set_layout s v).msgs_next = (s.msgs_next)) ∧
    ((set_layout s v).msgs_freed = (s.msgs_freed)) ∧
    ((set_layout s v).tasks = (s.tasks)) ∧
    ((set_layout s v).anims = (s.anims)) ∧
    ((set_layout s v).timers = (s.timers)) ∧
    ((set_layout s v).regular_line_height = (v.regular_line_height)) ∧
    ((set_layout s v).cheevo_popup_queue = (s.cheevo_popup_queue)) ∧
    ((set_layout s v).cheevo_popup_queue_read_index = (s.cheevo_popup_queue_read_index)) ∧
    ((set_layout s v).cheevo_popup_queue_write_index = (s.cheevo_popup_queue_write_index)) ∧
    ((set_layout s v).cheevo_unfold = (s.cheevo_unfold)) ∧
    ((set_layout s v).cheevo_y = (s.cheevo_y)) ∧
    ((set_layout s v).cheevo_width = (s.cheevo_width)) ∧
    ((set_layout s v).cheevo_height = (s.cheevo_height)) ∧
    ((set_layout s v).generic_anims = (s.generic_anims)) :=
  ⟨rfl, rfl, rfl, rfl, rfl, rfl, rfl, rfl, rfl, rfl, rfl, rfl, rfl, rfl, rfl, rfl, rfl, rfl, rfl, rfl, rfl, rfl, rfl, rfl, rfl, rfl, rfl, rfl, rfl, rfl⟩

@[simp]
theorem set_widgets_active_proj (s : State) (v : Bool) :
    ((set_widgets_active s v).widgets_active = (v)) ∧
    ((set_widgets_active s v).widgets_moving = (s.widgets_moving)) ∧
    ((set_widgets_active s v).widgets_inited = (s.widgets_inited)) ∧
    ((set_widgets_active s v).widgets_persisting = (s.widgets_persisting)) ∧
    ((set_widgets_active s v).msg_queue_has_icons = (s.msg_queue_has_icons)) ∧
    ((set_widgets_active s v).msg_queue_kill = (s.msg_queue_kill)) ∧
    ((set_widgets_active s v).msg_queue_tasks_count = (s.msg_queue_tasks_count)) ∧
    ((set_widgets_active s v).simple_widget_padding = (s.simple_widget_padding)) ∧
    ((set_widgets_active s v).msg_queue_height = (s.msg_queue_height)) ∧
    ((set_widgets_active s v).msg_queue_spacing = (s.msg_queue_spacing)) ∧
    ((set_widgets_active s v).msg_queue_default_rect_width_menu_alive = (s.msg_queue_default_rect_width_menu_alive)) ∧
    ((set_widgets_active s v).msg_queue_default_rect_width = (s.msg_queue_default_rect_width)) ∧
    ((set_widgets_active s v).msg_queue_line_height = (s.msg_queue_line_height)) ∧
    ((set_widgets_active s v).msg_queue = (s.msg_queue)) ∧
    ((set_widgets_active s v).current_msgs = (s.current_msgs)) ∧
    ((set_widgets_active s v).msgs = (s.msgs)) ∧
    ((set_widgets_active s v).msgs_next = (s.msgs_next)) ∧
    ((set_widgets_active s v).msgs_freed = (s.msgs_freed)) ∧
    ((set_widgets_active s v).tasks = (s.tasks)) ∧
    ((set_widgets_active s v).anims = (s.anims)) ∧
    ((set_widgets_active s v).timers = (s.timers)) ∧
    ((set_widgets_active s v).regular_line_height = (s.regular_line_height)) ∧
    ((set_widgets_active s v).cheevo_popup_queue = (s.cheevo_popup_queue)) ∧
    ((set_widgets_active s v).cheevo_popup_queue_read_index = (s.cheevo_popup_queue_read_index)) ∧
    ((set_widgets_active s v).cheevo_popup_queue_write_index = (s.cheevo_popup_queue_write_index)) ∧
    ((set_widgets_active s v).cheevo_unfold = (s.cheevo_unfold)) ∧
    ((set_widgets_active s v).cheevo_y = (s.cheevo_y)) ∧
    ((set_widgets_active s v).cheevo_width = (s.cheevo_width)) ∧
    ((set_widgets_active s v).cheevo_height = (s.cheevo_height)) ∧
    ((set_widgets_active s v).generic_anims = (s.generic_anims)) :=
  ⟨rfl, rfl, rfl, rfl, rfl, rfl, rfl, rfl, rfl, rfl, rfl, rfl, rfl, rfl, rfl, rfl, rfl, rfl, rfl, rfl, rfl, rfl, rfl, rfl, rfl, rfl, rfl, rfl, rfl, rfl⟩

@[simp]
theorem set_widgets_moving_proj (s : State) (v : Bool) :
    ((set_widgets_moving s v).widgets_active = (s.widgets_active)) ∧
    ((set_widgets_moving s v).widgets_moving = (v)) ∧
    ((set_widgets_moving s v).widgets_inited = (s.widgets_inited)) ∧
    ((set_widgets_moving s v).widgets_persisting = (s.widgets_persisting)) ∧
    ((set_widgets_moving s v).msg_queue_has_icons = (s.msg_queue_has_icons)) ∧
    ((set_widgets_moving s v).msg_queue_kill = (s.msg_queue_kill)) ∧
    ((set_widgets_moving s v).msg_queue_tasks_count = (s.msg_queue_tasks_count)) ∧
    ((set_widgets_moving s v).simple_widget_padding = (s.simple_widget_padding)) ∧
    ((set_widgets_moving s v).msg_queue_height = (s.msg_queue_height)) ∧
    ((set_widgets_moving s v).msg_queue_spacing = (s.msg_queue_spacing)) ∧
    ((set_widgets_moving s v).msg_queue_default_rect_width_menu_alive = (s.msg_queue_default_rect_width_menu_alive)) ∧
    ((set_widgets_moving s v).msg_queue_default_rect_width = (s.msg_queue_default_rect_width)) ∧
    ((set_widgets_moving s v).msg_queue_line_height = (s.msg_queue_line_height)) ∧
    ((set_widgets_moving s v).msg_queue = (s.msg_queue)) ∧
    ((set_widgets_moving s v).current_msgs = (s.current_msgs)) ∧
    ((set_widgets_moving s v).msgs = (s.msgs)) ∧
    ((set_widgets_moving s v).msgs_next = (s.msgs_next)) ∧
    ((set_widgets_moving s v).msgs_freed = (s.msgs_freed)) ∧
    ((set_widgets_moving s v).tasks = (s.tasks)) ∧
    ((set_widgets_moving s v).anims = (s.anims)) ∧
    ((set_widgets_moving s v).timers = (s.timers)) ∧
    ((set_widgets_moving s v).regular_line_height = (s.regular_line_height)) ∧
    ((set_widgets_moving s v).cheevo_popup_queue = (s.cheevo_popup_queue)) ∧
    ((set_widgets_moving s v).cheevo_popup_queue_read_index = (s.cheevo_popup_queue_read_index)) ∧
    ((set_widgets_moving s v).cheevo_popup_queue_write_index = (s.cheevo_popup_queue_write_index)) ∧
    ((set_widgets_moving s v).cheevo_unfold = (s.cheevo_unfold)) ∧
    ((set_widgets_moving s v).cheevo_y = (s.cheevo_y)) ∧
    ((set_widgets_moving s v).cheevo_width = (s.cheevo_width)) ∧
    ((set_widgets_moving s v).cheevo_height = (s.cheevo_height)) ∧
    ((set_widgets_moving s v).generic_anims = (s.generic_anims)) :=
  ⟨rfl, rfl, rfl, rfl, rfl, rfl, rfl, rfl, rfl, rfl, rfl, rfl, rfl, rfl, rfl, rfl, rfl, rfl, rfl, rfl, rfl, rfl, rfl, rfl, rfl, rfl, rfl, rfl, rfl, rfl⟩

@[simp]
theorem set_widgets_inited_proj (s : State) (v : Bool) :
    ((set_widgets_inited s v).widgets_active = (s.widgets_active)) ∧
    ((set_widgets_inited s v).widgets_moving = (s.widgets_moving)) ∧
    ((set_widgets_inited s v).widgets_inited = (v)) ∧
    ((set_widgets_inited s v).widgets_persisting = (s.widgets_persisting)) ∧
    ((set_widgets_inited s v).msg_queue_has_icons = (s.msg_queue_has_icons)) ∧
    ((set_widgets_inited s v).msg_queue_kill = (s.msg_queue_kill)) ∧
    ((set_widgets_inited s v).msg_queue_tasks_count = (s.msg_queue_tasks_count)) ∧
    ((set_widgets_inited s v).simple_widget_padding = (s.simple_widget_padding)) ∧
    ((set_widgets_inited s v).msg_queue_height = (s.msg_queue_height)) ∧
    ((set_widgets_inited s v).msg_queue_spacing = (s.msg_queue_spacing)) ∧
    ((set_widgets_inited s v).msg_queue_default_rect_width_menu_alive = (s.msg_queue_default_rect_width_menu_alive)) ∧
    ((set_widgets_inited s v).msg_queue_default_rect_width = (s.msg_queue_default_rect_width)) ∧
    ((set_widgets_inited s v).msg_queue_line_height = (s.msg_queue_line_height)) ∧
    ((set_widgets_inited s v).msg_queue = (s.msg_queue)) ∧
    ((set_widgets_inited s v).current_msgs = (s.current_msgs)) ∧
    ((set_widgets_inited s v).msgs = (s.msgs)) ∧
    ((set_widgets_inited s v).msgs_next = (s.msgs_next)) ∧
    ((set_widgets_inited s v).msgs_freed = (s.msgs_freed)) ∧
    ((set_widgets_inited s v).tasks = (s.tasks)) ∧
    ((set_widgets_inited s v).anims = (s.anims)) ∧
    ((set_widgets_inited s v).timers = (s.timers)) ∧
    ((set_widgets_inited s v).regular_line_height = (s.regular_line_height)) ∧
    ((set_widgets_inited s v).cheevo_popup_queue = (s.cheevo_popup_queue)) ∧
    ((set_widgets_inited s v).cheevo_popup_queue_read_index = (s.cheevo_popup_queue_read_index)) ∧
    ((set_widgets_inited s v).cheevo_popup_queue_write_index = (s.cheevo_popup_queue_write_index)) ∧
    ((set_widgets_inited s v).cheevo_unfold = (s.cheevo_unfold)) ∧
    ((set_widgets_inited s v).cheevo_y = (s.cheevo_y)) ∧
    ((set_widgets_inited s v).cheevo_width = (s.cheevo_width)) ∧
    ((set_widgets_inited s v).cheevo_height = (s.cheevo_height)) ∧
    ((set_widgets_inited s v).generic_anims = (s.generic_anims)) :=
  ⟨rfl, rfl, rfl, rfl, rfl, rfl, rfl, rfl, rfl, rfl, rfl, rfl, rfl, rfl, rfl, rfl, rfl, rfl, rfl, rfl, rfl, rfl, rfl, rfl, rfl, rfl, rfl, rfl, rfl, rfl⟩

@[simp]
theorem set_msg_queue_has_icons_proj (s : State) (v : Bool) :
    ((set_msg_queue_has_icons s v).widgets_active = (s.widgets_active)) ∧
    ((set_msg_queue_has_icons s v).widgets_moving = (s.widgets_moving)) ∧
    ((set_msg_queue_has_icons s v).widgets_inited = (s.widgets_inited)) ∧
    ((set_msg_queue_has_icons s v).widgets_persisting = (s.widgets_persisting)) ∧
    ((set_msg_queue_has_icons s v).msg_queue_has_icons = (v)) ∧
    ((set_msg_queue_has_icons s v).msg_queue_kill = (s.msg_queue_kill)) ∧
    ((set_msg_queue_has_icons s v).msg_queue_tasks_count = (s.msg_queue_tasks_count)) ∧
    ((set_msg_queue_has_icons s v).simple_widget_padding = (s.simple_widget_padding)) ∧
    ((set_msg_queue_has_icons s v).msg_queue_height = (s.msg_queue_height)) ∧
    ((set_msg_queue_has_icons s v).msg_queue_spacing = (s.msg_queue_spacing)) ∧
    ((set_msg_queue_has_icons s v).msg_queue_default_rect_width_menu_alive = (s.msg_queue_default_rect_width_menu_alive)) ∧
    ((set_msg_queue_has_icons s v).msg_queue_default_rect_width = (s.msg_queue_default_rect_width)) ∧
    ((set_msg_queue_has_icons s v).msg_queue_line_height = (s.msg_queue_line_height)) ∧
    ((set_msg_queue_has_icons s v).msg_queue = (s.msg_queue)) ∧
    ((set_msg_queue_has_icons s v).current_msgs = (s.current_msgs)) ∧
    ((set_msg_queue_has_icons s v).msgs = (s.msgs)) ∧
    ((set_msg_queue_has_icons s v).msgs_next = (s.msgs_next)) ∧
    ((set_msg_queue_has_icons s v).msgs_freed = (s.msgs_freed)) ∧
    ((set_msg_queue_has_icons s v).tasks = (s.tasks)) ∧
    ((set_msg_queue_has_icons s v).anims = (s.anims)) ∧
    ((set_msg_queue_has_icons s v).timers = (s.timers)) ∧
    ((set_msg_queue_has_icons s v).regular_line_height = (s.regular_line_height)) ∧
    ((set_msg_queue_has_icons s v).cheevo_popup_queue = (s.cheevo_popup_queue)) ∧
    ((set_msg_queue_has_icons s v).cheevo_popup_queue_read_index = (s.cheevo_popup_queue_read_index)) ∧
    ((set_msg_queue_has_icons s v).cheevo_popup_queue_write_index = (s.cheevo_popup_queue_write_index)) ∧
    ((set_msg_queue_has_icons s v).cheevo_unfold = (s.cheevo_unfold)) ∧
    ((set_msg_queue_has_icons s v).cheevo_y = (s.cheevo_y)) ∧
    ((set_msg_queue_has_icons s v).cheevo_width = (s.cheevo_width)) ∧
    ((set_msg_queue_has_icons s v).cheevo_height = (s.cheevo_height)) ∧
    ((set_msg_queue_has_icons s v).generic_anims = (s.generic_anims)) :=
  ⟨rfl, rfl, rfl, rfl, rfl, rfl, rfl, rfl, rfl, rfl, rfl, rfl, rfl, rfl, rfl, rfl, rfl, rfl, rfl, rfl, rfl, rfl, rfl, rfl, rfl, rfl, rfl, rfl, rfl, rfl⟩

@[simp]
theorem set_msg_queue_kill_proj (s : State) (v : Nat) :
    ((set_msg_queue_kill s v).widgets_active = (s.widgets_active)) ∧
    ((set_msg_queue_kill s v).widgets_moving = (s.widgets_moving)) ∧
    ((set_msg_queue_kill s v).widgets_inited = (s.widgets_inited)) ∧
    ((set_msg_queue_kill s v).widgets_persisting = (s.widgets_persisting)) ∧
    ((set_msg_queue_kill s v).msg_queue_has_icons = (s.msg_queue_has_icons)) ∧
    ((set_msg_queue_kill s v).msg_queue_kill = (v)) ∧
    ((set_msg_queue_kill s v).msg_queue_tasks_count = (s.msg_queue_tasks_count)) ∧
    ((set_msg_queue_kill s v).simple_widget_padding = (s.simple_widget_padding)) ∧
    ((set_msg_queue_kill s v).msg_queue_height = (s.msg_queue_height)) ∧
    ((set_msg_queue_kill s v).msg_queue_spacing = (s.msg_queue_spacing)) ∧
    ((set_msg_queue_kill s v).msg_queue_default_rect_width_menu_alive = (s.msg_queue_default_rect_width_menu_alive)) ∧
    ((set_msg_queue_kill s v).msg_queue_default_rect_width = (s.msg_queue_default_rect_width)) ∧
    ((set_msg_queue_kill s v).msg_queue_line_height = (s.msg_queue_line_height)) ∧
    ((set_msg_queue_kill s v).msg_queue = (s.msg_queue)) ∧
    ((set_msg_queue_kill s v).current_msgs = (s.current_msgs)) ∧
    ((set_msg_queue_kill s v).msgs = (s.msgs)) ∧
    ((set_msg_queue_kill s v).msgs_next = (s.msgs_next)) ∧
    ((set_msg_queue_kill s v).msgs_freed = (s.msgs_freed)) ∧
    ((set_msg_queue_kill s v).tasks = (s.tasks)) ∧
    ((set_msg_queue_kill s v).anims = (s.anims)) ∧
    ((set_msg_queue_kill s v).timers = (s.timers)) ∧
    ((set_msg_queue_kill s v).regular_line_height = (s.regular_line_height)) ∧
    ((set_msg_queue_kill s v).cheevo_popup_queue = (s.cheevo_popup_queue)) ∧
    ((set_msg_queue_kill s v).cheevo_popup_queue_read_index = (s.cheevo_popup_queue_read_index)) ∧
    ((set_msg_queue_kill s v).cheevo_popup_queue_write_index = (s.cheevo_popup_queue_write_index)) ∧
    ((set_msg_queue_kill s v).cheevo_unfold = (s.cheevo_unfold)) ∧
    ((set_msg_queue_kill s v).cheevo_y = (s.cheevo_y)) ∧
    ((set_msg_queue_kill s v).cheevo_width = (s.cheevo_width)) ∧
    ((set_msg_queue_kill s v).cheevo_height = (s.cheevo_height)) ∧
    ((set_msg_queue_kill s v).generic_anims = (s.generic_anims)) :=
  ⟨rfl, rfl, rfl, rfl, rfl, rfl, rfl, rfl, rfl, rfl, rfl, rfl, rfl, rfl, rfl, rfl, rfl, rfl, rfl, rfl, rfl, rfl, rfl, rfl, rfl, rfl, rfl, rfl, rfl, rfl⟩

@[simp]
theorem set_msg_queue_tasks_count_proj (s : State) (v : Nat) :
    ((set_msg_queue_tasks_count s v).widgets_active = (s.widgets_active)) ∧
    ((set_msg_queue_tasks_count s v).widgets_moving = (s.widgets_moving)) ∧
    ((set_msg_queue_tasks_count s v).widgets_inited = (s.widgets_inited)) ∧
    ((set_msg_queue_tasks_count s v).widgets_persisting = (s.widgets_persisting)) ∧
    ((set_msg_queue_tasks_count s v).msg_queue_has_icons = (s.msg_queue_has_icons)) ∧
    ((set_msg_queue_tasks_count s v).msg_queue_kill = (s.msg_queue_kill)) ∧
    ((set_msg_queue_tasks_count s v).msg_queue_tasks_count = (v)) ∧
    ((set_msg_queue_tasks_count s v).simple_widget_padding = (s.simple_widget_padding)) ∧
    ((set_msg_queue_tasks_count s v).msg_queue_height = (s.msg_queue_height)) ∧
    ((set_msg_queue_tasks_count s v).msg_queue_spacing = (s.msg_queue_spacing)) ∧
    ((set_msg_queue_tasks_count s v).msg_queue_default_rect_width_menu_alive = (s.msg_queue_default_rect_width_menu_alive)) ∧
    ((set_msg_queue_tasks_count s v).msg_queue_default_rect_width = (s.msg_queue_default_rect_width)) ∧
    ((set_msg_queue_tasks_count s v).msg_queue_line_height = (s.msg_queue_line_height)) ∧
    ((set_msg_queue_tasks_count s v).msg_queue = (s.msg_queue)) ∧
    ((set_msg_queue_tasks_count s v).current_msgs = (s.current_msgs)) ∧
    ((set_msg_queue_tasks_count s v).msgs = (s.msgs)) ∧
    ((set_msg_queue_tasks_count s v).msgs_next = (s.msgs_next)) ∧
    ((set_msg_queue_tasks_count s v).msgs_freed = (s.msgs_freed)) ∧
    ((set_msg_queue_tasks_count s v).tasks = (s.tasks)) ∧
    ((set_msg_queue_tasks_count s v).anims = (s.anims)) ∧
    ((set_msg_queue_tasks_count s v).timers = (s.timers)) ∧
    ((set_msg_queue_tasks_count s v).regular_line_height = (s.regular_line_height)) ∧
    ((set_msg_queue_tasks_count s v).cheevo_popup_queue = (s.cheevo_popup_queue)) ∧
    ((set_msg_queue_tasks_count s v).cheevo_popup_queue_read_index = (s.cheevo_popup_queue_read_index)) ∧
    ((set_msg_queue_tasks_count s v).cheevo_popup_queue_write_index = (s.cheevo_popup_queue_write_index)) ∧
    ((set_msg_queue_tasks_count s v).cheevo_unfold = (s.cheevo_unfold)) ∧
    ((set_msg_queue_tasks_count s v).cheevo_y = (s.cheevo_y)) ∧
    ((set_msg_queue_tasks_count s v).cheevo_width = (s.cheevo_width)) ∧
    ((set_msg_queue_tasks_count s v).cheevo_height = (s.cheevo_height)) ∧
    ((set_msg_queue_tasks_count s v).generic_anims = (s.generic_anims)) :=
  ⟨rfl, rfl, rfl, rfl, rfl, rfl, rfl, rfl, rfl, rfl, rfl, rfl, rfl, rfl, rfl, rfl, rfl, rfl, rfl, rfl, rfl, rfl, rfl, rfl, rfl, rfl, rfl, rfl, rfl, rfl⟩

@[simp]
theorem set_msg_queue_proj (s : State) (v : Option fifo_buffer_t) :
    ((set_msg_queue s v).widgets_active = (s.widgets_active)) ∧
    ((set_msg_queue s v).widgets_moving = (s.widgets_moving)) ∧
    ((set_msg_queue s v).widgets_inited = (s.widgets_inited)) ∧
    ((set_msg_queue s v).widgets_persisting = (s.widgets_persisting)) ∧
    ((set_msg_queue s v).msg_queue_has_icons = (s.msg_queue_has_icons)) ∧
    ((set_msg_queue s v).msg_queue_kill = (s.msg_queue_kill)) ∧
    ((set_msg_queue s v).msg_queue_tasks_count = (s.msg_queue_tasks_count)) ∧
    ((set_msg_queue s v).simple_widget_padding = (s.simple_widget_padding)) ∧
    ((set_msg_queue s v).msg_queue_height = (s.msg_queue_height)) ∧
    ((set_msg_queue s v).msg_queue_spacing = (s.msg_queue_spacing)) ∧
    ((set_msg_queue s v).msg_queue_default_rect_width_menu_alive = (s.msg_queue_default_rect_width_menu_alive)) ∧
    ((set_msg_queue s v).msg_queue_default_rect_width = (s.msg_queue_default_rect_width)) ∧
    ((set_msg_queue s v).msg_queue_line_height = (s.msg_queue_line_height)) ∧
    ((set_msg_queue s v).msg_queue = (v)) ∧
    ((set_msg_queue s v).current_msgs = (s.current_msgs)) ∧
    ((set_msg_queue s v).msgs = (s.msgs)) ∧
    ((set_msg_queue s v).msgs_next = (s.msgs_next)) ∧
    ((set_msg_queue s v).msgs_freed = (s.msgs_freed)) ∧
    ((set_msg_queue s v).tasks = (s.tasks)) ∧
    ((set_msg_queue s v).anims = (s.anims)) ∧
    ((set_msg_queue s v).timers = (s.timers)) ∧
    ((set_msg_queue s v).regular_line_height = (s.regular_line_height)) ∧
    ((set_msg_queue s v).cheevo_popup_queue = (s.cheevo_popup_queue)) ∧
    ((set_msg_queue s v).cheevo_popup_queue_read_index = (s.cheevo_popup_queue_read_index)) ∧
    ((set_msg_queue s v).cheevo_popup_queue_write_index = (s.cheevo_popup_queue_write_index)) ∧
    ((set_msg_queue s v).cheevo_unfold = (s.cheevo_unfold)) ∧
    ((set_msg_queue s v).cheevo_y = (s.cheevo_y)) ∧
    ((set_msg_queue s v).cheevo_width = (s.cheevo_width)) ∧
    ((set_msg_queue s v).cheevo_height = (s.cheevo_height)) ∧
    ((set_msg_queue s v).generic_anims = (s.generic_anims)) :=
  ⟨rfl, rfl, rfl, rfl, rfl, rfl, rfl, rfl, rfl, rfl, rfl, rfl, rfl, rfl, rfl, rfl, rfl, rfl, rfl, rfl, rfl, rfl, rfl, rfl, rfl, rfl, rfl, rfl, rfl, rfl⟩

@[simp]
theorem set_current_msgs_proj (s : State) (v : Option file_list_t) :
    ((set_current_msgs s v).widgets_active = (s.widgets_active)) ∧
    ((set_current_msgs s v).widgets_moving = (s.widgets_moving)) ∧
    ((set_current_msgs s v).widgets_inited = (s.widgets_inited)) ∧
    ((set_current_msgs s v).widgets_persisting = (s.widgets_persisting)) ∧
    ((set_current_msgs s v).msg_queue_has_icons = (s.msg_queue_has_icons)) ∧
    ((set_current_msgs s v).msg_queue_kill = (s.msg_queue_kill)) ∧
    ((set_current_msgs s v).msg_queue_tasks_count = (s.msg_queue_tasks_count)) ∧
    ((set_current_msgs s v).simple_widget_padding = (s.simple_widget_padding)) ∧
    ((set_current_msgs s v).msg_queue_height = (s.msg_queue_height)) ∧
    ((set_current_msgs s v).msg_queue_spacing = (s.msg_queue_spacing)) ∧
    ((set_current_msgs s v).msg_queue_default_rect_width_menu_alive = (s.msg_queue_default_rect_width_menu_alive)) ∧
    ((set_current_msgs s v).msg_queue_default_rect_width = (s.msg_queue_default_rect_width)) ∧
    ((set_current_msgs s v).msg_queue_line_height = (s.msg_queue_line_height)) ∧
    ((set_current_msgs s v).msg_queue = (s.msg_queue)) ∧
    ((set_current_msgs s v).current_msgs = (v)) ∧
    ((set_current_msgs s v).msgs = (s.msgs)) ∧
    ((set_current_msgs s v).msgs_next = (s.msgs_next)) ∧
    ((set_current_msgs s v).msgs_freed = (s.msgs_freed)) ∧
    ((set_current_msgs s v).tasks = (s.tasks)) ∧
    ((set_current_msgs s v).anims = (s.anims)) ∧
    ((set_current_msgs s v).timers = (s.timers)) ∧
    ((set_current_msgs s v).regular_line_height = (s.regular_line_height)) ∧
    ((set_current_msgs s v).cheevo_popup_queue = (s.cheevo_popup_queue)) ∧
    ((set_current_msgs s v).cheevo_popup_queue_read_index = (s.cheevo_popup_queue_read_index)) ∧
    ((set_current_msgs s v).cheevo_popup_queue_write_index = (s.cheevo_popup_queue_write_index)) ∧
    ((set_current_msgs s v).cheevo_unfold = (s.cheevo_unfold)) ∧
    ((set_current_msgs s v).cheevo_y = (s.cheevo_y)) ∧
    ((set_current_msgs s v).cheevo_width = (s.cheevo_width)) ∧
    ((set_current_msgs s v).cheevo_height = (s.cheevo_height)) ∧
    ((set_current_msgs s v).generic_anims = (s.generic_anims)) :=
  ⟨rfl, rfl, rfl, rfl, rfl, rfl, rfl, rfl, rfl, rfl, rfl, rfl, rfl, rfl, rfl, rfl, rfl, rfl, rfl, rfl, rfl, rfl, rfl, rfl, rfl, rfl, rfl, rfl, rfl, rfl⟩

@[simp]
theorem set_msgs_next_proj (s : State) (v : Nat) :
    ((set_msgs_next s v).widgets_active = (s.widgets_active)) ∧
    ((set_msgs_next s v).widgets_moving = (s.widgets_moving)) ∧
    ((set_msgs_next s v).widgets_inited = (s.widgets_inited)) ∧
    ((set_msgs_next s v).widgets_persisting = (s.widgets_persisting)) ∧
    ((set_msgs_next s v).msg_queue_has_icons = (s.msg_queue_has_icons)) ∧
    ((set_msgs_next s v).msg_queue_kill = (s.msg_queue_kill)) ∧
    ((set_msgs_next s v).msg_queue_tasks_count = (s.msg_queue_tasks_count)) ∧
    ((set_msgs_next s v).simple_widget_padding = (s.simple_widget_padding)) ∧
    ((set_msgs_next s v).msg_queue_height = (s.msg_queue_height)) ∧
    ((set_msgs_next s v).msg_queue_spacing = (s.msg_queue_spacing)) ∧
    ((set_msgs_next s v).msg_queue_default_rect_width_menu_alive = (s.msg_queue_default_rect_width_menu_alive)) ∧
    ((set_msgs_next s v).msg_queue_default_rect_width = (s.msg_queue_default_rect_width)) ∧
    ((set_msgs_next s v).msg_queue_line_height = (s.msg_queue_line_height)) ∧
    ((set_msgs_next s v).msg_queue = (s.msg_queue)) ∧
    ((set_msgs_next s v).current_msgs = (s.current_msgs)) ∧
    ((set_msgs_next s v).msgs = (s.msgs)) ∧
    ((set_msgs_next s v).msgs_next = (v)) ∧
    ((set_msgs_next s v).msgs_freed = (s.msgs_freed)) ∧
    ((set_msgs_next s v).tasks = (s.tasks)) ∧
    ((set_msgs_next s v).anims = (s.anims)) ∧
    ((set_msgs_next s v).timers = (s.timers)) ∧
    ((set_msgs_next s v).regular_line_height = (s.regular_line_height)) ∧
    ((set_msgs_next s v).cheevo_popup_queue = (s.cheevo_popup_queue)) ∧
    ((set_msgs_next s v).cheevo_popup_queue_read_index = (s.cheevo_popup_queue_read_index)) ∧
    ((set_msgs_next s v).cheevo_popup_queue_write_index = (s.cheevo_popup_queue_write_index)) ∧
    ((set_msgs_next s v).cheevo_unfold = (s.cheevo_unfold)) ∧
    ((set_msgs_next s v).cheevo_y = (s.cheevo_y)) ∧
    ((set_msgs_next s v).cheevo_width = (s.cheevo_width)) ∧
    ((set_msgs_next s v).cheevo_height = (s.cheevo_height)) ∧
    ((set_msgs_next s v).generic_anims = (s.generic_anims)) :=
  ⟨rfl, rfl, rfl, rfl, rfl, rfl, rfl, rfl, rfl, rfl, rfl, rfl, rfl, rfl, rfl, rfl, rfl, rfl, rfl, rfl, rfl, rfl, rfl, rfl, rfl, rfl, rfl, rfl, rfl, rfl⟩

@[simp]
theorem set_msgs_freed_proj (s : State) (v : List Nat) :
    ((set_msgs_freed s v).widgets_active = (s.widgets_active)) ∧
    ((set_msgs_freed s v).widgets_moving = (s.widgets_moving)) ∧
    ((set_msgs_freed s v).widgets_inited = (s.widgets_inited)) ∧
    ((set_msgs_freed s v).widgets_persisting = (s.widgets_persisting)) ∧
    ((set_msgs_freed s v).msg_queue_has_icons = (s.msg_queue_has_icons)) ∧
    ((set_msgs_freed s v).msg_queue_kill = (s.msg_queue_kill)) ∧
    ((set_msgs_freed s v).msg_queue_tasks_count = (s.msg_queue_tasks_count)) ∧
    ((set_msgs_freed s v).simple_widget_padding = (s.simple_widget_padding)) ∧
    ((set_msgs_freed s v).msg_queue_height = (s.msg_queue_height)) ∧
    ((set_msgs_freed s v).msg_queue_spacing = (s.msg_queue_spacing)) ∧
    ((set_msgs_freed s v).msg_queue_default_rect_width_menu_alive = (s.msg_queue_default_rect_width_menu_alive)) ∧
    ((set_msgs_freed s v).msg_queue_default_rect_width = (s.msg_queue_default_rect_width)) ∧
    ((set_msgs_freed s v).msg_queue_line_height = (s.msg_queue_line_height)) ∧
    ((set_msgs_freed s v).msg_queue = (s.msg_queue)) ∧
    ((set_msgs_freed s v).current_msgs = (s.current_msgs)) ∧
    ((set_msgs_freed s v).msgs = (s.msgs)) ∧
    ((set_msgs_freed s v).msgs_next = (s.msgs_next)) ∧
    ((set_msgs_freed s v).msgs_freed = (v)) ∧
    ((set_msgs_freed s v).tasks = (s.tasks)) ∧
    ((set_msgs_freed s v).anims = (s.anims)) ∧
    ((set_msgs_freed s v).timers = (s.timers)) ∧
    ((set_msgs_freed s v).regular_line_height = (s.regular_line_height)) ∧
    ((set_msgs_freed s v).cheevo_popup_queue = (s.cheevo_popup_queue)) ∧
    ((set_msgs_freed s v).cheevo_popup_queue_read_index = (s.cheevo_popup_queue_read_index)) ∧
    ((set_msgs_freed s v).cheevo_popup_queue_write_index = (s.cheevo_popup_queue_write_index)) ∧
    ((set_msgs_freed s v).cheevo_unfold = (s.cheevo_unfold)) ∧
    ((set_msgs_freed s v).cheevo_y = (s.cheevo_y)) ∧
    ((set_msgs_freed s v).cheevo_width = (s.cheevo_width)) ∧
    ((set_msgs_freed s v).cheevo_height = (s.cheevo_height)) ∧
    ((set_msgs_freed s v).generic_anims = (s.generic_anims)) :=
  ⟨rfl, rfl, rfl, rfl, rfl, rfl, rfl, rfl, rfl, rfl, rfl, rfl, rfl, rfl, rfl, rfl, rfl, rfl, rfl, rfl, rfl, rfl, rfl, rfl, rfl, rfl, rfl, rfl, rfl, rfl⟩

@[simp]
theorem set_anims_proj (s : State) (v : List gfx_animation_ctx_entry_t) :
    ((set_anims s v).widgets_active = (s.widgets_active)) ∧
    ((set_anims s v).widgets_moving = (s.widgets_moving)) ∧
    ((set_anims s v).widgets_inited = (s.widgets_inited)) ∧
    ((set_anims s v).widgets_persisting = (s.widgets_persisting)) ∧
    ((set_anims s v).msg_queue_has_icons = (s.msg_queue_has_icons)) ∧
    ((set_anims s v).msg_queue_kill = (s.msg_queue_kill)) ∧
    ((set_anims s v).msg_queue_tasks_count = (s.msg_queue_tasks_count)) ∧
    ((set_anims s v).simple_widget_padding = (s.simple_widget_padding)) ∧
    ((set_anims s v).msg_queue_height = (s.msg_queue_height)) ∧
    ((set_anims s v).msg_queue_spacing = (s.msg_queue_spacing)) ∧
    ((set_anims s v).msg_queue_default_rect_width_menu_alive = (s.msg_queue_default_rect_width_menu_alive)) ∧
    ((set_anims s v).msg_queue_default_rect_width = (s.msg_queue_default_rect_width)) ∧
    ((set_anims s v).msg_queue_line_height = (s.msg_queue_line_height)) ∧
    ((set_anims s v).msg_queue = (s.msg_queue)) ∧
    ((set_anims s v).current_msgs = (s.current_msgs)) ∧
    ((set_anims s v).msgs = (s.msgs)) ∧
    ((set_anims s v).msgs_next = (s.msgs_next)) ∧
    ((set_anims s v).msgs_freed = (s.msgs_freed)) ∧
    ((set_anims s v).tasks = (s.tasks)) ∧
    ((set_anims s v).anims = (v)) ∧
    ((set_anims s v).timers = (s.timers)) ∧
    ((set_anims s v).regular_line_height = (s.regular_line_height)) ∧
    ((set_anims s v).cheevo_popup_queue = (s.cheevo_popup_queue)) ∧
    ((set_anims s v).cheevo_popup_queue_read_index = (s.cheevo_popup_queue_read_index)) ∧
    ((set_anims s v).cheevo_popup_queue_write_index = (s.cheevo_popup_queue_write_index)) ∧
    ((set_anims s v).cheevo_unfold = (s.cheevo_unfold)) ∧
    ((set_anims s v).cheevo_y = (s.cheevo_y)) ∧
    ((set_anims s v).cheevo_width = (s.cheevo_width)) ∧
    ((set_anims s v).cheevo_height = (s.cheevo_height)) ∧
    ((set_anims s v).generic_anims = (s.generic_anims)) :=
  ⟨rfl, rfl, rfl, rfl, rfl, rfl, rfl, rfl, rfl, rfl, rfl, rfl, rfl, rfl, rfl, rfl, rfl, rfl, rfl, rfl, rfl, rfl, rfl, rfl, rfl, rfl, rfl, rfl, rfl, rfl⟩

@[simp]
theorem set_timers_proj (s : State) (v : List gfx_timer_ctx_entry_t) :
    ((set_timers s v).widgets_active = (s.widgets_active)) ∧
    ((set_timers s v).widgets_moving = (s.widgets_moving)) ∧
    ((set_timers s v).widgets_inited = (s.widgets_inited)) ∧
    ((set_timers s v).widgets_persisting = (s.widgets_persisting)) ∧
    ((set_timers s v).msg_queue_has_icons = (s.msg_queue_has_icons)) ∧
    ((set_timers s v).msg_queue_kill = (s.msg_queue_kill)) ∧
    ((set_timers s v).msg_queue_tasks_count = (s.msg_queue_tasks_count)) ∧
    ((set_timers s v).simple_widget_padding = (s.simple_widget_padding)) ∧
    ((set_timers s v).msg_queue_height = (s.msg_queue_height)) ∧
    ((set_timers s v).msg_queue_spacing = (s.msg_queue_spacing)) ∧
    ((set_timers s v).msg_queue_default_rect_width_menu_alive = (s.msg_queue_default_rect_width_menu_alive)) ∧
    ((set_timers s v).msg_queue_default_rect_width = (s.msg_queue_default_rect_width)) ∧
    ((set_timers s v).msg_queue_line_height = (s.msg_queue_line_height)) ∧
    ((set_timers s v).msg_queue = (s.msg_queue)) ∧
    ((set_timers s v).current_msgs = (s.current_msgs)) ∧
    ((set_timers s v).msgs = (s.msgs)) ∧
    ((set_timers s v).msgs_next = (s.msgs_next)) ∧
    ((set_timers s v).msgs_freed = (s.msgs_freed)) ∧
    ((set_timers s v).tasks = (s.tasks)) ∧
    ((set_timers s v).anims = (s.anims)) ∧
    ((set_timers s v).timers = (v)) ∧
    ((set_timers s v).regular_line_height = (s.regular_line_height)) ∧
    ((set_timers s v).cheevo_popup_queue = (s.cheevo_popup_queue)) ∧
    ((set_timers s v).cheevo_popup_queue_read_index = (s.cheevo_popup_queue_read_index)) ∧
    ((set_timers s v).cheevo_popup_queue_write_index = (s.cheevo_popup_queue_write_index)) ∧
    ((set_timers s v).cheevo_unfold = (s.cheevo_unfold)) ∧
    ((set_timers s v).cheevo_y = (s.cheevo_y)) ∧
    ((set_timers s v).cheevo_width = (s.cheevo_width)) ∧
    ((set_timers s v).cheevo_height = (s.cheevo_height)) ∧
    ((set_timers s v).generic_anims = (s.generic_anims)) :=
  ⟨rfl, rfl, rfl, rfl, rfl, rfl, rfl, rfl, rfl, rfl, rfl, rfl, rfl, rfl, rfl, rfl, rfl, rfl, rfl, rfl, rfl, rfl, rfl, rfl, rfl, rfl, rfl, rfl, rfl, rfl⟩

@[simp]
theorem set_cheevo_popup_queue_proj (s : State) (v : Int → cheevo_popup) :
    ((set_cheevo_popup_queue s v).widgets_active = (s.widgets_active)) ∧
    ((set_cheevo_popup_queue s v).widgets_moving = (s.widgets_moving)) ∧
    ((set_cheevo_popup_queue s v).widgets_inited = (s.widgets_inited)) ∧
    ((set_cheevo_popup_queue s v).widgets_persisting = (s.widgets_persisting)) ∧
    ((set_cheevo_popup_queue s v).msg_queue_has_icons = (s.msg_queue_has_icons)) ∧
    ((set_cheevo_popup_queue s v).msg_queue_kill = (s.msg_queue_kill)) ∧
    ((set_cheevo_popup_queue s v).msg_queue_tasks_count = (s.msg_queue_tasks_count)) ∧
    ((set_cheevo_popup_queue s v).simple_widget_padding = (s.simple_widget_padding)) ∧
    ((set_cheevo_popup_queue s v).msg_queue_height = (s.msg_queue_height)) ∧
    ((set_cheevo_popup_queue s v).msg_queue_spacing = (s.msg_queue_spacing)) ∧
    ((set_cheevo_popup_queue s v).msg_queue_default_rect_width_menu_alive = (s.msg_queue_default_rect_width_menu_alive)) ∧
    ((set_cheevo_popup_queue s v).msg_queue_default_rect_width = (s.msg_queue_default_rect_width)) ∧
    ((set_cheevo_popup_queue s v).msg_queue_line_height = (s.msg_queue_line_height)) ∧
    ((set_cheevo_popup_queue s v).msg_queue = (s.msg_queue)) ∧
    ((set_cheevo_popup_queue s v).current_msgs = (s.current_msgs)) ∧
    ((set_cheevo_popup_queue s v).msgs = (s.msgs)) ∧
    ((set_cheevo_popup_queue s v).msgs_next = (s.msgs_next)) ∧
    ((set_cheevo_popup_queue s v).msgs_freed = (s.msgs_freed)) ∧
    ((set_cheevo_popup_queue s v).tasks = (s.tasks)) ∧
    ((set_cheevo_popup_queue s v).anims = (s.anims)) ∧
    ((set_cheevo_popup_queue s v).timers = (s.timers)) ∧
    ((set_cheevo_popup_queue s v).regular_line_height = (s.regular_line_height)) ∧
    ((set_cheevo_popup_queue s v).cheevo_popup_queue = (v)) ∧
    ((set_cheevo_popup_queue s v).cheevo_popup_queue_read_index = (s.cheevo_popup_queue_read_index)) ∧
    ((set_cheevo_popup_queue s v).cheevo_popup_queue_write_index = (s.cheevo_popup_queue_write_index)) ∧
    ((set_cheevo_popup_queue s v).cheevo_unfold = (s.cheevo_unfold)) ∧
    ((set_cheevo_popup_queue s v).cheevo_y = (s.cheevo_y)) ∧
    ((set_cheevo_popup_queue s v).cheevo_width = (s.cheevo_width)) ∧
    ((set_cheevo_popup_queue s v).cheevo_height = (s.cheevo_height)) ∧
    ((set_cheevo_popup_queue s v).generic_anims = (s.generic_anims)) :=
  ⟨rfl, rfl, rfl, rfl, rfl, rfl, rfl, rfl, rfl, rfl, rfl, rfl, rfl, rfl, rfl, rfl, rfl, rfl, rfl, rfl, rfl, rfl, rfl, rfl, rfl, rfl, rfl, rfl, rfl, rfl⟩

@[simp]
theorem set_cheevo_popup_queue_read_index_proj (s : State) (v : Int) :
    ((set_cheevo_popup_queue_read_index s v).widgets_active = (s.widgets_active)) ∧
    ((set_cheevo_popup_queue_read_index s v).widgets_moving = (s.widgets_moving)) ∧
    ((set_cheevo_popup_queue_read_index s v).widgets_inited = (s.widgets_inited)) ∧
    ((set_cheevo_popup_queue_read_index s v).widgets_persisting = (s.widgets_persisting)) ∧
    ((set_cheevo_popup_queue_read_index s v).msg_queue_has_icons = (s.msg_queue_has_icons)) ∧
    ((set_cheevo_popup_queue_read_index s v).msg_queue_kill = (s.msg_queue_kill)) ∧
    ((set_cheevo_popup_queue_read_index s v).msg_queue_tasks_count = (s.msg_queue_tasks_count)) ∧
    ((set_cheevo_popup_queue_read_index s v).simple_widget_padding = (s.simple_widget_padding)) ∧
    ((set_cheevo_popup_queue_read_index s v).msg_queue_height = (s.msg_queue_height)) ∧
    ((set_cheevo_popup_queue_read_index s v).msg_queue_spacing = (s.msg_queue_spacing)) ∧
    ((set_cheevo_popup_queue_read_index s v).msg_queue_default_rect_width_menu_alive = (s.msg_queue_default_rect_width_menu_alive)) ∧
    ((set_cheevo_popup_queue_read_index s v).msg_queue_default_rect_width = (s.msg_queue_default_rect_width)) ∧
    ((set_cheevo_popup_queue_read_index s v).msg_queue_line_height = (s.msg_queue_line_height)) ∧
    ((set_cheevo_popup_queue_read_index s v).msg_queue = (s.msg_queue)) ∧
    ((set_cheevo_popup_queue_read_index s v).current_msgs = (s.current_msgs)) ∧
    ((set_cheevo_popup_queue_read_index s v).msgs = (s.msgs)) ∧
    ((set_cheevo_popup_queue_read_index s v).msgs_next = (s.msgs_next)) ∧
    ((set_cheevo_popup_queue_read_index s v).msgs_freed = (s.msgs_freed)) ∧
    ((set_cheevo_popup_queue_read_index s v).tasks = (s.tasks)) ∧
    ((set_cheevo_popup_queue_read_index s v).anims = (s.anims)) ∧
    ((set_cheevo_popup_queue_read_index s v).timers = (s.timers)) ∧
    ((set_cheevo_popup_queue_read_index s v).regular_line_height = (s.regular_line_height)) ∧
    ((set_cheevo_popup_queue_read_index s v).cheevo_popup_queue = (s.cheevo_popup_queue)) ∧
    ((set_cheevo_popup_queue_read_index s v).cheevo_popup_queue_read_index = (v)) ∧
    ((set_cheevo_popup_queue_read_index s v).cheevo_popup_queue_write_index = (s.cheevo_popup_queue_write_index)) ∧
    ((set_cheevo_popup_queue_read_index s v).cheevo_unfold = (s.cheevo_unfold)) ∧
    ((set_cheevo_popup_queue_read_index s v).cheevo_y = (s.cheevo_y)) ∧
    ((set_cheevo_popup_queue_read_index s v).cheevo_width = (s.cheevo_width)) ∧
    ((set_cheevo_popup_queue_read_index s v).cheevo_height = (s.cheevo_height)) ∧
    ((set_cheevo_popup_queue_read_index s v).generic_anims = (s.generic_anims)) :=
  ⟨rfl, rfl, rfl, rfl, rfl, rfl, rfl, rfl, rfl, rfl, rfl, rfl, rfl, rfl, rfl, rfl, rfl, rfl, rfl, rfl, rfl, rfl, rfl, rfl, rfl, rfl, rfl, rfl, rfl, rfl⟩

@[simp]
theorem set_cheevo_popup_queue_write_index_proj (s : State) (v : Int) :
    ((set_cheevo_popup_queue_write_index s v).widgets_active = (s.widgets_active)) ∧
    ((set_cheevo_popup_queue_write_index s v).widgets_moving = (s.widgets_moving)) ∧
    ((set_cheevo_popup_queue_write_index s v).widgets_inited = (s.widgets_inited)) ∧
    ((set_cheevo_popup_queue_write_index s v).widgets_persisting = (s.widgets_persisting)) ∧
    ((set_cheevo_popup_queue_write_index s v).msg_queue_has_icons = (s.msg_queue_has_icons)) ∧
    ((set_cheevo_popup_queue_write_index s v).msg_queue_kill = (s.msg_queue_kill)) ∧
    ((set_cheevo_popup_queue_write_index s v).msg_queue_tasks_count = (s.msg_queue_tasks_count)) ∧
    ((set_cheevo_popup_queue_write_index s v).simple_widget_padding = (s.simple_widget_padding)) ∧
    ((set_cheevo_popup_queue_write_index s v).msg_queue_height = (s.msg_queue_height)) ∧
    ((set_cheevo_popup_queue_write_index s v).msg_queue_spacing = (s.msg_queue_spacing)) ∧
    ((set_cheevo_popup_queue_write_index s v).msg_queue_default_rect_width_menu_alive = (s.msg_queue_default_rect_width_menu_alive)) ∧
    ((set_cheevo_popup_queue_write_index s v).msg_queue_default_rect_width = (s.msg_queue_default_rect_width)) ∧
    ((set_cheevo_popup_queue_write_index s v).msg_queue_line_height = (s.msg_queue_line_height)) ∧
    ((set_cheevo_popup_queue_write_index s v).msg_queue = (s.msg_queue)) ∧
    ((set_cheevo_popup_queue_write_index s v).current_msgs = (s.current_msgs)) ∧
    ((set_cheevo_popup_queue_write_index s v).msgs = (s.msgs)) ∧
    ((set_cheevo_popup_queue_write_index s v).msgs_next = (s.msgs_next)) ∧
    ((set_cheevo_popup_queue_write_index s v).msgs_freed = (s.msgs_freed)) ∧
    ((set_cheevo_popup_queue_write_index s v).tasks = (s.tasks)) ∧
    ((set_cheevo_popup_queue_write_index s v).anims = (s.anims)) ∧
    ((set_cheevo_popup_queue_write_index s v).timers = (s.timers)) ∧
    ((set_cheevo_popup_queue_write_index s v).regular_line_height = (s.regular_line_height)) ∧
    ((set_cheevo_popup_queue_write_index s v).cheevo_popup_queue = (s.cheevo_popup_queue)) ∧
    ((set_cheevo_popup_queue_write_index s v).cheevo_popup_queue_read_index = (s.cheevo_popup_queue_read_index)) ∧
    ((set_cheevo_popup_queue_write_index s v).cheevo_popup_queue_write_index = (v)) ∧
    ((set_cheevo_popup_queue_write_index s v).cheevo_unfold = (s.cheevo_unfold)) ∧
    ((set_cheevo_popup_queue_write_index s v).cheevo_y = (s.cheevo_y)) ∧
    ((set_cheevo_popup_queue_write_index s v).cheevo_width = (s.cheevo_width)) ∧
    ((set_cheevo_popup_queue_write_index s v).cheevo_height = (s.cheevo_height)) ∧
    ((set_cheevo_popup_queue_write_index s v).generic_anims = (s.generic_anims)) :=
  ⟨rfl, rfl, rfl, rfl, rfl, rfl, rfl, rfl, rfl, rfl, rfl, rfl, rfl, rfl, rfl, rfl, rfl, rfl, rfl, rfl, rfl, rfl, rfl, rfl, rfl, rfl, rfl, rfl, rfl, rfl⟩

@[simp]
theorem set_cheevo_unfold_proj (s : State) (v : Int) :
    ((set_cheevo_unfold s v).widgets_active = (s.widgets_active)) ∧
    ((set_cheevo_unfold s v).widgets_moving = (s.widgets_moving)) ∧
    ((set_cheevo_unfold s v).widgets_inited = (s.widgets_inited)) ∧
    ((set_cheevo_unfold s v).widgets_persisting = (s.widgets_persisting)) ∧
    ((set_cheevo_unfold s v).msg_queue_has_icons = (s.msg_queue_has_icons)) ∧
    ((set_cheevo_unfold s v).msg_queue_kill = (s.msg_queue_kill)) ∧
    ((set_cheevo_unfold s v).msg_queue_tasks_count = (s.msg_queue_tasks_count)) ∧
    ((set_cheevo_unfold s v).simple_widget_padding = (s.simple_widget_padding)) ∧
    ((set_cheevo_unfold s v).msg_queue_height = (s.msg_queue_height)) ∧
    ((set_cheevo_unfold s v).msg_queue_spacing = (s.msg_queue_spacing)) ∧
    ((set_cheevo_unfold s v).msg_queue_default_rect_width_menu_alive = (s.msg_queue_default_rect_width_menu_alive)) ∧
    ((set_cheevo_unfold s v).msg_queue_default_rect_width = (s.msg_queue_default_rect_width)) ∧
    ((set_cheevo_unfold s v).msg_queue_line_height = (s.msg_queue_line_height)) ∧
    ((set_cheevo_unfold s v).msg_queue = (s.msg_queue)) ∧
    ((set_cheevo_unfold s v).current_msgs = (s.current_msgs)) ∧
    ((set_cheevo_unfold s v).msgs = (s.msgs)) ∧
    ((set_cheevo_unfold s v).msgs_next = (s.msgs_next)) ∧
    ((set_cheevo_unfold s v).msgs_freed = (s.msgs_freed)) ∧
    ((set_cheevo_unfold s v).tasks = (s.tasks)) ∧
    ((set_cheevo_unfold s v).anims = (s.anims)) ∧
    ((set_cheevo_unfold s v).timers = (s.timers)) ∧
    ((set_cheevo_unfold s v).regular_line_height = (s.regular_line_height)) ∧
    ((set_cheevo_unfold s v).cheevo_popup_queue = (s.cheevo_popup_queue)) ∧
    ((set_cheevo_unfold s v).cheevo_popup_queue_read_index = (s.cheevo_popup_queue_read_index)) ∧
    ((set_cheevo_unfold s v).cheevo_popup_queue_write_index = (s.cheevo_popup_queue_write_index)) ∧
    ((set_cheevo_unfold s v).cheevo_unfold = (v)) ∧
    ((set_cheevo_unfold s v).cheevo_y = (s.cheevo_y)) ∧
    ((set_cheevo_unfold s v).cheevo_width = (s.cheevo_width)) ∧
    ((set_cheevo_unfold s v).cheevo_height = (s.cheevo_height)) ∧
    ((set_cheevo_unfold s v).generic_anims = (s.generic_anims)) :=
  ⟨rfl, rfl, rfl, rfl, rfl, rfl, rfl, rfl, rfl, rfl, rfl, rfl, rfl, rfl, rfl, rfl, rfl, rfl, rfl, rfl, rfl, rfl, rfl, rfl, rfl, rfl, rfl, rfl, rfl, rfl⟩

@[simp]
theorem set_cheevo_y_proj (s : State) (v : Int) :
    ((set_cheevo_y s v).widgets_active = (s.widgets_active)) ∧
    ((set_cheevo_y s v).widgets_moving = (s.widgets_moving)) ∧
    ((set_cheevo_y s v).widgets_inited = (s.widgets_inited)) ∧
    ((set_cheevo_y s v).widgets_persisting = (s.widgets_persisting)) ∧
    ((set_cheevo_y s v).msg_queue_has_icons = (s.msg_queue_has_icons)) ∧
    ((set_cheevo_y s v).msg_queue_kill = (s.msg_queue_kill)) ∧
    ((set_cheevo_y s v).msg_queue_tasks_count = (s.msg_queue_tasks_count)) ∧
    ((set_cheevo_y s v).simple_widget_padding = (s.simple_widget_padding)) ∧
    ((set_cheevo_y s v).msg_queue_height = (s.msg_queue_height)) ∧
    ((set_cheevo_y s v).msg_queue_spacing = (s.msg_queue_spacing)) ∧
    ((set_cheevo_y s v).msg_queue_default_rect_width_menu_alive = (s.msg_queue_default_rect_width_menu_alive)) ∧
    ((set_cheevo_y s v).msg_queue_default_rect_width = (s.msg_queue_default_rect_width)) ∧
    ((set_cheevo_y s v).msg_queue_line_height = (s.msg_queue_line_height)) ∧
    ((set_cheevo_y s v).msg_queue = (s.msg_queue)) ∧
    ((set_cheevo_y s v).current_msgs = (s.current_msgs)) ∧
    ((set_cheevo_y s v).msgs = (s.msgs)) ∧
    ((set_cheevo_y s v).msgs_next = (s.msgs_next)) ∧
    ((set_cheevo_y s v).msgs_freed = (s.msgs_freed)) ∧
    ((set_cheevo_y s v).tasks = (s.tasks)) ∧
    ((set_cheevo_y s v).anims = (s.anims)) ∧
    ((set_cheevo_y s v).timers = (s.timers)) ∧
    ((set_cheevo_y s v).regular_line_height = (s.regular_line_height)) ∧
    ((set_cheevo_y s v).cheevo_popup_queue = (s.cheevo_popup_queue)) ∧
    ((set_cheevo_y s v).cheevo_popup_queue_read_index = (s.cheevo_popup_queue_read_index)) ∧
    ((set_cheevo_y s v).cheevo_popup_queue_write_index = (s.cheevo_popup_queue_write_index)) ∧
    ((set_cheevo_y s v).cheevo_unfold = (s.cheevo_unfold)) ∧
    ((set_cheevo_y s v).cheevo_y = (v)) ∧
    ((set_cheevo_y s v).cheevo_width = (s.cheevo_width)) ∧
    ((set_cheevo_y s v).cheevo_height = (s.cheevo_height)) ∧
    ((set_cheevo_y s v).generic_anims = (s.generic_anims)) :=
  ⟨rfl, rfl, rfl, rfl, rfl, rfl, rfl, rfl, rfl, rfl, rfl, rfl, rfl, rfl, rfl, rfl, rfl, rfl, rfl, rfl, rfl, rfl, rfl, rfl, rfl, rfl, rfl, rfl, rfl, rfl⟩

@[simp]
theorem set_cheevo_width_proj (s : State) (v : Nat) :
    ((set_cheevo_width s v).widgets_active = (s.widgets_active)) ∧
    ((set_cheevo_width s v).widgets_moving = (s.widgets_moving)) ∧
    ((set_cheevo_width s v).widgets_inited = (s.widgets_inited)) ∧
    ((set_cheevo_width s v).widgets_persisting = (s.widgets_persisting)) ∧
    ((set_cheevo_width s v).msg_queue_has_icons = (s.msg_queue_has_icons)) ∧
    ((set_cheevo_width s v).msg_queue_kill = (s.msg_queue_kill)) ∧
    ((set_cheevo_width s v).msg_queue_tasks_count = (s.msg_queue_tasks_count)) ∧
    ((set_cheevo_width s v).simple_widget_padding = (s.simple_widget_padding)) ∧
    ((set_cheevo_width s v).msg_queue_height = (s.msg_queue_height)) ∧
    ((set_cheevo_width s v).msg_queue_spacing = (s.msg_queue_spacing)) ∧
    ((set_cheevo_width s v).msg_queue_default_rect_width_menu_alive = (s.msg_queue_default_rect_width_menu_alive)) ∧
    ((set_cheevo_width s v).msg_queue_default_rect_width = (s.msg_queue_default_rect_width)) ∧
    ((set_cheevo_width s v).msg_queue_line_height = (s.msg_queue_line_height)) ∧
    ((set_cheevo_width s v).msg_queue = (s.msg_queue)) ∧
    ((set_cheevo_width s v).current_msgs = (s.current_msgs)) ∧
    ((set_cheevo_width s v).msgs = (s.msgs)) ∧
    ((set_cheevo_width s v).msgs_next = (s.msgs_next)) ∧
    ((set_cheevo_width s v).msgs_freed = (s.msgs_freed)) ∧
    ((set_cheevo_width s v).tasks = (s.tasks)) ∧
    ((set_cheevo_width s v).anims = (s.anims)) ∧
    ((set_cheevo_width s v).timers = (s.timers)) ∧
    ((set_cheevo_width s v).regular_line_height = (s.regular_line_height)) ∧
    ((set_cheevo_width s v).cheevo_popup_queue = (s.cheevo_popup_queue)) ∧
    ((set_cheevo_width s v).cheevo_popup_queue_read_index = (s.cheevo_popup_queue_read_index)) ∧
    ((set_cheevo_width s v).cheevo_popup_queue_write_index = (s.cheevo_popup_queue_write_index)) ∧
    ((set_cheevo_width s v).cheevo_unfold = (s.cheevo_unfold)) ∧
    ((set_cheevo_width s v).cheevo_y = (s.cheevo_y)) ∧
    ((set_cheevo_width s v).cheevo_width = (v)) ∧
    ((set_cheevo_width s v).cheevo_height = (s.cheevo_height)) ∧
    ((set_cheevo_width s v).generic_anims = (s.generic_anims)) :=
  ⟨rfl, rfl, rfl, rfl, rfl, rfl, rfl, rfl, rfl, rfl, rfl, rfl, rfl, rfl, rfl, rfl, rfl, rfl, rfl, rfl, rfl, rfl, rfl, rfl, rfl, rfl, rfl, rfl, rfl, rfl⟩

@[simp]
theorem set_cheevo_height_proj (s : State) (v : Nat) :
    ((set_cheevo_height s v).widgets_active = (s.widgets_active)) ∧
    ((set_cheevo_height s v).widgets_moving = (s.widgets_moving)) ∧
    ((set_cheevo_height s v).widgets_inited = (s.widgets_inited)) ∧
    ((set_cheevo_height s v).widgets_persisting = (s.widgets_persisting)) ∧
    ((set_cheevo_height s v).msg_queue_has_icons = (s.msg_queue_has_icons)) ∧
    ((set_cheevo_height s v).msg_queue_kill = (s.msg_queue_kill)) ∧
    ((set_cheevo_height s v).msg_queue_tasks_count = (s.msg_queue_tasks_count)) ∧
    ((set_cheevo_height s v).simple_widget_padding = (s.simple_widget_padding)) ∧
    ((set_cheevo_height s v).msg_queue_height = (s.msg_queue_height)) ∧
    ((set_cheevo_height s v).msg_queue_spacing = (s.msg_queue_spacing)) ∧
    ((set_cheevo_height s v).msg_queue_default_rect_width_menu_alive = (s.msg_queue_default_rect_width_menu_alive)) ∧
    ((set_cheevo_height s v).msg_queue_default_rect_width = (s.msg_queue_default_rect_width)) ∧
    ((set_cheevo_height s v).msg_queue_line_height = (s.msg_queue_line_height)) ∧
    ((set_cheevo_height s v).msg_queue = (s.msg_queue)) ∧
    ((set_cheevo_height s v).current_msgs = (s.current_msgs)) ∧
    ((set_cheevo_height s v).msgs = (s.msgs)) ∧
    ((set_cheevo_height s v).msgs_next = (s.msgs_next)) ∧
    ((set_cheevo_height s v).msgs_freed = (s.msgs_freed)) ∧
    ((set_cheevo_height s v).tasks = (s.tasks)) ∧
    ((set_cheevo_height s v).anims = (s.anims)) ∧
    ((set_cheevo_height s v).timers = (s.timers)) ∧
    ((set_cheevo_height s v).regular_line_height = (s.regular_line_height)) ∧
    ((set_cheevo_height s v).cheevo_popup_queue = (s.cheevo_popup_queue)) ∧
    ((set_cheevo_height s v).cheevo_popup_queue_read_index = (s.cheevo_popup_queue_read_index)) ∧
    ((set_cheevo_height s v).cheevo_popup_queue_write_index = (s.cheevo_popup_queue_write_index)) ∧
    ((set_cheevo_height s v).cheevo_unfold = (s.cheevo_unfold)) ∧
    ((set_cheevo_height s v).cheevo_y = (s.cheevo_y)) ∧
    ((set_cheevo_height s v).cheevo_width = (s.cheevo_width)) ∧
    ((set_cheevo_height s v).cheevo_height = (v)) ∧
    ((set_cheevo_height s v).generic_anims = (s.generic_anims)) :=
  ⟨rfl, rfl, rfl, rfl, rfl, rfl, rfl, rfl, rfl, rfl, rfl, rfl, rfl, rfl, rfl, rfl, rfl, rfl, rfl, rfl, rfl, rfl, rfl, rfl, rfl, rfl, rfl, rfl, rfl, rfl⟩

@[simp]
theorem set_generic_anims_proj (s : State) (v : List cheevo_animation_entry) :
    ((set_generic_anims s v).widgets_active = (s.widgets_active)) ∧
    ((set_generic_anims s v).widgets_moving = (s.widgets_moving)) ∧
    ((set_generic_anims s v).widgets_inited = (s.widgets_inited)) ∧
    ((set_generic_anims s v).widgets_persisting = (s.widgets_persisting)) ∧
    ((set_generic_anims s v).msg_queue_has_icons = (s.msg_queue_has_icons)) ∧
    ((set_generic_anims s v).msg_queue_kill = (s.msg_queue_kill)) ∧
    ((set_generic_anims s v).msg_queue_tasks_count = (s.msg_queue_tasks_count)) ∧
    ((set_generic_anims s v).simple_widget_padding = (s.simple_widget_padding)) ∧
    ((set_generic_anims s v).msg_queue_height = (s.msg_queue_height)) ∧
    ((set_generic_anims s v).msg_queue_spacing = (s.msg_queue_spacing)) ∧
    ((set_generic_anims s v).msg_queue_default_rect_width_menu_alive = (s.msg_queue_default_rect_width_menu_alive)) ∧
    ((set_generic_anims s v).msg_queue_default_rect_width = (s.msg_queue_default_rect_width)) ∧
    ((set_generic_anims s v).msg_queue_line_height = (s.msg_queue_line_height)) ∧
    ((set_generic_anims s v).msg_queue = (s.msg_queue)) ∧
    ((set_generic_anims s v).current_msgs = (s.current_msgs)) ∧
    ((set_generic_anims s v).msgs = (s.msgs)) ∧
    ((set_generic_anims s v).msgs_next = (s.msgs_next)) ∧
    ((set_generic_anims s v).msgs_freed = (s.msgs_freed)) ∧
    ((set_generic_anims s v).tasks = (s.tasks)) ∧
    ((set_generic_anims s v).anims = (s.anims)) ∧
    ((set_generic_anims s v).timers = (s.timers)) ∧
    ((set_generic_anims s v).regular_line_height = (s.regular_line_height)) ∧
    ((set_generic_anims s v).cheevo_popup_queue = (s.cheevo_popup_queue)) ∧
    ((set_generic_anims s v).cheevo_popup_queue_read_index = (s.cheevo_popup_queue_read_index)) ∧
    ((set_generic_anims s v).cheevo_popup_queue_write_index = (s.cheevo_popup_queue_write_index)) ∧
    ((set_generic_anims s v).cheevo_unfold = (s.cheevo_unfold)) ∧
    ((set_generic_anims s v).cheevo_y = (s.cheevo_y)) ∧
    ((set_generic_anims s v).cheevo_width = (s.cheevo_width)) ∧
    ((set_generic_anims s v).cheevo_height = (s.cheevo_height)) ∧
    ((set_generic_anims s v).generic_anims = (v)) :=
  ⟨rfl, rfl, rfl, rfl, rfl, rfl, rfl, rfl, rfl, rfl, rfl, rfl, rfl, rfl, rfl, rfl, rfl, rfl, rfl, rfl, rfl, rfl, rfl, rfl, rfl, rfl, rfl, rfl, rfl, rfl⟩

/-! ### Fields that a function leaves as they are -/

@[simp]
theorem gfx_widgets_msg_queue_free_task_frame (s : State) (msg : Nat) :
    ((gfx_widgets_msg_queue_free_task s msg).widgets_active = s.widgets_active) ∧
    ((gfx_widgets_msg_queue_free_task s msg).widgets_moving = s.widgets_moving) ∧
    ((gfx_widgets_msg_queue_free_task s msg).widgets_inited = s.widgets_inited) ∧
    ((gfx_widgets_msg_queue_free_task s msg).widgets_persisting = s.widgets_persisting) ∧
    ((gfx_widgets_msg_queue_free_task s msg).msg_queue_has_icons = s.msg_queue_has_icons) ∧
    ((gfx_widgets_msg_queue_free_task s msg).msg_queue_kill = s.msg_queue_kill) ∧
    ((gfx_widgets_msg_queue_free_task s msg).simple_widget_padding = s.simple_widget_padding) ∧
    ((gfx_widgets_msg_queue_free_task s msg).msg_queue_height = s.msg_queue_height) ∧
    ((gfx_widgets_msg_queue_free_task s msg).msg_queue_spacing = s.msg_queue_spacing) ∧
    ((gfx_widgets_msg_queue_free_task s msg).msg_queue_default_rect_width_menu_alive = s.msg_queue_default_rect_width_menu_alive) ∧
    ((gfx_widgets_msg_queue_free_task s msg).msg_queue_default_rect_width = s.msg_queue_default_rect_width) ∧
    ((gfx_widgets_msg_queue_free_task s msg).msg_queue_line_height = s.msg_queue_line_height) ∧
    ((gfx_widgets_msg_queue_free_task s msg).msg_queue = s.msg_queue) ∧
    ((gfx_widgets_msg_queue_free_task s msg).current_msgs = s.current_msgs) ∧
    ((gfx_widgets_msg_queue_free_task s msg).msgs = s.msgs) ∧
    ((gfx_widgets_msg_queue_free_task s msg).msgs_next = s.msgs_next) ∧
    ((gfx_widgets_msg_queue_free_task s msg).msgs_freed = s.msgs_freed) ∧
    ((gfx_widgets_msg_queue_free_task s msg).anims = s.anims) ∧
    ((gfx_widgets_msg_queue_free_task s msg).timers = s.timers) ∧
    ((gfx_widgets_msg_queue_free_task s msg).regular_line_height = s.regular_line_height) ∧
    ((gfx_widgets_msg_queue_free_task s msg).cheevo_popup_queue = s.cheevo_popup_queue) ∧
    ((gfx_widgets_msg_queue_free_task s msg).cheevo_popup_queue_read_index = s.cheevo_popup_queue_read_index) ∧
    ((gfx_widgets_msg_queue_free_task s msg).cheevo_popup_queue_write_index = s.cheevo_popup_queue_write_index) ∧
    ((gfx_widgets_msg_queue_free_task s msg).cheevo_unfold = s.cheevo_unfold) ∧
    ((gfx_widgets_msg_queue_free_task s msg).cheevo_y = s.cheevo_y) ∧
    ((gfx_widgets_msg_queue_free_task s msg).cheevo_width = s.cheevo_width) ∧
    ((gfx_widgets_msg_queue_free_task s msg).cheevo_height = s.cheevo_height) ∧
    ((gfx_widgets_msg_queue_free_task s msg).generic_anims = s.generic_anims) := by
  unfold gfx_widgets_msg_queue_free_task
  split <;> (try split) <;> simp

@[simp]
theorem gfx_widgets_msg_queue_free_kill_frame (s : State) (msg : Nat) :
    ((gfx_widgets_msg_queue_free_kill s msg).widgets_active = s.widgets_active) ∧
    ((gfx_widgets_msg_queue_free_kill s msg).widgets_moving = s.widgets_moving) ∧
    ((gfx_widgets_msg_queue_free_kill s msg).widgets_inited = s.widgets_inited) ∧
    ((gfx_widgets_msg_queue_free_kill s msg).widgets_persisting = s.widgets_persisting) ∧
    ((gfx_widgets_msg_queue_free_kill s msg).msg_queue_has_icons = s.msg_queue_has_icons) ∧
    ((gfx_widgets_msg_queue_free_kill s msg).msg_queue_kill = s.msg_queue_kill) ∧
    ((gfx_widgets_msg_queue_free_kill s msg).msg_queue_tasks_count = s.msg_queue_tasks_count) ∧
    ((gfx_widgets_msg_queue_free_kill s msg).simple_widget_padding = s.simple_widget_padding) ∧
    ((gfx_widgets_msg_queue_free_kill s msg).msg_queue_height = s.msg_queue_height) ∧
    ((gfx_widgets_msg_queue_free_kill s msg).msg_queue_spacing = s.msg_queue_spacing) ∧
    ((gfx_widgets_msg_queue_free_kill s msg).msg_queue_default_rect_width_menu_alive = s.msg_queue_default_rect_width_menu_alive) ∧
    ((gfx_widgets_msg_queue_free_kill s msg).msg_queue_default_rect_width = s.msg_queue_default_rect_width) ∧
    ((gfx_widgets_msg_queue_free_kill s msg).msg_queue_line_height = s.msg_queue_line_height) ∧
    ((gfx_widgets_msg_queue_free_kill s msg).msg_queue = s.msg_queue) ∧
    ((gfx_widgets_msg_queue_free_kill s msg).current_msgs = s.current_msgs) ∧
    ((gfx_widgets_msg_queue_free_kill s msg).msgs = s.msgs) ∧
    ((gfx_widgets_msg_queue_free_kill s msg).msgs_next = s.msgs_next) ∧
    ((gfx_widgets_msg_queue_free_kill s msg).msgs_freed = s.msgs_freed) ∧
    ((gfx_widgets_msg_queue_free_kill s msg).tasks = s.tasks) ∧
    ((gfx_widgets_msg_queue_free_kill s msg).regular_line_height = s.regular_line_height) ∧
    ((gfx_widgets_msg_queue_free_kill s msg).cheevo_popup_queue = s.cheevo_popup_queue) ∧
    ((gfx_widgets_msg_queue_free_kill s msg).cheevo_popup_queue_read_index = s.cheevo_popup_queue_read_index) ∧
    ((gfx_widgets_msg_queue_free_kill s msg).cheevo_popup_queue_write_index = s.cheevo_popup_queue_write_index) ∧
    ((gfx_widgets_msg_queue_free_kill s msg).cheevo_unfold = s.cheevo_unfold) ∧
    ((gfx_widgets_msg_queue_free_kill s msg).cheevo_y = s.cheevo_y) ∧
    ((gfx_widgets_msg_queue_free_kill s msg).cheevo_width = s.cheevo_width) ∧
    ((gfx_widgets_msg_queue_free_kill s msg).cheevo_height = s.cheevo_height) ∧
    ((gfx_widgets_msg_queue_free_kill s msg).generic_anims = s.generic_anims) := by
  unfold gfx_widgets_msg_queue_free_kill
  split <;> simp

@[simp]
theorem gfx_widgets_msg_queue_free_list_frame (s : State) :
    ((gfx_widgets_msg_queue_free_list s).widgets_active = s.widgets_active) ∧
    ((gfx_widgets_msg_queue_free_list s).widgets_moving = s.widgets_moving) ∧
    ((gfx_widgets_msg_queue_free_list s).widgets_inited = s.widgets_inited) ∧
    ((gfx_widgets_msg_queue_free_list s).widgets_persisting = s.widgets_persisting) ∧
    ((gfx_widgets_msg_queue_free_list s).msg_queue_has_icons = s.msg_queue_has_icons) ∧
    ((gfx_widgets_msg_queue_free_list s).msg_queue_kill = s.msg_queue_kill) ∧
    ((gfx_widgets_msg_queue_free_list s).msg_queue_tasks_count = s.msg_queue_tasks_count) ∧
    ((gfx_widgets_msg_queue_free_list s).simple_widget_padding = s.simple_widget_padding) ∧
    ((gfx_widgets_msg_queue_free_list s).msg_queue_height = s.msg_queue_height) ∧
    ((gfx_widgets_msg_queue_free_list s).msg_queue_spacing = s.msg_queue_spacing) ∧
    ((gfx_widgets_msg_queue_free_list s).msg_queue_default_rect_width_menu_alive = s.msg_queue_default_rect_width_menu_alive) ∧
    ((gfx_widgets_msg_queue_free_list s).msg_queue_default_rect_width = s.msg_queue_default_rect_width) ∧
    ((gfx_widgets_msg_queue_free_list s).msg_queue_line_height = s.msg_queue_line_height) ∧
    ((gfx_widgets_msg_queue_free_list s).msg_queue = s.msg_queue) ∧
    ((gfx_widgets_msg_queue_free_list s).msgs = s.msgs) ∧
    ((gfx_widgets_msg_queue_free_list s).msgs_next = s.msgs_next) ∧
    ((gfx_widgets_msg_queue_free_list s).tasks = s.tasks) ∧
    ((gfx_widgets_msg_queue_free_list s).anims = s.anims) ∧
    ((gfx_widgets_msg_queue_free_list s).timers = s.timers) ∧
    ((gfx_widgets_msg_queue_free_list s).regular_line_height = s.regular_line_height) ∧
    ((gfx_widgets_msg_queue_free_list s).cheevo_popup_queue = s.cheevo_popup_queue) ∧
    ((gfx_widgets_msg_queue_free_list s).cheevo_popup_queue_read_index = s.cheevo_popup_queue_read_index) ∧
    ((gfx_widgets_msg_queue_free_list s).cheevo_popup_queue_write_index = s.cheevo_popup_queue_write_index) ∧
    ((gfx_widgets_msg_queue_free_list s).cheevo_unfold = s.cheevo_unfold) ∧
    ((gfx_widgets_msg_queue_free_list s).cheevo_y = s.cheevo_y) ∧
    ((gfx_widgets_msg_queue_free_list s).cheevo_width = s.cheevo_width) ∧
    ((gfx_widgets_msg_queue_free_list s).cheevo_height = s.cheevo_height) ∧
    ((gfx_widgets_msg_queue_free_list s).generic_anims = s.generic_anims) := by
  unfold gfx_widgets_msg_queue_free_list
  split <;> simp

@[simp]
theorem gfx_widgets_msg_queue_free_frame (s : State) (msg : Nat) (touch_list : Bool) :
    ((gfx_widgets_msg_queue_free s msg touch_list).widgets_active = s.widgets_active) ∧
    ((gfx_widgets_msg_queue_free s msg touch_list).widgets_inited = s.widgets_inited) ∧
    ((gfx_widgets_msg_queue_free s msg touch_list).widgets_persisting = s.widgets_persisting) ∧
    ((gfx_widgets_msg_queue_free s msg touch_list).msg_queue_has_icons = s.msg_queue_has_icons) ∧
    ((gfx_widgets_msg_queue_free s msg touch_list).msg_queue_kill = s.msg_queue_kill) ∧
    ((gfx_widgets_msg_queue_free s msg touch_list).simple_widget_padding = s.simple_widget_padding) ∧
    ((gfx_widgets_msg_queue_free s msg touch_list).msg_queue_height = s.msg_queue_height) ∧
    ((gfx_widgets_msg_queue_free s msg touch_list).msg_queue_spacing = s.msg_queue_spacing) ∧
    ((gfx_widgets_msg_queue_free s msg touch_list).msg_queue_default_rect_width_menu_alive = s.msg_queue_default_rect_width_menu_alive) ∧
    ((gfx_widgets_msg_queue_free s msg touch_list).msg_queue_default_rect_width = s.msg_queue_default_rect_width) ∧
    ((gfx_widgets_msg_queue_free s msg touch_list).msg_queue_line_height = s.msg_queue_line_height) ∧
    ((gfx_widgets_msg_queue_free s msg touch_list).msg_queue = s.msg_queue) ∧
    ((gfx_widgets_msg_queue_free s msg touch_list).msgs = s.msgs) ∧
    ((gfx_widgets_msg_queue_free s msg touch_list).msgs_next = s.msgs_next) ∧
    ((gfx_widgets_msg_queue_free s msg touch_list).regular_line_height = s.regular_line_height) ∧
    ((gfx_widgets_msg_queue_free s msg touch_list).cheevo_popup_queue = s.cheevo_popup_queue) ∧
    ((gfx_widgets_msg_queue_free s msg touch_list).cheevo_popup_queue_read_index = s.cheevo_popup_queue_read_index) ∧
    ((gfx_widgets_msg_queue_free s msg touch_list).cheevo_popup_queue_write_index = s.cheevo_popup_queue_write_index) ∧
    ((gfx_widgets_msg_queue_free s msg touch_list).cheevo_unfold = s.cheevo_unfold) ∧
    ((gfx_widgets_msg_queue_free s msg touch_list).cheevo_y = s.cheevo_y) ∧
    ((gfx_widgets_msg_queue_free s msg touch_list).cheevo_width = s.cheevo_width) ∧
    ((gfx_widgets_msg_queue_free s msg touch_list).cheevo_height = s.cheevo_height) ∧
    ((gfx_widgets_msg_queue_free s msg touch_list).generic_anims = s.generic_anims) := by
  unfold gfx_widgets_msg_queue_free
  cases touch_list <;> simp

@[simp]
theorem gfx_widgets_start_msg_expiration_timer_frame (s : State) (msg_widget duration : Nat) :
    ((gfx_widgets_start_msg_expiration_timer s msg_widget duration).widgets_active = s.widgets_active) ∧
    ((gfx_widgets_start_msg_expiration_timer s msg_widget duration).widgets_moving = s.widgets_moving) ∧
    ((gfx_widgets_start_msg_expiration_timer s msg_widget duration).widgets_inited = s.widgets_inited) ∧
    ((gfx_widgets_start_msg_expiration_timer s msg_widget duration).widgets_persisting = s.widgets_persisting) ∧
    ((gfx_widgets_start_msg_expiration_timer s msg_widget duration).msg_queue_has_icons = s.msg_queue_has_icons) ∧
    ((gfx_widgets_start_msg_expiration_timer s msg_widget duration).msg_queue_kill = s.msg_queue_kill) ∧
    ((gfx_widgets_start_msg_expiration_timer s msg_widget duration).msg_queue_tasks_count = s.msg_queue_tasks_count) ∧
    ((gfx_widgets_start_msg_expiration_timer s msg_widget duration).simple_widget_padding = s.simple_widget_padding) ∧
    ((gfx_widgets_start_msg_expiration_timer s msg_widget duration).msg_queue_height = s.msg_queue_height) ∧
    ((gfx_widgets_start_msg_expiration_timer s msg_widget duration).msg_queue_spacing = s.msg_queue_spacing) ∧
    ((gfx_widgets_start_msg_expiration_timer s msg_widget duration).msg_queue_default_rect_width_menu_alive = s.msg_queue_default_rect_width_menu_alive) ∧
    ((gfx_widgets_start_msg_expiration_timer s msg_widget duration).msg_queue_default_rect_width = s.msg_queue_default_rect_width) ∧
    ((gfx_widgets_start_msg_expiration_timer s msg_widget duration).msg_queue_line_height = s.msg_queue_line_height) ∧
    ((gfx_widgets_start_msg_expiration_timer s msg_widget duration).msg_queue = s.msg_queue) ∧
    ((gfx_widgets_start_msg_expiration_timer s msg_widget duration).current_msgs = s.current_msgs) ∧
    ((gfx_widgets_start_msg_expiration_timer s msg_widget duration).msgs_next = s.msgs_next) ∧
    ((gfx_widgets_start_msg_expiration_timer s msg_widget duration).msgs_freed = s.msgs_freed) ∧
    ((gfx_widgets_start_msg_expiration_timer s msg_widget duration).tasks = s.tasks) ∧
    ((gfx_widgets_start_msg_expiration_timer s msg_widget duration).anims = s.anims) ∧
    ((gfx_widgets_start_msg_expiration_timer s msg_widget duration).regular_line_height = s.regular_line_height) ∧
    ((gfx_widgets_start_msg_expiration_timer s msg_widget duration).cheevo_popup_queue = s.cheevo_popup_queue) ∧
    ((gfx_widgets_start_msg_expiration_timer s msg_widget duration).cheevo_popup_queue_read_index = s.cheevo_popup_queue_read_index) ∧
    ((gfx_widgets_start_msg_expiration_timer s msg_widget duration).cheevo_popup_queue_write_index = s.cheevo_popup_queue_write_index) ∧
    ((gfx_widgets_start_msg_expiration_timer s msg_widget duration).cheevo_unfold = s.cheevo_unfold) ∧
    ((gfx_widgets_start_msg_expiration_timer s msg_widget duration).cheevo_y = s.cheevo_y) ∧
    ((gfx_widgets_start_msg_expiration_timer s msg_widget duration).cheevo_width = s.cheevo_width) ∧
    ((gfx_widgets_start_msg_expiration_timer s msg_widget duration).cheevo_height = s.cheevo_height) ∧
    ((gfx_widgets_start_msg_expiration_timer s msg_widget duration).generic_anims = s.generic_anims) := by
  unfold gfx_widgets_start_msg_expiration_timer
  simp

@[simp]
theorem gfx_widgets_hourglass_end_frame (cfg : Config) (s : State) (userdata : Nat) :
    ((gfx_widgets_hourglass_end cfg s userdata).widgets_active = s.widgets_active) ∧
    ((gfx_widgets_hourglass_end cfg s userdata).widgets_moving = s.widgets_moving) ∧
    ((gfx_widgets_hourglass_end cfg s userdata).widgets_inited = s.widgets_inited) ∧
    ((gfx_widgets_hourglass_end cfg s userdata).widgets_persisting = s.widgets_persisting) ∧
    ((gfx_widgets_hourglass_end cfg s userdata).msg_queue_has_icons = s.msg_queue_has_icons) ∧
    ((gfx_widgets_hourglass_end cfg s userdata).msg_queue_kill = s.msg_queue_kill) ∧
    ((gfx_widgets_hourglass_end cfg s userdata).msg_queue_tasks_count = s.msg_queue_tasks_count) ∧
    ((gfx_widgets_hourglass_end cfg s userdata).simple_widget_padding = s.simple_widget_padding) ∧
    ((gfx_widgets_hourglass_end cfg s userdata).msg_queue_height = s.msg_queue_height) ∧
    ((gfx_widgets_hourglass_end cfg s userdata).msg_queue_spacing = s.msg_queue_spacing) ∧
    ((gfx_widgets_hourglass_end cfg s userdata).msg_queue_default_rect_width_menu_alive = s.msg_queue_default_rect_width_menu_alive) ∧
    ((gfx_widgets_hourglass_end cfg s userdata).msg_queue_default_rect_width = s.msg_queue_default_rect_width) ∧
    ((gfx_widgets_hourglass_end cfg s userdata).msg_queue_line_height = s.msg_queue_line_height) ∧
    ((gfx_widgets_hourglass_end cfg s userdata).msg_queue = s.msg_queue) ∧
    ((gfx_widgets_hourglass_end cfg s userdata).current_msgs = s.current_msgs) ∧
    ((gfx_widgets_hourglass_end cfg s userdata).msgs_next = s.msgs_next) ∧
    ((gfx_widgets_hourglass_end cfg s userdata).msgs_freed = s.msgs_freed) ∧
    ((gfx_widgets_hourglass_end cfg s userdata).tasks = s.tasks) ∧
    ((gfx_widgets_hourglass_end cfg s userdata).anims = s.anims) ∧
    ((gfx_widgets_hourglass_end cfg s userdata).regular_line_height = s.regular_line_height) ∧
    ((gfx_widgets_hourglass_end cfg s userdata).cheevo_popup_queue = s.cheevo_popup_queue) ∧
    ((gfx_widgets_hourglass_end cfg s userdata).cheevo_popup_queue_read_index = s.cheevo_popup_queue_read_index) ∧
    ((gfx_widgets_hourglass_end cfg s userdata).cheevo_popup_queue_write_index = s.cheevo_popup_queue_write_index) ∧
    ((gfx_widgets_hourglass_end cfg s userdata).cheevo_unfold = s.cheevo_unfold) ∧
    ((gfx_widgets_hourglass_end cfg s userdata).cheevo_y = s.cheevo_y) ∧
    ((gfx_widgets_hourglass_end cfg s userdata).cheevo_width = s.cheevo_width) ∧
    ((gfx_widgets_hourglass_end cfg s userdata).cheevo_height = s.cheevo_height) ∧
    ((gfx_widgets_hourglass_end cfg s userdata).generic_anims = s.generic_anims) := by
  unfold gfx_widgets_hourglass_end
  simp

@[simp]
theorem gfx_widgets_hourglass_tick_frame (cfg : Config) (s : State) (userdata : Nat) :
    ((gfx_widgets_hourglass_tick cfg s userdata).widgets_active = s.widgets_active) ∧
    ((gfx_widgets_hourglass_tick cfg s userdata).widgets_moving = s.widgets_moving) ∧
    ((gfx_widgets_hourglass_tick cfg s userdata).widgets_inited = s.widgets_inited) ∧
    ((gfx_widgets_hourglass_tick cfg s userdata).widgets_persisting = s.widgets_persisting) ∧
    ((gfx_widgets_hourglass_tick cfg s userdata).msg_queue_has_icons = s.msg_queue_has_icons) ∧
    ((gfx_widgets_hourglass_tick cfg s userdata).msg_queue_kill = s.msg_queue_kill) ∧
    ((gfx_widgets_hourglass_tick cfg s userdata).msg_queue_tasks_count = s.msg_queue_tasks_count) ∧
    ((gfx_widgets_hourglass_tick cfg s userdata).simple_widget_padding = s.simple_widget_padding) ∧
    ((gfx_widgets_hourglass_tick cfg s userdata).msg_queue_height = s.msg_queue_height) ∧
    ((gfx_widgets_hourglass_tick cfg s userdata).msg_queue_spacing = s.msg_queue_spacing) ∧
    ((gfx_widgets_hourglass_tick cfg s userdata).msg_queue_default_rect_width_menu_alive = s.msg_queue_default_rect_width_menu_alive) ∧
    ((gfx_widgets_hourglass_tick cfg s userdata).msg_queue_default_rect_width = s.msg_queue_default_rect_width) ∧
    ((gfx_widgets_hourglass_tick cfg s userdata).msg_queue_line_height = s.msg_queue_line_height) ∧
    ((gfx_widgets_hourglass_tick cfg s userdata).msg_queue = s.msg_queue) ∧
    ((gfx_widgets_hourglass_tick cfg s userdata).current_msgs = s.current_msgs) ∧
    ((gfx_widgets_hourglass_tick cfg s userdata).msgs = s.msgs) ∧
    ((gfx_widgets_hourglass_tick cfg s userdata).msgs_next = s.msgs_next) ∧
    ((gfx_widgets_hourglass_tick cfg s userdata).msgs_freed = s.msgs_freed) ∧
    ((gfx_widgets_hourglass_tick cfg s userdata).tasks = s.tasks) ∧
    ((gfx_widgets_hourglass_tick cfg s userdata).timers = s.timers) ∧
    ((gfx_widgets_hourglass_tick cfg s userdata).regular_line_height = s.regular_line_height) ∧
    ((gfx_widgets_hourglass_tick cfg s userdata).cheevo_popup_queue = s.cheevo_popup_queue) ∧
    ((gfx_widgets_hourglass_tick cfg s userdata).cheevo_popup_queue_read_index = s.cheevo_popup_queue_read_index) ∧
    ((gfx_widgets_hourglass_tick cfg s userdata).cheevo_popup_queue_write_index = s.cheevo_popup_queue_write_index) ∧
    ((gfx_widgets_hourglass_tick cfg s userdata).cheevo_unfold = s.cheevo_unfold) ∧
    ((gfx_widgets_hourglass_tick cfg s userdata).cheevo_y = s.cheevo_y) ∧
    ((gfx_widgets_hourglass_tick cfg s userdata).cheevo_width = s.cheevo_width) ∧
    ((gfx_widgets_hourglass_tick cfg s userdata).cheevo_height = s.cheevo_height) ∧
    ((gfx_widgets_hourglass_tick cfg s userdata).generic_anims = s.generic_anims) := by
  unfold gfx_widgets_hourglass_tick
  simp

@[simp]
theorem gfx_widgets_unfold_end_frame (s : State) (userdata : Nat) :
    ((gfx_widgets_unfold_end s userdata).widgets_active = s.widgets_active) ∧
    ((gfx_widgets_unfold_end s userdata).widgets_inited = s.widgets_inited) ∧
    ((gfx_widgets_unfold_end s userdata).widgets_persisting = s.widgets_persisting) ∧
    ((gfx_widgets_unfold_end s userdata).msg_queue_has_icons = s.msg_queue_has_icons) ∧
    ((gfx_widgets_unfold_end s userdata).msg_queue_kill = s.msg_queue_kill) ∧
    ((gfx_widgets_unfold_end s userdata).msg_queue_tasks_count = s.msg_queue_tasks_count) ∧
    ((gfx_widgets_unfold_end s userdata).simple_widget_padding = s.simple_widget_padding) ∧
    ((gfx_widgets_unfold_end s userdata).msg_queue_height = s.msg_queue_height) ∧
    ((gfx_widgets_unfold_end s userdata).msg_queue_spacing = s.msg_queue_spacing) ∧
    ((gfx_widgets_unfold_end s userdata).msg_queue_default_rect_width_menu_alive = s.msg_queue_default_rect_width_menu_alive) ∧
    ((gfx_widgets_unfold_end s userdata).msg_queue_default_rect_width = s.msg_queue_default_rect_width) ∧
    ((gfx_widgets_unfold_end s userdata).msg_queue_line_height = s.msg_queue_line_height) ∧
    ((gfx_widgets_unfold_end s userdata).msg_queue = s.msg_queue) ∧
    ((gfx_widgets_unfold_end s userdata).current_msgs = s.current_msgs) ∧
    ((gfx_widgets_unfold_end s userdata).msgs_next = s.msgs_next) ∧
    ((gfx_widgets_unfold_end s userdata).msgs_freed = s.msgs_freed) ∧
    ((gfx_widgets_unfold_end s userdata).tasks = s.tasks) ∧
    ((gfx_widgets_unfold_end s userdata).anims = s.anims) ∧
    ((gfx_widgets_unfold_end s userdata).timers = s.timers) ∧
    ((gfx_widgets_unfold_end s userdata).regular_line_height = s.regular_line_height) ∧
    ((gfx_widgets_unfold_end s userdata).cheevo_popup_queue = s.cheevo_popup_queue) ∧
    ((gfx_widgets_unfold_end s userdata).cheevo_popup_queue_read_index = s.cheevo_popup_queue_read_index) ∧
    ((gfx_widgets_unfold_end s userdata).cheevo_popup_queue_write_index = s.cheevo_popup_queue_write_index) ∧
    ((gfx_widgets_unfold_end s userdata).cheevo_unfold = s.cheevo_unfold) ∧
    ((gfx_widgets_unfold_end s userdata).cheevo_y = s.cheevo_y) ∧
    ((gfx_widgets_unfold_end s userdata).cheevo_width = s.cheevo_width) ∧
    ((gfx_widgets_unfold_end s userdata).cheevo_height = s.cheevo_height) ∧
    ((gfx_widgets_unfold_end s userdata).generic_anims = s.generic_anims) := by
  unfold gfx_widgets_unfold_end
  simp

@[simp]
theorem gfx_widgets_move_end_frame (cfg : Config) (s : State) (userdata : Option Nat) :
    ((gfx_widgets_move_end cfg s userdata).widgets_active = s.widgets_active) ∧
    ((gfx_widgets_move_end cfg s userdata).widgets_inited = s.widgets_inited) ∧
    ((gfx_widgets_move_end cfg s userdata).widgets_persisting = s.widgets_persisting) ∧
    ((gfx_widgets_move_end cfg s userdata).msg_queue_has_icons = s.msg_queue_has_icons) ∧
    ((gfx_widgets_move_end cfg s userdata).msg_queue_kill = s.msg_queue_kill) ∧
    ((gfx_widgets_move_end cfg s userdata).msg_queue_tasks_count = s.msg_queue_tasks_count) ∧
    ((gfx_widgets_move_end cfg s userdata).simple_widget_padding = s.simple_widget_padding) ∧
    ((gfx_widgets_move_end cfg s userdata).msg_queue_height = s.msg_queue_height) ∧
    ((gfx_widgets_move_end cfg s userdata).msg_queue_spacing = s.msg_queue_spacing) ∧
    ((gfx_widgets_move_end cfg s userdata).msg_queue_default_rect_width_menu_alive = s.msg_queue_default_rect_width_menu_alive) ∧
    ((gfx_widgets_move_end cfg s userdata).msg_queue_default_rect_width = s.msg_queue_default_rect_width) ∧
    ((gfx_widgets_move_end cfg s userdata).msg_queue_line_height = s.msg_queue_line_height) ∧
    ((gfx_widgets_move_end cfg s userdata).msg_queue = s.msg_queue) ∧
    ((gfx_widgets_move_end cfg s userdata).current_msgs = s.current_msgs) ∧
    ((gfx_widgets_move_end cfg s userdata).msgs_next = s.msgs_next) ∧
    ((gfx_widgets_move_end cfg s userdata).msgs_freed = s.msgs_freed) ∧
    ((gfx_widgets_move_end cfg s userdata).tasks = s.tasks) ∧
    ((gfx_widgets_move_end cfg s userdata).timers = s.timers) ∧
    ((gfx_widgets_move_end cfg s userdata).regular_line_height = s.regular_line_height) ∧
    ((gfx_widgets_move_end cfg s userdata).cheevo_popup_queue = s.cheevo_popup_queue) ∧
    ((gfx_widgets_move_end cfg s userdata).cheevo_popup_queue_read_index = s.cheevo_popup_queue_read_index) ∧
    ((gfx_widgets_move_end cfg s userdata).cheevo_popup_queue_write_index = s.cheevo_popup_queue_write_index) ∧
    ((gfx_widgets_move_end cfg s userdata).cheevo_unfold = s.cheevo_unfold) ∧
    ((gfx_widgets_move_end cfg s userdata).cheevo_y = s.cheevo_y) ∧
    ((gfx_widgets_move_end cfg s userdata).cheevo_width = s.cheevo_width) ∧
    ((gfx_widgets_move_end cfg s userdata).cheevo_height = s.cheevo_height) ∧
    ((gfx_widgets_move_end cfg s userdata).generic_anims = s.generic_anims) := by
  unfold gfx_widgets_move_end
  cases userdata <;> simp

@[simp]
theorem gfx_widgets_msg_queue_expired_frame (s : State) (userdata : Option Nat) :
    ((gfx_widgets_msg_queue_expired s userdata).widgets_active = s.widgets_active) ∧
    ((gfx_widgets_msg_queue_expired s userdata).widgets_moving = s.widgets_moving) ∧
    ((gfx_widgets_msg_queue_expired s userdata).widgets_inited = s.widgets_inited) ∧
    ((gfx_widgets_msg_queue_expired s userdata).widgets_persisting = s.widgets_persisting) ∧
    ((gfx_widgets_msg_queue_expired s userdata).msg_queue_has_icons = s.msg_queue_has_icons) ∧
    ((gfx_widgets_msg_queue_expired s userdata).msg_queue_kill = s.msg_queue_kill) ∧
    ((gfx_widgets_msg_queue_expired s userdata).msg_queue_tasks_count = s.msg_queue_tasks_count) ∧
    ((gfx_widgets_msg_queue_expired s userdata).simple_widget_padding = s.simple_widget_padding) ∧
    ((gfx_widgets_msg_queue_expired s userdata).msg_queue_height = s.msg_queue_height) ∧
    ((gfx_widgets_msg_queue_expired s userdata).msg_queue_spacing = s.msg_queue_spacing) ∧
    ((gfx_widgets_msg_queue_expired s userdata).msg_queue_default_rect_width_menu_alive = s.msg_queue_default_rect_width_menu_alive) ∧
    ((gfx_widgets_msg_queue_expired s userdata).msg_queue_default_rect_width = s.msg_queue_default_rect_width) ∧
    ((gfx_widgets_msg_queue_expired s userdata).msg_queue_line_height = s.msg_queue_line_height) ∧
    ((gfx_widgets_msg_queue_expired s userdata).msg_queue = s.msg_queue) ∧
    ((gfx_widgets_msg_queue_expired s userdata).current_msgs = s.current_msgs) ∧
    ((gfx_widgets_msg_queue_expired s userdata).msgs_next = s.msgs_next) ∧
    ((gfx_widgets_msg_queue_expired s userdata).msgs_freed = s.msgs_freed) ∧
    ((gfx_widgets_msg_queue_expired s userdata).tasks = s.tasks) ∧
    ((gfx_widgets_msg_queue_expired s userdata).anims = s.anims) ∧
    ((gfx_widgets_msg_queue_expired s userdata).timers = s.timers) ∧
    ((gfx_widgets_msg_queue_expired s userdata).regular_line_height = s.regular_line_height) ∧
    ((gfx_widgets_msg_queue_expired s userdata).cheevo_popup_queue = s.cheevo_popup_queue) ∧
    ((gfx_widgets_msg_queue_expired s userdata).cheevo_popup_queue_read_index = s.cheevo_popup_queue_read_index) ∧
    ((gfx_widgets_msg_queue_expired s userdata).cheevo_popup_queue_write_index = s.cheevo_popup_queue_write_index) ∧
    ((gfx_widgets_msg_queue_expired s userdata).cheevo_unfold = s.cheevo_unfold) ∧
    ((gfx_widgets_msg_queue_expired s userdata).cheevo_y = s.cheevo_y) ∧
    ((gfx_widgets_msg_queue_expired s userdata).cheevo_width = s.cheevo_width) ∧
    ((gfx_widgets_msg_queue_expired s userdata).cheevo_height = s.cheevo_height) ∧
    ((gfx_widgets_msg_queue_expired s userdata).generic_anims = s.generic_anims) := by
  unfold gfx_widgets_msg_queue_expired
  cases userdata with
  | none => simp
  | some msg =>
    simp only []
    split <;> simp

@[simp]
theorem msg_widget_msg_transition_animation_done_frame (s : State) (userdata : Nat) :
    ((msg_widget_msg_transition_animation_done s userdata).widgets_active = s.widgets_active) ∧
    ((msg_widget_msg_transition_animation_done s userdata).widgets_moving = s.widgets_moving) ∧
    ((msg_widget_msg_transition_animation_done s userdata).widgets_inited = s.widgets_inited) ∧
    ((msg_widget_msg_transition_animation_done s userdata).widgets_persisting = s.widgets_persisting) ∧
    ((msg_widget_msg_transition_animation_done s userdata).msg_queue_has_icons = s.msg_queue_has_icons) ∧
    ((msg_widget_msg_transition_animation_done s userdata).msg_queue_kill = s.msg_queue_kill) ∧
    ((msg_widget_msg_transition_animation_done s userdata).msg_queue_tasks_count = s.msg_queue_tasks_count) ∧
    ((msg_widget_msg_transition_animation_done s userdata).simple_widget_padding = s.simple_widget_padding) ∧
    ((msg_widget_msg_transition_animation_done s userdata).msg_queue_height = s.msg_queue_height) ∧
    ((msg_widget_msg_transition_animation_done s userdata).msg_queue_spacing = s.msg_queue_spacing) ∧
    ((msg_widget_msg_transition_animation_done s userdata).msg_queue_default_rect_width_menu_alive = s.msg_queue_default_rect_width_menu_alive) ∧
    ((msg_widget_msg_transition_animation_done s userdata).msg_queue_default_rect_width = s.msg_queue_default_rect_width) ∧
    ((msg_widget_msg_transition_animation_done s userdata).msg_queue_line_height = s.msg_queue_line_height) ∧
    ((msg_widget_msg_transition_animation_done s userdata).msg_queue = s.msg_queue) ∧
    ((msg_widget_msg_transition_animation_done s userdata).current_msgs = s.current_msgs) ∧
    ((msg_widget_msg_transition_animation_done s userdata).msgs_next = s.msgs_next) ∧
    ((msg_widget_msg_transition_animation_done s userdata).msgs_freed = s.msgs_freed) ∧
    ((msg_widget_msg_transition_animation_done s userdata).tasks = s.tasks) ∧
    ((msg_widget_msg_transition_animation_done s userdata).anims = s.anims) ∧
    ((msg_widget_msg_transition_animation_done s userdata).timers = s.timers) ∧
    ((msg_widget_msg_transition_animation_done s userdata).regular_line_height = s.regular_line_height) ∧
    ((msg_widget_msg_transition_animation_done s userdata).cheevo_popup_queue = s.cheevo_popup_queue) ∧
    ((msg_widget_msg_transition_animation_done s userdata).cheevo_popup_queue_read_index = s.cheevo_popup_queue_read_index) ∧
    ((msg_widget_msg_transition_animation_done s userdata).cheevo_popup_queue_write_index = s.cheevo_popup_queue_write_index) ∧
    ((msg_widget_msg_transition_animation_done s userdata).cheevo_unfold = s.cheevo_unfold) ∧
    ((msg_widget_msg_transition_animation_done s userdata).cheevo_y = s.cheevo_y) ∧
    ((msg_widget_msg_transition_animation_done s userdata).cheevo_width = s.cheevo_width) ∧
    ((msg_widget_msg_transition_animation_done s userdata).cheevo_height = s.cheevo_height) ∧
    ((msg_widget_msg_transition_animation_done s userdata).generic_anims = s.generic_anims) := by
  unfold msg_widget_msg_transition_animation_done
  simp

@[simp]
theorem gfx_animation_set_subject_frame (s : State) (subject : Nat × anim_subject) (v : Int) :
    ((gfx_animation_set_subject s subject v).widgets_active = s.widgets_active) ∧
    ((gfx_animation_set_subject s subject v).widgets_moving = s.widgets_moving) ∧
    ((gfx_animation_set_subject s subject v).widgets_inited = s.widgets_inited) ∧
    ((gfx_animation_set_subject s subject v).widgets_persisting = s.widgets_persisting) ∧
    ((gfx_animation_set_subject s subject v).msg_queue_has_icons = s.msg_queue_has_icons) ∧
    ((gfx_animation_set_subject s subject v).msg_queue_kill = s.msg_queue_kill) ∧
    ((gfx_animation_set_subject s subject v).msg_queue_tasks_count = s.msg_queue_tasks_count) ∧
    ((gfx_animation_set_subject s subject v).simple_widget_padding = s.simple_widget_padding) ∧
    ((gfx_animation_set_subject s subject v).msg_queue_height = s.msg_queue_height) ∧
    ((gfx_animation_set_subject s subject v).msg_queue_spacing = s.msg_queue_spacing) ∧
    ((gfx_animation_set_subject s subject v).msg_queue_default_rect_width_menu_alive = s.msg_queue_default_rect_width_menu_alive) ∧
    ((gfx_animation_set_subject s subject v).msg_queue_default_rect_width = s.msg_queue_default_rect_width) ∧
    ((gfx_animation_set_subject s subject v).msg_queue_line_height = s.msg_queue_line_height) ∧
    ((gfx_animation_set_subject s subject v).msg_queue = s.msg_queue) ∧
    ((gfx_animation_set_subject s subject v).current_msgs = s.current_msgs) ∧
    ((gfx_animation_set_subject s subject v).msgs_next = s.msgs_next) ∧
    ((gfx_animation_set_subject s subject v).msgs_freed = s.msgs_freed) ∧
    ((gfx_animation_set_subject s subject v).tasks = s.tasks) ∧
    ((gfx_animation_set_subject s subject v).anims = s.anims) ∧
    ((gfx_animation_set_subject s subject v).timers = s.timers) ∧
    ((gfx_animation_set_subject s subject v).regular_line_height = s.regular_line_height) ∧
    ((gfx_animation_set_subject s subject v).cheevo_popup_queue = s.cheevo_popup_queue) ∧
    ((gfx_animation_set_subject s subject v).cheevo_popup_queue_read_index = s.cheevo_popup_queue_read_index) ∧
    ((gfx_animation_set_subject s subject v).cheevo_popup_queue_write_index = s.cheevo_popup_queue_write_index) ∧
    ((gfx_animation_set_subject s subject v).cheevo_unfold = s.cheevo_unfold) ∧
    ((gfx_animation_set_subject s subject v).cheevo_y = s.cheevo_y) ∧
    ((gfx_animation_set_subject s subject v).cheevo_width = s.cheevo_width) ∧
    ((gfx_animation_set_subject s subject v).cheevo_height = s.cheevo_height) ∧
    ((gfx_animation_set_subject s subject v).generic_anims = s.generic_anims) := by
  unfold gfx_animation_set_subject
  split <;> simp

@[simp]
theorem gfx_widgets_msg_queue_move_entry_frame (cfg : Config) (s : State) (i msg : Nat) (y : Int) (unfold : Option Nat) :
    ((gfx_widgets_msg_queue_move_entry cfg s i msg y unfold).widgets_active = s.widgets_active) ∧
    ((gfx_widgets_msg_queue_move_entry cfg s i msg y unfold).widgets_inited = s.widgets_inited) ∧
    ((gfx_widgets_msg_queue_move_entry cfg s i msg y unfold).widgets_persisting = s.widgets_persisting) ∧
    ((gfx_widgets_msg_queue_move_entry cfg s i msg y unfold).msg_queue_has_icons = s.msg_queue_has_icons) ∧
    ((gfx_widgets_msg_queue_move_entry cfg s i msg y unfold).msg_queue_kill = s.msg_queue_kill) ∧
    ((gfx_widgets_msg_queue_move_entry cfg s i msg y unfold).msg_queue_tasks_count = s.msg_queue_tasks_count) ∧
    ((gfx_widgets_msg_queue_move_entry cfg s i msg y unfold).simple_widget_padding = s.simple_widget_padding) ∧
    ((gfx_widgets_msg_queue_move_entry cfg s i msg y unfold).msg_queue_height = s.msg_queue_height) ∧
    ((gfx_widgets_msg_queue_move_entry cfg s i msg y unfold).msg_queue_spacing = s.msg_queue_spacing) ∧
    ((gfx_widgets_msg_queue_move_entry cfg s i msg y unfold).msg_queue_default_rect_width_menu_alive = s.msg_queue_default_rect_width_menu_alive) ∧
    ((gfx_widgets_msg_queue_move_entry cfg s i msg y unfold).msg_queue_default_rect_width = s.msg_queue_default_rect_width) ∧
    ((gfx_widgets_msg_queue_move_entry cfg s i msg y unfold).msg_queue_line_height = s.msg_queue_line_height) ∧
    ((gfx_widgets_msg_queue_move_entry cfg s i msg y unfold).msg_queue = s.msg_queue) ∧
    ((gfx_widgets_msg_queue_move_entry cfg s i msg y unfold).current_msgs = s.current_msgs) ∧
    ((gfx_widgets_msg_queue_move_entry cfg s i msg y unfold).msgs = s.msgs) ∧
    ((gfx_widgets_msg_queue_move_entry cfg s i msg y unfold).msgs_next = s.msgs_next) ∧
    ((gfx_widgets_msg_queue_move_entry cfg s i msg y unfold).msgs_freed = s.msgs_freed) ∧
    ((gfx_widgets_msg_queue_move_entry cfg s i msg y unfold).tasks = s.tasks) ∧
    ((gfx_widgets_msg_queue_move_entry cfg s i msg y unfold).timers = s.timers) ∧
    ((gfx_widgets_msg_queue_move_entry cfg s i msg y unfold).regular_line_height = s.regular_line_height) ∧
    ((gfx_widgets_msg_queue_move_entry cfg s i msg y unfold).cheevo_popup_queue = s.cheevo_popup_queue) ∧
    ((gfx_widgets_msg_queue_move_entry cfg s i msg y unfold).cheevo_popup_queue_read_index = s.cheevo_popup_queue_read_index) ∧
    ((gfx_widgets_msg_queue_move_entry cfg s i msg y unfold).cheevo_popup_queue_write_index = s.cheevo_popup_queue_write_index) ∧
    ((gfx_widgets_msg_queue_move_entry cfg s i msg y unfold).cheevo_unfold = s.cheevo_unfold) ∧
    ((gfx_widgets_msg_queue_move_entry cfg s i msg y unfold).cheevo_y = s.cheevo_y) ∧
    ((gfx_widgets_msg_queue_move_entry cfg s i msg y unfold).cheevo_width = s.cheevo_width) ∧
    ((gfx_widgets_msg_queue_move_entry cfg s i msg y unfold).cheevo_height = s.cheevo_height) ∧
    ((gfx_widgets_msg_queue_move_entry cfg s i msg y unfold).generic_anims = s.generic_anims) := by
  unfold gfx_widgets_msg_queue_move_entry
  split <;> simp

@[simp]
theorem gfx_widgets_msg_queue_move_loop_frame (cfg : Config) (l : file_list_t) (n : Nat) (y : Int) (unfold : Option Nat) (s : State) :
    ((gfx_widgets_msg_queue_move_loop cfg l n y unfold s).widgets_active = s.widgets_active) ∧
    ((gfx_widgets_msg_queue_move_loop cfg l n y unfold s).widgets_inited = s.widgets_inited) ∧
    ((gfx_widgets_msg_queue_move_loop cfg l n y unfold s).widgets_persisting = s.widgets_persisting) ∧
    ((gfx_widgets_msg_queue_move_loop cfg l n y unfold s).msg_queue_has_icons = s.msg_queue_has_icons) ∧
    ((gfx_widgets_msg_queue_move_loop cfg l n y unfold s).msg_queue_kill = s.msg_queue_kill) ∧
    ((gfx_widgets_msg_queue_move_loop cfg l n y unfold s).msg_queue_tasks_count = s.msg_queue_tasks_count) ∧
    ((gfx_widgets_msg_queue_move_loop cfg l n y unfold s).simple_widget_padding = s.simple_widget_padding) ∧
    ((gfx_widgets_msg_queue_move_loop cfg l n y unfold s).msg_queue_height = s.msg_queue_height) ∧
    ((gfx_widgets_msg_queue_move_loop cfg l n y unfold s).msg_queue_spacing = s.msg_queue_spacing) ∧
    ((gfx_widgets_msg_queue_move_loop cfg l n y unfold s).msg_queue_default_rect_width_menu_alive = s.msg_queue_default_rect_width_menu_alive) ∧
    ((gfx_widgets_msg_queue_move_loop cfg l n y unfold s).msg_queue_default_rect_width = s.msg_queue_default_rect_width) ∧
    ((gfx_widgets_msg_queue_move_loop cfg l n y unfold s).msg_queue_line_height = s.msg_queue_line_height) ∧
    ((gfx_widgets_msg_queue_move_loop cfg l n y unfold s).msg_queue = s.msg_queue) ∧
    ((gfx_widgets_msg_queue_move_loop cfg l n y unfold s).current_msgs = s.current_msgs) ∧
    ((gfx_widgets_msg_queue_move_loop cfg l n y unfold s).msgs = s.msgs) ∧
    ((gfx_widgets_msg_queue_move_loop cfg l n y unfold s).msgs_next = s.msgs_next) ∧
    ((gfx_widgets_msg_queue_move_loop cfg l n y unfold s).msgs_freed = s.msgs_freed) ∧
    ((gfx_widgets_msg_queue_move_loop cfg l n y unfold s).tasks = s.tasks) ∧
    ((gfx_widgets_msg_queue_move_loop cfg l n y unfold s).timers = s.timers) ∧
    ((gfx_widgets_msg_queue_move_loop cfg l n y unfold s).regular_line_height = s.regular_line_height) ∧
    ((gfx_widgets_msg_queue_move_loop cfg l n y unfold s).cheevo_popup_queue = s.cheevo_popup_queue) ∧
    ((gfx_widgets_msg_queue_move_loop cfg l n y unfold s).cheevo_popup_queue_read_index = s.cheevo_popup_queue_read_index) ∧
    ((gfx_widgets_msg_queue_move_loop cfg l n y unfold s).cheevo_popup_queue_write_index = s.cheevo_popup_queue_write_index) ∧
    ((gfx_widgets_msg_queue_move_loop cfg l n y unfold s).cheevo_unfold = s.cheevo_unfold) ∧
    ((gfx_widgets_msg_queue_move_loop cfg l n y unfold s).cheevo_y = s.cheevo_y) ∧
    ((gfx_widgets_msg_queue_move_loop cfg l n y unfold s).cheevo_width = s.cheevo_width) ∧
    ((gfx_widgets_msg_queue_move_loop cfg l n y unfold s).cheevo_height = s.cheevo_height) ∧
    ((gfx_widgets_msg_queue_move_loop cfg l n y unfold s).generic_anims = s.generic_anims) := by
  induction n generalizing y unfold s with
  | zero => simp [gfx_widgets_msg_queue_move_loop]
  | succ i ih =>
    unfold gfx_widgets_msg_queue_move_loop
    split
    · exact ih _ _ _
    · split
      · exact ih _ _ _
      · simp [ih]

@[simp]
theorem gfx_widgets_msg_queue_move_frame (cfg : Config) (s : State) :
    ((gfx_widgets_msg_queue_move cfg s).widgets_active = s.widgets_active) ∧
    ((gfx_widgets_msg_queue_move cfg s).widgets_inited = s.widgets_inited) ∧
    ((gfx_widgets_msg_queue_move cfg s).widgets_persisting = s.widgets_persisting) ∧
    ((gfx_widgets_msg_queue_move cfg s).msg_queue_has_icons = s.msg_queue_has_icons) ∧
    ((gfx_widgets_msg_queue_move cfg s).msg_queue_kill = s.msg_queue_kill) ∧
    ((gfx_widgets_msg_queue_move cfg s).msg_queue_tasks_count = s.msg_queue_tasks_count) ∧
    ((gfx_widgets_msg_queue_move cfg s).simple_widget_padding = s.simple_widget_padding) ∧
    ((gfx_widgets_msg_queue_move cfg s).msg_queue_height = s.msg_queue_height) ∧
    ((gfx_widgets_msg_queue_move cfg s).msg_queue_spacing = s.msg_queue_spacing) ∧
    ((gfx_widgets_msg_queue_move cfg s).msg_queue_default_rect_width_menu_alive = s.msg_queue_default_rect_width_menu_alive) ∧
    ((gfx_widgets_msg_queue_move cfg s).msg_queue_default_rect_width = s.msg_queue_default_rect_width) ∧
    ((gfx_widgets_msg_queue_move cfg s).msg_queue_line_height = s.msg_queue_line_height) ∧
    ((gfx_widgets_msg_queue_move cfg s).msg_queue = s.msg_queue) ∧
    ((gfx_widgets_msg_queue_move cfg s).current_msgs = s.current_msgs) ∧
    ((gfx_widgets_msg_queue_move cfg s).msgs = s.msgs) ∧
    ((gfx_widgets_msg_queue_move cfg s).msgs_next = s.msgs_next) ∧
    ((gfx_widgets_msg_queue_move cfg s).msgs_freed = s.msgs_freed) ∧
    ((gfx_widgets_msg_queue_move cfg s).tasks = s.tasks) ∧
    ((gfx_widgets_msg_queue_move cfg s).timers = s.timers) ∧
    ((gfx_widgets_msg_queue_move cfg s).regular_line_height = s.regular_line_height) ∧
    ((gfx_widgets_msg_queue_move cfg s).cheevo_popup_queue = s.cheevo_popup_queue) ∧
    ((gfx_widgets_msg_queue_move cfg s).cheevo_popup_queue_read_index = s.cheevo_popup_queue_read_index) ∧
    ((gfx_widgets_msg_queue_move cfg s).cheevo_popup_queue_write_index = s.cheevo_popup_queue_write_index) ∧
    ((gfx_widgets_msg_queue_move cfg s).cheevo_unfold = s.cheevo_unfold) ∧
    ((gfx_widgets_msg_queue_move cfg s).cheevo_y = s.cheevo_y) ∧
    ((gfx_widgets_msg_queue_move cfg s).cheevo_width = s.cheevo_width) ∧
    ((gfx_widgets_msg_queue_move cfg s).cheevo_height = s.cheevo_height) ∧
    ((gfx_widgets_msg_queue_move cfg s).generic_anims = s.generic_anims) := by
  unfold gfx_widgets_msg_queue_move
  split <;> simp

@[simp]
theorem gfx_widgets_msg_queue_kill_start_frame (cfg : Config) (s : State) (idx msg : Nat) :
    ((gfx_widgets_msg_queue_kill_start cfg s idx msg).widgets_active = s.widgets_active) ∧
    ((gfx_widgets_msg_queue_kill_start cfg s idx msg).widgets_inited = s.widgets_inited) ∧
    ((gfx_widgets_msg_queue_kill_start cfg s idx msg).widgets_persisting = s.widgets_persisting) ∧
    ((gfx_widgets_msg_queue_kill_start cfg s idx msg).msg_queue_has_icons = s.msg_queue_has_icons) ∧
    ((gfx_widgets_msg_queue_kill_start cfg s idx msg).msg_queue_tasks_count = s.msg_queue_tasks_count) ∧
    ((gfx_widgets_msg_queue_kill_start cfg s idx msg).simple_widget_padding = s.simple_widget_padding) ∧
    ((gfx_widgets_msg_queue_kill_start cfg s idx msg).msg_queue_height = s.msg_queue_height) ∧
    ((gfx_widgets_msg_queue_kill_start cfg s idx msg).msg_queue_spacing = s.msg_queue_spacing) ∧
    ((gfx_widgets_msg_queue_kill_start cfg s idx msg).msg_queue_default_rect_width_menu_alive = s.msg_queue_default_rect_width_menu_alive) ∧
    ((gfx_widgets_msg_queue_kill_start cfg s idx msg).msg_queue_default_rect_width = s.msg_queue_default_rect_width) ∧
    ((gfx_widgets_msg_queue_kill_start cfg s idx msg).msg_queue_line_height = s.msg_queue_line_height) ∧
    ((gfx_widgets_msg_queue_kill_start cfg s idx msg).msg_queue = s.msg_queue) ∧
    ((gfx_widgets_msg_queue_kill_start cfg s idx msg).current_msgs = s.current_msgs) ∧
    ((gfx_widgets_msg_queue_kill_start cfg s idx msg).msgs_next = s.msgs_next) ∧
    ((gfx_widgets_msg_queue_kill_start cfg s idx msg).msgs_freed = s.msgs_freed) ∧
    ((gfx_widgets_msg_queue_kill_start cfg s idx msg).tasks = s.tasks) ∧
    ((gfx_widgets_msg_queue_kill_start cfg s idx msg).timers = s.timers) ∧
    ((gfx_widgets_msg_queue_kill_start cfg s idx msg).regular_line_height = s.regular_line_height) ∧
    ((gfx_widgets_msg_queue_kill_start cfg s idx msg).cheevo_popup_queue = s.cheevo_popup_queue) ∧
    ((gfx_widgets_msg_queue_kill_start cfg s idx msg).cheevo_popup_queue_read_index = s.cheevo_popup_queue_read_index) ∧
    ((gfx_widgets_msg_queue_kill_start cfg s idx msg).cheevo_popup_queue_write_index = s.cheevo_popup_queue_write_index) ∧
    ((gfx_widgets_msg_queue_kill_start cfg s idx msg).cheevo_unfold = s.cheevo_unfold) ∧
    ((gfx_widgets_msg_queue_kill_start cfg s idx msg).cheevo_y = s.cheevo_y) ∧
    ((gfx_widgets_msg_queue_kill_start cfg s idx msg).cheevo_width = s.cheevo_width) ∧
    ((gfx_widgets_msg_queue_kill_start cfg s idx msg).cheevo_height = s.cheevo_height) ∧
    ((gfx_widgets_msg_queue_kill_start cfg s idx msg).generic_anims = s.generic_anims) := by
  unfold gfx_widgets_msg_queue_kill_start
  simp

@[simp]
theorem gfx_widgets_msg_queue_kill_frame (cfg : Config) (s : State) (idx : Nat) :
    ((gfx_widgets_msg_queue_kill cfg s idx).widgets_active = s.widgets_active) ∧
    ((gfx_widgets_msg_queue_kill cfg s idx).widgets_inited = s.widgets_inited) ∧
    ((gfx_widgets_msg_queue_kill cfg s idx).widgets_persisting = s.widgets_persisting) ∧
    ((gfx_widgets_msg_queue_kill cfg s idx).msg_queue_has_icons = s.msg_queue_has_icons) ∧
    ((gfx_widgets_msg_queue_kill cfg s idx).msg_queue_tasks_count = s.msg_queue_tasks_count) ∧
    ((gfx_widgets_msg_queue_kill cfg s idx).simple_widget_padding = s.simple_widget_padding) ∧
    ((gfx_widgets_msg_queue_kill cfg s idx).msg_queue_height = s.msg_queue_height) ∧
    ((gfx_widgets_msg_queue_kill cfg s idx).msg_queue_spacing = s.msg_queue_spacing) ∧
    ((gfx_widgets_msg_queue_kill cfg s idx).msg_queue_default_rect_width_menu_alive = s.msg_queue_default_rect_width_menu_alive) ∧
    ((gfx_widgets_msg_queue_kill cfg s idx).msg_queue_default_rect_width = s.msg_queue_default_rect_width) ∧
    ((gfx_widgets_msg_queue_kill cfg s idx).msg_queue_line_height = s.msg_queue_line_height) ∧
    ((gfx_widgets_msg_queue_kill cfg s idx).msg_queue = s.msg_queue) ∧
    ((gfx_widgets_msg_queue_kill cfg s idx).current_msgs = s.current_msgs) ∧
    ((gfx_widgets_msg_queue_kill cfg s idx).msgs_next = s.msgs_next) ∧
    ((gfx_widgets_msg_queue_kill cfg s idx).msgs_freed = s.msgs_freed) ∧
    ((gfx_widgets_msg_queue_kill cfg s idx).tasks = s.tasks) ∧
    ((gfx_widgets_msg_queue_kill cfg s idx).timers = s.timers) ∧
    ((gfx_widgets_msg_queue_kill cfg s idx).regular_line_height = s.regular_line_height) ∧
    ((gfx_widgets_msg_queue_kill cfg s idx).cheevo_popup_queue = s.cheevo_popup_queue) ∧
    ((gfx_widgets_msg_queue_kill cfg s idx).cheevo_popup_queue_read_index = s.cheevo_popup_queue_read_index) ∧
    ((gfx_widgets_msg_queue_kill cfg s idx).cheevo_popup_queue_write_index = s.cheevo_popup_queue_write_index) ∧
    ((gfx_widgets_msg_queue_kill cfg s idx).cheevo_unfold = s.cheevo_unfold) ∧
    ((gfx_widgets_msg_queue_kill cfg s idx).cheevo_y = s.cheevo_y) ∧
    ((gfx_widgets_msg_queue_kill cfg s idx).cheevo_width = s.cheevo_width) ∧
    ((gfx_widgets_msg_queue_kill cfg s idx).cheevo_height = s.cheevo_height) ∧
    ((gfx_widgets_msg_queue_kill cfg s idx).generic_anims = s.generic_anims) := by
  unfold gfx_widgets_msg_queue_kill
  split
  · simp
  · split
    · simp
    · split <;> simp

@[simp]
theorem gfx_widgets_msg_queue_kill_end_frame (s : State) :
    ((gfx_widgets_msg_queue_kill_end s).widgets_active = s.widgets_active) ∧
    ((gfx_widgets_msg_queue_kill_end s).widgets_inited = s.widgets_inited) ∧
    ((gfx_widgets_msg_queue_kill_end s).widgets_persisting = s.widgets_persisting) ∧
    ((gfx_widgets_msg_queue_kill_end s).msg_queue_has_icons = s.msg_queue_has_icons) ∧
    ((gfx_widgets_msg_queue_kill_end s).msg_queue_kill = s.msg_queue_kill) ∧
    ((gfx_widgets_msg_queue_kill_end s).simple_widget_padding = s.simple_widget_padding) ∧
    ((gfx_widgets_msg_queue_kill_end s).msg_queue_height = s.msg_queue_height) ∧
    ((gfx_widgets_msg_queue_kill_end s).msg_queue_spacing = s.msg_queue_spacing) ∧
    ((gfx_widgets_msg_queue_kill_end s).msg_queue_default_rect_width_menu_alive = s.msg_queue_default_rect_width_menu_alive) ∧
    ((gfx_widgets_msg_queue_kill_end s).msg_queue_default_rect_width = s.msg_queue_default_rect_width) ∧
    ((gfx_widgets_msg_queue_kill_end s).msg_queue_line_height = s.msg_queue_line_height) ∧
    ((gfx_widgets_msg_queue_kill_end s).msg_queue = s.msg_queue) ∧
    ((gfx_widgets_msg_queue_kill_end s).msgs = s.msgs) ∧
    ((gfx_widgets_msg_queue_kill_end s).msgs_next = s.msgs_next) ∧
    ((gfx_widgets_msg_queue_kill_end s).regular_line_height = s.regular_line_height) ∧
    ((gfx_widgets_msg_queue_kill_end s).cheevo_popup_queue = s.cheevo_popup_queue) ∧
    ((gfx_widgets_msg_queue_kill_end s).cheevo_popup_queue_read_index = s.cheevo_popup_queue_read_index) ∧
    ((gfx_widgets_msg_queue_kill_end s).cheevo_popup_queue_write_index = s.cheevo_popup_queue_write_index) ∧
    ((gfx_widgets_msg_queue_kill_end s).cheevo_unfold = s.cheevo_unfold) ∧
    ((gfx_widgets_msg_queue_kill_end s).cheevo_y = s.cheevo_y) ∧
    ((gfx_widgets_msg_queue_kill_end s).cheevo_width = s.cheevo_width) ∧
    ((gfx_widgets_msg_queue_kill_end s).cheevo_height = s.cheevo_height) ∧
    ((gfx_widgets_msg_queue_kill_end s).generic_anims = s.generic_anims) := by
  unfold gfx_widgets_msg_queue_kill_end
  split
  · simp
  · split <;> simp

@[simp]
theorem gfx_widgets_iterate_consume_timer_frame (cfg : Config) (s : State) (msg_widget : Nat) :
    ((gfx_widgets_iterate_consume_timer cfg s msg_widget).widgets_active = s.widgets_active) ∧
    ((gfx_widgets_iterate_consume_timer cfg s msg_widget).widgets_moving = s.widgets_moving) ∧
    ((gfx_widgets_iterate_consume_timer cfg s msg_widget).widgets_inited = s.widgets_inited) ∧
    ((gfx_widgets_iterate_consume_timer cfg s msg_widget).widgets_persisting = s.widgets_persisting) ∧
    ((gfx_widgets_iterate_consume_timer cfg s msg_widget).msg_queue_has_icons = s.msg_queue_has_icons) ∧
    ((gfx_widgets_iterate_consume_timer cfg s msg_widget).msg_queue_kill = s.msg_queue_kill) ∧
    ((gfx_widgets_iterate_consume_timer cfg s msg_widget).simple_widget_padding = s.simple_widget_padding) ∧
    ((gfx_widgets_iterate_consume_timer cfg s msg_widget).msg_queue_height = s.msg_queue_height) ∧
    ((gfx_widgets_iterate_consume_timer cfg s msg_widget).msg_queue_spacing = s.msg_queue_spacing) ∧
    ((gfx_widgets_iterate_consume_timer cfg s msg_widget).msg_queue_default_rect_width_menu_alive = s.msg_queue_default_rect_width_menu_alive) ∧
    ((gfx_widgets_iterate_consume_timer cfg s msg_widget).msg_queue_default_rect_width = s.msg_queue_default_rect_width) ∧
    ((gfx_widgets_iterate_consume_timer cfg s msg_widget).msg_queue_line_height = s.msg_queue_line_height) ∧
    ((gfx_widgets_iterate_consume_timer cfg s msg_widget).msg_queue = s.msg_queue) ∧
    ((gfx_widgets_iterate_consume_timer cfg s msg_widget).current_msgs = s.current_msgs) ∧
    ((gfx_widgets_iterate_consume_timer cfg s msg_widget).msgs_next = s.msgs_next) ∧
    ((gfx_widgets_iterate_consume_timer cfg s msg_widget).msgs_freed = s.msgs_freed) ∧
    ((gfx_widgets_iterate_consume_timer cfg s msg_widget).tasks = s.tasks) ∧
    ((gfx_widgets_iterate_consume_timer cfg s msg_widget).anims = s.anims) ∧
    ((gfx_widgets_iterate_consume_timer cfg s msg_widget).regular_line_height = s.regular_line_height) ∧
    ((gfx_widgets_iterate_consume_timer cfg s msg_widget).cheevo_popup_queue = s.cheevo_popup_queue) ∧
    ((gfx_widgets_iterate_consume_timer cfg s msg_widget).cheevo_popup_queue_read_index = s.cheevo_popup_queue_read_index) ∧
    ((gfx_widgets_iterate_consume_timer cfg s msg_widget).cheevo_popup_queue_write_index = s.cheevo_popup_queue_write_index) ∧
    ((gfx_widgets_iterate_consume_timer cfg s msg_widget).cheevo_unfold = s.cheevo_unfold) ∧
    ((gfx_widgets_iterate_consume_timer cfg s msg_widget).cheevo_y = s.cheevo_y) ∧
    ((gfx_widgets_iterate_consume_timer cfg s msg_widget).cheevo_width = s.cheevo_width) ∧
    ((gfx_widgets_iterate_consume_timer cfg s msg_widget).cheevo_height = s.cheevo_height) ∧
    ((gfx_widgets_iterate_consume_timer cfg s msg_widget).generic_anims = s.generic_anims) := by
  unfold gfx_widgets_iterate_consume_timer
  split
  · split <;> simp
  · simp

@[simp]
theorem gfx_widgets_iterate_loop_timer_frame (cfg : Config) (s : State) (msg_widget : Nat) :
    ((gfx_widgets_iterate_loop_timer cfg s msg_widget).widgets_active = s.widgets_active) ∧
    ((gfx_widgets_iterate_loop_timer cfg s msg_widget).widgets_moving = s.widgets_moving) ∧
    ((gfx_widgets_iterate_loop_timer cfg s msg_widget).widgets_inited = s.widgets_inited) ∧
    ((gfx_widgets_iterate_loop_timer cfg s msg_widget).widgets_persisting = s.widgets_persisting) ∧
    ((gfx_widgets_iterate_loop_timer cfg s msg_widget).msg_queue_has_icons = s.msg_queue_has_icons) ∧
    ((gfx_widgets_iterate_loop_timer cfg s msg_widget).msg_queue_kill = s.msg_queue_kill) ∧
    ((gfx_widgets_iterate_loop_timer cfg s msg_widget).msg_queue_tasks_count = s.msg_queue_tasks_count) ∧
    ((gfx_widgets_iterate_loop_timer cfg s msg_widget).simple_widget_padding = s.simple_widget_padding) ∧
    ((gfx_widgets_iterate_loop_timer cfg s msg_widget).msg_queue_height = s.msg_queue_height) ∧
    ((gfx_widgets_iterate_loop_timer cfg s msg_widget).msg_queue_spacing = s.msg_queue_spacing) ∧
    ((gfx_widgets_iterate_loop_timer cfg s msg_widget).msg_queue_default_rect_width_menu_alive = s.msg_queue_default_rect_width_menu_alive) ∧
    ((gfx_widgets_iterate_loop_timer cfg s msg_widget).msg_queue_default_rect_width = s.msg_queue_default_rect_width) ∧
    ((gfx_widgets_iterate_loop_timer cfg s msg_widget).msg_queue_line_height = s.msg_queue_line_height) ∧
    ((gfx_widgets_iterate_loop_timer cfg s msg_widget).msg_queue = s.msg_queue) ∧
    ((gfx_widgets_iterate_loop_timer cfg s msg_widget).current_msgs = s.current_msgs) ∧
    ((gfx_widgets_iterate_loop_timer cfg s msg_widget).msgs_next = s.msgs_next) ∧
    ((gfx_widgets_iterate_loop_timer cfg s msg_widget).msgs_freed = s.msgs_freed) ∧
    ((gfx_widgets_iterate_loop_timer cfg s msg_widget).tasks = s.tasks) ∧
    ((gfx_widgets_iterate_loop_timer cfg s msg_widget).anims = s.anims) ∧
    ((gfx_widgets_iterate_loop_timer cfg s msg_widget).regular_line_height = s.regular_line_height) ∧
    ((gfx_widgets_iterate_loop_timer cfg s msg_widget).cheevo_popup_queue = s.cheevo_popup_queue) ∧
    ((gfx_widgets_iterate_loop_timer cfg s msg_widget).cheevo_popup_queue_read_index = s.cheevo_popup_queue_read_index) ∧
    ((gfx_widgets_iterate_loop_timer cfg s msg_widget).cheevo_popup_queue_write_index = s.cheevo_popup_queue_write_index) ∧
    ((gfx_widgets_iterate_loop_timer cfg s msg_widget).cheevo_unfold = s.cheevo_unfold) ∧
    ((gfx_widgets_iterate_loop_timer cfg s msg_widget).cheevo_y = s.cheevo_y) ∧
    ((gfx_widgets_iterate_loop_timer cfg s msg_widget).cheevo_width = s.cheevo_width) ∧
    ((gfx_widgets_iterate_loop_timer cfg s msg_widget).cheevo_height = s.cheevo_height) ∧
    ((gfx_widgets_iterate_loop_timer cfg s msg_widget).generic_anims = s.generic_anims) := by
  unfold gfx_widgets_iterate_loop_timer
  split <;> simp

@[simp]
theorem gfx_widgets_iterate_loop_frame (cfg : Config) (n i : Nat) (s : State) :
    ((gfx_widgets_iterate_loop cfg n i s).widgets_active = s.widgets_active) ∧
    ((gfx_widgets_iterate_loop cfg n i s).widgets_inited = s.widgets_inited) ∧
    ((gfx_widgets_iterate_loop cfg n i s).widgets_persisting = s.widgets_persisting) ∧
    ((gfx_widgets_iterate_loop cfg n i s).msg_queue_has_icons = s.msg_queue_has_icons) ∧
    ((gfx_widgets_iterate_loop cfg n i s).msg_queue_tasks_count = s.msg_queue_tasks_count) ∧
    ((gfx_widgets_iterate_loop cfg n i s).simple_widget_padding = s.simple_widget_padding) ∧
    ((gfx_widgets_iterate_loop cfg n i s).msg_queue_height = s.msg_queue_height) ∧
    ((gfx_widgets_iterate_loop cfg n i s).msg_queue_spacing = s.msg_queue_spacing) ∧
    ((gfx_widgets_iterate_loop cfg n i s).msg_queue_default_rect_width_menu_alive = s.msg_queue_default_rect_width_menu_alive) ∧
    ((gfx_widgets_iterate_loop cfg n i s).msg_queue_default_rect_width = s.msg_queue_default_rect_width) ∧
    ((gfx_widgets_iterate_loop cfg n i s).msg_queue_line_height = s.msg_queue_line_height) ∧
    ((gfx_widgets_iterate_loop cfg n i s).msg_queue = s.msg_queue) ∧
    ((gfx_widgets_iterate_loop cfg n i s).current_msgs = s.current_msgs) ∧
    ((gfx_widgets_iterate_loop cfg n i s).msgs_next = s.msgs_next) ∧
    ((gfx_widgets_iterate_loop cfg n i s).msgs_freed = s.msgs_freed) ∧
    ((gfx_widgets_iterate_loop cfg n i s).tasks = s.tasks) ∧
    ((gfx_widgets_iterate_loop cfg n i s).regular_line_height = s.regular_line_height) ∧
    ((gfx_widgets_iterate_loop cfg n i s).cheevo_popup_queue = s.cheevo_popup_queue) ∧
    ((gfx_widgets_iterate_loop cfg n i s).cheevo_popup_queue_read_index = s.cheevo_popup_queue_read_index) ∧
    ((gfx_widgets_iterate_loop cfg n i s).cheevo_popup_queue_write_index = s.cheevo_popup_queue_write_index) ∧
    ((gfx_widgets_iterate_loop cfg n i s).cheevo_unfold = s.cheevo_unfold) ∧
    ((gfx_widgets_iterate_loop cfg n i s).cheevo_y = s.cheevo_y) ∧
    ((gfx_widgets_iterate_loop cfg n i s).cheevo_width = s.cheevo_width) ∧
    ((gfx_widgets_iterate_loop cfg n i s).cheevo_height = s.cheevo_height) ∧
    ((gfx_widgets_iterate_loop cfg n i s).generic_anims = s.generic_anims) := by
  induction n generalizing i s with
  | zero => simp [gfx_widgets_iterate_loop]
  | succ n ih =>
    unfold gfx_widgets_iterate_loop
    split
    · simp
    · split
      · split
        · exact ih _ _
        · split
          · simp
          · simp [ih]
      · simp

@[simp]
theorem gfx_widgets_iterate_expire_frame (cfg : Config) (s : State) :
    ((gfx_widgets_iterate_expire cfg s).widgets_active = s.widgets_active) ∧
    ((gfx_widgets_iterate_expire cfg s).widgets_inited = s.widgets_inited) ∧
    ((gfx_widgets_iterate_expire cfg s).widgets_persisting = s.widgets_persisting) ∧
    ((gfx_widgets_iterate_expire cfg s).msg_queue_has_icons = s.msg_queue_has_icons) ∧
    ((gfx_widgets_iterate_expire cfg s).msg_queue_tasks_count = s.msg_queue_tasks_count) ∧
    ((gfx_widgets_iterate_expire cfg s).simple_widget_padding = s.simple_widget_padding) ∧
    ((gfx_widgets_iterate_expire cfg s).msg_queue_height = s.msg_queue_height) ∧
    ((gfx_widgets_iterate_expire cfg s).msg_queue_spacing = s.msg_queue_spacing) ∧
    ((gfx_widgets_iterate_expire cfg s).msg_queue_default_rect_width_menu_alive = s.msg_queue_default_rect_width_menu_alive) ∧
    ((gfx_widgets_iterate_expire cfg s).msg_queue_default_rect_width = s.msg_queue_default_rect_width) ∧
    ((gfx_widgets_iterate_expire cfg s).msg_queue_line_height = s.msg_queue_line_height) ∧
    ((gfx_widgets_iterate_expire cfg s).msg_queue = s.msg_queue) ∧
    ((gfx_widgets_iterate_expire cfg s).current_msgs = s.current_msgs) ∧
    ((gfx_widgets_iterate_expire cfg s).msgs_next = s.msgs_next) ∧
    ((gfx_widgets_iterate_expire cfg s).msgs_freed = s.msgs_freed) ∧
    ((gfx_widgets_iterate_expire cfg s).tasks = s.tasks) ∧
    ((gfx_widgets_iterate_expire cfg s).regular_line_height = s.regular_line_height) ∧
    ((gfx_widgets_iterate_expire cfg s).cheevo_popup_queue = s.cheevo_popup_queue) ∧
    ((gfx_widgets_iterate_expire cfg s).cheevo_popup_queue_read_index = s.cheevo_popup_queue_read_index) ∧
    ((gfx_widgets_iterate_expire cfg s).cheevo_popup_queue_write_index = s.cheevo_popup_queue_write_index) ∧
    ((gfx_widgets_iterate_expire cfg s).cheevo_unfold = s.cheevo_unfold) ∧
    ((gfx_widgets_iterate_expire cfg s).cheevo_y = s.cheevo_y) ∧
    ((gfx_widgets_iterate_expire cfg s).cheevo_width = s.cheevo_width) ∧
    ((gfx_widgets_iterate_expire cfg s).cheevo_height = s.cheevo_height) ∧
    ((gfx_widgets_iterate_expire cfg s).generic_anims = s.generic_anims) := by
  unfold gfx_widgets_iterate_expire
  split <;> simp

@[simp]
theorem gfx_widgets_iterate_layout_frame (s : State) (relayout : Option layout_t) :
    ((gfx_widgets_iterate_layout s relayout).widgets_active = s.widgets_active) ∧
    ((gfx_widgets_iterate_layout s relayout).widgets_moving = s.widgets_moving) ∧
    ((gfx_widgets_iterate_layout s relayout).widgets_inited = s.widgets_inited) ∧
    ((gfx_widgets_iterate_layout s relayout).widgets_persisting = s.widgets_persisting) ∧
    ((gfx_widgets_iterate_layout s relayout).msg_queue_has_icons = s.msg_queue_has_icons) ∧
    ((gfx_widgets_iterate_layout s relayout).msg_queue_kill = s.msg_queue_kill) ∧
    ((gfx_widgets_iterate_layout s relayout).msg_queue_tasks_count = s.msg_queue_tasks_count) ∧
    ((gfx_widgets_iterate_layout s relayout).msg_queue = s.msg_queue) ∧
    ((gfx_widgets_iterate_layout s relayout).current_msgs = s.current_msgs) ∧
    ((gfx_widgets_iterate_layout s relayout).msgs = s.msgs) ∧
    ((gfx_widgets_iterate_layout s relayout).msgs_next = s.msgs_next) ∧
    ((gfx_widgets_iterate_layout s relayout).msgs_freed = s.msgs_freed) ∧
    ((gfx_widgets_iterate_layout s relayout).tasks = s.tasks) ∧
    ((gfx_widgets_iterate_layout s relayout).anims = s.anims) ∧
    ((gfx_widgets_iterate_layout s relayout).timers = s.timers) ∧
    ((gfx_widgets_iterate_layout s relayout).cheevo_popup_queue = s.cheevo_popup_queue) ∧
    ((gfx_widgets_iterate_layout s relayout).cheevo_popup_queue_read_index = s.cheevo_popup_queue_read_index) ∧
    ((gfx_widgets_iterate_layout s relayout).cheevo_popup_queue_write_index = s.cheevo_popup_queue_write_index) ∧
    ((gfx_widgets_iterate_layout s relayout).cheevo_unfold = s.cheevo_unfold) ∧
    ((gfx_widgets_iterate_layout s relayout).cheevo_y = s.cheevo_y) ∧
    ((gfx_widgets_iterate_layout s relayout).cheevo_width = s.cheevo_width) ∧
    ((gfx_widgets_iterate_layout s relayout).cheevo_height = s.cheevo_height) ∧
    ((gfx_widgets_iterate_layout s relayout).generic_anims = s.generic_anims) := by
  unfold gfx_widgets_iterate_layout
  split <;> simp

@[simp]
theorem gfx_widgets_msg_queue_push_update_timer_frame (s : State) (msg_widget : Nat) :
    ((gfx_widgets_msg_queue_push_update_timer s msg_widget).widgets_active = s.widgets_active) ∧
    ((gfx_widgets_msg_queue_push_update_timer s msg_widget).widgets_moving = s.widgets_moving) ∧
    ((gfx_widgets_msg_queue_push_update_timer s msg_widget).widgets_inited = s.widgets_inited) ∧
    ((gfx_widgets_msg_queue_push_update_timer s msg_widget).widgets_persisting = s.widgets_persisting) ∧
    ((gfx_widgets_msg_queue_push_update_timer s msg_widget).msg_queue_has_icons = s.msg_queue_has_icons) ∧
    ((gfx_widgets_msg_queue_push_update_timer s msg_widget).msg_queue_kill = s.msg_queue_kill) ∧
    ((gfx_widgets_msg_queue_push_update_timer s msg_widget).msg_queue_tasks_count = s.msg_queue_tasks_count) ∧
    ((gfx_widgets_msg_queue_push_update_timer s msg_widget).simple_widget_padding = s.simple_widget_padding) ∧
    ((gfx_widgets_msg_queue_push_update_timer s msg_widget).msg_queue_height = s.msg_queue_height) ∧
    ((gfx_widgets_msg_queue_push_update_timer s msg_widget).msg_queue_spacing = s.msg_queue_spacing) ∧
    ((gfx_widgets_msg_queue_push_update_timer s msg_widget).msg_queue_default_rect_width_menu_alive = s.msg_queue_default_rect_width_menu_alive) ∧
    ((gfx_widgets_msg_queue_push_update_timer s msg_widget).msg_queue_default_rect_width = s.msg_queue_default_rect_width) ∧
    ((gfx_widgets_msg_queue_push_update_timer s msg_widget).msg_queue_line_height = s.msg_queue_line_height) ∧
    ((gfx_widgets_msg_queue_push_update_timer s msg_widget).msg_queue = s.msg_queue) ∧
    ((gfx_widgets_msg_queue_push_update_timer s msg_widget).current_msgs = s.current_msgs) ∧
    ((gfx_widgets_msg_queue_push_update_timer s msg_widget).msgs_next = s.msgs_next) ∧
    ((gfx_widgets_msg_queue_push_update_timer s msg_widget).msgs_freed = s.msgs_freed) ∧
    ((gfx_widgets_msg_queue_push_update_timer s msg_widget).tasks = s.tasks) ∧
    ((gfx_widgets_msg_queue_push_update_timer s msg_widget).anims = s.anims) ∧
    ((gfx_widgets_msg_queue_push_update_timer s msg_widget).regular_line_height = s.regular_line_height) ∧
    ((gfx_widgets_msg_queue_push_update_timer s msg_widget).cheevo_popup_queue = s.cheevo_popup_queue) ∧
    ((gfx_widgets_msg_queue_push_update_timer s msg_widget).cheevo_popup_queue_read_index = s.cheevo_popup_queue_read_index) ∧
    ((gfx_widgets_msg_queue_push_update_timer s msg_widget).cheevo_popup_queue_write_index = s.cheevo_popup_queue_write_index) ∧
    ((gfx_widgets_msg_queue_push_update_timer s msg_widget).cheevo_unfold = s.cheevo_unfold) ∧
    ((gfx_widgets_msg_queue_push_update_timer s msg_widget).cheevo_y = s.cheevo_y) ∧
    ((gfx_widgets_msg_queue_push_update_timer s msg_widget).cheevo_width = s.cheevo_width) ∧
    ((gfx_widgets_msg_queue_push_update_timer s msg_widget).cheevo_height = s.cheevo_height) ∧
    ((gfx_widgets_msg_queue_push_update_timer s msg_widget).generic_anims = s.generic_anims) := by
  unfold gfx_widgets_msg_queue_push_update_timer
  split <;> simp

@[simp]
theorem gfx_widgets_msg_queue_push_update_title_frame (cfg : Config) (s : State) (t msg_widget : Nat) :
    ((gfx_widgets_msg_queue_push_update_title cfg s t msg_widget).widgets_active = s.widgets_active) ∧
    ((gfx_widgets_msg_queue_push_update_title cfg s t msg_widget).widgets_moving = s.widgets_moving) ∧
    ((gfx_widgets_msg_queue_push_update_title cfg s t msg_widget).widgets_inited = s.widgets_inited) ∧
    ((gfx_widgets_msg_queue_push_update_title cfg s t msg_widget).widgets_persisting = s.widgets_persisting) ∧
    ((gfx_widgets_msg_queue_push_update_title cfg s t msg_widget).msg_queue_has_icons = s.msg_queue_has_icons) ∧
    ((gfx_widgets_msg_queue_push_update_title cfg s t msg_widget).msg_queue_kill = s.msg_queue_kill) ∧
    ((gfx_widgets_msg_queue_push_update_title cfg s t msg_widget).msg_queue_tasks_count = s.msg_queue_tasks_count) ∧
    ((gfx_widgets_msg_queue_push_update_title cfg s t msg_widget).simple_widget_padding = s.simple_widget_padding) ∧
    ((gfx_widgets_msg_queue_push_update_title cfg s t msg_widget).msg_queue_height = s.msg_queue_height) ∧
    ((gfx_widgets_msg_queue_push_update_title cfg s t msg_widget).msg_queue_spacing = s.msg_queue_spacing) ∧
    ((gfx_widgets_msg_queue_push_update_title cfg s t msg_widget).msg_queue_default_rect_width_menu_alive = s.msg_queue_default_rect_width_menu_alive) ∧
    ((gfx_widgets_msg_queue_push_update_title cfg s t msg_widget).msg_queue_default_rect_width = s.msg_queue_default_rect_width) ∧
    ((gfx_widgets_msg_queue_push_update_title cfg s t msg_widget).msg_queue_line_height = s.msg_queue_line_height) ∧
    ((gfx_widgets_msg_queue_push_update_title cfg s t msg_widget).msg_queue = s.msg_queue) ∧
    ((gfx_widgets_msg_queue_push_update_title cfg s t msg_widget).current_msgs = s.current_msgs) ∧
    ((gfx_widgets_msg_queue_push_update_title cfg s t msg_widget).msgs_next = s.msgs_next) ∧
    ((gfx_widgets_msg_queue_push_update_title cfg s t msg_widget).msgs_freed = s.msgs_freed) ∧
    ((gfx_widgets_msg_queue_push_update_title cfg s t msg_widget).tasks = s.tasks) ∧
    ((gfx_widgets_msg_queue_push_update_title cfg s t msg_widget).timers = s.timers) ∧
    ((gfx_widgets_msg_queue_push_update_title cfg s t msg_widget).regular_line_height = s.regular_line_height) ∧
    ((gfx_widgets_msg_queue_push_update_title cfg s t msg_widget).cheevo_popup_queue = s.cheevo_popup_queue) ∧
    ((gfx_widgets_msg_queue_push_update_title cfg s t msg_widget).cheevo_popup_queue_read_index = s.cheevo_popup_queue_read_index) ∧
    ((gfx_widgets_msg_queue_push_update_title cfg s t msg_widget).cheevo_popup_queue_write_index = s.cheevo_popup_queue_write_index) ∧
    ((gfx_widgets_msg_queue_push_update_title cfg s t msg_widget).cheevo_unfold = s.cheevo_unfold) ∧
    ((gfx_widgets_msg_queue_push_update_title cfg s t msg_widget).cheevo_y = s.cheevo_y) ∧
    ((gfx_widgets_msg_queue_push_update_title cfg s t msg_widget).cheevo_width = s.cheevo_width) ∧
    ((gfx_widgets_msg_queue_push_update_title cfg s t msg_widget).cheevo_height = s.cheevo_height) ∧
    ((gfx_widgets_msg_queue_push_update_title cfg s t msg_widget).generic_anims = s.generic_anims) := by
  unfold gfx_widgets_msg_queue_push_update_title
  split
  · simp only []
    split <;> simp
  · simp

@[simp]
theorem gfx_widgets_msg_queue_push_update_frame (cfg : Config) (s : State) (t msg_widget : Nat) :
    ((gfx_widgets_msg_queue_push_update cfg s t msg_widget).widgets_active = s.widgets_active) ∧
    ((gfx_widgets_msg_queue_push_update cfg s t msg_widget).widgets_moving = s.widgets_moving) ∧
    ((gfx_widgets_msg_queue_push_update cfg s t msg_widget).widgets_inited = s.widgets_inited) ∧
    ((gfx_widgets_msg_queue_push_update cfg s t msg_widget).widgets_persisting = s.widgets_persisting) ∧
    ((gfx_widgets_msg_queue_push_update cfg s t msg_widget).msg_queue_has_icons = s.msg_queue_has_icons) ∧
    ((gfx_widgets_msg_queue_push_update cfg s t msg_widget).msg_queue_kill = s.msg_queue_kill) ∧
    ((gfx_widgets_msg_queue_push_update cfg s t msg_widget).msg_queue_tasks_count = s.msg_queue_tasks_count) ∧
    ((gfx_widgets_msg_queue_push_update cfg s t msg_widget).simple_widget_padding = s.simple_widget_padding) ∧
    ((gfx_widgets_msg_queue_push_update cfg s t msg_widget).msg_queue_height = s.msg_queue_height) ∧
    ((gfx_widgets_msg_queue_push_update cfg s t msg_widget).msg_queue_spacing = s.msg_queue_spacing) ∧
    ((gfx_widgets_msg_queue_push_update cfg s t msg_widget).msg_queue_default_rect_width_menu_alive = s.msg_queue_default_rect_width_menu_alive) ∧
    ((gfx_widgets_msg_queue_push_update cfg s t msg_widget).msg_queue_default_rect_width = s.msg_queue_default_rect_width) ∧
    ((gfx_widgets_msg_queue_push_update cfg s t msg_widget).msg_queue_line_height = s.msg_queue_line_height) ∧
    ((gfx_widgets_msg_queue_push_update cfg s t msg_widget).msg_queue = s.msg_queue) ∧
    ((gfx_widgets_msg_queue_push_update cfg s t msg_widget).current_msgs = s.current_msgs) ∧
    ((gfx_widgets_msg_queue_push_update cfg s t msg_widget).msgs_next = s.msgs_next) ∧
    ((gfx_widgets_msg_queue_push_update cfg s t msg_widget).msgs_freed = s.msgs_freed) ∧
    ((gfx_widgets_msg_queue_push_update cfg s t msg_widget).tasks = s.tasks) ∧
    ((gfx_widgets_msg_queue_push_update cfg s t msg_widget).regular_line_height = s.regular_line_height) ∧
    ((gfx_widgets_msg_queue_push_update cfg s t msg_widget).cheevo_popup_queue = s.cheevo_popup_queue) ∧
    ((gfx_widgets_msg_queue_push_update cfg s t msg_widget).cheevo_popup_queue_read_index = s.cheevo_popup_queue_read_index) ∧
    ((gfx_widgets_msg_queue_push_update cfg s t msg_widget).cheevo_popup_queue_write_index = s.cheevo_popup_queue_write_index) ∧
    ((gfx_widgets_msg_queue_push_update cfg s t msg_widget).cheevo_unfold = s.cheevo_unfold) ∧
    ((gfx_widgets_msg_queue_push_update cfg s t msg_widget).cheevo_y = s.cheevo_y) ∧
    ((gfx_widgets_msg_queue_push_update cfg s t msg_widget).cheevo_width = s.cheevo_width) ∧
    ((gfx_widgets_msg_queue_push_update cfg s t msg_widget).cheevo_height = s.cheevo_height) ∧
    ((gfx_widgets_msg_queue_push_update cfg s t msg_widget).generic_anims = s.generic_anims) := by
  unfold gfx_widgets_msg_queue_push_update
  simp

@[simp]
theorem gfx_widgets_msg_queue_push_spawn_frame (cfg : Config) (s : State) (q : fifo_buffer_t) (task : Option Nat) (msg : String) (duration : Nat) (menu_is_alive : Bool) :
    ((gfx_widgets_msg_queue_push_spawn cfg s q task msg duration menu_is_alive).widgets_active = s.widgets_active) ∧
    ((gfx_widgets_msg_queue_push_spawn cfg s q task msg duration menu_is_alive).widgets_moving = s.widgets_moving) ∧
    ((gfx_widgets_msg_queue_push_spawn cfg s q task msg duration menu_is_alive).widgets_inited = s.widgets_inited) ∧
    ((gfx_widgets_msg_queue_push_spawn cfg s q task msg duration menu_is_alive).widgets_persisting = s.widgets_persisting) ∧
    ((gfx_widgets_msg_queue_push_spawn cfg s q task msg duration menu_is_alive).msg_queue_has_icons = s.msg_queue_has_icons) ∧
    ((gfx_widgets_msg_queue_push_spawn cfg s q task msg duration menu_is_alive).msg_queue_kill = s.msg_queue_kill) ∧
    ((gfx_widgets_msg_queue_push_spawn cfg s q task msg duration menu_is_alive).msg_queue_tasks_count = s.msg_queue_tasks_count) ∧
    ((gfx_widgets_msg_queue_push_spawn cfg s q task msg duration menu_is_alive).simple_widget_padding = s.simple_widget_padding) ∧
    ((gfx_widgets_msg_queue_push_spawn cfg s q task msg duration menu_is_alive).msg_queue_height = s.msg_queue_height) ∧
    ((gfx_widgets_msg_queue_push_spawn cfg s q task msg duration menu_is_alive).msg_queue_spacing = s.msg_queue_spacing) ∧
    ((gfx_widgets_msg_queue_push_spawn cfg s q task msg duration menu_is_alive).msg_queue_default_rect_width_menu_alive = s.msg_queue_default_rect_width_menu_alive) ∧
    ((gfx_widgets_msg_queue_push_spawn cfg s q task msg duration menu_is_alive).msg_queue_default_rect_width = s.msg_queue_default_rect_width) ∧
    ((gfx_widgets_msg_queue_push_spawn cfg s q task msg duration menu_is_alive).msg_queue_line_height = s.msg_queue_line_height) ∧
    ((gfx_widgets_msg_queue_push_spawn cfg s q task msg duration menu_is_alive).current_msgs = s.current_msgs) ∧
    ((gfx_widgets_msg_queue_push_spawn cfg s q task msg duration menu_is_alive).msgs_freed = s.msgs_freed) ∧
    ((gfx_widgets_msg_queue_push_spawn cfg s q task msg duration menu_is_alive).anims = s.anims) ∧
    ((gfx_widgets_msg_queue_push_spawn cfg s q task msg duration menu_is_alive).timers = s.timers) ∧
    ((gfx_widgets_msg_queue_push_spawn cfg s q task msg duration menu_is_alive).regular_line_height = s.regular_line_height) ∧
    ((gfx_widgets_msg_queue_push_spawn cfg s q task msg duration menu_is_alive).cheevo_popup_queue = s.cheevo_popup_queue) ∧
    ((gfx_widgets_msg_queue_push_spawn cfg s q task msg duration menu_is_alive).cheevo_popup_queue_read_index = s.cheevo_popup_queue_read_index) ∧
    ((gfx_widgets_msg_queue_push_spawn cfg s q task msg duration menu_is_alive).cheevo_popup_queue_write_index = s.cheevo_popup_queue_write_index) ∧
    ((gfx_widgets_msg_queue_push_spawn cfg s q task msg duration menu_is_alive).cheevo_unfold = s.cheevo_unfold) ∧
    ((gfx_widgets_msg_queue_push_spawn cfg s q task msg duration menu_is_alive).cheevo_y = s.cheevo_y) ∧
    ((gfx_widgets_msg_queue_push_spawn cfg s q task msg duration menu_is_alive).cheevo_width = s.cheevo_width) ∧
    ((gfx_widgets_msg_queue_push_spawn cfg s q task msg duration menu_is_alive).cheevo_height = s.cheevo_height) ∧
    ((gfx_widgets_msg_queue_push_spawn cfg s q task msg duration menu_is_alive).generic_anims = s.generic_anims) := by
  unfold gfx_widgets_msg_queue_push_spawn
  cases task <;> simp

@[simp]
theorem gfx_widgets_iterate_consume_frame (cfg : Config) (s : State) :
    ((gfx_widgets_iterate_consume cfg s).widgets_active = s.widgets_active) ∧
    ((gfx_widgets_iterate_consume cfg s).widgets_inited = s.widgets_inited) ∧
    ((gfx_widgets_iterate_consume cfg s).widgets_persisting = s.widgets_persisting) ∧
    ((gfx_widgets_iterate_consume cfg s).msg_queue_has_icons = s.msg_queue_has_icons) ∧
    ((gfx_widgets_iterate_consume cfg s).msg_queue_kill = s.msg_queue_kill) ∧
    ((gfx_widgets_iterate_consume cfg s).simple_widget_padding = s.simple_widget_padding) ∧
    ((gfx_widgets_iterate_consume cfg s).msg_queue_height = s.msg_queue_height) ∧
    ((gfx_widgets_iterate_consume cfg s).msg_queue_spacing = s.msg_queue_spacing) ∧
    ((gfx_widgets_iterate_consume cfg s).msg_queue_default_rect_width_menu_alive = s.msg_queue_default_rect_width_menu_alive) ∧
    ((gfx_widgets_iterate_consume cfg s).msg_queue_default_rect_width = s.msg_queue_default_rect_width) ∧
    ((gfx_widgets_iterate_consume cfg s).msg_queue_line_height = s.msg_queue_line_height) ∧
    ((gfx_widgets_iterate_consume cfg s).msgs_next = s.msgs_next) ∧
    ((gfx_widgets_iterate_consume cfg s).msgs_freed = s.msgs_freed) ∧
    ((gfx_widgets_iterate_consume cfg s).tasks = s.tasks) ∧
    ((gfx_widgets_iterate_consume cfg s).regular_line_height = s.regular_line_height) ∧
    ((gfx_widgets_iterate_consume cfg s).cheevo_popup_queue = s.cheevo_popup_queue) ∧
    ((gfx_widgets_iterate_consume cfg s).cheevo_popup_queue_read_index = s.cheevo_popup_queue_read_index) ∧
    ((gfx_widgets_iterate_consume cfg s).cheevo_popup_queue_write_index = s.cheevo_popup_queue_write_index) ∧
    ((gfx_widgets_iterate_consume cfg s).cheevo_unfold = s.cheevo_unfold) ∧
    ((gfx_widgets_iterate_consume cfg s).cheevo_y = s.cheevo_y) ∧
    ((gfx_widgets_iterate_consume cfg s).cheevo_width = s.cheevo_width) ∧
    ((gfx_widgets_iterate_consume cfg s).cheevo_height = s.cheevo_height) ∧
    ((gfx_widgets_iterate_consume cfg s).generic_anims = s.generic_anims) := by
  unfold gfx_widgets_iterate_consume
  split
  · split
    · split
      · simp
      · split <;> simp
    · simp
  · simp

@[simp]
theorem gfx_widgets_start_achievement_notification_frame (cfg : Config) (s : State) :
    ((gfx_widgets_start_achievement_notification cfg s).widgets_active = s.widgets_active) ∧
    ((gfx_widgets_start_achievement_notification cfg s).widgets_moving = s.widgets_moving) ∧
    ((gfx_widgets_start_achievement_notification cfg s).widgets_inited = s.widgets_inited) ∧
    ((gfx_widgets_start_achievement_notification cfg s).widgets_persisting = s.widgets_persisting) ∧
    ((gfx_widgets_start_achievement_notification cfg s).msg_queue_has_icons = s.msg_queue_has_icons) ∧
    ((gfx_widgets_start_achievement_notification cfg s).msg_queue_kill = s.msg_queue_kill) ∧
    ((gfx_widgets_start_achievement_notification cfg s).msg_queue_tasks_count = s.msg_queue_tasks_count) ∧
    ((gfx_widgets_start_achievement_notification cfg s).simple_widget_padding = s.simple_widget_padding) ∧
    ((gfx_widgets_start_achievement_notification cfg s).msg_queue_height = s.msg_queue_height) ∧
    ((gfx_widgets_start_achievement_notification cfg s).msg_queue_spacing = s.msg_queue_spacing) ∧
    ((gfx_widgets_start_achievement_notification cfg s).msg_queue_default_rect_width_menu_alive = s.msg_queue_default_rect_width_menu_alive) ∧
    ((gfx_widgets_start_achievement_notification cfg s).msg_queue_default_rect_width = s.msg_queue_default_rect_width) ∧
    ((gfx_widgets_start_achievement_notification cfg s).msg_queue_line_height = s.msg_queue_line_height) ∧
    ((gfx_widgets_start_achievement_notification cfg s).msg_queue = s.msg_queue) ∧
    ((gfx_widgets_start_achievement_notification cfg s).current_msgs = s.current_msgs) ∧
    ((gfx_widgets_start_achievement_notification cfg s).msgs = s.msgs) ∧
    ((gfx_widgets_start_achievement_notification cfg s).msgs_next = s.msgs_next) ∧
    ((gfx_widgets_start_achievement_notification cfg s).msgs_freed = s.msgs_freed) ∧
    ((gfx_widgets_start_achievement_notification cfg s).tasks = s.tasks) ∧
    ((gfx_widgets_start_achievement_notification cfg s).anims = s.anims) ∧
    ((gfx_widgets_start_achievement_notification cfg s).timers = s.timers) ∧
    ((gfx_widgets_start_achievement_notification cfg s).regular_line_height = s.regular_line_height) ∧
    ((gfx_widgets_start_achievement_notification cfg s).cheevo_popup_queue = s.cheevo_popup_queue) ∧
    ((gfx_widgets_start_achievement_notification cfg s).cheevo_popup_queue_read_index = s.cheevo_popup_queue_read_index) ∧
    ((gfx_widgets_start_achievement_notification cfg s).cheevo_popup_queue_write_index = s.cheevo_popup_queue_write_index) := by
  unfold gfx_widgets_start_achievement_notification
  simp

@[simp]
theorem gfx_widgets_achievement_free_current_frame (s : State) :
    ((gfx_widgets_achievement_free_current s).widgets_active = s.widgets_active) ∧
    ((gfx_widgets_achievement_free_current s).widgets_moving = s.widgets_moving) ∧
    ((gfx_widgets_achievement_free_current s).widgets_inited = s.widgets_inited) ∧
    ((gfx_widgets_achievement_free_current s).widgets_persisting = s.widgets_persisting) ∧
    ((gfx_widgets_achievement_free_current s).msg_queue_has_icons = s.msg_queue_has_icons) ∧
    ((gfx_widgets_achievement_free_current s).msg_queue_kill = s.msg_queue_kill) ∧
    ((gfx_widgets_achievement_free_current s).msg_queue_tasks_count = s.msg_queue_tasks_count) ∧
    ((gfx_widgets_achievement_free_current s).simple_widget_padding = s.simple_widget_padding) ∧
    ((gfx_widgets_achievement_free_current s).msg_queue_height = s.msg_queue_height) ∧
    ((gfx_widgets_achievement_free_current s).msg_queue_spacing = s.msg_queue_spacing) ∧
    ((gfx_widgets_achievement_free_current s).msg_queue_default_rect_width_menu_alive = s.msg_queue_default_rect_width_menu_alive) ∧
    ((gfx_widgets_achievement_free_current s).msg_queue_default_rect_width = s.msg_queue_default_rect_width) ∧
    ((gfx_widgets_achievement_free_current s).msg_queue_line_height = s.msg_queue_line_height) ∧
    ((gfx_widgets_achievement_free_current s).msg_queue = s.msg_queue) ∧
    ((gfx_widgets_achievement_free_current s).current_msgs = s.current_msgs) ∧
    ((gfx_widgets_achievement_free_current s).msgs = s.msgs) ∧
    ((gfx_widgets_achievement_free_current s).msgs_next = s.msgs_next) ∧
    ((gfx_widgets_achievement_free_current s).msgs_freed = s.msgs_freed) ∧
    ((gfx_widgets_achievement_free_current s).tasks = s.tasks) ∧
    ((gfx_widgets_achievement_free_current s).anims = s.anims) ∧
    ((gfx_widgets_achievement_free_current s).timers = s.timers) ∧
    ((gfx_widgets_achievement_free_current s).regular_line_height = s.regular_line_height) ∧
    ((gfx_widgets_achievement_free_current s).cheevo_popup_queue_write_index = s.cheevo_popup_queue_write_index) ∧
    ((gfx_widgets_achievement_free_current s).cheevo_unfold = s.cheevo_unfold) ∧
    ((gfx_widgets_achievement_free_current s).cheevo_y = s.cheevo_y) ∧
    ((gfx_widgets_achievement_free_current s).cheevo_width = s.cheevo_width) ∧
    ((gfx_widgets_achievement_free_current s).cheevo_height = s.cheevo_height) ∧
    ((gfx_widgets_achievement_free_current s).generic_anims = s.generic_anims) := by
  unfold gfx_widgets_achievement_free_current
  simp only [set_cheevo_popup_queue_read_index_proj]
  split <;> split <;> simp

@[simp]
theorem gfx_widgets_achievement_next_frame (cfg : Config) (s : State) :
    ((gfx_widgets_achievement_next cfg s).widgets_active = s.widgets_active) ∧
    ((gfx_widgets_achievement_next cfg s).widgets_moving = s.widgets_moving) ∧
    ((gfx_widgets_achievement_next cfg s).widgets_inited = s.widgets_inited) ∧
    ((gfx_widgets_achievement_next cfg s).widgets_persisting = s.widgets_persisting) ∧
    ((gfx_widgets_achievement_next cfg s).msg_queue_has_icons = s.msg_queue_has_icons) ∧
    ((gfx_widgets_achievement_next cfg s).msg_queue_kill = s.msg_queue_kill) ∧
    ((gfx_widgets_achievement_next cfg s).msg_queue_tasks_count = s.msg_queue_tasks_count) ∧
    ((gfx_widgets_achievement_next cfg s).simple_widget_padding = s.simple_widget_padding) ∧
    ((gfx_widgets_achievement_next cfg s).msg_queue_height = s.msg_queue_height) ∧
    ((gfx_widgets_achievement_next cfg s).msg_queue_spacing = s.msg_queue_spacing) ∧
    ((gfx_widgets_achievement_next cfg s).msg_queue_default_rect_width_menu_alive = s.msg_queue_default_rect_width_menu_alive) ∧
    ((gfx_widgets_achievement_next cfg s).msg_queue_default_rect_width = s.msg_queue_default_rect_width) ∧
    ((gfx_widgets_achievement_next cfg s).msg_queue_line_height = s.msg_queue_line_height) ∧
    ((gfx_widgets_achievement_next cfg s).msg_queue = s.msg_queue) ∧
    ((gfx_widgets_achievement_next cfg s).current_msgs = s.current_msgs) ∧
    ((gfx_widgets_achievement_next cfg s).msgs = s.msgs) ∧
    ((gfx_widgets_achievement_next cfg s).msgs_next = s.msgs_next) ∧
    ((gfx_widgets_achievement_next cfg s).msgs_freed = s.msgs_freed) ∧
    ((gfx_widgets_achievement_next cfg s).tasks = s.tasks) ∧
    ((gfx_widgets_achievement_next cfg s).anims = s.anims) ∧
    ((gfx_widgets_achievement_next cfg s).timers = s.timers) ∧
    ((gfx_widgets_achievement_next cfg s).regular_line_height = s.regular_line_height) ∧
    ((gfx_widgets_achievement_next cfg s).cheevo_popup_queue_write_index = s.cheevo_popup_queue_write_index) := by
  unfold gfx_widgets_achievement_next
  split <;> simp

@[simp]
theorem gfx_widgets_push_achievement_init_frame (s : State) :
    ((gfx_widgets_push_achievement_init s).widgets_active = s.widgets_active) ∧
    ((gfx_widgets_push_achievement_init s).widgets_moving = s.widgets_moving) ∧
    ((gfx_widgets_push_achievement_init s).widgets_inited = s.widgets_inited) ∧
    ((gfx_widgets_push_achievement_init s).widgets_persisting = s.widgets_persisting) ∧
    ((gfx_widgets_push_achievement_init s).msg_queue_has_icons = s.msg_queue_has_icons) ∧
    ((gfx_widgets_push_achievement_init s).msg_queue_kill = s.msg_queue_kill) ∧
    ((gfx_widgets_push_achievement_init s).msg_queue_tasks_count = s.msg_queue_tasks_count) ∧
    ((gfx_widgets_push_achievement_init s).simple_widget_padding = s.simple_widget_padding) ∧
    ((gfx_widgets_push_achievement_init s).msg_queue_height = s.msg_queue_height) ∧
    ((gfx_widgets_push_achievement_init s).msg_queue_spacing = s.msg_queue_spacing) ∧
    ((gfx_widgets_push_achievement_init s).msg_queue_default_rect_width_menu_alive = s.msg_queue_default_rect_width_menu_alive) ∧
    ((gfx_widgets_push_achievement_init s).msg_queue_default_rect_width = s.msg_queue_default_rect_width) ∧
    ((gfx_widgets_push_achievement_init s).msg_queue_line_height = s.msg_queue_line_height) ∧
    ((gfx_widgets_push_achievement_init s).msg_queue = s.msg_queue) ∧
    ((gfx_widgets_push_achievement_init s).current_msgs = s.current_msgs) ∧
    ((gfx_widgets_push_achievement_init s).msgs = s.msgs) ∧
    ((gfx_widgets_push_achievement_init s).msgs_next = s.msgs_next) ∧
    ((gfx_widgets_push_achievement_init s).msgs_freed = s.msgs_freed) ∧
    ((gfx_widgets_push_achievement_init s).tasks = s.tasks) ∧
    ((gfx_widgets_push_achievement_init s).anims = s.anims) ∧
    ((gfx_widgets_push_achievement_init s).timers = s.timers) ∧
    ((gfx_widgets_push_achievement_init s).regular_line_height = s.regular_line_height) ∧
    ((gfx_widgets_push_achievement_init s).cheevo_popup_queue_write_index = s.cheevo_popup_queue_write_index) ∧
    ((gfx_widgets_push_achievement_init s).cheevo_unfold = s.cheevo_unfold) ∧
    ((gfx_widgets_push_achievement_init s).cheevo_y = s.cheevo_y) ∧
    ((gfx_widgets_push_achievement_init s).cheevo_width = s.cheevo_width) ∧
    ((gfx_widgets_push_achievement_init s).cheevo_height = s.cheevo_height) ∧
    ((gfx_widgets_push_achievement_init s).generic_anims = s.generic_anims) := by
  unfold gfx_widgets_push_achievement_init
  split <;> simp

@[simp]
theorem gfx_widgets_push_achievement_store_frame (s : State) (title : String) (badge : Nat) :
    ((gfx_widgets_push_achievement_store s title badge).widgets_active = s.widgets_active) ∧
    ((gfx_widgets_push_achievement_store s title badge).widgets_moving = s.widgets_moving) ∧
    ((gfx_widgets_push_achievement_store s title badge).widgets_inited = s.widgets_inited) ∧
    ((gfx_widgets_push_achievement_store s title badge).widgets_persisting = s.widgets_persisting) ∧
    ((gfx_widgets_push_achievement_store s title badge).msg_queue_has_icons = s.msg_queue_has_icons) ∧
    ((gfx_widgets_push_achievement_store s title badge).msg_queue_kill = s.msg_queue_kill) ∧
    ((gfx_widgets_push_achievement_store s title badge).msg_queue_tasks_count = s.msg_queue_tasks_count) ∧
    ((gfx_widgets_push_achievement_store s title badge).simple_widget_padding = s.simple_widget_padding) ∧
    ((gfx_widgets_push_achievement_store s title badge).msg_queue_height = s.msg_queue_height) ∧
    ((gfx_widgets_push_achievement_store s title badge).msg_queue_spacing = s.msg_queue_spacing) ∧
    ((gfx_widgets_push_achievement_store s title badge).msg_queue_default_rect_width_menu_alive = s.msg_queue_default_rect_width_menu_alive) ∧
    ((gfx_widgets_push_achievement_store s title badge).msg_queue_default_rect_width = s.msg_queue_default_rect_width) ∧
    ((gfx_widgets_push_achievement_store s title badge).msg_queue_line_height = s.msg_queue_line_height) ∧
    ((gfx_widgets_push_achievement_store s title badge).msg_queue = s.msg_queue) ∧
    ((gfx_widgets_push_achievement_store s title badge).current_msgs = s.current_msgs) ∧
    ((gfx_widgets_push_achievement_store s title badge).msgs = s.msgs) ∧
    ((gfx_widgets_push_achievement_store s title badge).msgs_next = s.msgs_next) ∧
    ((gfx_widgets_push_achievement_store s title badge).msgs_freed = s.msgs_freed) ∧
    ((gfx_widgets_push_achievement_store s title badge).tasks = s.tasks) ∧
    ((gfx_widgets_push_achievement_store s title badge).anims = s.anims) ∧
    ((gfx_widgets_push_achievement_store s title badge).timers = s.timers) ∧
    ((gfx_widgets_push_achievement_store s title badge).regular_line_height = s.regular_line_height) ∧
    ((gfx_widgets_push_achievement_store s title badge).cheevo_popup_queue_read_index = s.cheevo_popup_queue_read_index) ∧
    ((gfx_widgets_push_achievement_store s title badge).cheevo_unfold = s.cheevo_unfold) ∧
    ((gfx_widgets_push_achievement_store s title badge).cheevo_y = s.cheevo_y) ∧
    ((gfx_widgets_push_achievement_store s title badge).cheevo_width = s.cheevo_width) ∧
    ((gfx_widgets_push_achievement_store s title badge).cheevo_height = s.cheevo_height) ∧
    ((gfx_widgets_push_achievement_store s title badge).generic_anims = s.generic_anims) := by
  unfold gfx_widgets_push_achievement_store
  simp

@[simp]
theorem gfx_widgets_push_achievement_frame (cfg : Config) (s : State) (title : String) (badge : Nat) :
    ((gfx_widgets_push_achievement cfg s title badge).widgets_active = s.widgets_active) ∧
    ((gfx_widgets_push_achievement cfg s title badge).widgets_moving = s.widgets_moving) ∧
    ((gfx_widgets_push_achievement cfg s title badge).widgets_inited = s.widgets_inited) ∧
    ((gfx_widgets_push_achievement cfg s title badge).widgets_persisting = s.widgets_persisting) ∧
    ((gfx_widgets_push_achievement cfg s title badge).msg_queue_has_icons = s.msg_queue_has_icons) ∧
    ((gfx_widgets_push_achievement cfg s title badge).msg_queue_kill = s.msg_queue_kill) ∧
    ((gfx_widgets_push_achievement cfg s title badge).msg_queue_tasks_count = s.msg_queue_tasks_count) ∧
    ((gfx_widgets_push_achievement cfg s title badge).simple_widget_padding = s.simple_widget_padding) ∧
    ((gfx_widgets_push_achievement cfg s title badge).msg_queue_height = s.msg_queue_height) ∧
    ((gfx_widgets_push_achievement cfg s title badge).msg_queue_spacing = s.msg_queue_spacing) ∧
    ((gfx_widgets_push_achievement cfg s title badge).msg_queue_default_rect_width_menu_alive = s.msg_queue_default_rect_width_menu_alive) ∧
    ((gfx_widgets_push_achievement cfg s title badge).msg_queue_default_rect_width = s.msg_queue_default_rect_width) ∧
    ((gfx_widgets_push_achievement cfg s title badge).msg_queue_line_height = s.msg_queue_line_height) ∧
    ((gfx_widgets_push_achievement cfg s title badge).msg_queue = s.msg_queue) ∧
    ((gfx_widgets_push_achievement cfg s title badge).current_msgs = s.current_msgs) ∧
    ((gfx_widgets_push_achievement cfg s title badge).msgs = s.msgs) ∧
    ((gfx_widgets_push_achievement cfg s title badge).msgs_next = s.msgs_next) ∧
    ((gfx_widgets_push_achievement cfg s title badge).msgs_freed = s.msgs_freed) ∧
    ((gfx_widgets_push_achievement cfg s title badge).tasks = s.tasks) ∧
    ((gfx_widgets_push_achievement cfg s title badge).anims = s.anims) ∧
    ((gfx_widgets_push_achievement cfg s title badge).timers = s.timers) ∧
    ((gfx_widgets_push_achievement cfg s title badge).regular_line_height = s.regular_line_height) := by
  unfold gfx_widgets_push_achievement
  split
  · simp
  · split
    · simp
    · split <;> simp

/-! ### Lists and the registry -/

theorem take_succ_set {α : Type} (L : List α) (n : Nat) (x : α) (h : n < L.length) :
    (L.set n x).take (n + 1) = L.take n ++ [x] := by
  induction n generalizing L with
  | zero => cases L with
    | nil => simp at h
    | cons a t => simp
  | succ n ih => cases L with
    | nil => simp at h
    | cons a t =>
      simp at h
      simp [ih t h]

theorem take_set_ge {α : Type} (L : List α) (n k : Nat) (x : α) (h : n ≤ k) :
    (L.set k x).take n = L.take n := by
  induction n generalizing L k with
  | zero => simp
  | succ n ih => cases L with
    | nil => simp
    | cons a t =>
      cases k with
      | zero => omega
      | succ k => simp [ih t k (by omega)]

theorem free_shift_cons (a : Option Nat) (t : List (Option Nat)) (m i : Nat) :
    gfx_widgets_msg_queue_free_shift (a :: t) m (i + 1)
      = a :: gfx_widgets_msg_queue_free_shift t m i := by
  induction m generalizing t i with
  | zero => simp [gfx_widgets_msg_queue_free_shift]
  | succ m ih =>
    simp only [gfx_widgets_msg_queue_free_shift, List.set_cons_succ, List.get?_cons_succ]
    exact ih _ _

theorem free_shift_zero (a : Option Nat) (t : List (Option Nat)) (m : Nat)
    (h : m ≤ t.length) :
    gfx_widgets_msg_queue_free_shift (a :: t) m 0 = t.take m ++ (a :: t).drop m := by
  induction m generalizing a t with
  | zero => simp [gfx_widgets_msg_queue_free_shift]
  | succ m ih =>
    cases t with
    | nil => simp at h
    | cons b t =>
      simp at h
      simp [gfx_widgets_msg_queue_free_shift, free_shift_cons, ih b t h]

theorem free_shift_entries (L : List (Option Nat)) (n k : Nat) (hk : k < n)
    (hn : n ≤ L.length) :
    (gfx_widgets_msg_queue_free_shift (L.set k none) (n - 1 - k) k).take (n - 1)
      = (L.take n).eraseIdx k := by
  induction k generalizing L n with
  | zero =>
    cases L with
    | nil => simp at hn; omega
    | cons a t =>
      simp at hn
      have h1 : n - 1 ≤ t.length := by omega
      obtain ⟨n, rfl⟩ : ∃ n1, n = n1 + 1 := ⟨n - 1, by omega⟩
      have h2 : n ≤ t.length := by omega
      simp [free_shift_zero _ _ _ h2, List.take_append_of_le_length, h2]
  | succ k ih =>
    cases L with
    | nil => simp at hn; omega
    | cons a t =>
      simp at hn
      obtain ⟨n, rfl⟩ : ∃ n1, n = n1 + 1 := ⟨n - 1, by omega⟩
      obtain ⟨n, rfl⟩ : ∃ n1, n = n1 + 1 := ⟨n - 1, by omega⟩
      have := ih t (n + 1) (by omega) (by omega)
      simp at this
      simp [free_shift_cons]
      exact this

theorem file_list_expand_spec (l : file_list_t) (h : l.wf) :
    (file_list_expand l).size = l.size ∧ l.size < (file_list_expand l).list.length
      ∧ (file_list_expand l).list.take l.size = l.entries := by
  obtain ⟨h1, h2⟩ := h
  unfold file_list_expand file_list_reserve file_list_t.entries
  split
  · refine ⟨rfl, ?_, ?_⟩
    · simp; omega
    · simp [List.take_append_of_le_length h1]
  · refine ⟨rfl, by omega, rfl⟩

theorem file_list_append_entries (l : file_list_t) (x : Option Nat) (h : l.wf) :
    (file_list_set_userdata (file_list_append l)
        (u64 ((file_list_append l).size + 18446744073709551615)) x).entries
      = l.entries ++ [x]
    ∧ (file_list_set_userdata (file_list_append l)
        (u64 ((file_list_append l).size + 18446744073709551615)) x).size = l.size + 1 := by
  obtain ⟨e1, e2, e3⟩ := file_list_expand_spec l h
  obtain ⟨h1, h2⟩ := h
  have hs : u64 (l.size + 1) = l.size + 1 := by unfold u64; omega
  have hi : u64 (l.size + 1 + 18446744073709551615) = l.size := by unfold u64; omega
  constructor
  · show List.take (u64 ((file_list_expand l).size + 1))
        (((file_list_expand l).list.set (file_list_expand l).size none).set
          (u64 (u64 ((file_list_expand l).size + 1) + 18446744073709551615)) x) = _
    rw [e1, hs, hi, List.set_set, take_succ_set _ _ _ e2, e3]
  · show u64 ((file_list_expand l).size + 1) = _
    rw [e1, hs]

theorem file_list_insert_entries (l : file_list_t) (idx : Nat) (x : Option Nat) (h : l.wf)
    (hidx : idx ≤ l.size) :
    (file_list_set_userdata (file_list_insert l idx) idx x).entries
      = l.entries.take idx ++ x :: l.entries.drop idx
    ∧ (file_list_set_userdata (file_list_insert l idx) idx x).size = l.size + 1 := by
  obtain ⟨e1, e2, e3⟩ := file_list_expand_spec l h
  obtain ⟨h1, h2⟩ := h
  have hs : u64 (l.size + 1) = l.size + 1 := by unfold u64; omega
  have hlen : (List.take idx (file_list_expand l).list).length = idx := by
    simp; omega
  have hins : file_list_insert l idx =
      { list := (file_list_expand l).list.take idx ++ none ::
                  (((file_list_expand l).list.drop idx).take (l.size - idx)
                    ++ (file_list_expand l).list.drop (l.size + 1)),
        size := l.size + 1 } := by
    unfold file_list_insert
    simp only [e1, hidx, if_true, hs]
  rw [hins]
  constructor
  · show List.take (l.size + 1) (List.set _ idx x) = _
    rw [List.set_append]
    simp only [hlen, lt_irrefl, if_false, Nat.sub_self, List.set_cons_zero]
    rw [List.take_append_eq_append_take, hlen]
    have t1 : List.take (l.size + 1) (List.take idx (file_list_expand l).list)
        = List.take idx (file_list_expand l).list := by
      rw [List.take_take]; congr 1; omega
    have t2 : l.size + 1 - idx = (l.size - idx) + 1 := by omega
    rw [t1, t2, List.take_succ_cons, List.take_append_eq_append_take]
    have t3 : (List.take (l.size - idx) (List.drop idx (file_list_expand l).list)).length
        = l.size - idx := by
      simp; omega
    simp only [t3, Nat.sub_self, List.take_zero, List.append_nil, List.take_take, min_self]
    rw [← e3, List.take_take, List.drop_take]
    congr 2
    omega
  · rfl

theorem file_list_insert_entries_far (l : file_list_t) (idx : Nat) (x : Option Nat) (h : l.wf)
    (hidx : l.size < idx) :
    ∃ y, (file_list_set_userdata (file_list_insert l idx) idx x).entries = l.entries ++ [y]
    ∧ (file_list_set_userdata (file_list_insert l idx) idx x).size = l.size + 1 := by
  obtain ⟨e1, e2, e3⟩ := file_list_expand_spec l h
  obtain ⟨h1, h2⟩ := h
  have hs : u64 (l.size + 1) = l.size + 1 := by unfold u64; omega
  have hn : ¬ idx ≤ l.size := by omega
  have hins : file_list_insert l idx =
      { list := (file_list_expand l).list.set idx none, size := l.size + 1 } := by
    unfold file_list_insert
    simp only [e1, hn, if_false, hs]
  rw [hins]
  refine ⟨(file_list_expand l).list[l.size], ?_, rfl⟩
  show List.take (l.size + 1) (List.set (List.set _ idx none) idx x) = _
  rw [List.set_set, take_set_ge _ _ _ _ (by omega), List.take_succ, e3]
  simp [e2]

/-! ### Lemmas on the tick -/

theorem registry_eq_of_current_msgs (s s1 : State) (h : s1.current_msgs = s.current_msgs) :
    registry s1 = registry s := by
  unfold registry
  rw [h]

theorem pending_eq_of_msg_queue (s s1 : State) (h : s1.msg_queue = s.msg_queue) :
    pending s1 = pending s := by
  unfold pending
  rw [h]

theorem iterate_consume_skip (cfg : Config) (s : State) (q : fifo_buffer_t) (l : file_list_t)
    (hq : s.msg_queue = some q) (hl : s.current_msgs = some l)
    (h : gfx_widgets_iterate_consumes cfg s q l = false) :
    gfx_widgets_iterate_consume cfg s = s := by
  unfold gfx_widgets_iterate_consume
  simp [hq, hl, h]

theorem iterate_consume_take (cfg : Config) (s : State) (q : fifo_buffer_t) (l : file_list_t)
    (w : Nat) (rest : List Nat)
    (hq : s.msg_queue = some q) (hl : s.current_msgs = some l) (hb : q.buffer = w :: rest)
    (h : gfx_widgets_iterate_consumes cfg s q l = true) :
    (gfx_widgets_iterate_consume cfg s).msg_queue = some { q with buffer := rest }
    ∧ (gfx_widgets_iterate_consume cfg s).current_msgs
        = some (gfx_widgets_iterate_consume_list s l w)
    ∧ (gfx_widgets_iterate_consume cfg s).msg_queue_tasks_count
        = (if (s.msgs w).task_ptr.isSome then u32 (s.msg_queue_tasks_count + 1)
           else s.msg_queue_tasks_count) := by
  have hr : (fifo_read q).1 = some w := by simp [fifo_read, hb]
  have hr2 : (fifo_read q).2 = { q with buffer := rest } := by simp [fifo_read, hb]
  unfold gfx_widgets_iterate_consume
  simp only [hq, hl, h, if_true, hr, hr2]
  have hc : ∀ s1 : State, s1.msgs = s.msgs → s1.msg_queue_tasks_count = s.msg_queue_tasks_count →
      (gfx_widgets_iterate_consume_timer cfg s1 w).msg_queue_tasks_count
        = (if (s.msgs w).task_ptr.isSome then u32 (s.msg_queue_tasks_count + 1)
           else s.msg_queue_tasks_count) := by
    intro s1 e1 e2
    unfold gfx_widgets_iterate_consume_timer
    rw [e1]
    cases (s.msgs w).task_ptr.isSome <;> simp [e2]
    split <;> simp [e2]
  split <;> simp [hc]

theorem iterate_consumes_nonempty (cfg : Config) (s : State) (q : fifo_buffer_t)
    (l : file_list_t) (h : gfx_widgets_iterate_consumes cfg s q l = true) :
    ∃ w rest, q.buffer = w :: rest := by
  unfold gfx_widgets_iterate_consumes fifo_read_avail at h
  cases hb : q.buffer with
  | nil => simp [hb] at h
  | cons w rest => exact ⟨w, rest, rfl⟩

theorem iterate_consume_list_entries (s : State) (l : file_list_t) (w : Nat) (h : l.wf) :
    ∃ pre post y, l.entries = pre ++ post
      ∧ (gfx_widgets_iterate_consume_list s l w).entries = pre ++ y :: post
      ∧ (gfx_widgets_iterate_consume_list s l w).size = l.size + 1 := by
  unfold gfx_widgets_iterate_consume_list
  split
  · obtain ⟨e1, e2⟩ := file_list_append_entries l (some w) h
    exact ⟨l.entries, [], some w, by simp, by simpa using e1, e2⟩
  · by_cases hidx : u32 (u64 (l.size + 18446744073709551616 - s.msg_queue_tasks_count)) ≤ l.size
    · obtain ⟨e1, e2⟩ := file_list_insert_entries l _ (some w) h hidx
      exact ⟨_, _, some w, (List.take_append_drop _ _).symm, e1, e2⟩
    · obtain ⟨y, e1, e2⟩ := file_list_insert_entries_far l _ (some w) h (Nat.lt_of_not_le hidx)
      exact ⟨l.entries, [], y, by simp, by simpa using e1, e2⟩

theorem iterate_eq_expire_consume (cfg : Config) (s : State) (relayout : Option layout_t)
    (hact : s.widgets_active = true) :
    gfx_widgets_iterate cfg s relayout
      = gfx_widgets_iterate_expire cfg
          (gfx_widgets_iterate_consume cfg (gfx_widgets_iterate_layout s relayout)) := by
  unfold gfx_widgets_iterate
  simp [hact]

theorem start_msg_expiration_timer_flags (s : State) (w duration h : Nat) :
    ((gfx_widgets_start_msg_expiration_timer s w duration).msgs h).dying = (s.msgs h).dying
    ∧ ((gfx_widgets_start_msg_expiration_timer s w duration).msgs h).expired
        = (s.msgs h).expired
    ∧ ((gfx_widgets_start_msg_expiration_timer s w duration).msgs h).unfolded
        = (s.msgs h).unfolded
    ∧ ((gfx_widgets_start_msg_expiration_timer s w duration).msgs h).task_ptr
        = (s.msgs h).task_ptr := by
  unfold gfx_widgets_start_msg_expiration_timer
  by_cases e : h = w <;> simp [e]

theorem hourglass_end_flags (cfg : Config) (s : State) (w h : Nat) :
    ((gfx_widgets_hourglass_end cfg s w).msgs h).dying = (s.msgs h).dying
    ∧ ((gfx_widgets_hourglass_end cfg s w).msgs h).expired = (s.msgs h).expired
    ∧ ((gfx_widgets_hourglass_end cfg s w).msgs h).unfolded = (s.msgs h).unfolded
    ∧ ((gfx_widgets_hourglass_end cfg s w).msgs h).task_ptr = (s.msgs h).task_ptr := by
  unfold gfx_widgets_hourglass_end
  by_cases e : h = w <;> simp [e]

theorem iterate_loop_timer_flags (cfg : Config) (s : State) (w h : Nat) :
    ((gfx_widgets_iterate_loop_timer cfg s w).msgs h).dying = (s.msgs h).dying
    ∧ ((gfx_widgets_iterate_loop_timer cfg s w).msgs h).expired = (s.msgs h).expired
    ∧ ((gfx_widgets_iterate_loop_timer cfg s w).msgs h).unfolded = (s.msgs h).unfolded
    ∧ ((gfx_widgets_iterate_loop_timer cfg s w).msgs h).task_ptr = (s.msgs h).task_ptr := by
  unfold gfx_widgets_iterate_loop_timer
  split
  · exact start_msg_expiration_timer_flags s w _ h
  · exact ⟨rfl, rfl, rfl, rfl⟩

theorem iterate_consume_timer_flags (cfg : Config) (s : State) (w h : Nat) :
    ((gfx_widgets_iterate_consume_timer cfg s w).msgs h).dying = (s.msgs h).dying
    ∧ ((gfx_widgets_iterate_consume_timer cfg s w).msgs h).expired = (s.msgs h).expired
    ∧ ((gfx_widgets_iterate_consume_timer cfg s w).msgs h).unfolded = (s.msgs h).unfolded
    ∧ ((gfx_widgets_iterate_consume_timer cfg s w).msgs h).task_ptr = (s.msgs h).task_ptr := by
  unfold gfx_widgets_iterate_consume_timer
  split
  · split
    · exact start_msg_expiration_timer_flags s w _ h
    · exact ⟨rfl, rfl, rfl, rfl⟩
  · have := hourglass_end_flags cfg
      (set_msg_queue_tasks_count s (u32 (s.msg_queue_tasks_count + 1))) w h
    simpa using this

theorem iterate_consume_flags (cfg : Config) (s : State) (h : Nat) :
    ((gfx_widgets_iterate_consume cfg s).msgs h).dying = (s.msgs h).dying
    ∧ ((gfx_widgets_iterate_consume cfg s).msgs h).expired = (s.msgs h).expired
    ∧ ((gfx_widgets_iterate_consume cfg s).msgs h).unfolded = (s.msgs h).unfolded
    ∧ ((gfx_widgets_iterate_consume cfg s).msgs h).task_ptr = (s.msgs h).task_ptr := by
  unfold gfx_widgets_iterate_consume
  split
  · split
    · split
      · exact ⟨rfl, rfl, rfl, rfl⟩
      · split
        · simp only [gfx_widgets_msg_queue_move_frame]
          have := iterate_consume_timer_flags cfg
            (set_current_msgs (set_msg_queue s (some (fifo_read ‹fifo_buffer_t›).2))
              (some (gfx_widgets_iterate_consume_list s ‹file_list_t› ‹Nat›))) ‹Nat› h
          simpa using this
        · have := iterate_consume_timer_flags cfg
            (set_current_msgs (set_msg_queue s (some (fifo_read ‹fifo_buffer_t›).2))
              (some (gfx_widgets_iterate_consume_list s ‹file_list_t› ‹Nat›))) ‹Nat› h
          simpa using this
    · exact ⟨rfl, rfl, rfl, rfl⟩
  · exact ⟨rfl, rfl, rfl, rfl⟩

theorem msg_queue_kill_dying (cfg : Config) (s : State) (l : file_list_t) (i w : Nat)
    (hl : s.current_msgs = some l) (hw : file_list_get_userdata l i = some w) (h : Nat) :
    ((gfx_widgets_msg_queue_kill cfg s i).msgs h).dying
      = (if h = w then true else (s.msgs h).dying) := by
  unfold gfx_widgets_msg_queue_kill
  simp only [hl, hw]
  have e : ((gfx_widgets_msg_queue_kill_start cfg s i w).msgs h).dying
      = (if h = w then true else (s.msgs h).dying) := by
    unfold gfx_widgets_msg_queue_kill_start
    by_cases e : h = w <;> simp [e]
  split
  · simp only [gfx_widgets_msg_queue_move_frame]
    exact e
  · exact e

theorem expired_entry_congr (s s1 : State)
    (h : ∀ k, (s1.msgs k).expired = (s.msgs k).expired) :
    expired_entry s1 = expired_entry s := by
  funext o
  cases o with
  | none => rfl
  | some k => exact h k

theorem entries_drop_cons (l : file_list_t) (i : Nat) (hwf : l.size ≤ l.list.length)
    (hi : i < l.size) :
    l.entries.drop i = file_list_get_userdata l i :: l.entries.drop (i + 1) := by
  have hlen : i < l.entries.length := by
    unfold file_list_t.entries
    simp
    omega
  rw [List.drop_eq_getElem_cons hlen]
  congr 1
  unfold file_list_get_userdata file_list_t.entries
  have hi2 : i < l.list.length := by omega
  simp [List.getElem_take, List.getElem?_eq_getElem hi2]

theorem entries_drop_nil (l : file_list_t) (i : Nat) (hi : l.size ≤ i) :
    l.entries.drop i = [] := by
  unfold file_list_t.entries
  simp
  omega

theorem iterate_loop_dying (cfg : Config) (l : file_list_t) (hwf : l.size ≤ l.list.length) :
    ∀ (n i : Nat) (s : State), s.current_msgs = some l → l.size ≤ i + n →
      (s.widgets_moving = true →
        ∀ h, ((gfx_widgets_iterate_loop cfg n i s).msgs h).dying = (s.msgs h).dying)
      ∧ (s.widgets_moving = false →
          ∀ h, ((gfx_widgets_iterate_loop cfg n i s).msgs h).dying
            = (match (l.entries.drop i).find? (expired_entry s) with
               | some (some w) => if h = w then true else (s.msgs h).dying
               | _ => (s.msgs h).dying)) := by
  intro n
  induction n with
  | zero =>
    intro i s _ hn
    have : l.entries.drop i = [] := entries_drop_nil l i (by omega)
    simp [gfx_widgets_iterate_loop, this]
  | succ n ih =>
    intro i s hl hn
    unfold gfx_widgets_iterate_loop
    simp only [hl]
    by_cases hi : i < l.size
    · rw [if_pos hi, entries_drop_cons l i hwf hi]
      cases hw : file_list_get_userdata l i with
      | none =>
        have := ih (i + 1) s hl (by omega)
        simpa [expired_entry] using this
      | some w =>
        simp only []
        have hf := iterate_loop_timer_flags cfg s w
        have hmv : (gfx_widgets_iterate_loop_timer cfg s w).widgets_moving
            = s.widgets_moving := by simp
        have hcur : (gfx_widgets_iterate_loop_timer cfg s w).current_msgs = some l := by
          simp [hl]
        have hexp : expired_entry (gfx_widgets_iterate_loop_timer cfg s w)
            = expired_entry s := expired_entry_congr _ _ (fun k => (hf k).2.1)
        rw [(hf w).2.1, hmv]
        by_cases hk : ((s.msgs w).expired && !s.widgets_moving) = true
        · rw [if_pos hk]
          simp only [Bool.and_eq_true, Bool.not_eq_true'] at hk
          constructor
          · intro hm; rw [hm] at hk; exact absurd hk.2 (by simp)
          · intro _ h
            rw [msg_queue_kill_dying cfg _ l i w hcur hw h, (hf h).1]
            simp [List.find?, expired_entry, hk.1]
        · rw [if_neg hk]
          obtain ⟨i1, i2⟩ := ih (i + 1) (gfx_widgets_iterate_loop_timer cfg s w) hcur
            (by omega)
          rw [hmv] at i1 i2
          rw [hexp] at i2
          constructor
          · intro hm h
            rw [i1 hm h, (hf h).1]
          · intro hm h
            rw [i2 hm h]
            have he : (s.msgs w).expired = false := by
              simp only [hm, Bool.not_false, Bool.and_true] at hk
              simpa using hk
            simp only [List.find?, expired_entry, he, (hf h).1]
    · rw [if_neg hi]
      have : l.entries.drop i = [] := entries_drop_nil l i (by omega)
      simp [this]

theorem iterate_consume_list_wf (s : State) (l : file_list_t) (w : Nat) (h : l.wf) :
    (gfx_widgets_iterate_consume_list s l w).size
      ≤ (gfx_widgets_iterate_consume_list s l w).list.length := by
  obtain ⟨pre, post, y, p1, p2, p3⟩ := iterate_consume_list_entries s l w h
  have h1 : l.entries.length = l.size := by
    unfold file_list_t.entries
    simp [h.1]
  have h2 : (gfx_widgets_iterate_consume_list s l w).entries.length = l.size + 1 := by
    rw [p2, ← h1, p1]
    simp
    omega
  unfold file_list_t.entries at h2
  rw [List.length_take, p3] at h2
  rw [p3]
  omega

theorem iterate_consume_current_msgs (cfg : Config) (s : State) (l : file_list_t)
    (hl : s.current_msgs = some l) (hwf : l.wf) :
    ∃ l1, (gfx_widgets_iterate_consume cfg s).current_msgs = some l1
      ∧ l1.size ≤ l1.list.length := by
  cases hq : s.msg_queue with
  | none =>
    refine ⟨l, ?_, hwf.1⟩
    unfold gfx_widgets_iterate_consume
    simp [hq, hl]
  | some q =>
    cases hc : gfx_widgets_iterate_consumes cfg s q l with
    | false =>
      rw [iterate_consume_skip cfg s q l hq hl hc]
      exact ⟨l, hl, hwf.1⟩
    | true =>
      obtain ⟨w, rest, hb⟩ := iterate_consumes_nonempty cfg s q l hc
      obtain ⟨_, c2, _⟩ := iterate_consume_take cfg s q l w rest hq hl hb hc
      exact ⟨_, c2, iterate_consume_list_wf s l w hwf⟩

theorem push_spawn_task (cfg : Config) (s : State) (q : fifo_buffer_t) (t : Nat)
    (msg : String) (duration : Nat) (menu_is_alive : Bool) :
    (gfx_widgets_msg_queue_push_spawn cfg s q (some t) msg duration menu_is_alive).msg_queue
      = some (fifo_write q s.msgs_next)
    ∧ (gfx_widgets_msg_queue_push_spawn cfg s q (some t) msg duration menu_is_alive).msgs_next
      = s.msgs_next + 1
    ∧ ((gfx_widgets_msg_queue_push_spawn cfg s q (some t) msg duration menu_is_alive).tasks t
        ).frontend_userdata = some s.msgs_next
    ∧ ((gfx_widgets_msg_queue_push_spawn cfg s q (some t) msg duration menu_is_alive).msgs
        s.msgs_next).msg_new = some (s.tasks t).title
    ∧ ((gfx_widgets_msg_queue_push_spawn cfg s q (some t) msg duration menu_is_alive).msgs
        s.msgs_next).task_ptr = some t := by
  unfold gfx_widgets_msg_queue_push_spawn gfx_widgets_msg_queue_push_task_msg
    gfx_widgets_msg_queue_push_new_msg
  simp

theorem string_is_equal_some (a : String) (b : Option String) :
    string_is_equal (some a) b = true ↔ b = some a := by
  cases b with
  | none => simp [string_is_equal]
  | some y =>
    simp [string_is_equal]
    exact eq_comm

theorem push_update_title_msg_new (cfg : Config) (s : State) (t h : Nat) :
    ((gfx_widgets_msg_queue_push_update_title cfg s t h).msgs h).msg_new
      = some (s.tasks t).title := by
  unfold gfx_widgets_msg_queue_push_update_title
  split
  · simp only []
    split
    · simp
    · simp [msg_widget_msg_transition_animation_done]
  · rename_i hne
    have : string_is_equal (some (s.tasks t).title) (s.msgs h).msg_new = true := by
      simpa using hne
    exact (string_is_equal_some _ _).1 this

theorem push_update_msg_new (cfg : Config) (s : State) (t h : Nat) :
    ((gfx_widgets_msg_queue_push_update cfg s t h).msgs h).msg_new
      = some (s.tasks t).title := by
  unfold gfx_widgets_msg_queue_push_update
  simp only [set_msg_proj, if_true]
  have := push_update_title_msg_new cfg (gfx_widgets_msg_queue_push_update_timer s h) t h
  simpa using this

theorem file_list_expand_id (l : file_list_t) (h : l.size < l.list.length) :
    file_list_expand l = l := by
  unfold file_list_expand
  rw [if_neg (by omega)]

theorem iterate_consume_list_exact (s : State) (l : file_list_t) (w : Nat) (hwf : l.wf)
    (hk : s.msg_queue_tasks_count ≤ l.size) (hsz : l.size < 4294967296) :
    (gfx_widgets_iterate_consume_list s l w).entries
      = (if (s.msgs w).task_ptr.isSome ∨ s.msg_queue_tasks_count = 0 then
           l.entries ++ [some w]
         else l.entries.take (l.size - s.msg_queue_tasks_count) ++
                some w :: l.entries.drop (l.size - s.msg_queue_tasks_count)) := by
  unfold gfx_widgets_iterate_consume_list
  by_cases hcase : s.msg_queue_tasks_count = 0 ∨ (s.msgs w).task_ptr.isSome = true
  · rw [if_pos hcase, if_pos (Or.symm hcase)]
    exact (file_list_append_entries l (some w) hwf).1
  · rw [if_neg hcase, if_neg (fun hh => hcase (Or.symm hh))]
    have hidx : u32 (u64 (l.size + 18446744073709551616 - s.msg_queue_tasks_count))
        = l.size - s.msg_queue_tasks_count := by
      unfold u32 u64
      omega
    rw [hidx]
    exact (file_list_insert_entries l _ (some w) hwf (by omega)).1

theorem iterate_consume_list_slots (s : State) (l : file_list_t) (w : Nat)
    (hcap : l.size < l.list.length)
    (hk : s.msg_queue_tasks_count ≤ l.size) (hsz : l.size < 4294967296) :
    (gfx_widgets_iterate_consume_list s l w).list.length = l.list.length
    ∧ (gfx_widgets_iterate_consume_list s l w).size = l.size + 1
    ∧ ∀ k, l.size < k →
        file_list_get_userdata (gfx_widgets_iterate_consume_list s l w) k
          = file_list_get_userdata l k := by
  have hs : u64 (l.size + 1) = l.size + 1 := by unfold u64; omega
  have hi : u64 (l.size + 1 + 18446744073709551615) = l.size := by unfold u64; omega
  unfold gfx_widgets_iterate_consume_list
  split
  · unfold file_list_append file_list_set_userdata file_list_get_userdata
    rw [file_list_expand_id l hcap]
    simp only [hs, hi, List.length_set, List.set_set, true_and]
    intro k hk2
    have : ¬ l.size = k := by omega
    simp [List.getElem?_set, this]
  · have hidx : u32 (u64 (l.size + 18446744073709551616 - s.msg_queue_tasks_count))
        = l.size - s.msg_queue_tasks_count := by
      unfold u32 u64
      omega
    rw [hidx]
    unfold file_list_insert file_list_set_userdata file_list_get_userdata
    rw [file_list_expand_id l hcap]
    have hle : l.size - s.msg_queue_tasks_count ≤ l.size := by omega
    simp only [hle, if_true, hs, List.length_set, List.length_append, List.length_take,
      List.length_cons, List.length_drop]
    refine ⟨by omega, trivial, ?_⟩
    intro k hk2
    refine congrArg Option.join ?_
    rw [List.get?_eq_getElem?, List.get?_eq_getElem?, List.getElem?_set]
    have hne : ¬ l.size - s.msg_queue_tasks_count = k := by omega
    rw [if_neg hne]
    have h1 : (List.take (l.size - s.msg_queue_tasks_count) l.list).length
        = l.size - s.msg_queue_tasks_count := by
      simp; omega
    rw [List.getElem?_append_right (by omega), h1]
    obtain ⟨j, hj⟩ : ∃ j, k - (l.size - s.msg_queue_tasks_count) = j + 1 :=
      ⟨k - (l.size - s.msg_queue_tasks_count) - 1, by omega⟩
    rw [hj, List.getElem?_cons_succ]
    have h2 : (List.take (l.size - (l.size - s.msg_queue_tasks_count))
        (List.drop (l.size - s.msg_queue_tasks_count) l.list)).length
        = l.size - (l.size - s.msg_queue_tasks_count) := by
      simp; omega
    rw [List.getElem?_append_right (by omega), h2, List.getElem?_drop]
    exact congrArg (fun n => l.list[n]?) (by omega)

/-! ### The claims on single functions -/

/-- C3: a push into a full intake queue changes nothing, whatever the
arguments are: the state after the push is the state before it, so the
queue, the registry and every notification are unchanged and no
notification is created. -/
theorem msg_queue_push_full_noop (cfg : Config) (s : State) (q : fifo_buffer_t)
    (task : Option Nat) (msg : String) (duration : Nat) (title : Option String)
    (icon category prio : Nat) (flush menu_is_alive : Bool)
    (hq : s.msg_queue = some q) (hfull : fifo_write_avail q = 0) :
    gfx_widgets_msg_queue_push cfg s task msg duration title icon category prio flush
      menu_is_alive = s := by
  unfold gfx_widgets_msg_queue_push
  simp [hq, hfull]

theorem msg_queue_push_full_noop_witness :
    sample_full.widgets_active = true
    ∧ sample_full.msg_queue = some { buffer := [0], size := 1 }
    ∧ gfx_widgets_msg_queue_push sample_cfg sample_full (some 3) "text" 1000 none 0 0 0
        false true = sample_full :=
  ⟨by decide, by decide,
   msg_queue_push_full_noop sample_cfg sample_full { buffer := [0], size := 1 } (some 3)
     "text" 1000 none 0 0 0 false true (by decide) (by decide)⟩

/-- C9: when `gfx_widgets_msg_queue_kill_end` runs on a registry whose slot
`msg_queue_kill` holds a notification, the registry afterwards is the
registry before with the entry at the index `msg_queue_kill` erased (the
later entries move down by one, the order is kept), the size is one less and
`widgets_moving` is false. -/
theorem msg_queue_kill_end_erases (s : State) (l : file_list_t) (msg : Nat)
    (hl : s.current_msgs = some l) (hwf : l.wf) (hk : s.msg_queue_kill < l.size)
    (hmsg : file_list_get_userdata l s.msg_queue_kill = some msg) :
    registry (gfx_widgets_msg_queue_kill_end s) = (registry s).eraseIdx s.msg_queue_kill
    ∧ (registry (gfx_widgets_msg_queue_kill_end s)).length + 1 = (registry s).length
    ∧ (∃ l1, (gfx_widgets_msg_queue_kill_end s).current_msgs = some l1
          ∧ l1.size + 1 = l.size)
    ∧ (gfx_widgets_msg_queue_kill_end s).widgets_moving = false := by
  obtain ⟨h1, h2⟩ := hwf
  have hsz : u64 (l.size + 18446744073709551615) = l.size - 1 := by unfold u64; omega
  have hcur : (gfx_widgets_msg_queue_kill_end s).current_msgs
      = some { list := gfx_widgets_msg_queue_free_shift (l.list.set s.msg_queue_kill none)
                          (l.size - 1 - s.msg_queue_kill) s.msg_queue_kill,
               size := l.size - 1 } := by
    unfold gfx_widgets_msg_queue_kill_end
    simp only [hl, hmsg]
    unfold gfx_widgets_msg_queue_free gfx_widgets_msg_queue_free_list
    simp [hl, hsz]
  have hreg : registry (gfx_widgets_msg_queue_kill_end s)
      = (registry s).eraseIdx s.msg_queue_kill := by
    unfold registry
    rw [hcur, hl]
    exact free_shift_entries l.list l.size s.msg_queue_kill hk h1
  have hlen : (registry s).length = l.size := by
    unfold registry file_list_t.entries
    rw [hl]
    simp [h1]
  refine ⟨hreg, ?_, ⟨_, hcur, by simp; omega⟩, ?_⟩
  · rw [hreg, List.length_eraseIdx, hlen]
    simp [hlen, hk]
    omega
  · unfold gfx_widgets_msg_queue_kill_end
    simp only [hl, hmsg]
    unfold gfx_widgets_msg_queue_free
    simp

theorem msg_queue_kill_end_erases_witness :
    sample_one.current_msgs = some { list := [some 0, none, none, none], size := 1 }
    ∧ sample_one.msg_queue_kill = 0
    ∧ registry (gfx_widgets_msg_queue_kill_end sample_one) = []
    ∧ (gfx_widgets_msg_queue_kill_end sample_one).widgets_moving = false :=
  ⟨by decide, by decide,
   (msg_queue_kill_end_erases sample_one { list := [some 0, none, none, none], size := 1 } 0
      (by decide) ⟨by decide, by decide⟩ (by decide) (by decide)).1.trans (by decide),
   (msg_queue_kill_end_erases sample_one { list := [some 0, none, none, none], size := 1 } 0
      (by decide) ⟨by decide, by decide⟩ (by decide) (by decide)).2.2.2⟩

/-- C10: `gfx_widgets_msg_queue_free` writes to the task store only to
clear `frontend_userdata` of the bound task, and it does so exactly when the
notification is bound to a task and none of `task_finished`, `task_error`,
`task_cancelled` is set; the count `msg_queue_tasks_count` is decremented
(as an `unsigned`) exactly when the notification is bound to a task. -/
theorem msg_queue_free_task_effect (s : State) (msg : Nat) (touch_list : Bool) :
    (gfx_widgets_msg_queue_free s msg touch_list).tasks =
      (match (s.msgs msg).task_ptr with
       | some t =>
         if (s.msgs msg).task_finished || (s.msgs msg).task_error
              || (s.msgs msg).task_cancelled then s.tasks
         else fun k => if k = t then { s.tasks t with frontend_userdata := none } else s.tasks k
       | none => s.tasks)
    ∧ (gfx_widgets_msg_queue_free s msg touch_list).msg_queue_tasks_count =
      (if (s.msgs msg).task_ptr.isSome then (s.msg_queue_tasks_count + 4294967295) % 4294967296
       else s.msg_queue_tasks_count) := by
  have e1 : (gfx_widgets_msg_queue_free s msg touch_list).tasks
      = (gfx_widgets_msg_queue_free_task s msg).tasks := by
    unfold gfx_widgets_msg_queue_free
    cases touch_list <;> simp
  have e2 : (gfx_widgets_msg_queue_free s msg touch_list).msg_queue_tasks_count
      = (gfx_widgets_msg_queue_free_task s msg).msg_queue_tasks_count := by
    unfold gfx_widgets_msg_queue_free
    cases touch_list <;> simp
  rw [e1, e2]
  unfold gfx_widgets_msg_queue_free_task
  cases htp : (s.msgs msg).task_ptr <;> cases hf : (s.msgs msg).task_finished <;>
    cases he : (s.msgs msg).task_error <;> cases hc : (s.msgs msg).task_cancelled <;>
    simp [u32]

/-- C2: one call of `gfx_widgets_iterate` in an active state takes the
oldest pending handle from the intake queue and makes the registry one entry
longer if the queue is not empty, `widgets_moving` is false and the registry
size is below `MSG_QUEUE_ONSCREEN_MAX`; otherwise it leaves the queue and the
registry as they are; in both cases every entry of the registry before the
tick is still in the registry after it, in the same order. -/
theorem iterate_consumes_one (cfg : Config) (s : State) (relayout : Option layout_t)
    (q : fifo_buffer_t) (l : file_list_t)
    (hact : s.widgets_active = true) (hq : s.msg_queue = some q)
    (hl : s.current_msgs = some l) (hwf : l.wf) :
    (if fifo_read_avail q > 0 ∧ s.widgets_moving = false
          ∧ l.size < cfg.MSG_QUEUE_ONSCREEN_MAX then
        pending (gfx_widgets_iterate cfg s relayout) = (pending s).tail
          ∧ (registry (gfx_widgets_iterate cfg s relayout)).length = (registry s).length + 1
      else
        pending (gfx_widgets_iterate cfg s relayout) = pending s
          ∧ registry (gfx_widgets_iterate cfg s relayout) = registry s)
    ∧ List.Sublist (registry s) (registry (gfx_widgets_iterate cfg s relayout)) := by
  have hit := iterate_eq_expire_consume cfg s relayout hact
  generalize hs0 : gfx_widgets_iterate_layout s relayout = s0 at hit
  have hq0 : s0.msg_queue = some q := by rw [← hs0]; simp [hq]
  have hl0 : s0.current_msgs = some l := by rw [← hs0]; simp [hl]
  have hm0 : s0.widgets_moving = s.widgets_moving := by rw [← hs0]; simp
  have hreg : registry s = l.entries := by unfold registry; rw [hl]
  have hpen : pending s = q.buffer := by unfold pending; rw [hq]
  rw [hit]
  have hq1 : (gfx_widgets_iterate_expire cfg (gfx_widgets_iterate_consume cfg s0)).msg_queue
      = (gfx_widgets_iterate_consume cfg s0).msg_queue := by simp
  have hl1 : (gfx_widgets_iterate_expire cfg (gfx_widgets_iterate_consume cfg s0)).current_msgs
      = (gfx_widgets_iterate_consume cfg s0).current_msgs := by simp
  rw [registry_eq_of_current_msgs _ _ hl1, pending_eq_of_msg_queue _ _ hq1]
  cases hc : gfx_widgets_iterate_consumes cfg s0 q l with
  | false =>
    have hcond : ¬ (fifo_read_avail q > 0 ∧ s.widgets_moving = false
        ∧ l.size < cfg.MSG_QUEUE_ONSCREEN_MAX) := by
      intro hh
      simp [gfx_widgets_iterate_consumes, hm0, hh.1, hh.2.1, hh.2.2] at hc
    rw [iterate_consume_skip cfg s0 q l hq0 hl0 hc, if_neg hcond]
    have e1 : registry s0 = registry s := registry_eq_of_current_msgs _ _ (by rw [hl0, hl])
    have e2 : pending s0 = pending s := pending_eq_of_msg_queue _ _ (by rw [hq0, hq])
    rw [e1, e2]
    exact ⟨⟨rfl, rfl⟩, List.Sublist.refl _⟩
  | true =>
    have hcond : fifo_read_avail q > 0 ∧ s.widgets_moving = false
        ∧ l.size < cfg.MSG_QUEUE_ONSCREEN_MAX := by
      simpa [gfx_widgets_iterate_consumes, hm0, and_assoc] using hc
    obtain ⟨w, rest, hb⟩ := iterate_consumes_nonempty cfg s0 q l hc
    obtain ⟨c1, c2, _⟩ := iterate_consume_take cfg s0 q l w rest hq0 hl0 hb hc
    obtain ⟨pre, post, y, p1, p2, _⟩ := iterate_consume_list_entries s0 l w hwf
    rw [if_pos hcond]
    have r1 : registry (gfx_widgets_iterate_consume cfg s0) = pre ++ y :: post := by
      unfold registry; rw [c2]; exact p2
    have r2 : pending (gfx_widgets_iterate_consume cfg s0) = rest := by
      unfold pending; rw [c1]
    rw [r1, r2, hreg, hpen, hb, p1]
    refine ⟨⟨rfl, by simp; omega⟩, ?_⟩
    exact List.Sublist.append (List.Sublist.refl _) (List.sublist_cons_self _ _)

theorem iterate_consumes_one_witness :
    (sample_push sample_init "Saved state" 1000).widgets_active = true
    ∧ pending (sample_push sample_init "Saved state" 1000) = [0]
    ∧ registry (sample_push sample_init "Saved state" 1000) = []
    ∧ pending sample_one = []
    ∧ (registry sample_one).length = 1 := by
  have h := iterate_consumes_one sample_cfg (sample_push sample_init "Saved state" 1000) none
    { buffer := [0], size := 32 } { list := [none, none, none, none], size := 0 }
    (by decide) (by decide) (by decide) ⟨by decide, by decide⟩
  rw [if_pos (by decide)] at h
  exact ⟨by decide, by decide, by decide, h.1.1.trans (by decide), h.1.2.trans (by decide)⟩

/-- C6: when `gfx_widgets_iterate` admits the notification `w` into a
registry of size `n` with `k` task notifications counted (`k ≤ n`), the new
registry is the old one with `w` appended at index `n` if `w` is bound to a
task or `k = 0`, and with `w` inserted at index `n - k` otherwise; the old
entries keep their order, and the count becomes `k + 1` exactly when `w` is
bound to a task. -/
theorem iterate_consume_position (cfg : Config) (s : State) (relayout : Option layout_t)
    (q : fifo_buffer_t) (l : file_list_t) (w : Nat) (rest : List Nat)
    (hact : s.widgets_active = true) (hq : s.msg_queue = some q)
    (hl : s.current_msgs = some l) (hwf : l.wf) (hb : q.buffer = w :: rest)
    (hmov : s.widgets_moving = false) (hsz : l.size < cfg.MSG_QUEUE_ONSCREEN_MAX)
    (hmax : cfg.MSG_QUEUE_ONSCREEN_MAX < 4294967296)
    (hk : s.msg_queue_tasks_count ≤ l.size) :
    registry (gfx_widgets_iterate cfg s relayout)
      = (if (s.msgs w).task_ptr.isSome ∨ s.msg_queue_tasks_count = 0 then
           registry s ++ [some w]
         else (registry s).take (l.size - s.msg_queue_tasks_count) ++
                some w :: (registry s).drop (l.size - s.msg_queue_tasks_count))
    ∧ (registry (gfx_widgets_iterate cfg s relayout)).get?
        (if (s.msgs w).task_ptr.isSome ∨ s.msg_queue_tasks_count = 0 then l.size
         else l.size - s.msg_queue_tasks_count) = some (some w)
    ∧ (gfx_widgets_iterate cfg s relayout).msg_queue_tasks_count
      = (if (s.msgs w).task_ptr.isSome then s.msg_queue_tasks_count + 1
         else s.msg_queue_tasks_count) := by
  have hit := iterate_eq_expire_consume cfg s relayout hact
  generalize hs0 : gfx_widgets_iterate_layout s relayout = s0 at hit
  have hq0 : s0.msg_queue = some q := by rw [← hs0]; simp [hq]
  have hl0 : s0.current_msgs = some l := by rw [← hs0]; simp [hl]
  have hm0 : s0.widgets_moving = s.widgets_moving := by rw [← hs0]; simp
  have hms0 : s0.msgs = s.msgs := by rw [← hs0]; simp
  have hc0 : s0.msg_queue_tasks_count = s.msg_queue_tasks_count := by rw [← hs0]; simp
  have hc : gfx_widgets_iterate_consumes cfg s0 q l = true := by
    simp [gfx_widgets_iterate_consumes, fifo_read_avail, hb, hm0, hmov, hsz]
  obtain ⟨_, c2, c3⟩ := iterate_consume_take cfg s0 q l w rest hq0 hl0 hb hc
  have hreg : registry s = l.entries := by unfold registry; rw [hl]
  have hlen : l.entries.length = l.size := by
    unfold file_list_t.entries
    simp [hwf.1]
  have hr : registry (gfx_widgets_iterate cfg s relayout)
      = (gfx_widgets_iterate_consume_list s0 l w).entries := by
    rw [hit]
    unfold registry
    simp [c2]
  have hlist : (gfx_widgets_iterate_consume_list s0 l w).entries
      = (if (s.msgs w).task_ptr.isSome ∨ s.msg_queue_tasks_count = 0 then
           l.entries ++ [some w]
         else l.entries.take (l.size - s.msg_queue_tasks_count) ++
                some w :: l.entries.drop (l.size - s.msg_queue_tasks_count)) := by
    unfold gfx_widgets_iterate_consume_list
    rw [hms0, hc0]
    by_cases hcase : s.msg_queue_tasks_count = 0 ∨ (s.msgs w).task_ptr.isSome = true
    · rw [if_pos hcase, if_pos (Or.symm hcase)]
      exact (file_list_append_entries l (some w) hwf).1
    · rw [if_neg hcase, if_neg (fun hh => hcase (Or.symm hh))]
      have hidx : u32 (u64 (l.size + 18446744073709551616 - s.msg_queue_tasks_count))
          = l.size - s.msg_queue_tasks_count := by
        unfold u32 u64
        omega
      rw [hidx]
      exact (file_list_insert_entries l _ (some w) hwf (by omega)).1
  refine ⟨by rw [hr, hlist, hreg], ?_, ?_⟩
  · rw [hr, hlist]
    by_cases hcase : (s.msgs w).task_ptr.isSome = true ∨ s.msg_queue_tasks_count = 0
    · rw [if_pos hcase, if_pos hcase]
      simp [hlen]
    · rw [if_neg hcase, if_neg hcase]
      have : (List.take (l.size - s.msg_queue_tasks_count) l.entries).length
          = l.size - s.msg_queue_tasks_count := by
        simp [hlen]
      rw [List.get?_eq_getElem?, List.getElem?_append_right (le_of_eq this), this]
      simp
  · rw [hit]
    simp only [gfx_widgets_iterate_expire_frame, c3, hms0, hc0]
    have : u32 (s.msg_queue_tasks_count + 1) = s.msg_queue_tasks_count + 1 := by
      unfold u32
      omega
    rw [this]

theorem iterate_consume_position_witness :
    registry (sample_push sample_init "Saved state" 1000) = []
    ∧ registry sample_one = [some 0]
    ∧ sample_one.msg_queue_tasks_count = 0 := by
  have h := iterate_consume_position sample_cfg (sample_push sample_init "Saved state" 1000)
    none { buffer := [0], size := 32 } { list := [none, none, none, none], size := 0 } 0 []
    (by decide) (by decide) (by decide) ⟨by decide, by decide⟩ rfl (by decide) (by decide)
    (by decide) (by decide)
  exact ⟨by decide, h.1.trans (by decide), h.2.2.trans (by decide)⟩

/-- C8: one call of `gfx_widgets_iterate` sets the flag `dying` on at most
one notification.  With `s1` the state after the admission step: if
`widgets_moving` is false in `s1` and the registry of `s1` has an expired
entry, the expired entry with the lowest index gets `dying` set and no other
flag changes; if there is no expired entry, or `widgets_moving` is true in
`s1`, no `dying` flag changes. -/
theorem iterate_kills_first_expired (cfg : Config) (s : State) (relayout : Option layout_t)
    (l : file_list_t) (hact : s.widgets_active = true) (hl : s.current_msgs = some l)
    (hwf : l.wf) :
    (∀ h1 h2, (s.msgs h1).dying = false →
        ((gfx_widgets_iterate cfg s relayout).msgs h1).dying = true →
        (s.msgs h2).dying = false →
        ((gfx_widgets_iterate cfg s relayout).msgs h2).dying = true → h1 = h2)
    ∧ ((gfx_widgets_iterate_consume cfg (gfx_widgets_iterate_layout s relayout)).widgets_moving
          = false →
        ∀ w, first_expired (gfx_widgets_iterate_consume cfg
                (gfx_widgets_iterate_layout s relayout)) = some (some w) →
          ((gfx_widgets_iterate cfg s relayout).msgs w).dying = true
          ∧ ∀ h, h ≠ w →
              ((gfx_widgets_iterate cfg s relayout).msgs h).dying = (s.msgs h).dying)
    ∧ ((gfx_widgets_iterate_consume cfg (gfx_widgets_iterate_layout s relayout)).widgets_moving
          = false →
        first_expired (gfx_widgets_iterate_consume cfg
                (gfx_widgets_iterate_layout s relayout)) = none →
          ∀ h, ((gfx_widgets_iterate cfg s relayout).msgs h).dying = (s.msgs h).dying)
    ∧ ((gfx_widgets_iterate_consume cfg (gfx_widgets_iterate_layout s relayout)).widgets_moving
          = true →
        ∀ h, ((gfx_widgets_iterate cfg s relayout).msgs h).dying = (s.msgs h).dying) := by
  rw [iterate_eq_expire_consume cfg s relayout hact]
  have hl0 : (gfx_widgets_iterate_layout s relayout).current_msgs = some l := by simp [hl]
  obtain ⟨l1, hl1, hwf1⟩ :=
    iterate_consume_current_msgs cfg (gfx_widgets_iterate_layout s relayout) l hl0 hwf
  have hd0 : ∀ h, ((gfx_widgets_iterate_consume cfg
      (gfx_widgets_iterate_layout s relayout)).msgs h).dying = (s.msgs h).dying := by
    intro h
    rw [(iterate_consume_flags cfg _ h).1]
    simp
  generalize gfx_widgets_iterate_consume cfg (gfx_widgets_iterate_layout s relayout) = s1
    at hl1 hd0 ⊢
  have hexp : gfx_widgets_iterate_expire cfg s1 = gfx_widgets_iterate_loop cfg l1.size 0 s1 := by
    unfold gfx_widgets_iterate_expire
    simp [hl1]
  have hfe : first_expired s1 = l1.entries.find? (expired_entry s1) := by
    unfold first_expired registry
    simp [hl1]
  obtain ⟨m1, m2⟩ := iterate_loop_dying cfg l1 hwf1 l1.size 0 s1 hl1 (by omega)
  rw [hexp, hfe]
  simp only [List.drop_zero] at m2
  have key : ∀ h, ((gfx_widgets_iterate_loop cfg l1.size 0 s1).msgs h).dying
      = (match (if s1.widgets_moving then none else l1.entries.find? (expired_entry s1)) with
         | some (some w) => if h = w then true else (s.msgs h).dying
         | _ => (s.msgs h).dying) := by
    intro h
    cases hm : s1.widgets_moving with
    | true => simp [m1 hm h, hd0]
    | false =>
      rw [m2 hm h]
      simp only [hd0]
      rfl
  refine ⟨?_, ?_, ?_, ?_⟩
  · intro h1 h2 a1 b1 a2 b2
    rw [key] at b1 b2
    split at b1
    · rename_i w hw
      rw [hw] at b2
      simp only [a1, a2] at b1 b2
      have e1 : h1 = w := by simpa using b1
      have e2 : h2 = w := by simpa using b2
      rw [e1, e2]
    · rw [a1] at b1
      exact absurd b1 (by simp)
  · intro hm w hw
    constructor
    · rw [key, hm]
      simp [hw]
    · intro h hne
      rw [key, hm]
      simp [hw, hne]
  · intro hm hw h
    rw [key, hm]
    simp [hw]
  · intro hm h
    rw [key, hm]
    simp

theorem iterate_kills_first_expired_witness :
    sample_expired.widgets_active = true
    ∧ registry sample_expired = [some 0]
    ∧ (sample_expired.msgs 0).expired = true
    ∧ (sample_expired.msgs 0).dying = false
    ∧ ((gfx_widgets_iterate sample_cfg sample_expired none).msgs 0).dying = true :=
  ⟨by decide, by decide, by decide, by decide,
   ((iterate_kills_first_expired sample_cfg sample_expired none
      { list := [some 0, none, none, none], size := 1 } (by decide) (by decide)
      ⟨by decide, by decide⟩).2.1 (by decide) 0 (by decide)).1⟩

/-- C4, as amended: in an active state whose intake queue has room for two
handles, for a task `t` with an empty back-reference, two pushes of `t`
(the task system may rewrite the task in between and keeps the
back-reference) enqueue one handle in total: the first push creates the
notification `msgs_next`, enqueues it and stores it in the back-reference of
`t`; the second push creates and enqueues nothing and leaves `msg_new` of
that notification equal to the latest title of `t`. -/
theorem push_task_twice (cfg : Config) (s : State) (q : fifo_buffer_t) (t : Nat)
    (r : retro_task_t)
    (msg1 : String) (duration1 : Nat) (title1 : Option String) (icon1 category1 prio1 : Nat)
    (flush1 alive1 : Bool)
    (msg2 : String) (duration2 : Nat) (title2 : Option String) (icon2 category2 prio2 : Nat)
    (flush2 alive2 : Bool)
    (hact : s.widgets_active = true) (hq : s.msg_queue = some q)
    (hroom : fifo_write_avail q > 1) (ht : (s.tasks t).frontend_userdata = none)
    (hr : r.frontend_userdata = some s.msgs_next) :
    pending (gfx_widgets_msg_queue_push cfg s (some t) msg1 duration1 title1 icon1 category1
        prio1 flush1 alive1) = pending s ++ [s.msgs_next]
    ∧ ((gfx_widgets_msg_queue_push cfg s (some t) msg1 duration1 title1 icon1 category1
        prio1 flush1 alive1).tasks t).frontend_userdata = some s.msgs_next
    ∧ (gfx_widgets_msg_queue_push cfg s (some t) msg1 duration1 title1 icon1 category1
        prio1 flush1 alive1).msgs_next = s.msgs_next + 1
    ∧ pending (gfx_widgets_msg_queue_push cfg
        (set_task (gfx_widgets_msg_queue_push cfg s (some t) msg1 duration1 title1 icon1
          category1 prio1 flush1 alive1) t r)
        (some t) msg2 duration2 title2 icon2 category2 prio2 flush2 alive2)
      = pending s ++ [s.msgs_next]
    ∧ (gfx_widgets_msg_queue_push cfg
        (set_task (gfx_widgets_msg_queue_push cfg s (some t) msg1 duration1 title1 icon1
          category1 prio1 flush1 alive1) t r)
        (some t) msg2 duration2 title2 icon2 category2 prio2 flush2 alive2).msgs_next
      = s.msgs_next + 1
    ∧ ((gfx_widgets_msg_queue_push cfg
        (set_task (gfx_widgets_msg_queue_push cfg s (some t) msg1 duration1 title1 icon1
          category1 prio1 flush1 alive1) t r)
        (some t) msg2 duration2 title2 icon2 category2 prio2 flush2 alive2).msgs
        s.msgs_next).msg_new = some r.title := by
  have hroom1 : fifo_write_avail q > 0 := by omega
  have e1 : gfx_widgets_msg_queue_push cfg s (some t) msg1 duration1 title1 icon1 category1
      prio1 flush1 alive1
      = gfx_widgets_msg_queue_push_spawn cfg s q (some t) msg1 duration1 alive1 := by
    unfold gfx_widgets_msg_queue_push
    simp [hact, hq, hroom1, ht]
  obtain ⟨a1, a2, a3, _, _⟩ := push_spawn_task cfg s q t msg1 duration1 alive1
  rw [e1]
  have hp : pending s = q.buffer := by unfold pending; rw [hq]
  have hp1 : pending (gfx_widgets_msg_queue_push_spawn cfg s q (some t) msg1 duration1 alive1)
      = pending s ++ [s.msgs_next] := by
    unfold pending
    rw [a1, hq]
    rfl
  have hact1 : (gfx_widgets_msg_queue_push_spawn cfg s q (some t) msg1 duration1
      alive1).widgets_active = true := by
    rw [(gfx_widgets_msg_queue_push_spawn_frame cfg s q (some t) msg1 duration1 alive1).1]
    exact hact
  generalize gfx_widgets_msg_queue_push_spawn cfg s q (some t) msg1 duration1 alive1 = s1
    at a1 a2 a3 hp1 hact1 ⊢
  have hroom2 : fifo_write_avail (fifo_write q s.msgs_next) > 0 := by
    unfold fifo_write_avail fifo_write at *
    simp
    omega
  have e2 : gfx_widgets_msg_queue_push cfg (set_task s1 t r) (some t) msg2 duration2 title2
      icon2 category2 prio2 flush2 alive2
      = gfx_widgets_msg_queue_push_update cfg
          (set_msg (set_task s1 t r) s.msgs_next
            { (set_task s1 t r).msgs s.msgs_next with task_ptr := some t }) t s.msgs_next := by
    unfold gfx_widgets_msg_queue_push
    simp [hact1, a1, hroom2, hr]
  rw [e2]
  refine ⟨hp1, a3, a2, ?_, ?_, ?_⟩
  · rw [← hp1]
    apply pending_eq_of_msg_queue
    simp
  · simp [a2]
  · rw [push_update_msg_new]
    simp

theorem push_task_twice_witness :
    (sample_init.tasks 0).frontend_userdata = none
    ∧ pending (sample_push_task sample_init 0) = [0]
    ∧ ((gfx_widgets_msg_queue_push sample_cfg
          (set_task (sample_push_task sample_init 0) 0
            { retro_task_zero with title := "Scanning 50%", frontend_userdata := some 0 })
          (some 0) "" 0 none 0 0 0 false false).msgs 0).msg_new = some "Scanning 50%" := by
  have h := push_task_twice sample_cfg sample_init { buffer := [], size := 32 } 0
    { retro_task_zero with title := "Scanning 50%", frontend_userdata := some 0 }
    "" 0 none 0 0 0 false false "" 0 none 0 0 0 false false
    (by decide) (by decide) (by decide) (by decide) (by decide)
  exact ⟨by decide, h.1.trans (by decide), h.2.2.2.2.2⟩

/-- C4 fails as stated: with one free place in the intake queue the first
push of the task fills the queue, and the second push, made after the task
was retitled, is dropped by the guard `fifo_write_avail > 0`: the pending
text of the notification is still the old title. -/
theorem push_task_twice_counterexample :
    sample_nearly_full.widgets_active = true
    ∧ sample_nearly_full.msg_queue.map fifo_write_avail = some 1
    ∧ (sample_nearly_full.tasks 0).frontend_userdata = none
    ∧ ((sample_push_task sample_nearly_full 0).tasks 0).frontend_userdata = some 31
    ∧ (sample_retitled.tasks 0).title = "Scanning 50%"
    ∧ ((sample_push_task sample_retitled 0).msgs 31).msg_new = some "Scanning"
    ∧ ((sample_push_task sample_retitled 0).msgs 31).msg_new
        ≠ some (sample_retitled.tasks 0).title := by
  decide

/-! ### The invariant of the registry -/

theorem same_core_refl (s : State) : same_core s s :=
  ⟨rfl, rfl, rfl, rfl, rfl, fun _ => rfl, fun _ => rfl⟩

theorem same_core_trans {s2 s1 s : State} (a : same_core s2 s1) (b : same_core s1 s) :
    same_core s2 s :=
  ⟨a.msg_queue.trans b.msg_queue, a.current_msgs.trans b.current_msgs,
   a.msg_queue_kill.trans b.msg_queue_kill,
   a.msg_queue_tasks_count.trans b.msg_queue_tasks_count, a.msgs_next.trans b.msgs_next,
   fun h => (a.task_ptr h).trans (b.task_ptr h),
   fun t => (a.frontend_userdata t).trans (b.frontend_userdata t)⟩

theorem registry_inv_congr {cfg : Config} {s1 s : State} {q : fifo_buffer_t}
    {l : file_list_t} {P T : List Nat} (c : same_core s1 s) (i : registry_inv cfg s q l P T) :
    registry_inv cfg s1 q l P T where
  hq := c.msg_queue.trans i.hq
  hl := c.current_msgs.trans i.hl
  hsize := i.hsize
  hcap := i.hcap
  hcap2 := i.hcap2
  hent := i.hent
  hplain := fun h hh => (c.task_ptr h).trans (i.hplain h hh)
  htask := fun h hh => (c.task_ptr h).trans (i.htask h hh)
  hcount := c.msg_queue_tasks_count.trans i.hcount
  hreg_lt := fun h hh => by rw [c.msgs_next]; exact i.hreg_lt h hh
  hpend_lt := fun h hh => by rw [c.msgs_next]; exact i.hpend_lt h hh
  hback := fun t h hh => by
    rw [c.frontend_userdata] at hh
    rw [c.msgs_next, c.task_ptr]
    exact i.hback t h hh
  hkill := fun m hm => by
    rw [c.msg_queue_kill] at hm ⊢
    exact i.hkill m hm

theorem set_msg_same_core (s : State) (h : Nat) (m : menu_widget_msg_t)
    (hm : m.task_ptr.isSome = (s.msgs h).task_ptr.isSome) : same_core (set_msg s h m) s := by
  refine ⟨by simp, by simp, by simp, by simp, by simp, ?_, by simp⟩
  intro k
  by_cases e : k = h
  · subst e; simp [hm]
  · simp [e]

theorem timer_start_same_core (s : State) (e : gfx_timer_ctx_entry_t) :
    same_core (gfx_timer_start s e) s :=
  ⟨by simp, by simp, by simp, by simp, by simp, fun _ => by simp, fun _ => by simp⟩

theorem timer_kill_same_core (s : State) (t : Nat × timer_field) :
    same_core (gfx_timer_kill s t) s :=
  ⟨by simp, by simp, by simp, by simp, by simp, fun _ => by simp, fun _ => by simp⟩

theorem animation_push_same_core (s : State) (e : gfx_animation_ctx_entry_t) :
    same_core (gfx_animation_push s e) s :=
  ⟨by simp, by simp, by simp, by simp, by simp, fun _ => by simp, fun _ => by simp⟩

theorem animation_kill_same_core (s : State) (tag : Nat) :
    same_core (gfx_animation_kill_by_tag s tag) s :=
  ⟨by simp, by simp, by simp, by simp, by simp, fun _ => by simp, fun _ => by simp⟩

theorem set_anims_same_core (s : State) (v : List gfx_animation_ctx_entry_t) :
    same_core (set_anims s v) s :=
  ⟨by simp, by simp, by simp, by simp, by simp, fun _ => by simp, fun _ => by simp⟩

theorem set_timers_same_core (s : State) (v : List gfx_timer_ctx_entry_t) :
    same_core (set_timers s v) s :=
  ⟨by simp, by simp, by simp, by simp, by simp, fun _ => by simp, fun _ => by simp⟩

theorem set_widgets_moving_same_core (s : State) (v : Bool) :
    same_core (set_widgets_moving s v) s :=
  ⟨by simp, by simp, by simp, by simp, by simp, fun _ => by simp, fun _ => by simp⟩

theorem set_layout_same_core (s : State) (v : layout_t) : same_core (set_layout s v) s :=
  ⟨by simp, by simp, by simp, by simp, by simp, fun _ => by simp, fun _ => by simp⟩

theorem gfx_animation_set_subject_same_core (s : State) (subject : Nat × anim_subject)
    (v : Int) : same_core (gfx_animation_set_subject s subject v) s := by
  unfold gfx_animation_set_subject
  split <;> exact set_msg_same_core _ _ _ rfl

theorem move_end_same_core (cfg : Config) (s : State) (u : Option Nat) :
    same_core (gfx_widgets_move_end cfg s u) s := by
  unfold gfx_widgets_move_end
  cases u with
  | none => exact set_widgets_moving_same_core _ _
  | some u =>
    exact same_core_trans (set_msg_same_core _ _ _ (by simp)) (animation_push_same_core _ _)

theorem unfold_end_same_core (s : State) (u : Nat) :
    same_core (gfx_widgets_unfold_end s u) s := by
  unfold gfx_widgets_unfold_end
  exact same_core_trans (set_widgets_moving_same_core _ _) (set_msg_same_core s u _ rfl)

theorem expired_same_core (s : State) (u : Option Nat) :
    same_core (gfx_widgets_msg_queue_expired s u) s := by
  unfold gfx_widgets_msg_queue_expired
  cases u with
  | none => exact same_core_refl s
  | some u =>
    simp only []
    split
    · exact set_msg_same_core s u _ rfl
    · exact same_core_refl s

theorem transition_done_same_core (s : State) (u : Nat) :
    same_core (msg_widget_msg_transition_animation_done s u) s := by
  unfold msg_widget_msg_transition_animation_done
  exact set_msg_same_core s u _ rfl

theorem hourglass_end_same_core (cfg : Config) (s : State) (u : Nat) :
    same_core (gfx_widgets_hourglass_end cfg s u) s := by
  unfold gfx_widgets_hourglass_end
  exact same_core_trans (timer_start_same_core _ _) (set_msg_same_core s u _ rfl)

theorem hourglass_tick_same_core (cfg : Config) (s : State) (u : Nat) :
    same_core (gfx_widgets_hourglass_tick cfg s u) s := by
  unfold gfx_widgets_hourglass_tick
  exact animation_push_same_core _ _

theorem start_msg_expiration_timer_same_core (s : State) (w d : Nat) :
    same_core (gfx_widgets_start_msg_expiration_timer s w d) s := by
  unfold gfx_widgets_start_msg_expiration_timer
  exact same_core_trans (set_msg_same_core _ w _ (by simp)) (timer_start_same_core _ _)

theorem iterate_loop_timer_same_core (cfg : Config) (s : State) (w : Nat) :
    same_core (gfx_widgets_iterate_loop_timer cfg s w) s := by
  unfold gfx_widgets_iterate_loop_timer
  split
  · exact start_msg_expiration_timer_same_core _ _ _
  · exact same_core_refl s

theorem msg_queue_move_same_core (cfg : Config) (s : State) :
    same_core (gfx_widgets_msg_queue_move cfg s) s :=
  ⟨by simp, by simp, by simp, by simp, by simp, fun _ => by simp, fun _ => by simp⟩

theorem push_plain_msg_fields (cfg : Config) (s : State) (title : String) (duration : Nat)
    (alive : Bool) :
    (gfx_widgets_msg_queue_push_plain_msg cfg s title duration alive).task_ptr = none
    ∧ (gfx_widgets_msg_queue_push_plain_msg cfg s title duration alive).dying = false
    ∧ (gfx_widgets_msg_queue_push_plain_msg cfg s title duration alive).offset_y = 0
    ∧ (gfx_widgets_msg_queue_push_plain_msg cfg s title duration alive).expired = false
    ∧ (gfx_widgets_msg_queue_push_plain_msg cfg s title duration alive).unfolded
        = !s.msg_queue_has_icons := by
  unfold gfx_widgets_msg_queue_push_plain_msg
  generalize (if alive = true then s.msg_queue_default_rect_width_menu_alive
    else s.msg_queue_default_rect_width) = W
  split <;> simp [gfx_widgets_msg_queue_push_new_msg]

theorem push_task_msg_fields (cfg : Config) (s : State) (t : Nat) (duration : Nat) :
    (gfx_widgets_msg_queue_push_task_msg cfg s t duration).task_ptr = some t
    ∧ (gfx_widgets_msg_queue_push_task_msg cfg s t duration).dying = false
    ∧ (gfx_widgets_msg_queue_push_task_msg cfg s t duration).offset_y = 0
    ∧ (gfx_widgets_msg_queue_push_task_msg cfg s t duration).expired = false
    ∧ (gfx_widgets_msg_queue_push_task_msg cfg s t duration).unfolded = true
    ∧ (gfx_widgets_msg_queue_push_task_msg cfg s t duration).msg_new
        = some (s.tasks t).title :=
  ⟨rfl, rfl, rfl, rfl, rfl, rfl⟩

theorem push_spawn_spec (cfg : Config) (s : State) (q : fifo_buffer_t) (task : Option Nat)
    (msg : String) (duration : Nat) (alive : Bool) :
    (gfx_widgets_msg_queue_push_spawn cfg s q task msg duration alive).msg_queue
      = some (fifo_write q s.msgs_next)
    ∧ (gfx_widgets_msg_queue_push_spawn cfg s q task msg duration alive).msgs_next
      = s.msgs_next + 1
    ∧ (∀ h, h ≠ s.msgs_next →
        (gfx_widgets_msg_queue_push_spawn cfg s q task msg duration alive).msgs h = s.msgs h)
    ∧ ((gfx_widgets_msg_queue_push_spawn cfg s q task msg duration alive).msgs
        s.msgs_next).task_ptr = task
    ∧ (∀ t, ((gfx_widgets_msg_queue_push_spawn cfg s q task msg duration alive).tasks
          t).frontend_userdata
        = if task = some t then some s.msgs_next else (s.tasks t).frontend_userdata) := by
  unfold gfx_widgets_msg_queue_push_spawn
  cases task with
  | none =>
    simp only [set_msg_queue_proj, set_msg_proj, set_msgs_next_proj, if_true]
    refine ⟨trivial, trivial, ?_, ?_, ?_⟩
    · intro h hne; simp [hne]
    · exact (push_plain_msg_fields cfg s msg duration alive).1
    · intro t; simp
  | some t0 =>
    simp only [set_msg_queue_proj, set_msg_proj, set_msgs_next_proj, set_task_proj, if_true]
    refine ⟨trivial, trivial, ?_, rfl, ?_⟩
    · intro h hne; simp [hne]
    · intro t
      by_cases e : t = t0
      · subst e; simp
      · have e2 : ¬ t0 = t := fun hh => e hh.symm
        simp [e, e2]

theorem push_update_timer_same_core (s : State) (h : Nat) :
    same_core (gfx_widgets_msg_queue_push_update_timer s h) s := by
  unfold gfx_widgets_msg_queue_push_update_timer
  split
  · exact same_core_trans (set_msg_same_core _ h _ (by simp)) (timer_kill_same_core _ _)
  · exact same_core_refl s

theorem push_update_title_same_core (cfg : Config) (s : State) (t h : Nat) :
    same_core (gfx_widgets_msg_queue_push_update_title cfg s t h) s := by
  unfold gfx_widgets_msg_queue_push_update_title
  split
  · simp only []
    split
    · refine same_core_trans (set_msg_same_core _ h _ rfl) ?_
      exact same_core_trans (animation_push_same_core _ _) (set_msg_same_core s h _ rfl)
    · refine same_core_trans (set_msg_same_core _ h _ rfl) ?_
      exact same_core_trans (transition_done_same_core _ _) (set_msg_same_core s h _ rfl)
  · exact same_core_refl s

theorem push_update_same_core (cfg : Config) (s : State) (t h : Nat) :
    same_core (gfx_widgets_msg_queue_push_update cfg s t h) s := by
  unfold gfx_widgets_msg_queue_push_update
  refine same_core_trans (set_msg_same_core _ h _ rfl) ?_
  exact same_core_trans (push_update_title_same_core _ _ _ _) (push_update_timer_same_core _ _)

theorem registry_inv_push (cfg : Config) (s : State) (q : fifo_buffer_t) (l : file_list_t)
    (P T : List Nat) (i : registry_inv cfg s q l P T)
    (task : Option Nat) (msg : String) (duration : Nat)
    (title : Option String) (icon category prio : Nat) (flush alive : Bool) :
    ∃ q1, registry_inv cfg
      (gfx_widgets_msg_queue_push cfg s task msg duration title icon category prio flush alive)
      q1 l P T := by
  have hspawn : ∃ q1, registry_inv cfg
      (gfx_widgets_msg_queue_push_spawn cfg s q task msg duration alive) q1 l P T := by
    obtain ⟨a1, a2, a3, a4, a5⟩ := push_spawn_spec cfg s q task msg duration alive
    refine ⟨fifo_write q s.msgs_next, ?_⟩
    constructor
    · exact a1
    · simpa using i.hl
    · exact i.hsize
    · exact i.hcap
    · exact i.hcap2
    · exact i.hent
    · intro h hh
      have := i.hreg_lt h (List.mem_append_left _ hh)
      rw [a3 h (by omega)]
      exact i.hplain h hh
    · intro h hh
      have := i.hreg_lt h (List.mem_append_right _ hh)
      rw [a3 h (by omega)]
      exact i.htask h hh
    · simpa using i.hcount
    · intro h hh
      have := i.hreg_lt h hh
      omega
    · intro h hh
      simp only [fifo_write, List.mem_append, List.mem_singleton] at hh
      rcases hh with hh | hh
      · have := i.hpend_lt h hh
        omega
      · omega
    · intro t h hh
      rw [a5 t] at hh
      by_cases e : task = some t
      · rw [if_pos e] at hh
        have e2 : h = s.msgs_next := by simpa using hh.symm
        subst e2
        rw [a2, a4, e]
        exact ⟨by omega, rfl⟩
      · rw [if_neg e] at hh
        obtain ⟨b1, b2⟩ := i.hback t h hh
        rw [a2, a3 h (by omega)]
        exact ⟨by omega, b2⟩
    · simpa using i.hkill
  unfold gfx_widgets_msg_queue_push
  split
  · exact ⟨q, i⟩
  · simp only [i.hq]
    split
    · cases task with
      | none => exact hspawn
      | some t =>
        simp only []
        cases hu : (s.tasks t).frontend_userdata with
        | none => exact hspawn
        | some h =>
          simp only []
          refine ⟨q, registry_inv_congr ?_ i⟩
          refine same_core_trans (push_update_same_core _ _ _ _) ?_
          exact set_msg_same_core s h _ (by simp [(i.hback t h hu).2])
    · exact ⟨q, i⟩

theorem map_some_eraseIdx (L : List Nat) (k : Nat) :
    (L.map some).eraseIdx k = (L.eraseIdx k).map some := by
  induction L generalizing k with
  | nil => simp
  | cons a t ih =>
    cases k with
    | zero => simp
    | succ k => simp [ih]

theorem free_shift_length (L : List (Option Nat)) (n i : Nat) :
    (gfx_widgets_msg_queue_free_shift L n i).length = L.length := by
  induction n generalizing L i with
  | zero => simp [gfx_widgets_msg_queue_free_shift]
  | succ n ih => simp [gfx_widgets_msg_queue_free_shift, ih]

theorem free_task_count (s : State) (m : Nat) :
    (gfx_widgets_msg_queue_free_task s m).msg_queue_tasks_count
      = (if (s.msgs m).task_ptr.isSome then u32 (s.msg_queue_tasks_count + 4294967295)
         else s.msg_queue_tasks_count) := by
  unfold gfx_widgets_msg_queue_free_task
  cases (s.msgs m).task_ptr <;> simp

theorem free_task_backref (s : State) (m t h : Nat)
    (hh : ((gfx_widgets_msg_queue_free_task s m).tasks t).frontend_userdata = some h) :
    (s.tasks t).frontend_userdata = some h := by
  unfold gfx_widgets_msg_queue_free_task at hh
  cases htp : (s.msgs m).task_ptr with
  | none => simpa [htp] using hh
  | some t0 =>
    simp only [htp, set_msg_queue_tasks_count_proj] at hh
    split at hh
    · by_cases e : t = t0
      · subst e; simp at hh
      · simpa [e] using hh
    · exact hh

theorem free_touch_spec (s : State) (l : file_list_t) (m : Nat)
    (hl : s.current_msgs = some l) :
    (gfx_widgets_msg_queue_free s m true).msg_queue = s.msg_queue
    ∧ (gfx_widgets_msg_queue_free s m true).current_msgs
        = some { list := gfx_widgets_msg_queue_free_shift (l.list.set s.msg_queue_kill none)
                            (l.size - 1 - s.msg_queue_kill) s.msg_queue_kill,
                 size := u64 (l.size + 18446744073709551615) }
    ∧ (gfx_widgets_msg_queue_free s m true).msg_queue_kill = s.msg_queue_kill
    ∧ (gfx_widgets_msg_queue_free s m true).msgs = s.msgs
    ∧ (gfx_widgets_msg_queue_free s m true).msgs_next = s.msgs_next
    ∧ (gfx_widgets_msg_queue_free s m true).msg_queue_tasks_count
        = (if (s.msgs m).task_ptr.isSome then u32 (s.msg_queue_tasks_count + 4294967295)
           else s.msg_queue_tasks_count)
    ∧ (∀ t h, ((gfx_widgets_msg_queue_free s m true).tasks t).frontend_userdata = some h →
        (s.tasks t).frontend_userdata = some h)
    ∧ (gfx_widgets_msg_queue_free s m true).widgets_moving = false := by
  refine ⟨by simp, ?_, by simp, by simp, by simp, ?_, ?_, ?_⟩
  · unfold gfx_widgets_msg_queue_free gfx_widgets_msg_queue_free_list
    simp [hl]
  · unfold gfx_widgets_msg_queue_free
    simp [free_task_count]
  · intro t h hh
    apply free_task_backref s m t h
    unfold gfx_widgets_msg_queue_free at hh
    simpa using hh
  · unfold gfx_widgets_msg_queue_free
    simp

theorem entries_getElem (l : file_list_t) (k : Nat) (hk : k < l.size)
    (hwf : l.size ≤ l.list.length) :
    l.entries[k]? = some (file_list_get_userdata l k) := by
  unfold file_list_t.entries file_list_get_userdata
  have hk2 : k < l.list.length := by omega
  simp [List.getElem?_take, hk, List.getElem?_eq_getElem hk2]

theorem registry_inv_kill_end (cfg : Config) (hmax : cfg.MSG_QUEUE_ONSCREEN_MAX < 4294967296)
    (s : State) (q : fifo_buffer_t) (l : file_list_t) (P T : List Nat)
    (i : registry_inv cfg s q l P T) :
    ∃ l1 P1 T1, registry_inv cfg (gfx_widgets_msg_queue_kill_end s) q l1 P1 T1 := by
  unfold gfx_widgets_msg_queue_kill_end
  simp only [i.hl]
  cases hm : file_list_get_userdata l s.msg_queue_kill with
  | none => exact ⟨l, P, T, i⟩
  | some m =>
    simp only []
    have hk := i.hkill m hm
    have hwf : l.size ≤ l.list.length := le_trans i.hsize i.hcap
    obtain ⟨f1, f2, f3, f4, f5, f6, f7, _⟩ := free_touch_spec s l m i.hl
    have hsz : u64 (l.size + 18446744073709551615) = l.size - 1 := by
      have := i.hcap2
      unfold u64
      omega
    rw [hsz] at f2
    have hPT : (P ++ T)[s.msg_queue_kill]? = some m := by
      have h1 := entries_getElem l _ hk hwf
      rw [i.hent, hm, List.getElem?_map] at h1
      cases hx : (P ++ T)[s.msg_queue_kill]? with
      | none => simp [hx] at h1
      | some x => simpa [hx] using h1
    have hlenPT : (P ++ T).length = l.size := by
      have := congrArg List.length i.hent
      unfold file_list_t.entries at this
      simp only [List.length_take, List.length_map] at this
      omega
    have hent1 : ({ list := gfx_widgets_msg_queue_free_shift
                      (l.list.set s.msg_queue_kill none)
                      (l.size - 1 - s.msg_queue_kill) s.msg_queue_kill,
                    size := l.size - 1 } : file_list_t).entries
        = ((P ++ T).eraseIdx s.msg_queue_kill).map some := by
      have := free_shift_entries l.list l.size s.msg_queue_kill hk hwf
      unfold file_list_t.entries
      simp only []
      rw [this, ← map_some_eraseIdx, ← i.hent]
      rfl
    have hkill1 : ∀ m1, file_list_get_userdata
        ({ list := gfx_widgets_msg_queue_free_shift (l.list.set s.msg_queue_kill none)
                     (l.size - 1 - s.msg_queue_kill) s.msg_queue_kill,
           size := l.size - 1 } : file_list_t) s.msg_queue_kill = some m1 →
        s.msg_queue_kill < l.size - 1 := by
      intro m1 h1
      by_contra hcon
      have e : l.size - 1 - s.msg_queue_kill = 0 := by omega
      rw [e] at h1
      unfold file_list_get_userdata at h1
      have hk2 : s.msg_queue_kill < l.list.length := by omega
      simp [gfx_widgets_msg_queue_free_shift, hk2] at h1
    have hlen1 : ({ list := gfx_widgets_msg_queue_free_shift
                      (l.list.set s.msg_queue_kill none)
                      (l.size - 1 - s.msg_queue_kill) s.msg_queue_kill,
                    size := l.size - 1 } : file_list_t).list.length = l.list.length := by
      simp only [free_shift_length, List.length_set]
    have hsize1 : ({ list := gfx_widgets_msg_queue_free_shift
                       (l.list.set s.msg_queue_kill none)
                       (l.size - 1 - s.msg_queue_kill) s.msg_queue_kill,
                     size := l.size - 1 } : file_list_t).size = l.size - 1 := rfl
    generalize ({ list := gfx_widgets_msg_queue_free_shift
                      (l.list.set s.msg_queue_kill none)
                      (l.size - 1 - s.msg_queue_kill) s.msg_queue_kill,
                  size := l.size - 1 } : file_list_t) = l1 at f2 hent1 hkill1 hlen1 hsize1
    by_cases hP : s.msg_queue_kill < P.length
    · refine ⟨l1, P.eraseIdx s.msg_queue_kill, T, ?_⟩
      have hmP : m ∈ P := by
        rw [List.getElem?_append_left hP] at hPT
        exact List.mem_iff_getElem?.2 ⟨_, hPT⟩
      constructor
      · rw [f1]; exact i.hq
      · exact f2
      · rw [hsize1]; exact le_trans (Nat.sub_le _ _) i.hsize
      · rw [hlen1]; exact i.hcap
      · rw [hlen1]; exact i.hcap2
      · rw [hent1, List.eraseIdx_append_of_lt_length hP]
      · intro h hh
        rw [f4]
        exact i.hplain h (List.mem_of_mem_eraseIdx hh)
      · intro h hh
        rw [f4]
        exact i.htask h hh
      · rw [f6, i.hplain m hmP]
        simpa using i.hcount
      · intro h hh
        rw [f5]
        apply i.hreg_lt
        rcases List.mem_append.1 hh with h1 | h1
        · exact List.mem_append_left _ (List.mem_of_mem_eraseIdx h1)
        · exact List.mem_append_right _ h1
      · intro h hh
        rw [f5]
        exact i.hpend_lt h hh
      · intro t h hh
        rw [f5, f4]
        exact i.hback t h (f7 t h hh)
      · rw [f3, hsize1]
        exact hkill1
    · have hP2 : P.length ≤ s.msg_queue_kill := by omega
      refine ⟨l1, P, T.eraseIdx (s.msg_queue_kill - P.length), ?_⟩
      have hTk : s.msg_queue_kill - P.length < T.length := by
        have : s.msg_queue_kill < (P ++ T).length := by omega
        simp at this
        omega
      have hmT : m ∈ T := by
        rw [List.getElem?_append_right hP2] at hPT
        exact List.mem_iff_getElem?.2 ⟨_, hPT⟩
      constructor
      · rw [f1]; exact i.hq
      · exact f2
      · rw [hsize1]; exact le_trans (Nat.sub_le _ _) i.hsize
      · rw [hlen1]; exact i.hcap
      · rw [hlen1]; exact i.hcap2
      · rw [hent1, List.eraseIdx_append_of_length_le hP2]
      · intro h hh
        rw [f4]
        exact i.hplain h hh
      · intro h hh
        rw [f4]
        exact i.htask h (List.mem_of_mem_eraseIdx hh)
      · rw [f6, i.htask m hmT, i.hcount, List.length_eraseIdx]
        simp only [if_true, hTk]
        have := i.hsize
        have hb : T.length ≤ l.size := by
          rw [← hlenPT]
          simp
        unfold u32
        omega
      · intro h hh
        rw [f5]
        apply i.hreg_lt
        rcases List.mem_append.1 hh with h1 | h1
        · exact List.mem_append_left _ h1
        · exact List.mem_append_right _ (List.mem_of_mem_eraseIdx h1)
      · intro h hh
        rw [f5]
        exact i.hpend_lt h hh
      · intro t h hh
        rw [f5, f4]
        exact i.hback t h (f7 t h hh)
      · rw [f3, hsize1]
        exact hkill1

theorem registry_inv_consume (cfg : Config) (hmax : cfg.MSG_QUEUE_ONSCREEN_MAX < 4294967296)
    (s : State) (q : fifo_buffer_t) (l : file_list_t) (P T : List Nat)
    (i : registry_inv cfg s q l P T) :
    ∃ q1 l1 P1 T1, registry_inv cfg (gfx_widgets_iterate_consume cfg s) q1 l1 P1 T1 := by
  cases hc : gfx_widgets_iterate_consumes cfg s q l with
  | false =>
    rw [iterate_consume_skip cfg s q l i.hq i.hl hc]
    exact ⟨q, l, P, T, i⟩
  | true =>
    obtain ⟨w, rest, hb⟩ := iterate_consumes_nonempty cfg s q l hc
    obtain ⟨c1, c2, c3⟩ := iterate_consume_take cfg s q l w rest i.hq i.hl hb hc
    have hlt : l.size < cfg.MSG_QUEUE_ONSCREEN_MAX := by
      simp [gfx_widgets_iterate_consumes] at hc
      exact hc.2
    have hwf : l.wf := ⟨le_trans i.hsize i.hcap, i.hcap2⟩
    have hlenPT : (P ++ T).length = l.size := by
      have := congrArg List.length i.hent
      unfold file_list_t.entries at this
      simp only [List.length_take, List.length_map] at this
      have := i.hsize
      have := i.hcap
      omega
    have hcnt : s.msg_queue_tasks_count ≤ l.size := by
      rw [i.hcount, ← hlenPT]
      simp
    obtain ⟨d1, d2, d3⟩ := iterate_consume_list_slots s l w (by have := i.hcap; omega) hcnt
      (by omega)
    have hex := iterate_consume_list_exact s l w hwf hcnt (by omega)
    have hw : w < s.msgs_next := i.hpend_lt w (by rw [hb]; simp)
    have htp : ∀ h, ((gfx_widgets_iterate_consume cfg s).msgs h).task_ptr.isSome
        = (s.msgs h).task_ptr.isSome := by
      intro h
      rw [(iterate_consume_flags cfg s h).2.2.2]
    have hkill : ∀ m, file_list_get_userdata (gfx_widgets_iterate_consume_list s l w)
        s.msg_queue_kill = some m →
        s.msg_queue_kill < (gfx_widgets_iterate_consume_list s l w).size := by
      intro m hm
      rw [d2]
      by_contra hcon
      rw [d3 _ (by omega)] at hm
      have := i.hkill m hm
      omega
    have hP1 : P.length = l.size - s.msg_queue_tasks_count := by
      rw [i.hcount, ← hlenPT]
      simp
    by_cases htask : (s.msgs w).task_ptr.isSome = true
    · refine ⟨{ q with buffer := rest }, gfx_widgets_iterate_consume_list s l w, P,
        T ++ [w], ?_⟩
      constructor
      · exact c1
      · exact c2
      · rw [d2]; omega
      · rw [d1]; exact i.hcap
      · rw [d1]; exact i.hcap2
      · rw [hex, if_pos (Or.inl htask), i.hent]
        simp
      · intro h hh
        rw [htp]
        exact i.hplain h hh
      · intro h hh
        rw [htp]
        rcases List.mem_append.1 hh with h1 | h1
        · exact i.htask h h1
        · have : h = w := by simpa using h1
          rw [this]
          exact htask
      · rw [c3, if_pos htask, i.hcount]
        have : T.length ≤ l.size := by rw [← hlenPT]; simp
        simp only [List.length_append, List.length_singleton]
        unfold u32
        omega
      · intro h hh
        simp only [gfx_widgets_iterate_consume_frame]
        have hh2 : h ∈ P ++ T ∨ h = w := by
          simp only [List.mem_append, List.mem_singleton] at hh ⊢
          tauto
        rcases hh2 with h1 | h1
        · exact i.hreg_lt h h1
        · rw [h1]; exact hw
      · intro h hh
        simp only [gfx_widgets_iterate_consume_frame]
        exact i.hpend_lt h (by rw [hb]; exact List.mem_cons_of_mem _ hh)
      · intro t h hh
        simp only [gfx_widgets_iterate_consume_frame] at hh ⊢
        rw [htp]
        exact i.hback t h hh
      · simp only [gfx_widgets_iterate_consume_frame]
        exact hkill
    · have htask2 : (s.msgs w).task_ptr.isSome = false := by simpa using htask
      refine ⟨{ q with buffer := rest }, gfx_widgets_iterate_consume_list s l w, P ++ [w],
        T, ?_⟩
      constructor
      · exact c1
      · exact c2
      · rw [d2]; omega
      · rw [d1]; exact i.hcap
      · rw [d1]; exact i.hcap2
      · rw [hex]
        by_cases hz : s.msg_queue_tasks_count = 0
        · rw [if_pos (Or.inr hz), i.hent]
          have : T = [] := by
            rw [i.hcount] at hz
            exact List.length_eq_zero.1 hz
          subst this
          simp
        · rw [if_neg (by simp [htask2, hz]), i.hent, ← hP1]
          simp [List.take_append_of_le_length, List.drop_append_of_le_length]
      · intro h hh
        rw [htp]
        rcases List.mem_append.1 hh with h1 | h1
        · exact i.hplain h h1
        · have : h = w := by simpa using h1
          rw [this]
          exact htask2
      · intro h hh
        rw [htp]
        exact i.htask h hh
      · rw [c3, if_neg htask, i.hcount]
      · intro h hh
        simp only [gfx_widgets_iterate_consume_frame]
        have hh2 : h ∈ P ++ T ∨ h = w := by
          simp only [List.mem_append, List.mem_singleton] at hh ⊢
          tauto
        rcases hh2 with h1 | h1
        · exact i.hreg_lt h h1
        · rw [h1]; exact hw
      · intro h hh
        simp only [gfx_widgets_iterate_consume_frame]
        exact i.hpend_lt h (by rw [hb]; exact List.mem_cons_of_mem _ hh)
      · intro t h hh
        simp only [gfx_widgets_iterate_consume_frame] at hh ⊢
        rw [htp]
        exact i.hback t h hh
      · simp only [gfx_widgets_iterate_consume_frame]
        exact hkill

theorem msg_queue_kill_core (cfg : Config) (s : State) (l : file_list_t) (i : Nat)
    (hl : s.current_msgs = some l) :
    (∀ h, ((gfx_widgets_msg_queue_kill cfg s i).msgs h).task_ptr = (s.msgs h).task_ptr)
    ∧ ((gfx_widgets_msg_queue_kill cfg s i).msg_queue_kill = s.msg_queue_kill
        ∨ (gfx_widgets_msg_queue_kill cfg s i).msg_queue_kill = i) := by
  unfold gfx_widgets_msg_queue_kill
  simp only [hl]
  cases hw : file_list_get_userdata l i with
  | none => exact ⟨fun _ => rfl, Or.inl rfl⟩
  | some w =>
    simp only []
    have e : (∀ h, ((gfx_widgets_msg_queue_kill_start cfg s i w).msgs h).task_ptr
          = (s.msgs h).task_ptr)
        ∧ (gfx_widgets_msg_queue_kill_start cfg s i w).msg_queue_kill = i := by
      unfold gfx_widgets_msg_queue_kill_start
      refine ⟨?_, by simp⟩
      intro h
      by_cases e : h = w <;> simp [e]
    split
    · simp only [gfx_widgets_msg_queue_move_frame]
      exact ⟨e.1, Or.inr e.2⟩
    · exact ⟨e.1, Or.inr e.2⟩

theorem iterate_loop_core (cfg : Config) (l : file_list_t) :
    ∀ (n i : Nat) (s : State), s.current_msgs = some l →
      (∀ h, ((gfx_widgets_iterate_loop cfg n i s).msgs h).task_ptr = (s.msgs h).task_ptr)
      ∧ ((gfx_widgets_iterate_loop cfg n i s).msg_queue_kill = s.msg_queue_kill
          ∨ (gfx_widgets_iterate_loop cfg n i s).msg_queue_kill < l.size) := by
  intro n
  induction n with
  | zero =>
    intro i s _
    exact ⟨fun _ => rfl, Or.inl rfl⟩
  | succ n ih =>
    intro i s hl
    unfold gfx_widgets_iterate_loop
    simp only [hl]
    by_cases hi : i < l.size
    · rw [if_pos hi]
      cases hw : file_list_get_userdata l i with
      | none => exact ih (i + 1) s hl
      | some w =>
        simp only []
        have hf := iterate_loop_timer_flags cfg s w
        have hcur : (gfx_widgets_iterate_loop_timer cfg s w).current_msgs = some l := by
          simp [hl]
        have hk0 : (gfx_widgets_iterate_loop_timer cfg s w).msg_queue_kill
            = s.msg_queue_kill := by simp
        split
        · obtain ⟨k1, k2⟩ := msg_queue_kill_core cfg _ l i hcur
          refine ⟨fun h => (k1 h).trans (hf h).2.2.2, ?_⟩
          rcases k2 with k2 | k2
          · exact Or.inl (k2.trans hk0)
          · exact Or.inr (by rw [k2]; exact hi)
        · obtain ⟨k1, k2⟩ := ih (i + 1) _ hcur
          refine ⟨fun h => (k1 h).trans (hf h).2.2.2, ?_⟩
          rcases k2 with k2 | k2
          · exact Or.inl (k2.trans hk0)
          · exact Or.inr k2
    · rw [if_neg hi]
      exact ⟨fun _ => rfl, Or.inl rfl⟩

theorem registry_inv_expire (cfg : Config) (s : State) (q : fifo_buffer_t) (l : file_list_t)
    (P T : List Nat) (i : registry_inv cfg s q l P T) :
    registry_inv cfg (gfx_widgets_iterate_expire cfg s) q l P T := by
  have he : gfx_widgets_iterate_expire cfg s = gfx_widgets_iterate_loop cfg l.size 0 s := by
    unfold gfx_widgets_iterate_expire
    simp [i.hl]
  rw [he]
  obtain ⟨k1, k2⟩ := iterate_loop_core cfg l l.size 0 s i.hl
  constructor
  · simpa using i.hq
  · simpa using i.hl
  · exact i.hsize
  · exact i.hcap
  · exact i.hcap2
  · exact i.hent
  · intro h hh
    rw [k1]
    exact i.hplain h hh
  · intro h hh
    rw [k1]
    exact i.htask h hh
  · simpa using i.hcount
  · simpa using i.hreg_lt
  · simpa using i.hpend_lt
  · intro t h hh
    simp only [gfx_widgets_iterate_loop_frame] at hh ⊢
    rw [k1]
    exact i.hback t h hh
  · intro m hm
    rcases k2 with k2 | k2
    · rw [k2] at hm ⊢
      exact i.hkill m hm
    · exact k2

theorem registry_inv_iterate (cfg : Config) (hmax : cfg.MSG_QUEUE_ONSCREEN_MAX < 4294967296)
    (s : State) (relayout : Option layout_t) (q : fifo_buffer_t) (l : file_list_t)
    (P T : List Nat) (i : registry_inv cfg s q l P T) :
    ∃ q1 l1 P1 T1, registry_inv cfg (gfx_widgets_iterate cfg s relayout) q1 l1 P1 T1 := by
  unfold gfx_widgets_iterate
  split
  · exact ⟨q, l, P, T, i⟩
  · have i0 : registry_inv cfg (gfx_widgets_iterate_layout s relayout) q l P T := by
      refine registry_inv_congr ?_ i
      unfold gfx_widgets_iterate_layout
      cases relayout with
      | none => exact same_core_refl s
      | some v => exact set_layout_same_core s v
    obtain ⟨q1, l1, P1, T1, i1⟩ := registry_inv_consume cfg hmax _ q l P T i0
    exact ⟨q1, l1, P1, T1, registry_inv_expire cfg _ q1 l1 P1 T1 i1⟩

theorem registry_inv_animation (cfg : Config) (hmax : cfg.MSG_QUEUE_ONSCREEN_MAX < 4294967296)
    (s : State) (n : Nat) (q : fifo_buffer_t) (l : file_list_t) (P T : List Nat)
    (i : registry_inv cfg s q l P T) :
    ∃ l1 P1 T1, registry_inv cfg (gfx_animation_complete cfg s n) q l1 P1 T1 := by
  unfold gfx_animation_complete
  cases he : s.anims.get? n with
  | none => exact ⟨l, P, T, i⟩
  | some e =>
    simp only []
    have i1 : registry_inv cfg
        (gfx_animation_set_subject (set_anims s (s.anims.eraseIdx n)) e.subject e.target_value)
        q l P T :=
      registry_inv_congr
        (same_core_trans (gfx_animation_set_subject_same_core _ _ _) (set_anims_same_core _ _)) i
    generalize gfx_animation_set_subject (set_anims s (s.anims.eraseIdx n)) e.subject
      e.target_value = s1 at i1
    unfold gfx_animation_run_cb
    cases e.cb <;> cases e.userdata <;> simp only []
    all_goals first
      | exact ⟨l, P, T, i1⟩
      | exact ⟨l, P, T, registry_inv_congr (move_end_same_core cfg s1 _) i1⟩
      | exact ⟨l, P, T, registry_inv_congr (unfold_end_same_core s1 _) i1⟩
      | exact ⟨l, P, T, registry_inv_congr (transition_done_same_core s1 _) i1⟩
      | exact ⟨l, P, T, registry_inv_congr (hourglass_end_same_core cfg s1 _) i1⟩
      | exact registry_inv_kill_end cfg hmax s1 q l P T i1

theorem registry_inv_timer (cfg : Config) (s : State) (n : Nat) (q : fifo_buffer_t)
    (l : file_list_t) (P T : List Nat) (i : registry_inv cfg s q l P T) :
    registry_inv cfg (gfx_timer_fire cfg s n) q l P T := by
  unfold gfx_timer_fire
  cases he : s.timers.get? n with
  | none => exact i
  | some e =>
    simp only []
    have i1 : registry_inv cfg (set_timers s (s.timers.eraseIdx n)) q l P T :=
      registry_inv_congr (set_timers_same_core _ _) i
    cases e.cb <;> cases e.userdata <;> simp only []
    all_goals first
      | exact i1
      | exact registry_inv_congr (expired_same_core _ _) i1
      | exact registry_inv_congr (hourglass_tick_same_core cfg _ _) i1

theorem registry_inv_task (cfg : Config) (s : State) (t : Nat) (r : retro_task_t)
    (hr : r.frontend_userdata = none ∨ ∃ t0, r.frontend_userdata = (s.tasks t0).frontend_userdata)
    (q : fifo_buffer_t) (l : file_list_t) (P T : List Nat) (i : registry_inv cfg s q l P T) :
    registry_inv cfg (set_task s t r) q l P T := by
  constructor
  · simpa using i.hq
  · simpa using i.hl
  · exact i.hsize
  · exact i.hcap
  · exact i.hcap2
  · exact i.hent
  · simpa using i.hplain
  · simpa using i.htask
  · simpa using i.hcount
  · simpa using i.hreg_lt
  · simpa using i.hpend_lt
  · intro t1 h hh
    simp only [set_task_proj] at hh ⊢
    by_cases e : t1 = t
    · rw [if_pos e] at hh
      rcases hr with hr | ⟨t0, hr⟩
      · rw [hr] at hh; exact absurd hh (by simp)
      · rw [hr] at hh; exact i.hback t0 h hh
    · rw [if_neg e] at hh
      exact i.hback t1 h hh
  · simpa using i.hkill

theorem registry_inv_init (cfg : Config) (hmax : cfg.MSG_QUEUE_ONSCREEN_MAX < 4294967296)
    (has_icons : Bool) (layout : layout_t) :
    registry_inv cfg (gfx_widgets_init cfg dispwidget_st has_icons layout)
      (fifo_new cfg.MSG_QUEUE_PENDING_MAX)
      (file_list_reserve { list := [], size := 0 } cfg.MSG_QUEUE_ONSCREEN_MAX) [] [] := by
  have hst : dispwidget_st.widgets_inited = false := rfl
  unfold gfx_widgets_init
  simp only [hst, Bool.not_false, if_true]
  constructor
  · simp
  · simp
  · simp [file_list_reserve]
  · simp [file_list_reserve]
  · simp [file_list_reserve]; omega
  · simp [file_list_reserve, file_list_t.entries]
  · intro h hh; simp at hh
  · intro h hh; simp at hh
  · simp; rfl
  · intro h hh; simp at hh
  · intro h hh; simp [fifo_new] at hh
  · intro t h hh
    simp at hh
    exact absurd hh (by simp [dispwidget_st, retro_task_zero])
  · intro m hm
    simp [file_list_get_userdata, file_list_reserve, dispwidget_st] at hm
    rw [List.getElem?_replicate] at hm
    split at hm <;> simp at hm

theorem reachable_registry_inv (cfg : Config) (hmax : cfg.MSG_QUEUE_ONSCREEN_MAX < 4294967296)
    (s : State) (hr : Reachable cfg s) :
    ∃ q l P T, registry_inv cfg s q l P T := by
  induction hr with
  | init has_icons layout => exact ⟨_, _, _, _, registry_inv_init cfg hmax has_icons layout⟩
  | push s task msg duration title icon category prio flush alive _ ih =>
    obtain ⟨q, l, P, T, i⟩ := ih
    obtain ⟨q1, i1⟩ := registry_inv_push cfg s q l P T i task msg duration title icon category
      prio flush alive
    exact ⟨q1, l, P, T, i1⟩
  | iterate s relayout _ ih =>
    obtain ⟨q, l, P, T, i⟩ := ih
    exact registry_inv_iterate cfg hmax s relayout q l P T i
  | animation s n _ ih =>
    obtain ⟨q, l, P, T, i⟩ := ih
    obtain ⟨l1, P1, T1, i1⟩ := registry_inv_animation cfg hmax s n q l P T i
    exact ⟨q, l1, P1, T1, i1⟩
  | timer s n _ ih =>
    obtain ⟨q, l, P, T, i⟩ := ih
    exact ⟨q, l, P, T, registry_inv_timer cfg s n q l P T i⟩
  | task s t r _ hr ih =>
    obtain ⟨q, l, P, T, i⟩ := ih
    exact ⟨q, l, P, T, registry_inv_task cfg s t r hr q l P T i⟩

/-! ### The invariant of the single unfold -/

theorem quiet_refl (s : State) : quiet s s :=
  ⟨rfl, rfl, rfl, fun _ => rfl, rfl, rfl, rfl, fun _ => rfl, fun _ => rfl, fun _ _ => rfl,
   fun _ h => Or.inl h⟩

theorem quiet_trans {s2 s1 s : State} (a : quiet s2 s1) (b : quiet s1 s) : quiet s2 s where
  msg_queue := a.msg_queue.trans b.msg_queue
  current_msgs := a.current_msgs.trans b.current_msgs
  msgs_next := a.msgs_next.trans b.msgs_next
  task_ptr := fun h => (a.task_ptr h).trans (b.task_ptr h)
  moving := a.moving.trans b.moving
  height := a.height.trans b.height
  spacing := a.spacing.trans b.spacing
  unfolded := fun h => (a.unfolded h).trans (b.unfolded h)
  dying := fun h => (a.dying h).trans (b.dying h)
  offset := by
    intro h hs
    refine (a.offset h ?_).trans (b.offset h hs)
    intro e he
    rcases b.anims e he with h1 | h1
    · exact hs e h1
    · intro hsub
      exact h1.2 (by rw [hsub])
  anims := by
    intro e he
    rcases a.anims e he with h1 | h1
    · exact b.anims e h1
    · exact Or.inr h1

theorem quiet_of_same_core {s1 s : State} (c : same_core s1 s)
    (hmov : s1.widgets_moving = s.widgets_moving)
    (hh : s1.msg_queue_height = s.msg_queue_height)
    (hsp : s1.msg_queue_spacing = s.msg_queue_spacing)
    (hunf : ∀ h, (s1.msgs h).unfolded = (s.msgs h).unfolded)
    (hdy : ∀ h, (s1.msgs h).dying = (s.msgs h).dying)
    (hoff : ∀ h, (s1.msgs h).offset_y = (s.msgs h).offset_y)
    (han : ∀ e ∈ s1.anims, e ∈ s.anims
      ∨ ((e.cb = anim_cb.NULL ∨ e.cb = anim_cb.msg_widget_msg_transition_animation_done
            ∨ e.cb = anim_cb.gfx_widgets_hourglass_end)
          ∧ e.subject.2 ≠ anim_subject.offset_y)) : quiet s1 s :=
  ⟨c.msg_queue, c.current_msgs, c.msgs_next, c.task_ptr, hmov, hh, hsp, hunf, hdy,
   fun h _ => hoff h, han⟩

theorem unfold_inv_quiet {s1 s : State} (c : quiet s1 s) (i : unfold_inv s) :
    unfold_inv s1 := by
  have hp : pending s1 = pending s := pending_eq_of_msg_queue s s1 c.msg_queue
  have hr : registry s1 = registry s := registry_eq_of_current_msgs s s1 c.current_msgs
  constructor
  · rw [c.height, c.spacing]; exact i.hpos
  · rw [hp]; exact i.hpend_nodup
  · rw [hr]; exact i.hreg_nodup
  · rw [hp, hr]; exact i.hdisj
  · intro h hh
    rw [c.unfolded]
    exact i.htask_unf h (by rw [← c.task_ptr]; exact hh)
  · intro h hh
    rw [hp] at hh
    rw [c.dying, c.offset h]
    · exact i.hpend h hh
    · intro e he hsub
      exact (i.hsubj e he (by rw [hsub])).2 (by rw [hsub]; exact hh)
  · intro e he hsub
    rw [c.msgs_next, hp]
    rcases c.anims e he with h1 | h1
    · exact i.hsubj e h1 hsub
    · exact absurd hsub h1.2
  · intro u hu hunf
    rw [hr] at hu
    rw [c.unfolded] at hunf
    obtain ⟨⟨k1, k2⟩, k3⟩ := i.hlock u hu hunf
    refine ⟨⟨by rw [c.moving]; exact k1, ?_⟩, ?_⟩
    · intro e he
      rcases c.anims e he with h1 | h1
      · exact k2 e h1
      · rcases h1.1 with h2 | h2 | h2 <;> rw [h2] <;> simp
    · intro v hv hvu
      rw [hr] at hv
      rw [c.unfolded] at hvu
      exact k3 v hv hvu

theorem quiet_set_msg (s : State) (h : Nat) (m : menu_widget_msg_t)
    (h1 : m.task_ptr.isSome = (s.msgs h).task_ptr.isSome)
    (h2 : m.unfolded = (s.msgs h).unfolded) (h3 : m.dying = (s.msgs h).dying)
    (h4 : m.offset_y = (s.msgs h).offset_y) : quiet (set_msg s h m) s := by
  refine quiet_of_same_core (set_msg_same_core s h m h1) (by simp) (by simp) (by simp)
    ?_ ?_ ?_ ?_
  · intro k
    by_cases e : k = h
    · subst e; simp [h2]
    · simp [e]
  · intro k
    by_cases e : k = h
    · subst e; simp [h3]
    · simp [e]
  · intro k
    by_cases e : k = h
    · subst e; simp [h4]
    · simp [e]
  · intro e he
    exact Or.inl (by simpa using he)

theorem quiet_timer_start (s : State) (e : gfx_timer_ctx_entry_t) :
    quiet (gfx_timer_start s e) s :=
  quiet_of_same_core (timer_start_same_core s e) (by simp) (by simp) (by simp)
    (fun _ => by simp) (fun _ => by simp) (fun _ => by simp)
    (fun x hx => Or.inl (by simpa using hx))

theorem quiet_timer_kill (s : State) (t : Nat × timer_field) :
    quiet (gfx_timer_kill s t) s :=
  quiet_of_same_core (timer_kill_same_core s t) (by simp) (by simp) (by simp)
    (fun _ => by simp) (fun _ => by simp) (fun _ => by simp)
    (fun x hx => Or.inl (by simpa using hx))

theorem quiet_set_timers (s : State) (v : List gfx_timer_ctx_entry_t) :
    quiet (set_timers s v) s :=
  quiet_of_same_core (set_timers_same_core s v) (by simp) (by simp) (by simp)
    (fun _ => by simp) (fun _ => by simp) (fun _ => by simp)
    (fun x hx => Or.inl (by simpa using hx))

theorem quiet_set_task (s : State) (t : Nat) (r : retro_task_t) :
    quiet (set_task s t r) s :=
  ⟨by simp, by simp, by simp, fun _ => by simp, by simp, by simp, by simp, fun _ => by simp,
   fun _ => by simp, fun _ _ => by simp, fun x hx => Or.inl (by simpa using hx)⟩

theorem quiet_set_tasks_count (s : State) (v : Nat) :
    quiet (set_msg_queue_tasks_count s v) s :=
  ⟨by simp, by simp, by simp, fun _ => by simp, by simp, by simp, by simp, fun _ => by simp,
   fun _ => by simp, fun _ _ => by simp, fun x hx => Or.inl (by simpa using hx)⟩

theorem quiet_animation_push (s : State) (e : gfx_animation_ctx_entry_t)
    (hcb : e.cb = anim_cb.NULL ∨ e.cb = anim_cb.msg_widget_msg_transition_animation_done
      ∨ e.cb = anim_cb.gfx_widgets_hourglass_end)
    (hsub : e.subject.2 ≠ anim_subject.offset_y) : quiet (gfx_animation_push s e) s := by
  refine quiet_of_same_core (animation_push_same_core s e) (by simp) (by simp) (by simp)
    (fun _ => by simp) (fun _ => by simp) (fun _ => by simp) ?_
  intro x hx
  have hx2 : x ∈ s.anims ++ [e] := by
    unfold gfx_animation_push at hx
    simpa using hx
  rcases List.mem_append.1 hx2 with h1 | h1
  · exact Or.inl h1
  · have : x = e := by simpa using h1
    subst this
    exact Or.inr ⟨hcb, hsub⟩

theorem quiet_push_update_timer (s : State) (h : Nat) :
    quiet (gfx_widgets_msg_queue_push_update_timer s h) s := by
  unfold gfx_widgets_msg_queue_push_update_timer
  split
  · exact quiet_trans (quiet_set_msg _ h _ (by simp) (by simp) (by simp) (by simp))
      (quiet_timer_kill _ _)
  · exact quiet_refl s

theorem quiet_transition_done (s : State) (u : Nat) :
    quiet (msg_widget_msg_transition_animation_done s u) s := by
  unfold msg_widget_msg_transition_animation_done
  exact quiet_set_msg s u _ rfl rfl rfl rfl

theorem quiet_push_update_title (cfg : Config) (s : State) (t h : Nat) :
    quiet (gfx_widgets_msg_queue_push_update_title cfg s t h) s := by
  unfold gfx_widgets_msg_queue_push_update_title
  split
  · simp only []
    split
    · refine quiet_trans (quiet_set_msg _ h _ rfl rfl rfl rfl) ?_
      exact quiet_trans (quiet_animation_push _ _ (Or.inr (Or.inl rfl)) (by simp))
        (quiet_set_msg s h _ rfl rfl rfl rfl)
    · refine quiet_trans (quiet_set_msg _ h _ rfl rfl rfl rfl) ?_
      exact quiet_trans (quiet_transition_done _ _) (quiet_set_msg s h _ rfl rfl rfl rfl)
  · exact quiet_refl s

theorem quiet_push_update (cfg : Config) (s : State) (t h : Nat) :
    quiet (gfx_widgets_msg_queue_push_update cfg s t h) s := by
  unfold gfx_widgets_msg_queue_push_update
  refine quiet_trans (quiet_set_msg _ h _ rfl rfl rfl rfl) ?_
  exact quiet_trans (quiet_push_update_title _ _ _ _) (quiet_push_update_timer _ _)

theorem quiet_expired (s : State) (u : Option Nat) :
    quiet (gfx_widgets_msg_queue_expired s u) s := by
  unfold gfx_widgets_msg_queue_expired
  cases u with
  | none => exact quiet_refl s
  | some u =>
    simp only []
    split
    · exact quiet_set_msg s u _ rfl rfl rfl rfl
    · exact quiet_refl s

theorem quiet_hourglass_end (cfg : Config) (s : State) (u : Nat) :
    quiet (gfx_widgets_hourglass_end cfg s u) s := by
  unfold gfx_widgets_hourglass_end
  exact quiet_trans (quiet_timer_start _ _) (quiet_set_msg s u _ rfl rfl rfl rfl)

theorem quiet_hourglass_tick (cfg : Config) (s : State) (u : Nat) :
    quiet (gfx_widgets_hourglass_tick cfg s u) s := by
  unfold gfx_widgets_hourglass_tick
  exact quiet_animation_push _ _ (Or.inr (Or.inr rfl)) (by simp)

theorem quiet_start_msg_expiration_timer (s : State) (w d : Nat) :
    quiet (gfx_widgets_start_msg_expiration_timer s w d) s := by
  unfold gfx_widgets_start_msg_expiration_timer
  exact quiet_trans (quiet_set_msg _ w _ (by simp) (by simp) (by simp) (by simp))
    (quiet_timer_start _ _)

theorem quiet_iterate_loop_timer (cfg : Config) (s : State) (w : Nat) :
    quiet (gfx_widgets_iterate_loop_timer cfg s w) s := by
  unfold gfx_widgets_iterate_loop_timer
  split
  · exact quiet_start_msg_expiration_timer _ _ _
  · exact quiet_refl s

theorem quiet_iterate_consume_timer (cfg : Config) (s : State) (w : Nat) :
    quiet (gfx_widgets_iterate_consume_timer cfg s w) s := by
  unfold gfx_widgets_iterate_consume_timer
  split
  · split
    · exact quiet_start_msg_expiration_timer _ _ _
    · exact quiet_refl s
  · exact quiet_trans (quiet_hourglass_end _ _ _) (quiet_set_tasks_count _ _)

theorem quiet_timer_fire (cfg : Config) (s : State) (n : Nat) :
    quiet (gfx_timer_fire cfg s n) s := by
  unfold gfx_timer_fire
  cases he : s.timers.get? n with
  | none => exact quiet_refl s
  | some e =>
    simp only []
    split
    · exact quiet_trans (quiet_expired _ _) (quiet_set_timers _ _)
    · exact quiet_trans (quiet_hourglass_tick _ _ _) (quiet_set_timers _ _)
    · exact quiet_set_timers _ _

theorem all_unfolded_of_not_moving {s : State} (i : unfold_inv s)
    (h : s.widgets_moving = false) : all_unfolded s := by
  intro u hu
  by_contra hcon
  have hf : (s.msgs u).unfolded = false := by simpa using hcon
  have := (i.hlock u hu hf).1.1
  rw [h] at this
  exact Bool.noConfusion this

theorem all_unfolded_of_release {s : State} (i : unfold_inv s)
    (e : gfx_animation_ctx_entry_t) (he : e ∈ s.anims)
    (h : e.cb = anim_cb.gfx_widgets_unfold_end ∨ e.cb = anim_cb.gfx_widgets_msg_queue_kill_end
      ∨ (e.cb = anim_cb.gfx_widgets_move_end ∧ e.userdata = none)) : all_unfolded s := by
  intro u hu
  by_contra hcon
  have hf : (s.msgs u).unfolded = false := by simpa using hcon
  obtain ⟨k1, k2, k3⟩ := (i.hlock u hu hf).1.2 e he
  rcases h with h | h | h
  · exact k1 h
  · exact k2 h
  · have := k3 h.1
    rw [h.2] at this
    exact Option.noConfusion this

theorem only_folded_of_move_end {s : State} (i : unfold_inv s)
    (e : gfx_animation_ctx_entry_t) (he : e ∈ s.anims) (x : Nat)
    (hcb : e.cb = anim_cb.gfx_widgets_move_end) (hu : e.userdata = some x) :
    ∀ v, some v ∈ registry s → (s.msgs v).unfolded = false → v = x := by
  intro v hv hf
  have := ((i.hlock v hv hf).1.2 e he).2.2 hcb
  rw [hu] at this
  exact (Option.some.inj this).symm

theorem unfold_inv_release {s1 s : State} (i : unfold_inv s)
    (hq : s1.msg_queue = s.msg_queue)
    (hreg : (registry s1).Sublist (registry s))
    (hnext : s1.msgs_next = s.msgs_next)
    (hh : s1.msg_queue_height = s.msg_queue_height)
    (hsp : s1.msg_queue_spacing = s.msg_queue_spacing)
    (htp : ∀ h, (s1.msgs h).task_ptr.isSome = (s.msgs h).task_ptr.isSome)
    (hunf : ∀ h, (s.msgs h).unfolded = true → (s1.msgs h).unfolded = true)
    (hpd : ∀ h ∈ pending s, (s1.msgs h).dying = (s.msgs h).dying
      ∧ (s1.msgs h).offset_y = (s.msgs h).offset_y)
    (han : ∀ e ∈ s1.anims, e.subject.2 = anim_subject.offset_y →
      e ∈ s.anims ∨ some e.subject.1 ∈ registry s)
    (hlt : ∀ h, some h ∈ registry s → h < s.msgs_next)
    (hall : all_unfolded s1) : unfold_inv s1 := by
  have hp : pending s1 = pending s := pending_eq_of_msg_queue s s1 hq
  constructor
  · rw [hh, hsp]; exact i.hpos
  · rw [hp]; exact i.hpend_nodup
  · exact hreg.nodup i.hreg_nodup
  · intro h hh1 hh2
    rw [hp] at hh1
    exact i.hdisj h hh1 (hreg.subset hh2)
  · intro h hh1
    exact hunf h (i.htask_unf h (by rw [← htp]; exact hh1))
  · intro h hh1
    rw [hp] at hh1
    rw [(hpd h hh1).1, (hpd h hh1).2]
    exact i.hpend h hh1
  · intro e he hsub
    rw [hnext, hp]
    rcases han e he hsub with h1 | h1
    · exact i.hsubj e h1 hsub
    · exact ⟨hlt _ h1, fun hcon => i.hdisj _ hcon h1⟩
  · intro u hu hf
    have := hall u hu
    rw [hf] at this
    exact Bool.noConfusion this

theorem quiet_set_subject_erase (s : State) (n : Nat) (e : gfx_animation_ctx_entry_t)
    (he : e ∈ s.anims) :
    quiet (gfx_animation_set_subject (set_anims s (s.anims.eraseIdx n)) e.subject
      e.target_value) s := by
  have c : same_core (gfx_animation_set_subject (set_anims s (s.anims.eraseIdx n)) e.subject
      e.target_value) s :=
    same_core_trans (gfx_animation_set_subject_same_core _ _ _) (set_anims_same_core _ _)
  refine ⟨c.msg_queue, c.current_msgs, c.msgs_next, c.task_ptr, by simp, by simp, by simp,
    ?_, ?_, ?_, ?_⟩
  · intro k
    unfold gfx_animation_set_subject
    split <;> by_cases ek : k = e.subject.1 <;> simp [ek]
  · intro k
    unfold gfx_animation_set_subject
    split <;> by_cases ek : k = e.subject.1 <;> simp [ek]
  · intro k hk
    have hne : e.subject ≠ (k, anim_subject.offset_y) := hk e he
    unfold gfx_animation_set_subject
    split
    · rename_i hkind
      by_cases ek : k = e.subject.1
      · exfalso
        apply hne
        rw [ek, ← hkind]
      · simp [ek]
    all_goals by_cases ek : k = e.subject.1 <;> simp [ek]
  · intro x hx
    have hx2 : x ∈ s.anims.eraseIdx n := by simpa using hx
    exact Or.inl (List.mem_of_mem_eraseIdx hx2)

theorem registry_lt {cfg : Config} {s : State} {q : fifo_buffer_t} {l : file_list_t}
    {P T : List Nat} (ri : registry_inv cfg s q l P T) :
    ∀ h, some h ∈ registry s → h < s.msgs_next := by
  intro h hh
  unfold registry at hh
  rw [ri.hl] at hh
  simp only [] at hh
  rw [ri.hent] at hh
  obtain ⟨x, hx, e⟩ := List.mem_map.1 hh
  have : x = h := Option.some.inj e
  subst this
  exact ri.hreg_lt x hx

theorem unfold_inv_unfold_end (s : State) (u : Nat) (i : unfold_inv s)
    (hall : all_unfolded s) (hlt : ∀ h, some h ∈ registry s → h < s.msgs_next) :
    unfold_inv (gfx_widgets_unfold_end s u) := by
  have hm : ∀ k, (gfx_widgets_unfold_end s u).msgs k
      = if k = u then { s.msgs u with unfolding := false } else s.msgs k := by
    intro k
    unfold gfx_widgets_unfold_end
    simp
  have hr : registry (gfx_widgets_unfold_end s u) = registry s :=
    registry_eq_of_current_msgs _ _ (by simp)
  refine unfold_inv_release i (by simp) (by rw [hr]) (by simp) (by simp) (by simp)
    ?_ ?_ ?_ ?_ hlt ?_
  · intro h
    rw [hm]
    by_cases e : h = u
    · subst e; simp
    · simp [e]
  · intro h hh
    rw [hm]
    by_cases e : h = u
    · subst e; simpa using hh
    · simpa [e] using hh
  · intro h _
    rw [hm]
    by_cases e : h = u
    · subst e; simp
    · simp [e]
  · intro e he _
    left
    unfold gfx_widgets_unfold_end at he
    simpa using he
  · intro v hv
    rw [hr] at hv
    rw [hm]
    by_cases e : v = u
    · subst e; simpa using hall v hv
    · simpa [e] using hall v hv

theorem unfold_inv_move_end (cfg : Config) (s : State) (u : Option Nat) (i : unfold_inv s)
    (hu : match u with
      | none => all_unfolded s
      | some x => ∀ v, some v ∈ registry s → (s.msgs v).unfolded = false → v = x)
    (hlt : ∀ h, some h ∈ registry s → h < s.msgs_next) :
    unfold_inv (gfx_widgets_move_end cfg s u) := by
  have hr : registry (gfx_widgets_move_end cfg s u) = registry s :=
    registry_eq_of_current_msgs _ _ (by simp)
  cases u with
  | none =>
    simp only [] at hu
    have hm : (gfx_widgets_move_end cfg s none).msgs = s.msgs := by
      unfold gfx_widgets_move_end
      simp
    refine unfold_inv_release i (by simp) (by rw [hr]) (by simp) (by simp) (by simp)
      ?_ ?_ ?_ ?_ hlt ?_
    · intro h; rw [hm]
    · intro h hh; rw [hm]; exact hh
    · intro h _; rw [hm]; exact ⟨rfl, rfl⟩
    · intro e he _
      left
      unfold gfx_widgets_move_end at he
      simpa using he
    · intro v hv
      rw [hr] at hv
      rw [hm]
      exact hu v hv
  | some x =>
    simp only [] at hu
    have hm : ∀ k, (gfx_widgets_move_end cfg s (some x)).msgs k
        = if k = x then { s.msgs x with unfolded := true, unfolding := true }
          else s.msgs k := by
      intro k
      unfold gfx_widgets_move_end
      simp
    refine unfold_inv_release i (by simp) (by rw [hr]) (by simp) (by simp) (by simp)
      ?_ ?_ ?_ ?_ hlt ?_
    · intro h
      rw [hm]
      by_cases e : h = x
      · subst e; simp
      · simp [e]
    · intro h hh
      rw [hm]
      by_cases e : h = x
      · subst e; simp
      · simpa [e] using hh
    · intro h _
      rw [hm]
      by_cases e : h = x
      · subst e; simp
      · simp [e]
    · intro e he hsub
      left
      unfold gfx_widgets_move_end at he
      simp only [set_msg_proj, gfx_animation_push, set_anims_proj] at he
      rcases List.mem_append.1 he with h1 | h1
      · exact h1
      · have e1 := List.mem_singleton.1 h1
        rw [e1] at hsub
        simp at hsub
    · intro v hv
      rw [hr] at hv
      rw [hm]
      by_cases e : v = x
      · subst e; simp
      · simp only [e, if_false]
        by_contra hcon
        have hf : (s.msgs v).unfolded = false := by simpa using hcon
        exact e (hu v hv hf)

theorem free_anims_subset (s : State) (m : Nat) (b : Bool) :
    ∀ e ∈ (gfx_widgets_msg_queue_free s m b).anims, e ∈ s.anims := by
  intro e he
  have h1 : ∀ s0 : State, ∀ x ∈ (gfx_widgets_msg_queue_free_kill s0 m).anims, x ∈ s0.anims := by
    intro s0 x hx
    unfold gfx_widgets_msg_queue_free_kill at hx
    split at hx
    · simp only [gfx_timer_kill_proj, gfx_animation_kill_by_tag, set_anims_proj] at hx
      exact (List.mem_filter.1 hx).1
    · simp only [gfx_timer_kill_proj, gfx_animation_kill_by_tag, set_anims_proj] at hx
      exact (List.mem_filter.1 hx).1
  unfold gfx_widgets_msg_queue_free at he
  cases b with
  | true =>
    simp only [if_true, set_widgets_moving_proj, gfx_widgets_msg_queue_free_list_frame] at he
    simpa using h1 _ e he
  | false =>
    simp only [Bool.false_eq_true, if_false, set_widgets_moving_proj] at he
    simpa using h1 _ e he

theorem kill_end_registry (cfg : Config) (s : State) (q : fifo_buffer_t) (l : file_list_t)
    (P T : List Nat) (ri : registry_inv cfg s q l P T) :
    (registry (gfx_widgets_msg_queue_kill_end s)).Sublist (registry s) := by
  unfold gfx_widgets_msg_queue_kill_end
  simp only [ri.hl]
  cases hm : file_list_get_userdata l s.msg_queue_kill with
  | none => exact List.Sublist.refl _
  | some m =>
    simp only []
    have hk := ri.hkill m hm
    have hwf : l.size ≤ l.list.length := le_trans ri.hsize ri.hcap
    obtain ⟨_, f2, _⟩ := free_touch_spec s l m ri.hl
    have hsz : u64 (l.size + 18446744073709551615) = l.size - 1 := by
      have := ri.hcap2
      unfold u64
      omega
    rw [hsz] at f2
    have h1 : registry (gfx_widgets_msg_queue_free s m true)
        = (registry s).eraseIdx s.msg_queue_kill := by
      unfold registry
      rw [f2, ri.hl]
      simp only []
      have := free_shift_entries l.list l.size s.msg_queue_kill hk hwf
      unfold file_list_t.entries
      simp only []
      exact this
    rw [h1]
    exact List.eraseIdx_sublist _ _

theorem unfold_inv_kill_end (cfg : Config) (s : State) (q : fifo_buffer_t) (l : file_list_t)
    (P T : List Nat) (ri : registry_inv cfg s q l P T) (i : unfold_inv s)
    (hall : all_unfolded s) : unfold_inv (gfx_widgets_msg_queue_kill_end s) := by
  have hreg := kill_end_registry cfg s q l P T ri
  have hfr : (gfx_widgets_msg_queue_kill_end s).msg_queue = s.msg_queue
      ∧ (gfx_widgets_msg_queue_kill_end s).msgs_next = s.msgs_next
      ∧ (gfx_widgets_msg_queue_kill_end s).msg_queue_height = s.msg_queue_height
      ∧ (gfx_widgets_msg_queue_kill_end s).msg_queue_spacing = s.msg_queue_spacing
      ∧ (gfx_widgets_msg_queue_kill_end s).msgs = s.msgs
      ∧ ∀ e ∈ (gfx_widgets_msg_queue_kill_end s).anims, e ∈ s.anims := by
    unfold gfx_widgets_msg_queue_kill_end
    simp only [ri.hl]
    cases hm : file_list_get_userdata l s.msg_queue_kill with
    | none => exact ⟨rfl, rfl, rfl, rfl, rfl, fun _ h => h⟩
    | some m =>
      simp only []
      exact ⟨by simp, by simp, by simp, by simp, by simp, free_anims_subset s m true⟩
  obtain ⟨g1, g2, g3, g4, g5, g6⟩ := hfr
  refine unfold_inv_release i g1 hreg g2 g3 g4 ?_ ?_ ?_ ?_ (registry_lt ri) ?_
  · intro h; rw [g5]
  · intro h hh; rw [g5]; exact hh
  · intro h _; rw [g5]; exact ⟨rfl, rfl⟩
  · intro e he _
    exact Or.inl (g6 e he)
  · intro v hv
    rw [g5]
    exact hall v (hreg.subset hv)

theorem all_unfolded_quiet {s1 s : State} (c : quiet s1 s) (h : all_unfolded s) :
    all_unfolded s1 := by
  intro u hu
  rw [registry_eq_of_current_msgs s s1 c.current_msgs] at hu
  rw [c.unfolded]
  exact h u hu

theorem unfold_inv_animation (cfg : Config) (s : State) (n : Nat) (q : fifo_buffer_t)
    (l : file_list_t) (P T : List Nat) (ri : registry_inv cfg s q l P T) (i : unfold_inv s) :
    unfold_inv (gfx_animation_complete cfg s n) := by
  unfold gfx_animation_complete
  cases he : s.anims.get? n with
  | none => exact i
  | some e =>
    simp only []
    have hmem : e ∈ s.anims := List.get?_mem he
    have c := quiet_set_subject_erase s n e hmem
    have i1 := unfold_inv_quiet c i
    have sc : same_core (gfx_animation_set_subject (set_anims s (s.anims.eraseIdx n)) e.subject
        e.target_value) s :=
      same_core_trans (gfx_animation_set_subject_same_core _ _ _) (set_anims_same_core _ _)
    have ri1 := registry_inv_congr sc ri
    generalize gfx_animation_set_subject (set_anims s (s.anims.eraseIdx n)) e.subject
      e.target_value = s1 at c i1 ri1
    cases hcb : e.cb with
    | NULL => simpa [gfx_animation_run_cb] using i1
    | gfx_widgets_move_end =>
      simp only [gfx_animation_run_cb]
      apply unfold_inv_move_end cfg s1 e.userdata i1 _ (registry_lt ri1)
      cases hu : e.userdata with
      | none =>
        simp only []
        exact all_unfolded_quiet c (all_unfolded_of_release i e hmem (Or.inr (Or.inr ⟨hcb, hu⟩)))
      | some x =>
        simp only []
        intro v hv hf
        rw [registry_eq_of_current_msgs s s1 c.current_msgs] at hv
        rw [c.unfolded] at hf
        exact only_folded_of_move_end i e hmem x hcb hu v hv hf
    | gfx_widgets_unfold_end =>
      cases hu : e.userdata with
      | none => simpa [gfx_animation_run_cb] using i1
      | some x =>
        simp only [gfx_animation_run_cb]
        exact unfold_inv_unfold_end s1 x i1
          (all_unfolded_quiet c (all_unfolded_of_release i e hmem (Or.inl hcb)))
          (registry_lt ri1)
    | gfx_widgets_msg_queue_kill_end =>
      simp only [gfx_animation_run_cb]
      exact unfold_inv_kill_end cfg s1 q l P T ri1 i1
        (all_unfolded_quiet c (all_unfolded_of_release i e hmem (Or.inr (Or.inl hcb))))
    | msg_widget_msg_transition_animation_done =>
      cases hu : e.userdata with
      | none => simpa [gfx_animation_run_cb] using i1
      | some x =>
        simp only [gfx_animation_run_cb]
        exact unfold_inv_quiet (quiet_transition_done s1 x) i1
    | gfx_widgets_hourglass_end =>
      cases hu : e.userdata with
      | none => simpa [gfx_animation_run_cb] using i1
      | some x =>
        simp only [gfx_animation_run_cb]
        exact unfold_inv_quiet (quiet_hourglass_end cfg s1 x) i1

theorem push_spawn_new_fields (cfg : Config) (s : State) (q : fifo_buffer_t)
    (task : Option Nat) (msg : String) (duration : Nat) (alive : Bool) :
    ((gfx_widgets_msg_queue_push_spawn cfg s q task msg duration alive).msgs
        s.msgs_next).dying = false
    ∧ ((gfx_widgets_msg_queue_push_spawn cfg s q task msg duration alive).msgs
        s.msgs_next).offset_y = 0
    ∧ (task.isSome = true →
        ((gfx_widgets_msg_queue_push_spawn cfg s q task msg duration alive).msgs
          s.msgs_next).unfolded = true) := by
  unfold gfx_widgets_msg_queue_push_spawn
  cases task with
  | none =>
    simp only [set_msg_queue_proj, set_msg_proj, set_msgs_next_proj, if_true]
    obtain ⟨_, h2, h3, _⟩ := push_plain_msg_fields cfg s msg duration alive
    exact ⟨h2, h3, fun h => by simp at h⟩
  | some t =>
    simp only [set_msg_queue_proj, set_msg_proj, set_msgs_next_proj, set_task_proj, if_true]
    obtain ⟨_, h2, h3, _, h5, _⟩ := push_task_msg_fields cfg s t duration
    exact ⟨h2, h3, fun _ => h5⟩

theorem unfold_inv_spawn (cfg : Config) (s : State) (q : fifo_buffer_t) (task : Option Nat)
    (msg : String) (duration : Nat) (alive : Bool) (hq : s.msg_queue = some q)
    (hpl : ∀ h ∈ q.buffer, h < s.msgs_next)
    (hlt : ∀ h, some h ∈ registry s → h < s.msgs_next) (i : unfold_inv s) :
    unfold_inv (gfx_widgets_msg_queue_push_spawn cfg s q task msg duration alive) := by
  obtain ⟨p1, p2, p3, p4, _⟩ := push_spawn_spec cfg s q task msg duration alive
  obtain ⟨n1, n2, n3⟩ := push_spawn_new_fields cfg s q task msg duration alive
  have hr : registry (gfx_widgets_msg_queue_push_spawn cfg s q task msg duration alive)
      = registry s := registry_eq_of_current_msgs _ _ (by simp)
  have hp0 : pending s = q.buffer := by
    unfold pending
    rw [hq]
  have hp : pending (gfx_widgets_msg_queue_push_spawn cfg s q task msg duration alive)
      = pending s ++ [s.msgs_next] := by
    rw [hp0]
    unfold pending
    rw [p1]
    rfl
  have hfresh : s.msgs_next ∉ pending s := by
    intro hcon
    rw [hp0] at hcon
    exact Nat.lt_irrefl _ (hpl _ hcon)
  have han : (gfx_widgets_msg_queue_push_spawn cfg s q task msg duration alive).anims
      = s.anims := by simp
  have hmov : (gfx_widgets_msg_queue_push_spawn cfg s q task msg duration alive).widgets_moving
      = s.widgets_moving := by simp
  have hh : (gfx_widgets_msg_queue_push_spawn cfg s q task msg duration alive).msg_queue_height
      = s.msg_queue_height := by simp
  have hsp : (gfx_widgets_msg_queue_push_spawn cfg s q task msg duration alive).msg_queue_spacing
      = s.msg_queue_spacing := by simp
  generalize gfx_widgets_msg_queue_push_spawn cfg s q task msg duration alive = s1
    at p1 p2 p3 p4 n1 n2 n3 hr hp han hmov hh hsp
  have hne : ∀ u, some u ∈ registry s → u ≠ s.msgs_next := by
    intro u hu e
    have := hlt u hu
    omega
  constructor
  · rw [hh, hsp]; exact i.hpos
  · rw [hp]
    refine List.Nodup.append i.hpend_nodup (List.nodup_singleton _) ?_
    intro x hx hx2
    rw [List.mem_singleton.1 hx2] at hx
    exact hfresh hx
  · rw [hr]; exact i.hreg_nodup
  · intro h hh1 hh2
    rw [hp] at hh1
    rw [hr] at hh2
    rcases List.mem_append.1 hh1 with h1 | h1
    · exact i.hdisj h h1 hh2
    · rw [List.mem_singleton.1 h1] at hh2
      exact hne _ hh2 rfl
  · intro h hh1
    by_cases e : h = s.msgs_next
    · subst e
      rw [p4] at hh1
      exact n3 hh1
    · rw [p3 h e] at hh1 ⊢
      exact i.htask_unf h hh1
  · intro h hh1
    rw [hp] at hh1
    by_cases e : h = s.msgs_next
    · subst e
      exact ⟨n1, n2⟩
    · rw [p3 h e]
      rcases List.mem_append.1 hh1 with h1 | h1
      · exact i.hpend h h1
      · exact absurd (List.mem_singleton.1 h1) e
  · intro e he hsub
    rw [han] at he
    obtain ⟨k1, k2⟩ := i.hsubj e he hsub
    rw [p2, hp]
    refine ⟨by omega, ?_⟩
    intro hcon
    rcases List.mem_append.1 hcon with h1 | h1
    · exact k2 h1
    · have := List.mem_singleton.1 h1
      omega
  · intro u hu hf
    rw [hr] at hu
    rw [p3 u (hne u hu)] at hf
    obtain ⟨⟨k1, k2⟩, k3⟩ := i.hlock u hu hf
    refine ⟨⟨by rw [hmov]; exact k1, by rw [han]; exact k2⟩, ?_⟩
    intro v hv hvf
    rw [hr] at hv
    rw [p3 v (hne v hv)] at hvf
    exact k3 v hv hvf

theorem unfold_inv_push (cfg : Config) (s : State) (q : fifo_buffer_t) (l : file_list_t)
    (P T : List Nat) (ri : registry_inv cfg s q l P T) (i : unfold_inv s)
    (task : Option Nat) (msg : String) (duration : Nat)
    (title : Option String) (icon category prio : Nat) (flush alive : Bool) :
    unfold_inv
      (gfx_widgets_msg_queue_push cfg s task msg duration title icon category prio flush
        alive) := by
  have hspawn : unfold_inv (gfx_widgets_msg_queue_push_spawn cfg s q task msg duration alive) :=
    unfold_inv_spawn cfg s q task msg duration alive ri.hq ri.hpend_lt (registry_lt ri) i
  unfold gfx_widgets_msg_queue_push
  split
  · exact i
  · simp only [ri.hq]
    split
    · cases task with
      | none => exact hspawn
      | some t =>
        simp only []
        cases hu : (s.tasks t).frontend_userdata with
        | none => exact hspawn
        | some h =>
          simp only []
          refine unfold_inv_quiet ?_ i
          refine quiet_trans (quiet_push_update _ _ _ _) ?_
          exact quiet_set_msg s h _ (by simp [(ri.hback t h hu).2]) rfl rfl rfl
    · exact i

theorem unfold_inv_layout (s : State) (relayout : Option layout_t)
    (hpos : ∀ v, relayout = some v → v.positive) (i : unfold_inv s) :
    unfold_inv (gfx_widgets_iterate_layout s relayout) := by
  cases relayout with
  | none => exact i
  | some v =>
    have hv := hpos v rfl
    unfold layout_t.positive at hv
    have hp : pending (gfx_widgets_iterate_layout s (some v)) = pending s :=
      pending_eq_of_msg_queue _ _ (by simp)
    have hr : registry (gfx_widgets_iterate_layout s (some v)) = registry s :=
      registry_eq_of_current_msgs _ _ (by simp)
    have hm : (gfx_widgets_iterate_layout s (some v)).msgs = s.msgs := by simp
    have ha : (gfx_widgets_iterate_layout s (some v)).anims = s.anims := by simp
    have hn : (gfx_widgets_iterate_layout s (some v)).msgs_next = s.msgs_next := by simp
    have hmov : (gfx_widgets_iterate_layout s (some v)).widgets_moving = s.widgets_moving := by
      simp
    have h1 : (gfx_widgets_iterate_layout s (some v)).msg_queue_height = v.msg_queue_height := by
      unfold gfx_widgets_iterate_layout set_layout
      rfl
    have h2 : (gfx_widgets_iterate_layout s (some v)).msg_queue_spacing
        = v.msg_queue_spacing := by
      unfold gfx_widgets_iterate_layout set_layout
      rfl
    generalize gfx_widgets_iterate_layout s (some v) = s1 at hp hr hm ha hn hmov h1 h2
    constructor
    · rw [h1, h2]; exact hv
    · rw [hp]; exact i.hpend_nodup
    · rw [hr]; exact i.hreg_nodup
    · rw [hp, hr]; exact i.hdisj
    · rw [hm]; exact i.htask_unf
    · rw [hp, hm]; exact i.hpend
    · rw [ha, hn, hp]; exact i.hsubj
    · rw [hr, hm]
      intro u hu hf
      obtain ⟨⟨k1, k2⟩, k3⟩ := i.hlock u hu hf
      exact ⟨⟨by rw [hmov]; exact k1, by rw [ha]; exact k2⟩, k3⟩

theorem move_entry_anims (cfg : Config) (s : State) (i msg : Nat) (y : Int)
    (unfold : Option Nat) :
    ∀ e ∈ (gfx_widgets_msg_queue_move_entry cfg s i msg y unfold).anims,
      e ∈ s.anims ∨ (e.subject.1 = msg ∧ e.userdata = unfold
        ∧ (e.cb = anim_cb.NULL ∨ (e.cb = anim_cb.gfx_widgets_move_end ∧ i = 0))) := by
  intro e he
  unfold gfx_widgets_msg_queue_move_entry at he
  split at he
  · simp only [set_widgets_moving_proj, gfx_animation_push, set_anims_proj] at he
    rcases List.mem_append.1 he with h1 | h1
    · exact Or.inl h1
    · right
      rw [List.mem_singleton.1 h1]
      refine ⟨rfl, rfl, ?_⟩
      by_cases e0 : i = 0
      · right; simp [e0]
      · left; simp [e0]
  · exact Or.inl he

theorem move_entry_moving (cfg : Config) (s : State) (i msg : Nat) (y : Int)
    (unfold : Option Nat) :
    (gfx_widgets_msg_queue_move_entry cfg s i msg y unfold).widgets_moving
      = if (s.msgs msg).offset_y ≠ y then true else s.widgets_moving := by
  unfold gfx_widgets_msg_queue_move_entry
  split <;> simp

theorem move_loop_moving_mono (cfg : Config) (l : file_list_t) :
    ∀ (n : Nat) (y : Int) (unfold : Option Nat) (s : State), s.widgets_moving = true →
      (gfx_widgets_msg_queue_move_loop cfg l n y unfold s).widgets_moving = true := by
  intro n
  induction n with
  | zero =>
    intro y unfold s h
    simpa [gfx_widgets_msg_queue_move_loop] using h
  | succ i ih =>
    intro y unfold s h
    unfold gfx_widgets_msg_queue_move_loop
    split
    · exact ih _ _ _ h
    · split
      · exact ih _ _ _ h
      · apply ih
        rw [move_entry_moving]
        split
        · rfl
        · exact h

theorem move_loop_subjects (cfg : Config) (l : file_list_t) :
    ∀ (n : Nat) (y : Int) (unfold : Option Nat) (s : State),
      ∀ e ∈ (gfx_widgets_msg_queue_move_loop cfg l n y unfold s).anims,
        e ∈ s.anims ∨ ∃ j, j < n ∧ file_list_get_userdata l j = some e.subject.1 := by
  intro n
  induction n with
  | zero =>
    intro y unfold s e he
    left
    simpa [gfx_widgets_msg_queue_move_loop] using he
  | succ i ih =>
    intro y unfold s e he
    unfold gfx_widgets_msg_queue_move_loop at he
    split at he
    · rcases ih _ _ _ e he with h1 | ⟨j, h1, h2⟩
      · exact Or.inl h1
      · exact Or.inr ⟨j, by omega, h2⟩
    · rename_i msg hmsg
      split at he
      · rcases ih _ _ _ e he with h1 | ⟨j, h1, h2⟩
        · exact Or.inl h1
        · exact Or.inr ⟨j, by omega, h2⟩
      · rcases ih _ _ _ e he with h1 | ⟨j, h1, h2⟩
        · rcases move_entry_anims _ _ _ _ _ _ e h1 with h3 | h3
          · exact Or.inl h3
          · exact Or.inr ⟨i, by omega, by rw [h3.1]; exact hmsg⟩
        · exact Or.inr ⟨j, by omega, h2⟩

theorem move_loop_lock (cfg : Config) (l : file_list_t) (w : Nat) :
    ∀ (n : Nat) (y : Int) (unfold : Option Nat) (s : State),
      (∀ j, j < n → ∀ h, file_list_get_userdata l j = some h → h ≠ w →
        (s.msgs h).unfolded = true) →
      (s.msgs w).unfolded = false → (s.msgs w).dying = false →
      (unfold = some w ∨ ∃ j, j < n ∧ file_list_get_userdata l j = some w) →
      ∀ e ∈ (gfx_widgets_msg_queue_move_loop cfg l n y unfold s).anims,
        e ∈ s.anims ∨ e.cb = anim_cb.NULL
          ∨ (e.cb = anim_cb.gfx_widgets_move_end ∧ e.userdata = some w) := by
  intro n
  induction n with
  | zero =>
    intro y unfold s _ _ _ _ e he
    left
    simpa [gfx_widgets_msg_queue_move_loop] using he
  | succ i ih =>
    intro y unfold s hothers hwu hwd hseen e he
    have hothers1 : ∀ j, j < i → ∀ h, file_list_get_userdata l j = some h → h ≠ w →
        (s.msgs h).unfolded = true := fun j hj => hothers j (by omega)
    have hseen1 : file_list_get_userdata l i ≠ some w →
        (unfold = some w ∨ ∃ j, j < i ∧ file_list_get_userdata l j = some w) := by
      intro hne
      rcases hseen with h1 | ⟨j, h1, h2⟩
      · exact Or.inl h1
      · right
        refine ⟨j, ?_, h2⟩
        by_contra hcon
        have : j = i := by omega
        subst this
        exact hne h2
    unfold gfx_widgets_msg_queue_move_loop at he
    split at he
    · rename_i hnone
      exact ih _ _ _ hothers1 hwu hwd (hseen1 (by rw [hnone]; simp)) e he
    · rename_i msg hmsg
      split at he
      · rename_i hdy
        have hne : msg ≠ w := by
          intro e1
          rw [e1, hwd] at hdy
          exact Bool.noConfusion hdy
        exact ih _ _ _ hothers1 hwu hwd
          (hseen1 (by rw [hmsg]; intro e1; exact hne (Option.some.inj e1))) e he
      · have hunf : gfx_widgets_msg_queue_move_unfold s unfold msg = some w
            ∨ ∃ j, j < i ∧ file_list_get_userdata l j = some w := by
          unfold gfx_widgets_msg_queue_move_unfold
          by_cases e1 : msg = w
          · left
            rw [e1, hwu]
            rfl
          · have h2 := hothers i (by omega) msg hmsg e1
            rw [h2]
            simp only [Bool.not_true, Bool.false_eq_true, if_false]
            exact hseen1 (by rw [hmsg]; intro e2; exact e1 (Option.some.inj e2))
        have h3 := ih (gfx_widgets_msg_queue_move_y s y msg)
          (gfx_widgets_msg_queue_move_unfold s unfold msg)
          (gfx_widgets_msg_queue_move_entry cfg s i msg
            (gfx_widgets_msg_queue_move_y s y msg)
            (gfx_widgets_msg_queue_move_unfold s unfold msg))
          (by simpa using hothers1) (by simpa using hwu) (by simpa using hwd) hunf e he
        rcases h3 with h4 | h4
        · rcases move_entry_anims _ _ _ _ _ _ e h4 with h5 | ⟨_, h6, h7⟩
          · exact Or.inl h5
          · rcases h7 with h8 | ⟨h8, h9⟩
            · exact Or.inr (Or.inl h8)
            · right; right
              refine ⟨h8, ?_⟩
              rw [h6]
              rcases hunf with h10 | ⟨j, h10, _⟩
              · exact h10
              · omega
        · exact Or.inr h4

theorem move_loop_moving (cfg : Config) (l : file_list_t) (w : Nat) :
    ∀ (n : Nat) (y : Int) (unfold : Option Nat) (s : State), 0 ≤ y →
      (∃ j, j < n ∧ file_list_get_userdata l j = some w) →
      (s.msgs w).dying = false → (s.msgs w).offset_y = 0 →
      (s.msgs w).task_ptr.isSome = false →
      0 < u32 (s.msg_queue_height + s.msg_queue_spacing) →
      (gfx_widgets_msg_queue_move_loop cfg l n y unfold s).widgets_moving = true := by
  intro n
  induction n with
  | zero =>
    intro y unfold s _ hj
    obtain ⟨j, h1, _⟩ := hj
    omega
  | succ i ih =>
    intro y unfold s hy hj hwd hwo hwt hpos
    have hj1 : file_list_get_userdata l i ≠ some w →
        ∃ j, j < i ∧ file_list_get_userdata l j = some w := by
      intro hne
      obtain ⟨j, h1, h2⟩ := hj
      refine ⟨j, ?_, h2⟩
      by_contra hcon
      have : j = i := by omega
      subst this
      exact hne h2
    unfold gfx_widgets_msg_queue_move_loop
    split
    · rename_i hnone
      exact ih _ _ _ hy (hj1 (by rw [hnone]; simp)) hwd hwo hwt hpos
    · rename_i msg hmsg
      split
      · rename_i hdy
        have hne : msg ≠ w := by
          intro e1
          rw [e1, hwd] at hdy
          exact Bool.noConfusion hdy
        exact ih _ _ _ hy (hj1 (by rw [hmsg]; intro e1; exact hne (Option.some.inj e1)))
          hwd hwo hwt hpos
      · have hy1 : y ≤ gfx_widgets_msg_queue_move_y s y msg := by
          unfold gfx_widgets_msg_queue_move_y
          omega
        by_cases e1 : msg = w
        · apply move_loop_moving_mono
          rw [move_entry_moving, e1, hwo]
          have : (0 : Int) < gfx_widgets_msg_queue_move_y s y w := by
            unfold gfx_widgets_msg_queue_move_y
            rw [hwt]
            simp only [Bool.false_eq_true, if_false, Nat.div_one]
            omega
          rw [if_pos (by omega)]
        · exact ih _ _ _ (by omega)
            (hj1 (by rw [hmsg]; intro e2; exact e1 (Option.some.inj e2)))
            (by simpa using hwd) (by simpa using hwo) (by simpa using hwt)
            (by simpa using hpos)

theorem mem_registry_of_get (s : State) (l : file_list_t) (j x : Nat)
    (hl : s.current_msgs = some l) (hwf : l.size ≤ l.list.length) (hj : j < l.size)
    (hx : file_list_get_userdata l j = some x) : some x ∈ registry s := by
  unfold registry
  rw [hl]
  simp only []
  have h1 := entries_getElem l j hj hwf
  rw [hx] at h1
  exact List.mem_iff_getElem?.2 ⟨j, h1⟩

theorem msg_queue_kill_msgs (cfg : Config) (s : State) (l : file_list_t) (i w : Nat)
    (hl : s.current_msgs = some l) (hw : file_list_get_userdata l i = some w) (k : Nat) :
    (gfx_widgets_msg_queue_kill cfg s i).msgs k
      = if k = w then { s.msgs w with dying := true } else s.msgs k := by
  unfold gfx_widgets_msg_queue_kill
  simp only [hl, hw]
  split <;> simp [gfx_widgets_msg_queue_kill_start]

theorem msg_queue_kill_anims (cfg : Config) (s : State) (l : file_list_t) (i w : Nat)
    (hl : s.current_msgs = some l) (hw : file_list_get_userdata l i = some w)
    (hi : i < l.size) :
    ∀ e ∈ (gfx_widgets_msg_queue_kill cfg s i).anims,
      e ∈ s.anims ∨ ∃ j, j < l.size ∧ file_list_get_userdata l j = some e.subject.1 := by
  have hstart : ∀ e ∈ (gfx_widgets_msg_queue_kill_start cfg s i w).anims,
      e ∈ s.anims ∨ ∃ j, j < l.size ∧ file_list_get_userdata l j = some e.subject.1 := by
    intro e he
    unfold gfx_widgets_msg_queue_kill_start at he
    simp only [gfx_animation_push, set_anims_proj, set_msg_queue_kill_proj, set_msg_proj,
      set_widgets_moving_proj, List.append_assoc, List.mem_append, List.mem_cons,
      List.mem_singleton, List.not_mem_nil, or_false] at he
    rcases he with h1 | h1 | h1
    · exact Or.inl h1
    · exact Or.inr ⟨i, hi, by rw [h1]; exact hw⟩
    · exact Or.inr ⟨i, hi, by rw [h1]; exact hw⟩
  intro e he
  unfold gfx_widgets_msg_queue_kill at he
  simp only [hl, hw] at he
  split at he
  · unfold gfx_widgets_msg_queue_move at he
    have hl1 : (gfx_widgets_msg_queue_kill_start cfg s i w).current_msgs = some l := by
      simpa using hl
    simp only [hl1] at he
    rcases move_loop_subjects cfg l _ _ _ _ e he with h1 | h1
    · exact hstart e h1
    · exact Or.inr h1
  · exact hstart e he

theorem unfold_inv_kill (cfg : Config) (s : State) (l : file_list_t) (idx : Nat)
    (hl : s.current_msgs = some l) (hidx : idx < l.size) (hwf : l.size ≤ l.list.length)
    (hmov : s.widgets_moving = false)
    (hlt : ∀ h, some h ∈ registry s → h < s.msgs_next) (i : unfold_inv s) :
    unfold_inv (gfx_widgets_msg_queue_kill cfg s idx) := by
  cases hw : file_list_get_userdata l idx with
  | none =>
    have : gfx_widgets_msg_queue_kill cfg s idx = s := by
      unfold gfx_widgets_msg_queue_kill
      simp only [hl, hw]
    rw [this]
    exact i
  | some w =>
    have hm := msg_queue_kill_msgs cfg s l idx w hl hw
    have ha := msg_queue_kill_anims cfg s l idx w hl hw hidx
    have hwreg : some w ∈ registry s := mem_registry_of_get s l idx w hl hwf hidx hw
    have hr : registry (gfx_widgets_msg_queue_kill cfg s idx) = registry s :=
      registry_eq_of_current_msgs _ _ (by simp)
    have hall := all_unfolded_of_not_moving i hmov
    refine unfold_inv_release i (by simp) (by rw [hr]) (by simp) (by simp) (by simp)
      ?_ ?_ ?_ ?_ hlt ?_
    · intro h
      rw [hm]
      by_cases e : h = w
      · subst e; simp
      · simp [e]
    · intro h hh
      rw [hm]
      by_cases e : h = w
      · subst e; simpa using hh
      · simpa [e] using hh
    · intro h hh
      have e : h ≠ w := by
        intro e1
        rw [e1] at hh
        exact i.hdisj w hh hwreg
      rw [hm]
      simp [e]
    · intro e he _
      rcases ha e he with h1 | ⟨j, h1, h2⟩
      · exact Or.inl h1
      · exact Or.inr (mem_registry_of_get s l j _ hl hwf h1 h2)
    · intro v hv
      rw [hr] at hv
      rw [hm]
      by_cases e : v = w
      · subst e; simpa using hall v hv
      · simpa [e] using hall v hv

theorem unfold_inv_iterate_loop (cfg : Config) (l : file_list_t)
    (hwf : l.size ≤ l.list.length) :
    ∀ (n i : Nat) (s : State), s.current_msgs = some l →
      (∀ h, some h ∈ registry s → h < s.msgs_next) → unfold_inv s →
      unfold_inv (gfx_widgets_iterate_loop cfg n i s) := by
  intro n
  induction n with
  | zero =>
    intro i s _ _ iv
    simpa [gfx_widgets_iterate_loop] using iv
  | succ n ih =>
    intro i s hl hlt iv
    unfold gfx_widgets_iterate_loop
    simp only [hl]
    split
    · rename_i hi
      split
      · exact ih _ _ hl hlt iv
      · rename_i w hw
        have c := quiet_iterate_loop_timer cfg s w
        have iv1 := unfold_inv_quiet c iv
        have hl1 : (gfx_widgets_iterate_loop_timer cfg s w).current_msgs = some l :=
          c.current_msgs.trans hl
        have hlt1 : ∀ h, some h ∈ registry (gfx_widgets_iterate_loop_timer cfg s w) →
            h < (gfx_widgets_iterate_loop_timer cfg s w).msgs_next := by
          intro h hh
          rw [registry_eq_of_current_msgs s _ c.current_msgs] at hh
          rw [c.msgs_next]
          exact hlt h hh
        split
        · rename_i hcond
          have hmov : (gfx_widgets_iterate_loop_timer cfg s w).widgets_moving = false := by
            simp only [Bool.and_eq_true, Bool.not_eq_true'] at hcond
            exact hcond.2
          exact unfold_inv_kill cfg _ l i hl1 hi hwf hmov hlt1 iv1
        · exact ih _ _ hl1 hlt1 iv1
    · exact iv

theorem unfold_inv_expire (cfg : Config) (s : State) (q : fifo_buffer_t) (l : file_list_t)
    (P T : List Nat) (ri : registry_inv cfg s q l P T) (i : unfold_inv s) :
    unfold_inv (gfx_widgets_iterate_expire cfg s) := by
  unfold gfx_widgets_iterate_expire
  simp only [ri.hl]
  exact unfold_inv_iterate_loop cfg l (le_trans ri.hsize ri.hcap) l.size 0 s ri.hl
    (registry_lt ri) i

theorem get_of_mem_entries (l : file_list_t) (x : Nat) (hwf : l.size ≤ l.list.length)
    (h : some x ∈ l.entries) : ∃ j, j < l.size ∧ file_list_get_userdata l j = some x := by
  obtain ⟨j, hj⟩ := List.mem_iff_getElem?.1 h
  have hlen : l.entries.length = l.size := by
    unfold file_list_t.entries
    simp [hwf]
  have hj2 : j < l.size := by
    by_contra hcon
    rw [List.getElem?_eq_none (by omega)] at hj
    exact Option.noConfusion hj
  refine ⟨j, hj2, ?_⟩
  have := entries_getElem l j hj2 hwf
  rw [hj] at this
  exact (Option.some.inj this).symm

theorem mem_entries_of_get (l : file_list_t) (j x : Nat) (hwf : l.size ≤ l.list.length)
    (hj : j < l.size) (hx : file_list_get_userdata l j = some x) : some x ∈ l.entries := by
  have h1 := entries_getElem l j hj hwf
  rw [hx] at h1
  exact List.mem_iff_getElem?.2 ⟨j, h1⟩

theorem unfold_inv_admit (cfg : Config) (s s3 : State) (l1 : file_list_t) (w : Nat)
    (rest : List Nat) (pre post : List (Option Nat)) (i : unfold_inv s)
    (hset : settled s) (hmov : s.widgets_moving = false)
    (hpend : pending s = w :: rest) (hreg : registry s = pre ++ post)
    (hlt : ∀ h, some h ∈ registry s → h < s.msgs_next) (hw : w < s.msgs_next)
    (h3q : pending s3 = rest) (h3l : s3.current_msgs = some l1)
    (hl1 : l1.entries = pre ++ some w :: post) (hwf1 : l1.size ≤ l1.list.length)
    (h3next : s3.msgs_next = s.msgs_next)
    (h3h : s3.msg_queue_height = s.msg_queue_height)
    (h3sp : s3.msg_queue_spacing = s.msg_queue_spacing)
    (h3tp : ∀ h, (s3.msgs h).task_ptr.isSome = (s.msgs h).task_ptr.isSome)
    (h3unf : ∀ h, (s3.msgs h).unfolded = (s.msgs h).unfolded)
    (h3dy : ∀ h, (s3.msgs h).dying = (s.msgs h).dying)
    (h3off : ∀ h ∈ pending s, (s3.msgs h).offset_y = (s.msgs h).offset_y)
    (h3an : ∀ e ∈ s3.anims, e ∈ s.anims
      ∨ ((e.cb = anim_cb.NULL ∨ e.cb = anim_cb.msg_widget_msg_transition_animation_done
            ∨ e.cb = anim_cb.gfx_widgets_hourglass_end)
          ∧ e.subject.2 ≠ anim_subject.offset_y)) :
    unfold_inv (gfx_widgets_msg_queue_move_loop cfg l1 l1.size 0 none s3) := by
  have hp4 : pending (gfx_widgets_msg_queue_move_loop cfg l1 l1.size 0 none s3) = rest := by
    rw [pending_eq_of_msg_queue s3 _ (by simp)]
    exact h3q
  have hr3 : registry s3 = pre ++ some w :: post := by
    unfold registry
    rw [h3l]
    exact hl1
  have hr4 : registry (gfx_widgets_msg_queue_move_loop cfg l1 l1.size 0 none s3)
      = pre ++ some w :: post := by
    rw [registry_eq_of_current_msgs s3 _ (by simp)]
    exact hr3
  have hm4 : (gfx_widgets_msg_queue_move_loop cfg l1 l1.size 0 none s3).msgs = s3.msgs := by
    simp
  have hall := all_unfolded_of_not_moving i hmov
  have hwp : w ∈ pending s := by rw [hpend]; simp
  have hwreg : some w ∉ registry s := i.hdisj w hwp
  have hnd : w ∉ rest ∧ rest.Nodup := by
    have := i.hpend_nodup
    rw [hpend] at this
    exact List.nodup_cons.1 this
  have hsub : ∀ h ∈ rest, h ∈ pending s := by
    intro h hh
    rw [hpend]
    exact List.mem_cons_of_mem _ hh
  have hmem : ∀ x, some x ∈ pre ++ some w :: post → x = w ∨ some x ∈ registry s := by
    intro x hx
    rw [hreg]
    simp only [List.mem_append, List.mem_cons] at hx ⊢
    rcases hx with h1 | h1 | h1
    · exact Or.inr (Or.inl h1)
    · exact Or.inl (Option.some.inj h1)
    · exact Or.inr (Or.inr h1)
  have hfold : ∀ u, some u ∈ pre ++ some w :: post → (s3.msgs u).unfolded = false →
      u = w := by
    intro u hu hf
    rcases hmem u hu with h1 | h1
    · exact h1
    · rw [h3unf, hall u h1] at hf
      exact Bool.noConfusion hf
  constructor
  · have e1 : (gfx_widgets_msg_queue_move_loop cfg l1 l1.size 0 none s3).msg_queue_height
        = s.msg_queue_height := by simpa using h3h
    have e2 : (gfx_widgets_msg_queue_move_loop cfg l1 l1.size 0 none s3).msg_queue_spacing
        = s.msg_queue_spacing := by simpa using h3sp
    rw [e1, e2]
    exact i.hpos
  · rw [hp4]; exact hnd.2
  · rw [hr4]
    refine List.nodup_middle.2 (List.nodup_cons.2 ⟨?_, ?_⟩)
    · rw [← hreg]; exact hwreg
    · rw [← hreg]; exact i.hreg_nodup
  · intro h hh1 hh2
    rw [hp4] at hh1
    rw [hr4] at hh2
    rcases hmem h hh2 with h1 | h1
    · rw [h1] at hh1
      exact hnd.1 hh1
    · exact i.hdisj h (hsub h hh1) h1
  · intro h hh
    rw [hm4] at hh ⊢
    rw [h3unf]
    exact i.htask_unf h (by rw [← h3tp]; exact hh)
  · intro h hh
    rw [hp4] at hh
    rw [hm4, h3dy, h3off h (hsub h hh)]
    exact i.hpend h (hsub h hh)
  · intro e he hsubj
    have e3 : (gfx_widgets_msg_queue_move_loop cfg l1 l1.size 0 none s3).msgs_next
        = s.msgs_next := by simpa using h3next
    rw [e3, hp4]
    rcases move_loop_subjects cfg l1 _ _ _ _ e he with h1 | ⟨j, h1, h2⟩
    · rcases h3an e h1 with h2 | h2
      · obtain ⟨k1, k2⟩ := i.hsubj e h2 hsubj
        exact ⟨k1, fun hcon => k2 (hsub _ hcon)⟩
      · exact absurd hsubj h2.2
    · have hin := mem_entries_of_get l1 j _ hwf1 h1 h2
      rw [hl1] at hin
      rcases hmem _ hin with h3 | h3
      · rw [h3]
        exact ⟨hw, hnd.1⟩
      · exact ⟨hlt _ h3, fun hcon => i.hdisj _ (hsub _ hcon) h3⟩
  · intro u hu hf
    rw [hr4] at hu
    rw [hm4] at hf
    have huw := hfold u hu hf
    subst huw
    have hwin : some u ∈ l1.entries := by rw [hl1]; simp
    have hidx := get_of_mem_entries l1 u hwf1 hwin
    have hwtp : (s3.msgs u).task_ptr.isSome = false := by
      cases htp : (s3.msgs u).task_ptr.isSome with
      | false => rfl
      | true =>
        rw [h3tp] at htp
        have := i.htask_unf u htp
        rw [← h3unf, hf] at this
        exact Bool.noConfusion this
    have hwd : (s3.msgs u).dying = false := by
      rw [h3dy]
      exact (i.hpend u hwp).1
    have hwo : (s3.msgs u).offset_y = 0 := by
      rw [h3off u hwp]
      exact (i.hpend u hwp).2
    refine ⟨⟨?_, ?_⟩, ?_⟩
    · exact move_loop_moving cfg l1 u l1.size 0 none s3 (le_refl _) hidx hwd hwo hwtp
        (by rw [h3h, h3sp]; exact i.hpos)
    · intro e he
      have hoth : ∀ j, j < l1.size → ∀ h, file_list_get_userdata l1 j = some h → h ≠ u →
          (s3.msgs h).unfolded = true := by
        intro j hj h hh hne
        have hin := mem_entries_of_get l1 j h hwf1 hj hh
        rw [hl1] at hin
        rcases hmem h hin with h1 | h1
        · exact absurd h1 hne
        · rw [h3unf]
          exact hall h h1
      rcases move_loop_lock cfg l1 u l1.size 0 none s3 hoth hf hwd (Or.inr hidx) e he
        with h1 | h1 | h1
      · rcases h3an e h1 with h2 | h2
        · obtain ⟨k1, k2, k3⟩ := hset e h2
          exact ⟨k2, k3, fun hcon => absurd hcon k1⟩
        · rcases h2.1 with h3 | h3 | h3 <;> rw [h3] <;> simp
      · rw [h1]; simp
      · rw [h1.1]
        exact ⟨by simp, by simp, fun _ => h1.2⟩
    · intro v hv hvf
      rw [hr4] at hv
      rw [hm4] at hvf
      exact hfold v hv hvf

theorem iterate_consume_eq (cfg : Config) (s : State) (q : fifo_buffer_t) (l : file_list_t)
    (w : Nat) (rest : List Nat)
    (hq : s.msg_queue = some q) (hl : s.current_msgs = some l) (hb : q.buffer = w :: rest)
    (h : gfx_widgets_iterate_consumes cfg s q l = true)
    (hsz : (gfx_widgets_iterate_consume_list s l w).size ≠ 0) :
    gfx_widgets_iterate_consume cfg s
      = gfx_widgets_msg_queue_move_loop cfg (gfx_widgets_iterate_consume_list s l w)
          (gfx_widgets_iterate_consume_list s l w).size 0 none
          (gfx_widgets_iterate_consume_timer cfg
            (set_current_msgs (set_msg_queue s (some { q with buffer := rest }))
              (some (gfx_widgets_iterate_consume_list s l w))) w) := by
  have hr : (fifo_read q).1 = some w := by simp [fifo_read, hb]
  have hr2 : (fifo_read q).2 = { q with buffer := rest } := by simp [fifo_read, hb]
  unfold gfx_widgets_iterate_consume
  simp only [hq, hl, h, if_true, hr, hr2]
  rw [if_pos hsz]
  unfold gfx_widgets_msg_queue_move
  have hc : (gfx_widgets_iterate_consume_timer cfg
      (set_current_msgs (set_msg_queue s (some { q with buffer := rest }))
        (some (gfx_widgets_iterate_consume_list s l w))) w).current_msgs
      = some (gfx_widgets_iterate_consume_list s l w) := by simp
  simp only [hc]

theorem unfold_inv_consume (cfg : Config) (hmax : cfg.MSG_QUEUE_ONSCREEN_MAX < 4294967296)
    (s : State) (q : fifo_buffer_t) (l : file_list_t) (P T : List Nat)
    (ri : registry_inv cfg s q l P T) (i : unfold_inv s)
    (hset : admits_next cfg s → settled s) :
    unfold_inv (gfx_widgets_iterate_consume cfg s) := by
  cases hc : gfx_widgets_iterate_consumes cfg s q l with
  | false =>
    rw [iterate_consume_skip cfg s q l ri.hq ri.hl hc]
    exact i
  | true =>
    obtain ⟨w, rest, hb⟩ := iterate_consumes_nonempty cfg s q l hc
    have hst : settled s := hset ⟨q, l, ri.hq, ri.hl, hc⟩
    have hcc : s.widgets_moving = false ∧ l.size < cfg.MSG_QUEUE_ONSCREEN_MAX := by
      simp [gfx_widgets_iterate_consumes] at hc
      exact ⟨hc.1.2, hc.2⟩
    have hwf : l.wf := ⟨le_trans ri.hsize ri.hcap, ri.hcap2⟩
    have hlenPT : (P ++ T).length = l.size := by
      have := congrArg List.length ri.hent
      unfold file_list_t.entries at this
      simp only [List.length_take, List.length_map] at this
      have := ri.hsize
      have := ri.hcap
      omega
    have hcnt : s.msg_queue_tasks_count ≤ l.size := by
      rw [ri.hcount, ← hlenPT]
      simp
    obtain ⟨d1, d2, _⟩ := iterate_consume_list_slots s l w (by have := ri.hcap; omega) hcnt
      (by omega)
    have hex := iterate_consume_list_exact s l w hwf hcnt (by omega)
    have hpp : ∃ pre post, l.entries = pre ++ post
        ∧ (gfx_widgets_iterate_consume_list s l w).entries = pre ++ some w :: post := by
      rw [hex]
      split
      · exact ⟨l.entries, [], by simp, by simp⟩
      · exact ⟨l.entries.take (l.size - s.msg_queue_tasks_count),
          l.entries.drop (l.size - s.msg_queue_tasks_count),
          (List.take_append_drop _ _).symm, rfl⟩
    obtain ⟨pre, post, hpre, hpost⟩ := hpp
    have hsz : (gfx_widgets_iterate_consume_list s l w).size ≠ 0 := by rw [d2]; omega
    rw [iterate_consume_eq cfg s q l w rest ri.hq ri.hl hb hc hsz]
    have c := quiet_iterate_consume_timer cfg
      (set_current_msgs (set_msg_queue s (some { q with buffer := rest }))
        (some (gfx_widgets_iterate_consume_list s l w))) w
    have hp0 : pending s = w :: rest := by
      unfold pending
      rw [ri.hq]
      exact hb
    have hr0 : registry s = pre ++ post := by
      unfold registry
      rw [ri.hl]
      exact hpre
    refine unfold_inv_admit cfg s _ (gfx_widgets_iterate_consume_list s l w) w rest pre post i
      hst hcc.1 hp0 hr0 (registry_lt ri) (ri.hpend_lt w (by rw [hb]; simp))
      ?_ ?_ hpost (by rw [d1, d2]; have := ri.hcap; omega) ?_ ?_ ?_ ?_ ?_ ?_ ?_ ?_
    · unfold pending
      rw [c.msg_queue]
      simp
    · rw [c.current_msgs]
      simp
    · rw [c.msgs_next]
      simp
    · rw [c.height]
      simp
    · rw [c.spacing]
      simp
    · intro h
      rw [c.task_ptr]
      simp
    · intro h
      rw [c.unfolded]
      simp
    · intro h
      rw [c.dying]
      simp
    · intro h hh
      rw [c.offset h]
      · simp
      · intro e he hsub
        have he2 : e ∈ s.anims := by simpa using he
        exact (i.hsubj e he2 (by rw [hsub])).2 (by rw [hsub]; exact hh)
    · intro e he
      rcases c.anims e he with h1 | h1
      · exact Or.inl (by simpa using h1)
      · exact Or.inr h1

theorem unfold_inv_iterate (cfg : Config) (hmax : cfg.MSG_QUEUE_ONSCREEN_MAX < 4294967296)
    (s : State) (relayout : Option layout_t) (q : fifo_buffer_t) (l : file_list_t)
    (P T : List Nat) (ri : registry_inv cfg s q l P T) (i : unfold_inv s)
    (hpos : ∀ v, relayout = some v → v.positive)
    (hset : admits_next cfg s → settled s) :
    unfold_inv (gfx_widgets_iterate cfg s relayout) := by
  unfold gfx_widgets_iterate
  split
  · exact i
  · have ri0 : registry_inv cfg (gfx_widgets_iterate_layout s relayout) q l P T := by
      refine registry_inv_congr ?_ ri
      unfold gfx_widgets_iterate_layout
      cases relayout with
      | none => exact same_core_refl s
      | some v => exact set_layout_same_core s v
    have i0 := unfold_inv_layout s relayout hpos i
    have hset0 : admits_next cfg (gfx_widgets_iterate_layout s relayout) →
        settled (gfx_widgets_iterate_layout s relayout) := by
      intro ha
      obtain ⟨q0, l0, a1, a2, a3⟩ := ha
      have hst : settled s := by
        apply hset
        refine ⟨q0, l0, by simpa using a1, by simpa using a2, ?_⟩
        unfold gfx_widgets_iterate_consumes at a3 ⊢
        simpa using a3
      intro e he
      exact hst e (by simpa using he)
    have i1 := unfold_inv_consume cfg hmax _ q l P T ri0 i0 hset0
    obtain ⟨q1, l1, P1, T1, ri1⟩ := registry_inv_consume cfg hmax _ q l P T ri0
    exact unfold_inv_expire cfg _ q1 l1 P1 T1 ri1 i1

theorem unfold_inv_init (cfg : Config) (has_icons : Bool) (layout : layout_t)
    (hpos : layout.positive) :
    unfold_inv (gfx_widgets_init cfg dispwidget_st has_icons layout) := by
  have hst : dispwidget_st.widgets_inited = false := rfl
  have hp : pending (gfx_widgets_init cfg dispwidget_st has_icons layout) = [] := by
    unfold pending gfx_widgets_init
    simp [hst, fifo_new]
  have hr : registry (gfx_widgets_init cfg dispwidget_st has_icons layout) = [] := by
    unfold registry gfx_widgets_init
    simp [hst, file_list_reserve, file_list_t.entries]
  have ha : (gfx_widgets_init cfg dispwidget_st has_icons layout).anims = [] := by
    unfold gfx_widgets_init
    simp [hst]
    rfl
  have hm : ∀ h, ((gfx_widgets_init cfg dispwidget_st has_icons layout).msgs h).task_ptr
      = none := by
    intro h
    unfold gfx_widgets_init
    simp [hst]
    rfl
  have hh : (gfx_widgets_init cfg dispwidget_st has_icons layout).msg_queue_height
      = layout.msg_queue_height := by
    unfold gfx_widgets_init set_widgets_active set_layout
    rfl
  have hs : (gfx_widgets_init cfg dispwidget_st has_icons layout).msg_queue_spacing
      = layout.msg_queue_spacing := by
    unfold gfx_widgets_init set_widgets_active set_layout
    rfl
  constructor
  · rw [hh, hs]; exact hpos
  · rw [hp]; exact List.nodup_nil
  · rw [hr]; exact List.nodup_nil
  · rw [hp]; intro h hh1; simp at hh1
  · intro h hh1
    rw [hm] at hh1
    simp at hh1
  · rw [hp]; intro h hh1; simp at hh1
  · rw [ha]; intro e he; simp at he
  · rw [hr]; intro u hu; simp at hu

theorem reachable_of_settled (cfg : Config) (s : State) (h : ReachableSettled cfg s) :
    Reachable cfg s := by
  induction h with
  | init has_icons layout _ => exact Reachable.init has_icons layout
  | push s task msg duration title icon category prio flush alive _ ih =>
    exact Reachable.push s task msg duration title icon category prio flush alive ih
  | iterate s relayout _ _ _ ih => exact Reachable.iterate s relayout ih
  | animation s n _ ih => exact Reachable.animation s n ih
  | timer s n _ ih => exact Reachable.timer s n ih
  | task s t r _ hr ih => exact Reachable.task s t r ih hr

theorem reachable_settled_inv (cfg : Config) (hmax : cfg.MSG_QUEUE_ONSCREEN_MAX < 4294967296)
    (s : State) (h : ReachableSettled cfg s) : unfold_inv s := by
  induction h with
  | init has_icons layout hpos => exact unfold_inv_init cfg has_icons layout hpos
  | push s task msg duration title icon category prio flush alive hs ih =>
    obtain ⟨q, l, P, T, ri⟩ := reachable_registry_inv cfg hmax s (reachable_of_settled cfg s hs)
    exact unfold_inv_push cfg s q l P T ri ih task msg duration title icon category prio
      flush alive
  | iterate s relayout hs hpos hset ih =>
    obtain ⟨q, l, P, T, ri⟩ := reachable_registry_inv cfg hmax s (reachable_of_settled cfg s hs)
    exact unfold_inv_iterate cfg hmax s relayout q l P T ri ih hpos hset
  | animation s n hs ih =>
    obtain ⟨q, l, P, T, ri⟩ := reachable_registry_inv cfg hmax s (reachable_of_settled cfg s hs)
    exact unfold_inv_animation cfg s n q l P T ri ih
  | timer s n _ ih => exact unfold_inv_quiet (quiet_timer_fire cfg s n) ih
  | task s t r _ _ ih => exact unfold_inv_quiet (quiet_set_task s t r) ih

theorem filter_length_le_one {α : Type} (L : List α) (p : α → Bool) (hnd : L.Nodup)
    (huniq : ∀ a ∈ L, ∀ b ∈ L, p a = true → p b = true → a = b) :
    (L.filter p).length ≤ 1 := by
  induction L with
  | nil => simp
  | cons a t ih =>
    obtain ⟨hat, hnt⟩ := List.nodup_cons.1 hnd
    have ih1 := ih hnt (fun x hx y hy => huniq x (List.mem_cons_of_mem _ hx) y
      (List.mem_cons_of_mem _ hy))
    cases hp : p a with
    | false =>
      rw [List.filter_cons_of_neg (by simp [hp])]
      exact ih1
    | true =>
      rw [List.filter_cons_of_pos hp]
      have hnil : t.filter p = [] := by
        rw [List.filter_eq_nil_iff]
        intro b hb hpb
        have := huniq a (List.mem_cons_self _ _) b (List.mem_cons_of_mem _ hb) hp hpb
        rw [← this] at hb
        exact hat hb
      rw [hnil]
      simp

theorem not_unfolded_length (s : State) (i : unfold_inv s) : (not_unfolded s).length ≤ 1 := by
  unfold not_unfolded
  apply filter_length_le_one _ _ i.hreg_nodup
  intro a ha b hb hpa hpb
  cases a with
  | none => simp at hpa
  | some u =>
    cases b with
    | none => simp at hpb
    | some v =>
      simp only [Bool.not_eq_true'] at hpa hpb
      have := (i.hlock u ha hpa).2 v hb hpb
      rw [this]

/-! ### The claims on all reachable states -/

theorem sample_init_reachable : Reachable sample_cfg sample_init :=
  Reachable.init true sample_layout

theorem sample_one_reachable : Reachable sample_cfg sample_one :=
  Reachable.iterate (sample_push sample_init "Saved state" 1000) none
    (Reachable.push sample_init none "Saved state" 1000 none 0 0 0 false false
      sample_init_reachable)

theorem sample_mixed_reachable : Reachable sample_cfg sample_mixed := by
  have h1 : Reachable sample_cfg (sample_push_task sample_init 0) :=
    Reachable.push sample_init (some 0) "" 0 none 0 0 0 false false sample_init_reachable
  have h2 : Reachable sample_cfg (sample_tick (sample_push_task sample_init 0)) :=
    Reachable.iterate (sample_push_task sample_init 0) none h1
  have h3 : Reachable sample_cfg
      (gfx_animation_complete sample_cfg (sample_tick (sample_push_task sample_init 0)) 0) :=
    Reachable.animation (sample_tick (sample_push_task sample_init 0)) 0 h2
  have h4 : Reachable sample_cfg
      (sample_push
        (gfx_animation_complete sample_cfg (sample_tick (sample_push_task sample_init 0)) 0)
        "Saved state" 1000) :=
    Reachable.push
      (gfx_animation_complete sample_cfg (sample_tick (sample_push_task sample_init 0)) 0)
      none "Saved state" 1000 none 0 0 0 false false h3
  exact Reachable.iterate
    (sample_push
      (gfx_animation_complete sample_cfg (sample_tick (sample_push_task sample_init 0)) 0)
      "Saved state" 1000) none h4

/-- C1: in every state reachable from `gfx_widgets_init` by pushes, ticks and
completions of pending animations and timers in any order, the registry
`current_msgs` holds at most `MSG_QUEUE_ONSCREEN_MAX` notifications. -/
theorem registry_within_capacity (cfg : Config)
    (hmax : cfg.MSG_QUEUE_ONSCREEN_MAX < 4294967296) (s : State) (hr : Reachable cfg s) :
    (∃ l, s.current_msgs = some l ∧ l.size ≤ cfg.MSG_QUEUE_ONSCREEN_MAX)
    ∧ (registry s).length ≤ cfg.MSG_QUEUE_ONSCREEN_MAX := by
  obtain ⟨q, l, P, T, i⟩ := reachable_registry_inv cfg hmax s hr
  refine ⟨⟨l, i.hl, i.hsize⟩, ?_⟩
  unfold registry file_list_t.entries
  rw [i.hl]
  simp only [List.length_take]
  exact le_trans (min_le_left _ _) i.hsize

theorem registry_within_capacity_witness :
    Reachable sample_cfg sample_mixed
    ∧ (registry sample_mixed).length = 2
    ∧ (registry sample_mixed).length ≤ sample_cfg.MSG_QUEUE_ONSCREEN_MAX :=
  ⟨sample_mixed_reachable, by decide,
   (registry_within_capacity sample_cfg (by decide) sample_mixed sample_mixed_reachable).2⟩

/-- C5: in every reachable state the registry is a run of plain
notifications followed by a run of task notifications, and
`msg_queue_tasks_count` is the length of the run of task notifications; so a
registered task notification has a larger index than a registered plain
one. -/
theorem registry_plain_then_tasks (cfg : Config)
    (hmax : cfg.MSG_QUEUE_ONSCREEN_MAX < 4294967296) (s : State) (hr : Reachable cfg s) :
    (∃ P T : List Nat, registry s = (P ++ T).map some
        ∧ (∀ h ∈ P, task_bound s h = false) ∧ (∀ h ∈ T, task_bound s h = true)
        ∧ s.msg_queue_tasks_count = T.length)
    ∧ (∀ (i j p t : Nat), (registry s)[i]? = some (some p) → task_bound s p = false →
        (registry s)[j]? = some (some t) → task_bound s t = true → i < j) := by
  obtain ⟨q, l, P, T, inv⟩ := reachable_registry_inv cfg hmax s hr
  have hreg : registry s = (P ++ T).map some := by
    unfold registry
    rw [inv.hl]
    exact inv.hent
  refine ⟨⟨P, T, hreg, inv.hplain, inv.htask, inv.hcount⟩, ?_⟩
  intro i j p t hi hp hj ht
  rw [hreg, List.getElem?_map] at hi hj
  have hi2 : (P ++ T)[i]? = some p := by
    cases hx : (P ++ T)[i]? with
    | none => simp [hx] at hi
    | some x => simpa [hx] using hi
  have hj2 : (P ++ T)[j]? = some t := by
    cases hx : (P ++ T)[j]? with
    | none => simp [hx] at hj
    | some x => simpa [hx] using hj
  by_contra hcon
  have hji : j ≤ i := by omega
  by_cases hiP : i < P.length
  · have hjP : j < P.length := by omega
    rw [List.getElem?_append_left hjP] at hj2
    have := inv.hplain t (List.mem_iff_getElem?.2 ⟨_, hj2⟩)
    unfold task_bound at ht
    rw [this] at ht
    exact absurd ht (by simp)
  · rw [List.getElem?_append_right (by omega)] at hi2
    have := inv.htask p (List.mem_iff_getElem?.2 ⟨_, hi2⟩)
    unfold task_bound at hp
    rw [this] at hp
    exact absurd hp (by simp)

theorem registry_plain_then_tasks_witness :
    Reachable sample_cfg sample_mixed
    ∧ registry sample_mixed = [some 1, some 0]
    ∧ task_bound sample_mixed 1 = false
    ∧ task_bound sample_mixed 0 = true
    ∧ sample_mixed.msg_queue_tasks_count = 1
    ∧ (∀ (i j p t : Nat), (registry sample_mixed)[i]? = some (some p) →
        task_bound sample_mixed p = false →
        (registry sample_mixed)[j]? = some (some t) →
        task_bound sample_mixed t = true → i < j) :=
  ⟨sample_mixed_reachable, by decide, by decide, by decide, by decide,
   (registry_plain_then_tasks sample_cfg (by decide) sample_mixed sample_mixed_reachable).2⟩

theorem sample_both_unfolded_reachable : Reachable sample_cfg sample_both_unfolded := by
  have h0 : Reachable sample_cfg sample_pushed_two :=
    Reachable.push (sample_push sample_init "A" 5000) none "B" 1000 none 0 0 0 false false
      (Reachable.push sample_init none "A" 5000 none 0 0 0 false false sample_init_reachable)
  have h1 : Reachable sample_cfg sample_first_admitted :=
    Reachable.iterate sample_pushed_two none h0
  have h2 : Reachable sample_cfg (gfx_animation_complete sample_cfg sample_first_admitted 0) :=
    Reachable.animation sample_first_admitted 0 h1
  have h3 : Reachable sample_cfg
      (gfx_animation_complete sample_cfg
        (gfx_animation_complete sample_cfg sample_first_admitted 0) 0) :=
    Reachable.animation (gfx_animation_complete sample_cfg sample_first_admitted 0) 0 h2
  have h4 : Reachable sample_cfg
      (sample_tick
        (gfx_animation_complete sample_cfg
          (gfx_animation_complete sample_cfg sample_first_admitted 0) 0)) :=
    Reachable.iterate
      (gfx_animation_complete sample_cfg
        (gfx_animation_complete sample_cfg sample_first_admitted 0) 0) none h3
  have h5 := Reachable.animation
    (sample_tick
      (gfx_animation_complete sample_cfg
        (gfx_animation_complete sample_cfg sample_first_admitted 0) 0)) 0 h4
  have h6 := Reachable.animation _ 0 h5
  exact Reachable.animation _ 0 h6

theorem sample_two_folded_reachable : Reachable sample_cfg sample_two_folded := by
  have h1 : Reachable sample_cfg (gfx_timer_fire sample_cfg sample_both_unfolded 1) :=
    Reachable.timer sample_both_unfolded 1 sample_both_unfolded_reachable
  have h2 : Reachable sample_cfg sample_killing :=
    Reachable.iterate (gfx_timer_fire sample_cfg sample_both_unfolded 1) none h1
  have h3 : Reachable sample_cfg sample_released := Reachable.animation sample_killing 2 h2
  have h4 : Reachable sample_cfg (sample_push sample_released "C" 1000) :=
    Reachable.push sample_released none "C" 1000 none 0 0 0 false false h3
  have h5 : Reachable sample_cfg (sample_push (sample_push sample_released "C" 1000) "D" 1000) :=
    Reachable.push (sample_push sample_released "C" 1000) none "D" 1000 none 0 0 0 false
      false h4
  have h6 : Reachable sample_cfg sample_third_admitted :=
    Reachable.iterate (sample_push (sample_push sample_released "C" 1000) "D" 1000) none h5
  have h7 : Reachable sample_cfg sample_released_again :=
    Reachable.animation sample_third_admitted 1 h6
  exact Reachable.iterate sample_released_again none h7

theorem sample_first_admitted_settled : ReachableSettled sample_cfg sample_first_admitted := by
  have hpos : sample_layout.positive := by
    unfold layout_t.positive
    decide
  have h0 : ReachableSettled sample_cfg sample_init := ReachableSettled.init true sample_layout hpos
  have h1 : ReachableSettled sample_cfg sample_pushed_two :=
    ReachableSettled.push (sample_push sample_init "A" 5000) none "B" 1000 none 0 0 0 false
      false
      (ReachableSettled.push sample_init none "A" 5000 none 0 0 0 false false h0)
  have hs : settled sample_pushed_two := by
    unfold settled
    decide
  exact ReachableSettled.iterate sample_pushed_two none h1
    (fun v hv => Option.noConfusion hv) (fun _ => hs)

/-- A run in which the completions are delivered out of their order: the
reflow of "A" that the kill of "B" started completes before the fade of "B",
so `gfx_widgets_move_end` and later `gfx_widgets_msg_queue_kill_end` each
clear `widgets_moving`; the ticks after them admit "C" and "D", and both are
registered with `unfolded == false`. -/
theorem overlapping_reflows_two_folded :
    Reachable sample_cfg sample_two_folded
    ∧ registry sample_two_folded = [some 0, some 2, some 3]
    ∧ (sample_two_folded.msgs 2).unfolded = false
    ∧ (sample_two_folded.msgs 3).unfolded = false
    ∧ (not_unfolded sample_two_folded).length = 2 :=
  ⟨sample_two_folded_reachable, by decide, by decide, by decide, by decide⟩

/-- The single unfold under the discipline of the lock: in every state
reached by pushes, ticks, completions of pending animations and timers and
task changes, where every layout has a stride
`msg_queue_height + msg_queue_spacing` that is not zero and a tick admits a
notification only while no `gfx_widgets_move_end`, `gfx_widgets_unfold_end`
or `gfx_widgets_msg_queue_kill_end` is pending, at most one registry entry
has `unfolded == false`. -/
theorem single_unfold_settled (cfg : Config)
    (hmax : cfg.MSG_QUEUE_ONSCREEN_MAX < 4294967296) (s : State)
    (hr : ReachableSettled cfg s) : (not_unfolded s).length ≤ 1 :=
  not_unfolded_length s (reachable_settled_inv cfg hmax s hr)

theorem single_unfold_settled_witness :
    ReachableSettled sample_cfg sample_first_admitted
    ∧ registry sample_first_admitted = [some 0]
    ∧ (sample_first_admitted.msgs 0).unfolded = false
    ∧ (not_unfolded sample_first_admitted).length ≤ 1 :=
  ⟨sample_first_admitted_settled, by decide, by decide,
   single_unfold_settled sample_cfg (by decide) sample_first_admitted
     sample_first_admitted_settled⟩

/-- C7 fails on the code for a layout without height and spacing.  After
`gfx_widgets_init`, the pushes of "A" and "B" and two ticks, with no
completion of an animation or a timer in between: the reflow of the first
tick finds "A" at its target 0 and pushes no animation, so `widgets_moving`
stays clear and no `gfx_widgets_move_end` will unfold "A"; the second tick
admits "B", and the registry holds two entries with `unfolded == false`. -/
theorem flat_layout_two_folded :
    Reachable sample_cfg sample_flat
    ∧ (sample_flat_layout.msg_queue_height, sample_flat_layout.msg_queue_spacing) = (0, 0)
    ∧ registry sample_flat_first = [some 0]
    ∧ pending sample_flat_first = [1]
    ∧ (sample_flat_first.msgs 0).unfolded = false
    ∧ (sample_flat_first.msgs 0).offset_y = 0
    ∧ sample_flat_first.widgets_moving = false
    ∧ sample_flat_first.anims = []
    ∧ sample_flat = gfx_widgets_iterate sample_cfg sample_flat_first none
    ∧ registry sample_flat = [some 0, some 1]
    ∧ (sample_flat.msgs 0).unfolded = false
    ∧ (sample_flat.msgs 1).unfolded = false
    ∧ sample_flat.widgets_moving = false
    ∧ sample_flat.anims = []
    ∧ (not_unfolded sample_flat).length = 2 := by
  refine ⟨?_, by decide, by decide, by decide, by decide, by decide, by decide, by decide,
    rfl, by decide, by decide, by decide, by decide, by decide, by decide⟩
  exact Reachable.iterate _ none
    (Reachable.iterate _ none
      (Reachable.push _ none "B" 1000 none 0 0 0 false false
        (Reachable.push _ none "A" 5000 none 0 0 0 false false
          (Reachable.init true sample_flat_layout))))

/-! ### The progress text and the timer of an admitted notification -/

theorem percent_ne_task_failed :
    ∀ n : Nat, n < 101 → toString (Int.ofNat n) ++ "%" ≠ "Task failed" := by
  decide

theorem percent_ne_blank :
    ∀ n : Nat, n < 101 → toString (Int.ofNat n) ++ "%" ≠ " " := by
  decide

/-- C18: the progress text of `gfx_widgets_draw_task_msg` is "Task failed"
exactly when `task_finished` and `task_error` are both set; it is one blank
when `task_finished` is set without `task_error`; it is the decimal progress
followed by a percent sign when `task_finished` is not set and the progress
is from 0 to 100; and it is empty otherwise. -/
theorem draw_task_msg_task_percentage_cases (msg : menu_widget_msg_t) :
    (gfx_widgets_draw_task_msg_task_percentage msg = "Task failed"
        ↔ msg.task_finished = true ∧ msg.task_error = true)
    ∧ (msg.task_finished = true → msg.task_error = false →
        gfx_widgets_draw_task_msg_task_percentage msg = " ")
    ∧ (msg.task_finished = false → 0 ≤ msg.task_progress → msg.task_progress ≤ 100 →
        gfx_widgets_draw_task_msg_task_percentage msg
          = toString msg.task_progress.toNat ++ "%")
    ∧ (msg.task_finished = false → ¬ (0 ≤ msg.task_progress ∧ msg.task_progress ≤ 100) →
        gfx_widgets_draw_task_msg_task_percentage msg = "") := by
  have hnat : ∀ p : Int, 0 ≤ p → p ≤ 100 →
      p = Int.ofNat p.toNat ∧ p.toNat < 101 := by
    intro p h0 h1
    constructor
    · exact (Int.toNat_of_nonneg h0).symm
    · omega
  refine ⟨?_, ?_, ?_, ?_⟩
  · unfold gfx_widgets_draw_task_msg_task_percentage
    cases hf : msg.task_finished with
    | true =>
      cases he : msg.task_error with
      | true => simp
      | false => simp
    | false =>
      simp only [Bool.false_eq_true, if_false, false_and, iff_false]
      split
      · rename_i hp
        obtain ⟨e1, e2⟩ := hnat _ hp.1 hp.2
        rw [e1]
        exact percent_ne_task_failed _ e2
      · decide
  · intro hf he
    unfold gfx_widgets_draw_task_msg_task_percentage
    simp [hf, he]
  · intro hf h0 h1
    unfold gfx_widgets_draw_task_msg_task_percentage
    simp only [hf, Bool.false_eq_true, if_false, h0, h1, and_self, if_true]
    obtain ⟨e1, _⟩ := hnat _ h0 h1
    conv_lhs => rw [e1]
    rfl
  · intro hf hp
    unfold gfx_widgets_draw_task_msg_task_percentage
    simp only [hf, Bool.false_eq_true, if_false]
    rw [if_neg hp]

theorem draw_task_msg_task_percentage_cases_witness :
    gfx_widgets_draw_task_msg_task_percentage
        { menu_widget_msg_zero with task_ptr := some 0, task_progress := 50 } = "50%"
    ∧ gfx_widgets_draw_task_msg_task_percentage
        { menu_widget_msg_zero with task_ptr := some 0, task_progress := 50,
                                    task_finished := true } = " "
    ∧ gfx_widgets_draw_task_msg_task_percentage
        { menu_widget_msg_zero with task_ptr := some 0, task_progress := 50,
                                    task_finished := true, task_error := true }
        = "Task failed"
    ∧ gfx_widgets_draw_task_msg_task_percentage
        { menu_widget_msg_zero with task_ptr := some 0, task_progress := -1 } = "" :=
  ⟨((draw_task_msg_task_percentage_cases
      { menu_widget_msg_zero with task_ptr := some 0, task_progress := 50 }).2.2.1
      (by decide) (by decide) (by decide)).trans (by decide),
   (draw_task_msg_task_percentage_cases
      { menu_widget_msg_zero with task_ptr := some 0, task_progress := 50,
                                  task_finished := true }).2.1 (by decide) (by decide),
   (draw_task_msg_task_percentage_cases
      { menu_widget_msg_zero with task_ptr := some 0, task_progress := 50,
                                  task_finished := true, task_error := true }).1.2
      ⟨by decide, by decide⟩,
   (draw_task_msg_task_percentage_cases
      { menu_widget_msg_zero with task_ptr := some 0, task_progress := -1 }).2.2.2
      (by decide) (by decide)⟩

theorem iterate_consume_timer_of_admitted (cfg : Config) (s : State) (q : fifo_buffer_t)
    (l : file_list_t) (w : Nat) (rest : List Nat)
    (hq : s.msg_queue = some q) (hl : s.current_msgs = some l) (hb : q.buffer = w :: rest)
    (hc : gfx_widgets_iterate_consumes cfg s q l = true) :
    (gfx_widgets_iterate_consume cfg s).timers
      = (gfx_widgets_iterate_consume_timer cfg s w).timers
    ∧ (gfx_widgets_iterate_consume cfg s).msgs
      = (gfx_widgets_iterate_consume_timer cfg s w).msgs := by
  have hr : (fifo_read q).1 = some w := by simp [fifo_read, hb]
  have key : ∀ s2 : State, s2.msgs = s.msgs → s2.timers = s.timers →
      (gfx_widgets_iterate_consume_timer cfg s2 w).timers
        = (gfx_widgets_iterate_consume_timer cfg s w).timers
      ∧ (gfx_widgets_iterate_consume_timer cfg s2 w).msgs
        = (gfx_widgets_iterate_consume_timer cfg s w).msgs := by
    intro s2 e1 e2
    unfold gfx_widgets_iterate_consume_timer gfx_widgets_start_msg_expiration_timer
      gfx_widgets_hourglass_end
    rw [e1]
    split
    · split
      · simp [e1, e2, gfx_timer_start]
      · exact ⟨e2, e1⟩
    · simp [e1, e2, gfx_timer_start]
  unfold gfx_widgets_iterate_consume
  simp only [hq, hl, hc, if_true, hr]
  split
  · simp only [gfx_widgets_msg_queue_move_frame]
    exact key _ (by simp) (by simp)
  · exact key _ (by simp) (by simp)

theorem iterate_loop_keeps_timer (cfg : Config) (w : Nat) (e : gfx_timer_ctx_entry_t)
    (he : e.timer = (w, timer_field.expiration_timer)) :
    ∀ (n i : Nat) (s : State), (s.msgs w).task_ptr.isSome = false → e ∈ s.timers →
      e ∈ (gfx_widgets_iterate_loop cfg n i s).timers
      ∧ ((gfx_widgets_iterate_loop cfg n i s).msgs w).expiration_timer_started
          = (s.msgs w).expiration_timer_started := by
  intro n
  induction n with
  | zero =>
    intro i s _ hm
    simpa [gfx_widgets_iterate_loop] using hm
  | succ n ih =>
    intro i s hw hm
    unfold gfx_widgets_iterate_loop
    split
    · exact ⟨hm, rfl⟩
    · rename_i l hl
      split
      · split
        · exact ih _ _ hw hm
        · rename_i x hx
          have hstep : (((gfx_widgets_iterate_loop_timer cfg s x).msgs w).task_ptr.isSome = false
              ∧ e ∈ (gfx_widgets_iterate_loop_timer cfg s x).timers)
              ∧ ((gfx_widgets_iterate_loop_timer cfg s x).msgs w).expiration_timer_started
                  = (s.msgs w).expiration_timer_started := by
            unfold gfx_widgets_iterate_loop_timer
            split
            · rename_i hcond
              have hxw : x ≠ w := by
                intro e1
                rw [e1, hw] at hcond
                simp at hcond
              have hwx : w ≠ x := fun e1 => hxw e1.symm
              unfold gfx_widgets_start_msg_expiration_timer gfx_timer_start
              simp only [set_msg_proj, set_timers_proj, hwx, if_false]
              refine ⟨⟨hw, ?_⟩, trivial⟩
              apply List.mem_append_left
              rw [List.mem_filter]
              refine ⟨hm, ?_⟩
              simp [he, hwx]
            · exact ⟨⟨hw, hm⟩, rfl⟩
          obtain ⟨⟨k1, k2⟩, k3⟩ := hstep
          split
          · have hl1 : (gfx_widgets_iterate_loop_timer cfg s x).current_msgs = some l := by
              simpa using hl
            refine ⟨by simpa using k2, ?_⟩
            rw [msg_queue_kill_msgs cfg _ l i x hl1 hx w, ← k3]
            split
            · rename_i e1
              rw [e1]
            · rfl
          · obtain ⟨j1, j2⟩ := ih (i + 1) _ k1 k2
            exact ⟨j1, j2.trans k3⟩
      · exact ⟨hm, rfl⟩

theorem push_achievement_init_of_nonneg (s : State)
    (h : 0 ≤ s.cheevo_popup_queue_read_index) : gfx_widgets_push_achievement_init s = s := by
  unfold gfx_widgets_push_achievement_init
  rw [if_neg (by omega)]

theorem start_achievement_notification_generic_anims (cfg : Config) (s : State) :
    (gfx_widgets_start_achievement_notification cfg s).generic_anims
      = s.generic_anims ++
          [{ cb := cheevo_cb.gfx_widgets_achievement_unfold,
             duration := cfg.MSG_QUEUE_ANIMATION_DURATION,
             subject := cheevo_subject.cheevo_y,
             target_value := 0 }] := by
  unfold gfx_widgets_start_achievement_notification
  simp

theorem push_achievement_rejected (cfg : Config) (s : State) (title : String) (badge : Nat)
    (hact : s.widgets_active = true)
    (hfull : gfx_widgets_push_achievement_full (gfx_widgets_push_achievement_init s) = true) :
    gfx_widgets_push_achievement cfg s title badge = gfx_widgets_push_achievement_init s := by
  unfold gfx_widgets_push_achievement
  simp [hact, hfull]

theorem push_achievement_accepted (cfg : Config) (s : State) (title : String) (badge : Nat)
    (hact : s.widgets_active = true)
    (hfull : gfx_widgets_push_achievement_full (gfx_widgets_push_achievement_init s) = false) :
    (gfx_widgets_push_achievement cfg s title badge).cheevo_popup_queue
      = (fun k =>
          if k = (gfx_widgets_push_achievement_init s).cheevo_popup_queue_write_index then
            { title := some title, badge := badge }
          else (gfx_widgets_push_achievement_init s).cheevo_popup_queue k)
    ∧ (gfx_widgets_push_achievement cfg s title badge).cheevo_popup_queue_write_index
      = Int.tmod ((gfx_widgets_push_achievement_init s).cheevo_popup_queue_write_index + 1)
          CHEEVO_QUEUE_SIZE
    ∧ (gfx_widgets_push_achievement cfg s title badge).cheevo_popup_queue_read_index
      = (gfx_widgets_push_achievement_init s).cheevo_popup_queue_read_index
    ∧ (gfx_widgets_push_achievement cfg s title badge).generic_anims
      = (if (gfx_widgets_push_achievement_init s).cheevo_popup_queue_write_index
            = (gfx_widgets_push_achievement_init s).cheevo_popup_queue_read_index then
          s.generic_anims ++
            [{ cb := cheevo_cb.gfx_widgets_achievement_unfold,
               duration := cfg.MSG_QUEUE_ANIMATION_DURATION,
               subject := cheevo_subject.cheevo_y,
               target_value := 0 }]
         else s.generic_anims) := by
  unfold gfx_widgets_push_achievement
  simp only [hact, Bool.not_true, Bool.false_eq_true, if_false, hfull]
  split
  · rename_i he
    simp only [gfx_widgets_start_achievement_notification_frame,
      start_achievement_notification_generic_anims, if_true]
    unfold gfx_widgets_push_achievement_store
    simp
  · unfold gfx_widgets_push_achievement_store
    simp

theorem push_achievement_stored (cfg : Config) (s : State) (title : String) (badge : Nat)
    (hact : s.widgets_active = true) (hw : 0 ≤ s.cheevo_popup_queue_write_index)
    (hfull : gfx_widgets_push_achievement_full (gfx_widgets_push_achievement_init s) = false) :
    (0 ≤ s.cheevo_popup_queue_read_index → gfx_widgets_push_achievement_init s = s)
    ∧ (gfx_widgets_push_achievement cfg s title badge).cheevo_popup_queue
          (gfx_widgets_push_achievement_init s).cheevo_popup_queue_write_index
        = { title := some title, badge := badge }
    ∧ (gfx_widgets_push_achievement cfg s title badge).cheevo_popup_queue_write_index
        = ((gfx_widgets_push_achievement_init s).cheevo_popup_queue_write_index + 1)
            % CHEEVO_QUEUE_SIZE
    ∧ (gfx_widgets_push_achievement cfg s title badge).cheevo_popup_queue_read_index
        = (gfx_widgets_push_achievement_init s).cheevo_popup_queue_read_index
    ∧ (∀ i, i ≠ (gfx_widgets_push_achievement_init s).cheevo_popup_queue_write_index →
        (gfx_widgets_push_achievement cfg s title badge).cheevo_popup_queue i
          = (gfx_widgets_push_achievement_init s).cheevo_popup_queue i)
    ∧ ((gfx_widgets_push_achievement cfg s title badge).generic_anims
          = s.generic_anims ++
              [{ cb := cheevo_cb.gfx_widgets_achievement_unfold,
                 duration := cfg.MSG_QUEUE_ANIMATION_DURATION,
                 subject := cheevo_subject.cheevo_y,
                 target_value := 0 }]
        ↔ (gfx_widgets_push_achievement_init s).cheevo_popup_queue_write_index
            = (gfx_widgets_push_achievement_init s).cheevo_popup_queue_read_index
          ∧ ((gfx_widgets_push_achievement_init s).cheevo_popup_queue
              (gfx_widgets_push_achievement_init s).cheevo_popup_queue_read_index).title
              = none)
    ∧ (¬ ((gfx_widgets_push_achievement_init s).cheevo_popup_queue_write_index
            = (gfx_widgets_push_achievement_init s).cheevo_popup_queue_read_index
          ∧ ((gfx_widgets_push_achievement_init s).cheevo_popup_queue
              (gfx_widgets_push_achievement_init s).cheevo_popup_queue_read_index).title
              = none) →
        (gfx_widgets_push_achievement cfg s title badge).generic_anims = s.generic_anims) := by
  obtain ⟨a1, a2, a3, a4⟩ := push_achievement_accepted cfg s title badge hact hfull
  have hw1 : (gfx_widgets_push_achievement_init s).cheevo_popup_queue_write_index
      = s.cheevo_popup_queue_write_index := by simp
  have hempty : (gfx_widgets_push_achievement_init s).cheevo_popup_queue_write_index
      = (gfx_widgets_push_achievement_init s).cheevo_popup_queue_read_index →
      ((gfx_widgets_push_achievement_init s).cheevo_popup_queue
        (gfx_widgets_push_achievement_init s).cheevo_popup_queue_read_index).title = none := by
    intro he
    unfold gfx_widgets_push_achievement_full at hfull
    rw [he] at hfull
    simpa using hfull
  refine ⟨push_achievement_init_of_nonneg s, ?_, ?_, a3, ?_, ?_, ?_⟩
  · rw [a1]
    simp
  · rw [a2, hw1, Int.tmod_eq_emod (by omega) (by decide)]
  · intro i hi
    rw [a1]
    exact if_neg hi
  · rw [a4]
    constructor
    · intro h
      by_cases he : (gfx_widgets_push_achievement_init s).cheevo_popup_queue_write_index
          = (gfx_widgets_push_achievement_init s).cheevo_popup_queue_read_index
      · exact ⟨he, hempty he⟩
      · rw [if_neg he] at h
        have := congrArg List.length h
        simp at this
    · intro h
      rw [if_pos h.1]
  · intro h
    rw [a4, if_neg (fun he => h ⟨he, hempty he⟩)]

/-- C13: an accepted `gfx_widgets_push_achievement` stores the title and
the badge in the slot at the write index, advances the write index by one
modulo `CHEEVO_QUEUE_SIZE`, leaves the read index and every other slot as
they are, and starts the display exactly when the write index was equal to
the read index with the read slot empty.  The indices and slots before the
store are the ones after the block "queue uninitialized", which changes
nothing in an initialised ring. -/
theorem push_achievement_effect (cfg : Config) (s : State) (title : String) (badge : Nat)
    (hact : s.widgets_active = true) (hw : 0 ≤ s.cheevo_popup_queue_write_index)
    (hfull : gfx_widgets_push_achievement_full (gfx_widgets_push_achievement_init s) = false) :
    (0 ≤ s.cheevo_popup_queue_read_index → gfx_widgets_push_achievement_init s = s)
    ∧ (gfx_widgets_push_achievement cfg s title badge).cheevo_popup_queue
          (gfx_widgets_push_achievement_init s).cheevo_popup_queue_write_index
        = { title := some title, badge := badge }
    ∧ (gfx_widgets_push_achievement cfg s title badge).cheevo_popup_queue_write_index
        = ((gfx_widgets_push_achievement_init s).cheevo_popup_queue_write_index + 1)
            % CHEEVO_QUEUE_SIZE
    ∧ (gfx_widgets_push_achievement cfg s title badge).cheevo_popup_queue_read_index
        = (gfx_widgets_push_achievement_init s).cheevo_popup_queue_read_index
    ∧ (∀ i, i ≠ (gfx_widgets_push_achievement_init s).cheevo_popup_queue_write_index →
        (gfx_widgets_push_achievement cfg s title badge).cheevo_popup_queue i
          = (gfx_widgets_push_achievement_init s).cheevo_popup_queue i)
    ∧ ((gfx_widgets_push_achievement cfg s title badge).generic_anims
          = s.generic_anims ++
              [{ cb := cheevo_cb.gfx_widgets_achievement_unfold,
                 duration := cfg.MSG_QUEUE_ANIMATION_DURATION,
                 subject := cheevo_subject.cheevo_y,
                 target_value := 0 }]
        ↔ (gfx_widgets_push_achievement_init s).cheevo_popup_queue_write_index
            = (gfx_widgets_push_achievement_init s).cheevo_popup_queue_read_index
          ∧ ((gfx_widgets_push_achievement_init s).cheevo_popup_queue
              (gfx_widgets_push_achievement_init s).cheevo_popup_queue_read_index).title
              = none)
    ∧ (¬ ((gfx_widgets_push_achievement_init s).cheevo_popup_queue_write_index
            = (gfx_widgets_push_achievement_init s).cheevo_popup_queue_read_index
          ∧ ((gfx_widgets_push_achievement_init s).cheevo_popup_queue
              (gfx_widgets_push_achievement_init s).cheevo_popup_queue_read_index).title
              = none) →
        (gfx_widgets_push_achievement cfg s title badge).generic_anims = s.generic_anims) :=
  push_achievement_stored cfg s title badge hact hw hfull

theorem push_achievement_effect_witness :
    sample_unlocked.widgets_active = true
    ∧ sample_unlocked.cheevo_popup_queue_read_index = 0
    ∧ sample_unlocked.cheevo_popup_queue_write_index = 1
    ∧ sample_unlocked_two.cheevo_popup_queue 1 = { title := some "Speed Runner", badge := 6 }
    ∧ sample_unlocked_two.cheevo_popup_queue_write_index = 2
    ∧ sample_unlocked_two.cheevo_popup_queue_read_index = 0
    ∧ sample_unlocked_two.generic_anims = sample_unlocked.generic_anims := by
  have h := push_achievement_effect sample_cfg sample_unlocked "Speed Runner" 6
    (by decide) (by decide) (by decide)
  exact ⟨by decide, by decide, by decide, h.2.1.trans (by decide), h.2.2.1.trans (by decide),
    h.2.2.2.1.trans (by decide), h.2.2.2.2.2.2 (by decide)⟩

theorem achievement_free_current_fields (s : State) :
    (gfx_widgets_achievement_free_current s).cheevo_popup_queue
      = (fun k => if k = s.cheevo_popup_queue_read_index then { title := none, badge := 0 }
                  else s.cheevo_popup_queue k)
    ∧ (gfx_widgets_achievement_free_current s).cheevo_popup_queue_read_index
      = Int.tmod (s.cheevo_popup_queue_read_index + 1) CHEEVO_QUEUE_SIZE := by
  unfold gfx_widgets_achievement_free_current
  simp only [set_cheevo_popup_queue_read_index_proj]
  constructor
  · funext k
    by_cases hk : k = s.cheevo_popup_queue_read_index
    · subst hk
      cases ht : (s.cheevo_popup_queue s.cheevo_popup_queue_read_index).title with
      | none =>
        by_cases hb : (s.cheevo_popup_queue s.cheevo_popup_queue_read_index).badge = 0
        · simp [ht, hb]
          cases hx : s.cheevo_popup_queue s.cheevo_popup_queue_read_index
          rw [hx] at ht hb
          simp only at ht hb
          rw [ht, hb]
        · simp [ht, hb]
      | some x =>
        by_cases hb : (s.cheevo_popup_queue s.cheevo_popup_queue_read_index).badge = 0
        · simp [ht, hb]
        · simp [ht, hb]
    · split <;> split <;> simp [hk]
  · split <;> split <;> simp

theorem achievement_next_fields (cfg : Config) (s : State)
    (hr : 0 ≤ s.cheevo_popup_queue_read_index) :
    (gfx_widgets_achievement_next cfg s).cheevo_popup_queue s.cheevo_popup_queue_read_index
        = { title := none, badge := 0 }
    ∧ (gfx_widgets_achievement_next cfg s).cheevo_popup_queue_read_index
        = (s.cheevo_popup_queue_read_index + 1) % CHEEVO_QUEUE_SIZE
    ∧ (gfx_widgets_achievement_next cfg s).cheevo_popup_queue_write_index
        = s.cheevo_popup_queue_write_index
    ∧ (∀ i, i ≠ s.cheevo_popup_queue_read_index →
        (gfx_widgets_achievement_next cfg s).cheevo_popup_queue i = s.cheevo_popup_queue i)
    ∧ ((s.cheevo_popup_queue
          ((s.cheevo_popup_queue_read_index + 1) % CHEEVO_QUEUE_SIZE)).title.isSome = true →
        (gfx_widgets_achievement_next cfg s).generic_anims
          = s.generic_anims ++
              [{ cb := cheevo_cb.gfx_widgets_achievement_unfold,
                 duration := cfg.MSG_QUEUE_ANIMATION_DURATION,
                 subject := cheevo_subject.cheevo_y,
                 target_value := 0 }])
    ∧ ((s.cheevo_popup_queue
          ((s.cheevo_popup_queue_read_index + 1) % CHEEVO_QUEUE_SIZE)).title = none →
        (gfx_widgets_achievement_next cfg s).generic_anims = s.generic_anims) := by
  obtain ⟨f1, f2⟩ := achievement_free_current_fields s
  have hmod : Int.tmod (s.cheevo_popup_queue_read_index + 1) CHEEVO_QUEUE_SIZE
      = (s.cheevo_popup_queue_read_index + 1) % CHEEVO_QUEUE_SIZE :=
    Int.tmod_eq_emod (by omega) (by decide)
  rw [hmod] at f2
  have hne : (s.cheevo_popup_queue_read_index + 1) % CHEEVO_QUEUE_SIZE
      ≠ s.cheevo_popup_queue_read_index := by
    unfold CHEEVO_QUEUE_SIZE
    omega
  have hslot : ((gfx_widgets_achievement_free_current s).cheevo_popup_queue
      (gfx_widgets_achievement_free_current s).cheevo_popup_queue_read_index)
      = s.cheevo_popup_queue ((s.cheevo_popup_queue_read_index + 1) % CHEEVO_QUEUE_SIZE) := by
    rw [f1, f2]
    exact if_neg hne
  have hq : (gfx_widgets_achievement_next cfg s).cheevo_popup_queue
      = (gfx_widgets_achievement_free_current s).cheevo_popup_queue := by
    unfold gfx_widgets_achievement_next
    split <;> simp
  have hri : (gfx_widgets_achievement_next cfg s).cheevo_popup_queue_read_index
      = (gfx_widgets_achievement_free_current s).cheevo_popup_queue_read_index := by
    unfold gfx_widgets_achievement_next
    split <;> simp
  refine ⟨?_, by rw [hri, f2], by simp, ?_, ?_, ?_⟩
  · rw [hq, f1]
    simp
  · intro i hi
    rw [hq, f1]
    exact if_neg hi
  · intro h
    unfold gfx_widgets_achievement_next
    rw [hslot, if_pos h, start_achievement_notification_generic_anims]
    simp
  · intro h
    unfold gfx_widgets_achievement_next
    rw [hslot, h]
    simp

/-- C14: `gfx_widgets_achievement_next` on an initialised ring empties the
slot at the read index, advances the read index by one modulo
`CHEEVO_QUEUE_SIZE`, leaves the write index and every other slot as they
are, and restarts the display exactly when the slot at the new read index
holds a title. -/
theorem achievement_next_effect (cfg : Config) (s : State)
    (hr : 0 ≤ s.cheevo_popup_queue_read_index) :
    (gfx_widgets_achievement_next cfg s).cheevo_popup_queue s.cheevo_popup_queue_read_index
        = { title := none, badge := 0 }
    ∧ (gfx_widgets_achievement_next cfg s).cheevo_popup_queue_read_index
        = (s.cheevo_popup_queue_read_index + 1) % CHEEVO_QUEUE_SIZE
    ∧ (gfx_widgets_achievement_next cfg s).cheevo_popup_queue_write_index
        = s.cheevo_popup_queue_write_index
    ∧ (∀ i, i ≠ s.cheevo_popup_queue_read_index →
        (gfx_widgets_achievement_next cfg s).cheevo_popup_queue i = s.cheevo_popup_queue i)
    ∧ ((s.cheevo_popup_queue
          ((s.cheevo_popup_queue_read_index + 1) % CHEEVO_QUEUE_SIZE)).title.isSome = true →
        (gfx_widgets_achievement_next cfg s).generic_anims
          = s.generic_anims ++
              [{ cb := cheevo_cb.gfx_widgets_achievement_unfold,
                 duration := cfg.MSG_QUEUE_ANIMATION_DURATION,
                 subject := cheevo_subject.cheevo_y,
                 target_value := 0 }])
    ∧ ((s.cheevo_popup_queue
          ((s.cheevo_popup_queue_read_index + 1) % CHEEVO_QUEUE_SIZE)).title = none →
        (gfx_widgets_achievement_next cfg s).generic_anims = s.generic_anims) :=
  achievement_next_fields cfg s hr

theorem achievement_next_effect_witness :
    sample_unlocked_two.cheevo_popup_queue_read_index = 0
    ∧ (gfx_widgets_achievement_next sample_cfg sample_unlocked_two).cheevo_popup_queue 0
        = { title := none, badge := 0 }
    ∧ (gfx_widgets_achievement_next sample_cfg sample_unlocked_two).cheevo_popup_queue_read_index
        = 1
    ∧ (gfx_widgets_achievement_next sample_cfg sample_unlocked_two).cheevo_popup_queue_write_index
        = 2
    ∧ (gfx_widgets_achievement_next sample_cfg sample_unlocked_two).generic_anims.length
        = sample_unlocked_two.generic_anims.length + 1 := by
  have h := achievement_next_effect sample_cfg sample_unlocked_two (by decide)
  exact ⟨by decide, h.1, h.2.1.trans (by decide), h.2.2.1.trans (by decide),
    (congrArg List.length (h.2.2.2.2.1 (by decide))).trans (by simp)⟩

theorem push_achievement_filled (cfg : Config) (s : State) (r : Int) (k : Nat)
    (title : String) (badge : Nat) (hr : 0 ≤ r) (hr8 : r < CHEEVO_QUEUE_SIZE) (hk : k < 8)
    (h : cheevo_filled s r k) :
    cheevo_filled (gfx_widgets_push_achievement cfg s title badge) r (k + 1)
    ∧ (gfx_widgets_push_achievement cfg s title badge).cheevo_popup_queue
        ((r + k) % CHEEVO_QUEUE_SIZE) = { title := some title, badge := badge }
    ∧ (∀ i, i ≠ (r + k) % CHEEVO_QUEUE_SIZE →
        (gfx_widgets_push_achievement cfg s title badge).cheevo_popup_queue i
          = s.cheevo_popup_queue i) := by
  obtain ⟨h1, h2, h3, h4⟩ := h
  have hinit : gfx_widgets_push_achievement_init s = s :=
    push_achievement_init_of_nonneg s (by rw [h2]; exact hr)
  have hw0 : 0 ≤ s.cheevo_popup_queue_write_index := by
    rw [h3]
    unfold CHEEVO_QUEUE_SIZE
    omega
  have hfull : gfx_widgets_push_achievement_full (gfx_widgets_push_achievement_init s)
      = false := by
    rw [hinit]
    unfold gfx_widgets_push_achievement_full
    by_cases he : s.cheevo_popup_queue_write_index = s.cheevo_popup_queue_read_index
    · have hk0 : k = 0 := by
        rw [h2, h3] at he
        unfold CHEEVO_QUEUE_SIZE at he hr8
        omega
      have hslot := h4 r hr hr8
      rw [hk0] at hslot
      have hnone : (s.cheevo_popup_queue r).title.isSome = false := by
        cases hx : (s.cheevo_popup_queue r).title.isSome with
        | false => rfl
        | true =>
          have := hslot.1 hx
          unfold CHEEVO_QUEUE_SIZE at this
          omega
      rw [he, h2, hnone]
      simp
    · simp [he]
  obtain ⟨_, e2, e3, e4, e5, _, _⟩ :=
    push_achievement_stored cfg s title badge h1 hw0 hfull
  rw [hinit] at e2 e3 e4 e5
  rw [h3] at e2 e3 e5
  refine ⟨⟨by simpa using h1, by rw [e4, h2], ?_, ?_⟩, e2, e5⟩
  · rw [e3]
    unfold CHEEVO_QUEUE_SIZE
    push_cast
    omega
  · intro i hi0 hi8
    by_cases hi : i = (r + k) % CHEEVO_QUEUE_SIZE
    · rw [hi, e2]
      unfold CHEEVO_QUEUE_SIZE at hr8 ⊢
      simp only [Option.isSome_some, true_iff]
      push_cast
      omega
    · rw [e5 i hi, h4 i hi0 hi8]
      unfold CHEEVO_QUEUE_SIZE at hr8 hi hi8 ⊢
      push_cast
      omega

theorem push_achievements_filled (cfg : Config) (r : Int) (hr : 0 ≤ r)
    (hr8 : r < CHEEVO_QUEUE_SIZE) :
    ∀ (entries : List (String × Nat)) (s : State) (k : Nat), cheevo_filled s r k →
      k + entries.length ≤ 8 →
      cheevo_filled (gfx_widgets_push_achievements cfg s entries) r (k + entries.length)
      ∧ (∀ (j : Nat) (e : String × Nat), entries[j]? = some e →
          (gfx_widgets_push_achievements cfg s entries).cheevo_popup_queue
            ((r + k + j) % CHEEVO_QUEUE_SIZE) = { title := some e.1, badge := e.2 })
      ∧ (∀ i, 0 ≤ i → i < CHEEVO_QUEUE_SIZE → (i - r) % CHEEVO_QUEUE_SIZE < k →
          (gfx_widgets_push_achievements cfg s entries).cheevo_popup_queue i
            = s.cheevo_popup_queue i) := by
  intro entries
  induction entries with
  | nil =>
    intro s k h _
    refine ⟨by simpa [gfx_widgets_push_achievements] using h, ?_, ?_⟩
    · intro j e he
      simp at he
    · intro i _ _ _
      rfl
  | cons x rest ih =>
    intro s k h hlen
    simp only [List.length_cons] at hlen
    obtain ⟨p1, p2, p3⟩ := push_achievement_filled cfg s r k x.1 x.2 hr hr8 (by omega) h
    obtain ⟨q1, q2, q3⟩ := ih (gfx_widgets_push_achievement cfg s x.1 x.2) (k + 1) p1
      (by omega)
    have hfold : gfx_widgets_push_achievements cfg s (x :: rest)
        = gfx_widgets_push_achievements cfg (gfx_widgets_push_achievement cfg s x.1 x.2)
            rest := by
      unfold gfx_widgets_push_achievements
      rfl
    rw [hfold]
    refine ⟨?_, ?_, ?_⟩
    · have : k + (x :: rest).length = k + 1 + rest.length := by
        simp only [List.length_cons]
        omega
      rw [this]
      exact q1
    · intro j e he
      cases j with
      | zero =>
        have hx : e = x := by simpa using he.symm
        subst hx
        have hin : (0 : Int) ≤ (r + k) % CHEEVO_QUEUE_SIZE
            ∧ (r + k) % CHEEVO_QUEUE_SIZE < CHEEVO_QUEUE_SIZE := by
          unfold CHEEVO_QUEUE_SIZE
          omega
        have := q3 ((r + k) % CHEEVO_QUEUE_SIZE) hin.1 hin.2 (by
          unfold CHEEVO_QUEUE_SIZE at hr8 ⊢
          push_cast
          omega)
        simp only [Nat.cast_zero, add_zero]
        rw [this]
        exact p2
      | succ j =>
        have he2 : rest[j]? = some e := by simpa using he
        have := q2 j e he2
        have hidx : (r + ((k + 1 : Nat) : Int) + (j : Int)) = r + (k : Int) + ((j + 1 : Nat) : Int) := by
          push_cast
          omega
        rw [hidx] at this
        exact this
    · intro i hi0 hi8 hik
      rw [q3 i hi0 hi8 (by push_cast; omega)]
      apply p3
      unfold CHEEVO_QUEUE_SIZE at hr8 hik hi8 ⊢
      omega

theorem mem_cheevo_slots (s : State) (i : Int) (h0 : 0 ≤ i) (h8 : i < CHEEVO_QUEUE_SIZE) :
    s.cheevo_popup_queue i ∈ cheevo_slots s := by
  unfold cheevo_slots
  rw [List.mem_map]
  refine ⟨i.toNat, ?_, ?_⟩
  · rw [List.mem_range]
    unfold CHEEVO_QUEUE_SIZE at h8 ⊢
    omega
  · show s.cheevo_popup_queue ((i.toNat : Nat) : Int) = s.cheevo_popup_queue i
    rw [Int.toNat_of_nonneg h0]

theorem cheevo_filled_of_empty (s : State) (hact : s.widgets_active = true)
    (hw : s.cheevo_popup_queue_write_index = s.cheevo_popup_queue_read_index)
    (hr0 : 0 ≤ s.cheevo_popup_queue_read_index)
    (hr8 : s.cheevo_popup_queue_read_index < CHEEVO_QUEUE_SIZE)
    (hempty : ∀ p ∈ cheevo_slots s, p.title = none) :
    cheevo_filled s s.cheevo_popup_queue_read_index 0 := by
  refine ⟨hact, rfl, ?_, ?_⟩
  · rw [hw]
    unfold CHEEVO_QUEUE_SIZE at hr8 ⊢
    simp only [Nat.cast_zero, add_zero]
    omega
  · intro i hi0 hi8
    rw [hempty _ (mem_cheevo_slots s i hi0 hi8)]
    unfold CHEEVO_QUEUE_SIZE
    simp only [Option.isSome_none, Bool.false_eq_true, Nat.cast_zero, false_iff]
    omega

theorem achievement_ring_wraparound_initialised (cfg : Config) (s : State)
    (entries : List (String × Nat)) (title : String) (badge : Nat) (title2 : String)
    (badge2 : Nat) (hact : s.widgets_active = true)
    (hw : s.cheevo_popup_queue_write_index = s.cheevo_popup_queue_read_index)
    (hr0 : 0 ≤ s.cheevo_popup_queue_read_index)
    (hr8 : s.cheevo_popup_queue_read_index < CHEEVO_QUEUE_SIZE)
    (hempty : ∀ p ∈ cheevo_slots s, p.title = none)
    (hlen : entries.length = 8) :
    (∀ (j : Nat) (e : String × Nat), entries[j]? = some e →
        (gfx_widgets_push_achievements cfg s entries).cheevo_popup_queue
          ((s.cheevo_popup_queue_read_index + j) % CHEEVO_QUEUE_SIZE)
          = { title := some e.1, badge := e.2 })
    ∧ gfx_widgets_push_achievement cfg (gfx_widgets_push_achievements cfg s entries) title badge
        = gfx_widgets_push_achievements cfg s entries
    ∧ (gfx_widgets_push_achievements cfg s entries).cheevo_popup_queue_read_index
        = s.cheevo_popup_queue_read_index
    ∧ ((gfx_widgets_achievement_next cfg
          (gfx_widgets_push_achievements cfg s entries)).cheevo_popup_queue
          s.cheevo_popup_queue_read_index).title = none
    ∧ (gfx_widgets_push_achievement cfg
          (gfx_widgets_achievement_next cfg (gfx_widgets_push_achievements cfg s entries))
          title2 badge2).cheevo_popup_queue s.cheevo_popup_queue_read_index
        = { title := some title2, badge := badge2 }
    ∧ (∀ i, i ≠ s.cheevo_popup_queue_read_index →
        (gfx_widgets_push_achievement cfg
          (gfx_widgets_achievement_next cfg (gfx_widgets_push_achievements cfg s entries))
          title2 badge2).cheevo_popup_queue i
        = (gfx_widgets_push_achievements cfg s entries).cheevo_popup_queue i) := by
  have h0 := cheevo_filled_of_empty s hact hw hr0 hr8 hempty
  obtain ⟨⟨f1, f2, f3, f4⟩, g2, _⟩ := push_achievements_filled cfg
    s.cheevo_popup_queue_read_index hr0 hr8 entries s 0 h0 (by omega)
  generalize gfx_widgets_push_achievements cfg s entries = s8 at f1 f2 f3 f4 g2
  generalize s.cheevo_popup_queue_read_index = r at hr0 hr8 f2 f3 f4 g2
  have hw8 : s8.cheevo_popup_queue_write_index = r := by
    rw [f3, hlen]
    unfold CHEEVO_QUEUE_SIZE at hr8 ⊢
    push_cast
    omega
  have hfull8 : (s8.cheevo_popup_queue r).title.isSome = true := by
    apply (f4 r hr0 hr8).2
    rw [hlen]
    unfold CHEEVO_QUEUE_SIZE
    push_cast
    omega
  have hinit8 : gfx_widgets_push_achievement_init s8 = s8 :=
    push_achievement_init_of_nonneg s8 (by rw [f2]; exact hr0)
  obtain ⟨n1, n2, n3, n4, _, _⟩ := achievement_next_fields cfg s8 (by rw [f2]; exact hr0)
  rw [f2] at n1 n2 n4
  rw [hw8] at n3
  have hact9 : (gfx_widgets_achievement_next cfg s8).widgets_active = true := by
    simpa using f1
  have hinit9 : gfx_widgets_push_achievement_init (gfx_widgets_achievement_next cfg s8)
      = gfx_widgets_achievement_next cfg s8 :=
    push_achievement_init_of_nonneg _ (by
      rw [n2]
      unfold CHEEVO_QUEUE_SIZE
      omega)
  have hfull9 : gfx_widgets_push_achievement_full
      (gfx_widgets_push_achievement_init (gfx_widgets_achievement_next cfg s8)) = false := by
    rw [hinit9]
    unfold gfx_widgets_push_achievement_full
    rw [n3, n2]
    have : ¬ (r = (r + 1) % CHEEVO_QUEUE_SIZE) := by
      unfold CHEEVO_QUEUE_SIZE
      omega
    simp [this]
  obtain ⟨_, m2, _, _, m5, _, _⟩ := push_achievement_stored cfg
    (gfx_widgets_achievement_next cfg s8) title2 badge2 hact9 (by rw [n3]; exact hr0) hfull9
  rw [hinit9, n3] at m2 m5
  refine ⟨?_, ?_, f2, by rw [n1], m2, ?_⟩
  · intro j e he
    have := g2 j e he
    simpa using this
  · rw [push_achievement_rejected cfg s8 title badge f1 (by
      rw [hinit8]
      unfold gfx_widgets_push_achievement_full
      rw [hw8, f2, hfull8]
      simp), hinit8]
  · intro i hi
    rw [m5 i hi, n4 i hi]

theorem push_achievement_init_nonneg (s : State) :
    0 ≤ (gfx_widgets_push_achievement_init s).cheevo_popup_queue_read_index := by
  unfold gfx_widgets_push_achievement_init
  split
  · simp
  · omega

theorem push_achievement_after_init (cfg : Config) (s : State) (title : String) (badge : Nat)
    (hact : s.widgets_active = true) :
    gfx_widgets_push_achievement cfg (gfx_widgets_push_achievement_init s) title badge
      = gfx_widgets_push_achievement cfg s title badge := by
  have hi : gfx_widgets_push_achievement_init (gfx_widgets_push_achievement_init s)
      = gfx_widgets_push_achievement_init s :=
    push_achievement_init_of_nonneg _ (push_achievement_init_nonneg s)
  have ha : (gfx_widgets_push_achievement_init s).widgets_active = true := by simpa using hact
  unfold gfx_widgets_push_achievement
  rw [hi, ha, hact]
  rfl

/-- C11: from a freshly initialised empty ring, that is an active state in
which the block "queue uninitialized" of the first push leaves the two
indices equal and every slot empty, `CHEEVO_QUEUE_SIZE` calls of
`gfx_widgets_push_achievement` are all accepted and fill the slots from the
read index on; the next call is rejected and leaves the state, with both
indices and every slot, as it is; after one `gfx_widgets_achievement_next`
a further call is accepted and stores its entry in the slot that was just
freed, the one at the old read index. -/
theorem achievement_ring_wraparound (cfg : Config) (s : State)
    (entries : List (String × Nat)) (title : String) (badge : Nat) (title2 : String)
    (badge2 : Nat) (hact : s.widgets_active = true)
    (hw : (gfx_widgets_push_achievement_init s).cheevo_popup_queue_write_index
      = (gfx_widgets_push_achievement_init s).cheevo_popup_queue_read_index)
    (hr8 : (gfx_widgets_push_achievement_init s).cheevo_popup_queue_read_index
      < CHEEVO_QUEUE_SIZE)
    (hempty : ∀ p ∈ cheevo_slots (gfx_widgets_push_achievement_init s), p.title = none)
    (hlen : entries.length = 8) :
    (∀ (j : Nat) (e : String × Nat), entries[j]? = some e →
        (gfx_widgets_push_achievements cfg s entries).cheevo_popup_queue
          (((gfx_widgets_push_achievement_init s).cheevo_popup_queue_read_index + j)
            % CHEEVO_QUEUE_SIZE)
          = { title := some e.1, badge := e.2 })
    ∧ gfx_widgets_push_achievement cfg (gfx_widgets_push_achievements cfg s entries) title badge
        = gfx_widgets_push_achievements cfg s entries
    ∧ (gfx_widgets_push_achievements cfg s entries).cheevo_popup_queue_read_index
        = (gfx_widgets_push_achievement_init s).cheevo_popup_queue_read_index
    ∧ ((gfx_widgets_achievement_next cfg
          (gfx_widgets_push_achievements cfg s entries)).cheevo_popup_queue
          (gfx_widgets_push_achievement_init s).cheevo_popup_queue_read_index).title = none
    ∧ (gfx_widgets_push_achievement cfg
          (gfx_widgets_achievement_next cfg (gfx_widgets_push_achievements cfg s entries))
          title2 badge2).cheevo_popup_queue
          (gfx_widgets_push_achievement_init s).cheevo_popup_queue_read_index
        = { title := some title2, badge := badge2 }
    ∧ (∀ i, i ≠ (gfx_widgets_push_achievement_init s).cheevo_popup_queue_read_index →
        (gfx_widgets_push_achievement cfg
          (gfx_widgets_achievement_next cfg (gfx_widgets_push_achievements cfg s entries))
          title2 badge2).cheevo_popup_queue i
        = (gfx_widgets_push_achievements cfg s entries).cheevo_popup_queue i) := by
  have hs : gfx_widgets_push_achievements cfg s entries
      = gfx_widgets_push_achievements cfg (gfx_widgets_push_achievement_init s) entries := by
    cases entries with
    | nil => simp at hlen
    | cons e rest =>
      unfold gfx_widgets_push_achievements
      simp only [List.foldl_cons]
      rw [push_achievement_after_init cfg s e.1 e.2 hact]
  rw [hs]
  exact achievement_ring_wraparound_initialised cfg (gfx_widgets_push_achievement_init s)
    entries title badge title2 badge2 (by simpa using hact) hw (push_achievement_init_nonneg s)
    hr8 hempty hlen

theorem achievement_ring_wraparound_witness :
    cheevo_view sample_init = (-1, 0, [none, none, none, none, none, none, none, none], 0)
    ∧ cheevo_slots (gfx_widgets_push_achievements sample_cfg sample_init sample_achievements)
        = [{ title := some "One", badge := 1 }, { title := some "Two", badge := 2 },
           { title := some "Three", badge := 3 }, { title := some "Four", badge := 4 },
           { title := some "Five", badge := 5 }, { title := some "Six", badge := 6 },
           { title := some "Seven", badge := 7 }, { title := some "Eight", badge := 8 }]
    ∧ gfx_widgets_push_achievement sample_cfg
          (gfx_widgets_push_achievements sample_cfg sample_init sample_achievements)
          "Nine" 9
        = gfx_widgets_push_achievements sample_cfg sample_init sample_achievements
    ∧ (gfx_widgets_push_achievement sample_cfg
          (gfx_widgets_achievement_next sample_cfg
            (gfx_widgets_push_achievements sample_cfg sample_init sample_achievements))
          "Nine" 9).cheevo_popup_queue 0 = { title := some "Nine", badge := 9 } := by
  have h := achievement_ring_wraparound sample_cfg sample_init sample_achievements
    "Nine" 9 "Nine" 9 (by decide) (by decide) (by decide) (by decide) (by decide)
  exact ⟨by decide, by decide, h.2.1, h.2.2.2.2.1⟩

/-- C15 does not hold after a second `gfx_widgets_init`: the first
`gfx_widgets_init` leaves the write index 0 and the first push fills the
slot 0 and starts the display; after a teardown and a second
`gfx_widgets_init` the block "queue uninitialized" sets the read index to 0
and keeps the write index 1 of the first session, so the push fills the
slot 1, moves the write index to 2 and starts no display. -/
theorem achievement_reinit_keeps_write_index :
    cheevo_view sample_init = (-1, 0, [none, none, none, none, none, none, none, none], 0)
    ∧ cheevo_view sample_unlocked
        = (0, 1, [some "First Blood", none, none, none, none, none, none, none], 1)
    ∧ sample_torn_down.map cheevo_view
        = some (1, 1, [none, none, none, none, none, none, none, none], 0)
    ∧ sample_reinit.map cheevo_view
        = some (-1, 1, [none, none, none, none, none, none, none, none], 0)
    ∧ sample_reinit_unlocked.map cheevo_view
        = some (0, 2, [none, some "Second Wind", none, none, none, none, none, none], 0) :=
  ⟨by decide, by decide, by decide, by decide, by decide⟩

/-- C12 does not hold after a second `gfx_widgets_init`: seven pushes after
it fill the slots 1 to 7 and wrap the write index to 0, where the read
index is; the slot at the read index holds no title, which is the test for
an empty ring, while seven slots hold a title. -/
theorem achievement_ring_empty_test_fails :
    sample_reinit_wrapped.map cheevo_view
      = some (0, 0, [none, some "Second Wind", some "One", some "Two", some "Three",
                     some "Four", some "Five", some "Six"], 0)
    ∧ sample_reinit_wrapped.map
        (fun s => decide (s.cheevo_popup_queue_read_index = s.cheevo_popup_queue_write_index)
          && (s.cheevo_popup_queue s.cheevo_popup_queue_read_index).title.isNone)
        = some true
    ∧ sample_reinit_wrapped.map
        (fun s => (cheevo_slots s).all (fun p => p.title.isNone)) = some false :=
  ⟨by decide, by decide, by decide⟩

/-- C17 does not hold after a second `gfx_widgets_init`: the drain loop of
`gfx_widgets_free` ends at once, because the slot at the read index 0 holds
no title, and the title and the badge in the slot 1 stay. -/
theorem achievement_drain_leaves_slot :
    (sample_reinit_unlocked.bind (fun s => gfx_widgets_free s 8)).map cheevo_view
      = some (0, 2, [none, some "Second Wind", none, none, none, none, none, none], 0)
    ∧ (sample_reinit_unlocked.bind (fun s => gfx_widgets_free s 8)).map
        (fun s => s.cheevo_popup_queue 1) = some { title := some "Second Wind", badge := 6 }
    ∧ (sample_reinit_unlocked.bind (fun s => gfx_widgets_free s 0)).map cheevo_view
      = some (0, 2, [none, some "Second Wind", none, none, none, none, none, none], 0) :=
  ⟨by decide, by decide, by decide⟩

/-! ### Teardown -/

theorem torn_refl (s : State) : torn s s :=
  ⟨rfl, rfl, fun _ h => h, fun _ h => h, fun _ => Or.inr rfl, rfl, rfl, rfl⟩

theorem torn_trans {s2 s1 s : State} (a : torn s2 s1) (b : torn s1 s) : torn s2 s where
  current_msgs := a.current_msgs.trans b.current_msgs
  msgs := a.msgs.trans b.msgs
  anims := fun e h => b.anims e (a.anims e h)
  freed := fun h hh => a.freed h (b.freed h hh)
  backref := by
    intro t
    rcases a.backref t with h1 | h1
    · exact Or.inl h1
    · rcases b.backref t with h2 | h2
      · exact Or.inl (h1.trans h2)
      · exact Or.inr (h1.trans h2)
  widgets_inited := a.widgets_inited.trans b.widgets_inited
  widgets_active := a.widgets_active.trans b.widgets_active
  read_index := a.read_index.trans b.read_index

theorem backref_cleared_torn {s2 s1 s : State} (a : torn s2 s1) (h : Nat)
    (c : backref_cleared s1 s h) : backref_cleared s2 s h := by
  intro t h1 h2 h3 h4
  rcases a.backref t with k | k
  · exact k
  · rw [k]
    exact c t h1 h2 h3 h4

theorem msg_queue_free_torn (s : State) (m : Nat) :
    torn (gfx_widgets_msg_queue_free s m false) s
    ∧ backref_cleared (gfx_widgets_msg_queue_free s m false) s m
    ∧ (gfx_widgets_msg_queue_free s m false).msg_queue = s.msg_queue
    ∧ (gfx_widgets_msg_queue_free s m false).msgs_freed = s.msgs_freed := by
  have ht : (gfx_widgets_msg_queue_free s m false).tasks
      = (gfx_widgets_msg_queue_free_task s m).tasks := by
    unfold gfx_widgets_msg_queue_free
    simp
  have hc : (gfx_widgets_msg_queue_free s m false).current_msgs = s.current_msgs := by
    unfold gfx_widgets_msg_queue_free
    simp
  have hf : (gfx_widgets_msg_queue_free s m false).msgs_freed = s.msgs_freed := by
    unfold gfx_widgets_msg_queue_free
    simp
  refine ⟨⟨hc, by simp, free_anims_subset s m false, ?_, ?_, by simp, by simp, by simp⟩,
    ?_, by simp, hf⟩
  · intro h hh
    rw [hf]
    exact hh
  · intro t
    rw [ht]
    unfold gfx_widgets_msg_queue_free_task
    cases htp : (s.msgs m).task_ptr with
    | none => exact Or.inr rfl
    | some t0 =>
      simp only [set_msg_queue_tasks_count_proj]
      split
      · by_cases e : t = t0
        · left
          subst e
          simp
        · right
          simp [e]
      · exact Or.inr rfl
  · intro t h1 h2 h3 h4
    rw [ht]
    unfold gfx_widgets_msg_queue_free_task
    simp [h1, h2, h3, h4]

theorem free_fifo_spec :
    ∀ (n : Nat) (s : State) (q : fifo_buffer_t), s.msg_queue = some q →
      q.buffer.length ≤ n →
      torn (gfx_widgets_free_fifo n s) s
      ∧ (∀ h ∈ q.buffer, h ∈ (gfx_widgets_free_fifo n s).msgs_freed
          ∧ backref_cleared (gfx_widgets_free_fifo n s) s h) := by
  intro n
  induction n with
  | zero =>
    intro s q _ hlen
    refine ⟨by simpa [gfx_widgets_free_fifo] using torn_refl s, ?_⟩
    intro h hh
    have : q.buffer = [] := List.length_eq_zero.1 (by omega)
    rw [this] at hh
    simp at hh
  | succ n ih =>
    intro s q hq hlen
    unfold gfx_widgets_free_fifo
    simp only [hq]
    cases hb : q.buffer with
    | nil =>
      simp only [fifo_read_avail, hb, List.length_nil, gt_iff_lt, lt_self_iff_false, if_false]
      exact ⟨torn_refl s, fun h hh => by simp at hh⟩
    | cons w rest =>
      have hr : (fifo_read q).1 = some w := by simp [fifo_read, hb]
      have hr2 : (fifo_read q).2 = { q with buffer := rest } := by simp [fifo_read, hb]
      simp only [fifo_read_avail, hb, List.length_cons, gt_iff_lt, Nat.zero_lt_succ, if_true,
        hr, hr2]
      obtain ⟨f1, f2, f3, f4⟩ := msg_queue_free_torn
        (set_msg_queue s (some { q with buffer := rest })) w
      have hs0 : torn (set_msg_queue s (some { q with buffer := rest })) s :=
        ⟨by simp, by simp, fun _ h => by simpa using h, fun _ h => by simpa using h,
         fun _ => Or.inr (by simp), by simp, by simp, by simp⟩
      have f2s : backref_cleared
          (gfx_widgets_msg_queue_free (set_msg_queue s (some { q with buffer := rest })) w
            false) s w := by
        intro t h1 h2 h3 h4
        exact f2 t (by simpa using h1) (by simpa using h2) (by simpa using h3)
          (by simpa using h4)
      generalize gfx_widgets_msg_queue_free (set_msg_queue s (some { q with buffer := rest }))
        w false = s1 at f1 f2 f3 f4 f2s
      have t1 : torn (set_msgs_freed s1 (s1.msgs_freed ++ [w])) s := by
        refine torn_trans ?_ (torn_trans f1 hs0)
        exact ⟨by simp, by simp, fun _ h => by simpa using h,
          fun h hh => by simp [hh], fun _ => Or.inr (by simp), by simp, by simp, by simp⟩
      have hq1 : (set_msgs_freed s1 (s1.msgs_freed ++ [w])).msg_queue
          = some { q with buffer := rest } := by
        simp [f3]
      obtain ⟨g1, g2⟩ := ih (set_msgs_freed s1 (s1.msgs_freed ++ [w]))
        { q with buffer := rest } hq1 (by
          rw [hb] at hlen
          simp only [List.length_cons] at hlen
          simp only []
          omega)
      refine ⟨torn_trans g1 t1, ?_⟩
      intro h hh
      rcases List.mem_cons.1 hh with e | e
      · subst e
        constructor
        · apply g1.freed
          simp
        · apply backref_cleared_torn g1
          intro t h1 h2 h3 h4
          have := f2s t h1 h2 h3 h4
          simpa using this
      · obtain ⟨k1, k2⟩ := g2 h e
        refine ⟨k1, ?_⟩
        intro t h1 h2 h3 h4
        apply k2 t
        · rw [t1.msgs]; exact h1
        · rw [t1.msgs]; exact h2
        · rw [t1.msgs]; exact h3
        · rw [t1.msgs]; exact h4

theorem free_list_spec (l : file_list_t)
    (hsome : ∀ j, j < l.size → ∃ h, file_list_get_userdata l j = some h) :
    ∀ (n i : Nat) (s : State), l.size ≤ i + n →
      ∃ s1, gfx_widgets_free_list l n i s = some s1
        ∧ torn s1 s
        ∧ s1.msg_queue = s.msg_queue
        ∧ s1.msgs_freed = s.msgs_freed
        ∧ (∀ j h, i ≤ j → j < l.size → file_list_get_userdata l j = some h →
            backref_cleared s1 s h) := by
  intro n
  induction n with
  | zero =>
    intro i s hle
    refine ⟨s, rfl, torn_refl s, rfl, rfl, ?_⟩
    intro j h h1 h2 _
    omega
  | succ n ih =>
    intro i s hle
    unfold gfx_widgets_free_list
    by_cases hi : i < l.size
    · rw [if_pos hi]
      obtain ⟨m, hm⟩ := hsome i hi
      simp only [hm]
      obtain ⟨f1, f2, f3, f4⟩ := msg_queue_free_torn s m
      obtain ⟨s1, g1, g2, g3, g4, g5⟩ := ih (i + 1) (gfx_widgets_msg_queue_free s m false)
        (by omega)
      refine ⟨s1, g1, torn_trans g2 f1, g3.trans f3, g4.trans f4, ?_⟩
      intro j h h1 h2 h3
      by_cases e : j = i
      · subst e
        rw [hm] at h3
        have : m = h := Option.some.inj h3
        subst this
        exact backref_cleared_torn g2 m f2
      · have := g5 j h (by omega) h2 h3
        intro t k1 k2 k3 k4
        apply this t
        · rw [f1.msgs]; exact k1
        · rw [f1.msgs]; exact k2
        · rw [f1.msgs]; exact k3
        · rw [f1.msgs]; exact k4
    · rw [if_neg hi]
      refine ⟨s, rfl, torn_refl s, rfl, rfl, ?_⟩
      intro j h h1 h2 _
      omega

theorem free_queue_spec (s : State) (q : fifo_buffer_t) (l : file_list_t)
    (hq : s.msg_queue = some q) (hl : s.current_msgs = some l)
    (hwf : l.size ≤ l.list.length)
    (hsome : ∀ j, j < l.size → ∃ h, file_list_get_userdata l j = some h) :
    ∃ s1, gfx_widgets_free_queue s = some s1
      ∧ s1.msg_queue = none ∧ s1.current_msgs = none
      ∧ (∀ h ∈ pending s, h ∈ s1.msgs_freed)
      ∧ (∀ h, some h ∈ registry s → h ∈ s1.msgs_freed)
      ∧ s1.msgs = s.msgs
      ∧ (∀ e ∈ s1.anims, e ∈ s.anims)
      ∧ s1.msg_queue_tasks_count = 0
      ∧ s1.widgets_inited = false ∧ s1.widgets_active = false
      ∧ s1.cheevo_popup_queue_read_index = s.cheevo_popup_queue_read_index
      ∧ (∀ h, (h ∈ pending s ∨ some h ∈ registry s) → backref_cleared s1 s h) := by
  have t0 : torn (set_generic_anims (set_widgets_active (set_widgets_inited s false) false) [])
      (set_widgets_active (set_widgets_inited s false) false) :=
    ⟨by simp, by simp, fun _ h => by simpa using h, fun _ h => by simpa using h,
     fun _ => Or.inr (by simp), by simp, by simp, by simp⟩
  have hq0 : (set_generic_anims (set_widgets_active (set_widgets_inited s false) false)
      []).msg_queue = some q := by simpa using hq
  have hl0 : (set_generic_anims (set_widgets_active (set_widgets_inited s false) false)
      []).current_msgs = some l := by simpa using hl
  have hm0 : (set_generic_anims (set_widgets_active (set_widgets_inited s false) false)
      []).msgs = s.msgs := by simp
  have ha0 : (set_generic_anims (set_widgets_active (set_widgets_inited s false) false)
      []).anims = s.anims := by simp
  have hi0 : (set_generic_anims (set_widgets_active (set_widgets_inited s false) false)
      []).widgets_inited = false := by simp
  have hact0 : (set_generic_anims (set_widgets_active (set_widgets_inited s false) false)
      []).widgets_active = false := by simp
  have hr0 : (set_generic_anims (set_widgets_active (set_widgets_inited s false) false)
      []).cheevo_popup_queue_read_index = s.cheevo_popup_queue_read_index := by simp
  unfold gfx_widgets_free_queue
  simp only []
  generalize set_generic_anims (set_widgets_active (set_widgets_inited s false) false) [] = s1
    at hq0 hl0 hm0 ha0 hi0 hact0 hr0
  simp only [hq0]
  obtain ⟨f1, f2⟩ := free_fifo_spec (fifo_read_avail q) s1 q hq0 (le_refl _)
  have hl2 : (set_msg_queue (gfx_widgets_free_fifo (fifo_read_avail q) s1) none).current_msgs
      = some l := by
    simp only [set_msg_queue_proj]
    rw [f1.current_msgs]
    exact hl0
  simp only [hl2]
  obtain ⟨s4, g1, g2, g3, g4, g5⟩ := free_list_spec l hsome l.size 0
    (set_msg_queue (gfx_widgets_free_fifo (fifo_read_avail q) s1) none) (by omega)
  have t2 : torn (set_msg_queue (gfx_widgets_free_fifo (fifo_read_avail q) s1) none) s1 := by
    refine torn_trans ?_ f1
    exact ⟨by simp, by simp, fun _ h => by simpa using h, fun _ h => by simpa using h,
      fun _ => Or.inr (by simp), by simp, by simp, by simp⟩
  have t4 : torn s4 s1 := torn_trans g2 t2
  refine ⟨set_msg_queue_tasks_count (file_list_free s4 l) 0, by rw [g1]; rfl, ?_⟩
  have hfreed : (set_msg_queue_tasks_count (file_list_free s4 l) 0).msgs_freed
      = s4.msgs_freed ++ l.entries.filterMap id := by
    unfold file_list_free
    simp
  have htasks : (set_msg_queue_tasks_count (file_list_free s4 l) 0).tasks = s4.tasks := by
    unfold file_list_free
    simp
  have hps : pending s = q.buffer := by
    unfold pending
    rw [hq]
  have hrs : registry s = l.entries := by
    unfold registry
    rw [hl]
  refine ⟨?_, ?_, ?_, ?_, ?_, ?_, ?_, ?_, ?_, ?_, ?_⟩
  · unfold file_list_free
    simp [g3]
  · unfold file_list_free
    simp
  · intro h hh
    rw [hps] at hh
    rw [hfreed]
    apply List.mem_append_left
    rw [g4]
    simpa using (f2 h hh).1
  · intro h hh
    rw [hrs] at hh
    rw [hfreed]
    apply List.mem_append_right
    rw [List.mem_filterMap]
    exact ⟨some h, hh, rfl⟩
  · unfold file_list_free
    simp only [set_msg_queue_tasks_count_proj, set_current_msgs_proj, set_msgs_freed_proj]
    rw [t4.msgs, hm0]
  · intro e he
    have he2 : e ∈ s4.anims := by
      unfold file_list_free at he
      simpa using he
    rw [← ha0]
    exact t4.anims e he2
  · simp
  · unfold file_list_free
    simp only [set_msg_queue_tasks_count_proj, set_current_msgs_proj, set_msgs_freed_proj]
    rw [t4.widgets_inited, hi0]
  · unfold file_list_free
    simp only [set_msg_queue_tasks_count_proj, set_current_msgs_proj, set_msgs_freed_proj]
    rw [t4.widgets_active, hact0]
  · unfold file_list_free
    simp only [set_msg_queue_tasks_count_proj, set_current_msgs_proj, set_msgs_freed_proj]
    rw [t4.read_index, hr0]
  · intro h hh t k1 k2 k3 k4
    rw [htasks]
    rw [← hm0] at k1 k2 k3 k4
    rcases hh with hh | hh
    · rw [hps] at hh
      have c1 := (f2 h hh).2
      exact backref_cleared_torn (torn_trans g2
        ⟨by simp, by simp, fun _ h => by simpa using h, fun _ h => by simpa using h,
         fun _ => Or.inr (by simp), by simp, by simp, by simp⟩) h c1 t k1 k2 k3 k4
    · rw [hrs] at hh
      obtain ⟨j, hj, hjh⟩ := get_of_mem_entries l h hwf hh
      have c2 := g5 j h (by omega) hj hjh
      apply c2 t
      · rw [t2.msgs]; exact k1
      · rw [t2.msgs]; exact k2
      · rw [t2.msgs]; exact k3
      · rw [t2.msgs]; exact k4

theorem reachable_read_index (cfg : Config) (s : State) (hr : Reachable cfg s) :
    s.cheevo_popup_queue_read_index = -1 := by
  induction hr with
  | init has_icons layout =>
    unfold gfx_widgets_init
    simp only [set_widgets_active_proj, set_layout_proj, set_msg_queue_has_icons_proj]
    split <;> simp
  | push s task msg duration title icon category prio flush alive _ ih =>
    unfold gfx_widgets_msg_queue_push
    split
    · exact ih
    · split
      · exact ih
      · split
        · split
          · split
            · simpa using ih
            · simpa using ih
          · simpa using ih
        · exact ih
  | iterate s relayout _ ih =>
    unfold gfx_widgets_iterate
    split
    · exact ih
    · simpa using ih
  | animation s n _ ih =>
    unfold gfx_animation_complete
    cases he : s.anims.get? n with
    | none => exact ih
    | some e =>
      simp only []
      cases hcb : e.cb <;> cases hu : e.userdata <;>
        simp [gfx_animation_run_cb, ih]
  | timer s n _ ih =>
    unfold gfx_timer_fire
    cases he : s.timers.get? n with
    | none => exact ih
    | some e =>
      simp only []
      split <;> simpa using ih
  | task s t r _ _ ih => simpa using ih

theorem msg_queue_push_read_index (cfg : Config) (s : State) (task : Option Nat) (msg : String)
    (duration : Nat) (title : Option String) (icon category prio : Nat)
    (flush alive : Bool) :
    (gfx_widgets_msg_queue_push cfg s task msg duration title icon category prio flush
      alive).cheevo_popup_queue_read_index = s.cheevo_popup_queue_read_index := by
  unfold gfx_widgets_msg_queue_push
  split
  · rfl
  · split
    · rfl
    · split
      · split
        · split
          · simp
          · simp
        · simp
      · rfl

theorem iterate_read_index (cfg : Config) (s : State) (relayout : Option layout_t) :
    (gfx_widgets_iterate cfg s relayout).cheevo_popup_queue_read_index
      = s.cheevo_popup_queue_read_index := by
  unfold gfx_widgets_iterate
  split
  · rfl
  · simp

theorem animation_complete_read_index (cfg : Config) (s : State) (n : Nat) :
    (gfx_animation_complete cfg s n).cheevo_popup_queue_read_index
      = s.cheevo_popup_queue_read_index := by
  unfold gfx_animation_complete
  cases he : s.anims.get? n with
  | none => rfl
  | some e =>
    simp only []
    cases hcb : e.cb <;> cases hu : e.userdata <;> simp [gfx_animation_run_cb]

theorem timer_fire_read_index (cfg : Config) (s : State) (n : Nat) :
    (gfx_timer_fire cfg s n).cheevo_popup_queue_read_index
      = s.cheevo_popup_queue_read_index := by
  unfold gfx_timer_fire
  cases he : s.timers.get? n with
  | none => rfl
  | some e =>
    simp only []
    split <;> simp

theorem reachable_cheevos_read_index (cfg : Config) (s : State)
    (hr : ReachableCheevos cfg s) :
    -1 ≤ s.cheevo_popup_queue_read_index
      ∧ s.cheevo_popup_queue_read_index < CHEEVO_QUEUE_SIZE := by
  induction hr with
  | init has_icons layout =>
    have : (gfx_widgets_init cfg dispwidget_st has_icons layout).cheevo_popup_queue_read_index
        = -1 := by
      unfold gfx_widgets_init
      simp only [set_widgets_active_proj, set_layout_proj, set_msg_queue_has_icons_proj]
      split <;> simp
    rw [this]
    decide
  | push s task msg duration title icon category prio flush alive _ ih =>
    rw [msg_queue_push_read_index]; exact ih
  | iterate s relayout _ ih => rw [iterate_read_index]; exact ih
  | animation s n _ ih => rw [animation_complete_read_index]; exact ih
  | timer s n _ ih => rw [timer_fire_read_index]; exact ih
  | task s t r _ _ ih => simpa using ih
  | push_achievement s title badge _ ih =>
    have h1 : (gfx_widgets_push_achievement_init s).cheevo_popup_queue_read_index
        = if s.cheevo_popup_queue_read_index < 0 then 0 else s.cheevo_popup_queue_read_index := by
      unfold gfx_widgets_push_achievement_init
      split <;> simp
    unfold gfx_widgets_push_achievement
    unfold CHEEVO_QUEUE_SIZE at ih ⊢
    split
    · exact ih
    · split
      · rw [h1]; split <;> omega
      · split
        · simp only [gfx_widgets_start_achievement_notification_frame,
            gfx_widgets_push_achievement_store_frame]
          rw [h1]; split <;> omega
        · simp only [gfx_widgets_push_achievement_store_frame]
          rw [h1]; split <;> omega
  | achievement_next s _ h0 ih =>
    have := (achievement_next_fields cfg s h0).2.1
    rw [this]
    unfold CHEEVO_QUEUE_SIZE
    omega

theorem push_achievement_same_core (cfg : Config) (s : State) (title : String) (badge : Nat) :
    same_core (gfx_widgets_push_achievement cfg s title badge) s :=
  ⟨by simp, by simp, by simp, by simp, by simp, fun h => by simp, fun t => by simp⟩

theorem achievement_next_same_core (cfg : Config) (s : State) :
    same_core (gfx_widgets_achievement_next cfg s) s :=
  ⟨by simp, by simp, by simp, by simp, by simp, fun h => by simp, fun t => by simp⟩

theorem reachable_cheevos_registry_inv (cfg : Config)
    (hmax : cfg.MSG_QUEUE_ONSCREEN_MAX < 4294967296)
    (s : State) (hr : ReachableCheevos cfg s) :
    ∃ q l P T, registry_inv cfg s q l P T := by
  induction hr with
  | init has_icons layout => exact ⟨_, _, _, _, registry_inv_init cfg hmax has_icons layout⟩
  | push s task msg duration title icon category prio flush alive _ ih =>
    obtain ⟨q, l, P, T, i⟩ := ih
    obtain ⟨q1, i1⟩ := registry_inv_push cfg s q l P T i task msg duration title icon category
      prio flush alive
    exact ⟨q1, l, P, T, i1⟩
  | iterate s relayout _ ih =>
    obtain ⟨q, l, P, T, i⟩ := ih
    exact registry_inv_iterate cfg hmax s relayout q l P T i
  | animation s n _ ih =>
    obtain ⟨q, l, P, T, i⟩ := ih
    obtain ⟨l1, P1, T1, i1⟩ := registry_inv_animation cfg hmax s n q l P T i
    exact ⟨q, l1, P1, T1, i1⟩
  | timer s n _ ih =>
    obtain ⟨q, l, P, T, i⟩ := ih
    exact ⟨q, l, P, T, registry_inv_timer cfg s n q l P T i⟩
  | task s t r _ hr ih =>
    obtain ⟨q, l, P, T, i⟩ := ih
    exact ⟨q, l, P, T, registry_inv_task cfg s t r hr q l P T i⟩
  | push_achievement s title badge _ ih =>
    obtain ⟨q, l, P, T, i⟩ := ih
    exact ⟨q, l, P, T, registry_inv_congr (push_achievement_same_core cfg s title badge) i⟩
  | achievement_next s _ _ ih =>
    obtain ⟨q, l, P, T, i⟩ := ih
    exact ⟨q, l, P, T, registry_inv_congr (achievement_next_same_core cfg s) i⟩

theorem reachable_cheevos_of_reachable (cfg : Config) (s : State) (hr : Reachable cfg s) :
    ReachableCheevos cfg s := by
  induction hr with
  | init has_icons layout => exact ReachableCheevos.init has_icons layout
  | push s task msg duration title icon category prio flush alive _ ih =>
    exact ReachableCheevos.push s task msg duration title icon category prio flush alive ih
  | iterate s relayout _ ih => exact ReachableCheevos.iterate s relayout ih
  | animation s n _ ih => exact ReachableCheevos.animation s n ih
  | timer s n _ ih => exact ReachableCheevos.timer s n ih
  | task s t r _ hr ih => exact ReachableCheevos.task s t r ih hr

theorem achievement_free_current_slot (s : State) (i : Int)
    (hi : i ≠ s.cheevo_popup_queue_read_index) :
    (gfx_widgets_achievement_free_current s).cheevo_popup_queue i = s.cheevo_popup_queue i := by
  obtain ⟨f1, _⟩ := achievement_free_current_fields s
  rw [f1]
  exact if_neg hi

theorem free_cheevos_returns (r0 : Int) (h0 : 0 ≤ r0) (h8 : r0 < CHEEVO_QUEUE_SIZE) :
    ∀ (k : Nat) (s : State), k ≤ 8 →
      s.cheevo_popup_queue_read_index = (r0 + (8 - k : Nat)) % CHEEVO_QUEUE_SIZE →
      (k < 8 → (s.cheevo_popup_queue r0).title = none) →
      ∃ s1, gfx_widgets_free_cheevos k s = some s1
        ∧ s1.msg_queue = s.msg_queue ∧ s1.current_msgs = s.current_msgs
        ∧ s1.msgs_freed = s.msgs_freed ∧ s1.msgs = s.msgs ∧ s1.anims = s.anims
        ∧ s1.msg_queue_tasks_count = s.msg_queue_tasks_count
        ∧ s1.widgets_inited = s.widgets_inited ∧ s1.widgets_active = s.widgets_active
        ∧ s1.tasks = s.tasks := by
  intro k
  induction k with
  | zero =>
    intro s _ hr ht
    have hr0 : s.cheevo_popup_queue_read_index = r0 := by
      rw [hr]
      unfold CHEEVO_QUEUE_SIZE at h8 ⊢
      simp
      omega
    refine ⟨s, ?_, rfl, rfl, rfl, rfl, rfl, rfl, rfl, rfl, rfl⟩
    unfold gfx_widgets_free_cheevos
    rw [hr0, ht (by decide)]
    rfl
  | succ k ih =>
    intro s hk hr ht
    unfold gfx_widgets_free_cheevos
    by_cases hc : (s.cheevo_popup_queue s.cheevo_popup_queue_read_index).title.isSome = true
    · rw [if_pos hc]
      obtain ⟨f1, f2⟩ := achievement_free_current_fields s
      have hmod : Int.tmod (s.cheevo_popup_queue_read_index + 1) CHEEVO_QUEUE_SIZE
          = (s.cheevo_popup_queue_read_index + 1) % CHEEVO_QUEUE_SIZE :=
        Int.tmod_eq_emod (by rw [hr]; unfold CHEEVO_QUEUE_SIZE; omega) (by decide)
      obtain ⟨s1, e1, g1, g2, g3, g4, g5, g6, g7, g8, g9⟩ :=
        ih (gfx_widgets_achievement_free_current s) (by omega)
          (by
            rw [f2, hmod, hr]
            unfold CHEEVO_QUEUE_SIZE at h8 ⊢
            omega)
          (by
            intro _
            rw [f1]
            by_cases hx : r0 = s.cheevo_popup_queue_read_index
            · simp only [if_pos hx]
            · simp only [if_neg hx]
              apply ht
              rw [hr] at hx
              unfold CHEEVO_QUEUE_SIZE at hx h8
              omega)
      refine ⟨s1, e1, ?_, ?_, ?_, ?_, ?_, ?_, ?_, ?_, ?_⟩
      · rw [g1]; simp
      · rw [g2]; simp
      · rw [g3]; simp
      · rw [g4]; simp
      · rw [g5]; simp
      · rw [g6]; simp
      · rw [g7]; simp
      · rw [g8]; simp
      · rw [g9]; simp
    · rw [if_neg hc]
      exact ⟨s, rfl, rfl, rfl, rfl, rfl, rfl, rfl, rfl, rfl, rfl⟩

theorem free_cheevos_more_fuel (j : Nat) :
    ∀ (k : Nat) (s s1 : State), gfx_widgets_free_cheevos k s = some s1 →
      gfx_widgets_free_cheevos (k + j) s = some s1 := by
  intro k
  induction k with
  | zero =>
    intro s s1 h
    unfold gfx_widgets_free_cheevos at h
    split at h
    · simp at h
    · cases j with
      | zero => unfold gfx_widgets_free_cheevos; rw [if_neg (by assumption)]; exact h
      | succ j =>
        rw [Nat.zero_add]
        unfold gfx_widgets_free_cheevos
        rw [if_neg (by assumption)]
        exact h
  | succ k ih =>
    intro s s1 h
    rw [Nat.add_right_comm]
    unfold gfx_widgets_free_cheevos at h ⊢
    split at h
    · rw [if_pos (by assumption)]
      exact ih _ _ h
    · rw [if_neg (by assumption)]
      exact h

theorem sample_pending_unlocked_reachable : ReachableCheevos sample_cfg sample_pending_unlocked :=
  ReachableCheevos.push_achievement sample_pending_task "First Blood" 5
    (reachable_cheevos_of_reachable sample_cfg sample_pending_task
      (Reachable.push sample_mixed (some 1) "" 0 none 0 0 0 false false sample_mixed_reachable))

theorem trace_kill_complete (cfg : Config) (t : State) (l : file_list_t) (h : Nat)
    (d : gfx_animation_ctx_entry_t) (tv : Int)
    (hl : t.current_msgs = some l) (hs : l.size = 1)
    (hg : file_list_get_userdata l 0 = some h) (hk : t.msg_queue_kill = 0)
    (hd : d.tag = h)
    (ha : t.anims = [d, ({ cb := anim_cb.gfx_widgets_msg_queue_kill_end,
                           duration := cfg.MSG_QUEUE_ANIMATION_DURATION,
                           tag := h, userdata := none,
                           subject := (h, anim_subject.alpha),
                           target_value := tv } : gfx_animation_ctx_entry_t)]) :
    registry (gfx_animation_complete cfg t 1) = []
    ∧ h ∈ (gfx_animation_complete cfg t 1).msgs_freed
    ∧ (gfx_animation_complete cfg t 1).widgets_moving = false
    ∧ (gfx_animation_complete cfg t 1).anims = [] := by
  unfold gfx_animation_complete
  simp only [ha, List.get?, gfx_animation_run_cb]
  generalize hu : gfx_animation_set_subject (set_anims t (List.eraseIdx _ 1)) _ _ = u
  have hul : u.current_msgs = some l := by rw [← hu]; simp [hl]
  have huk : u.msg_queue_kill = 0 := by rw [← hu]; simp [hk]
  have hua : u.anims = [d] := by rw [← hu]; simp
  unfold gfx_widgets_msg_queue_kill_end
  simp only [hul, huk, hg]
  unfold gfx_widgets_msg_queue_free
  simp only [if_true]
  generalize hv : gfx_widgets_msg_queue_free_kill (gfx_widgets_msg_queue_free_task u h) h = v
  have hvl : v.current_msgs = some l := by rw [← hv]; simp [hul]
  have hvk : v.msg_queue_kill = 0 := by rw [← hv]; simp [huk]
  have hva : v.anims = [] := by
    rw [← hv]; unfold gfx_widgets_msg_queue_free_kill
    split <;> simp [hua, hd]
  unfold gfx_widgets_msg_queue_free_list
  simp only [hvl, hvk]
  refine ⟨?_, ?_, ?_, ?_⟩
  · simp [registry, file_list_t.entries, hs, u64]
  · simp [hg]
  · simp
  · simp [hva]


theorem trace_second_tick (cfg : Config) (t : State) (q : fifo_buffer_t) (l : file_list_t)
    (h : Nat)
    (hact : t.widgets_active = true)
    (hq : t.msg_queue = some q) (hb : q.buffer = [])
    (hl : t.current_msgs = some l) (hs : l.size = 1)
    (hg : file_list_get_userdata l 0 = some h)
    (hmov : t.widgets_moving = false)
    (hex : (t.msgs h).expired = true) (htp : (t.msgs h).task_ptr = none)
    (ha : t.anims = []) :
    ((gfx_widgets_iterate cfg t none).msgs h).dying = true
    ∧ (gfx_widgets_iterate cfg t none).current_msgs = some l
    ∧ (gfx_widgets_iterate cfg t none).msg_queue_kill = 0
    ∧ (gfx_widgets_iterate cfg t none).anims
        = [({ cb := anim_cb.NULL,
              duration := cfg.MSG_QUEUE_ANIMATION_DURATION,
              tag := h, userdata := none,
              subject := (h, anim_subject.offset_y),
              target_value := (t.msgs h).offset_y - ((t.msg_queue_height / 4 : Nat) : Int) }
              : gfx_animation_ctx_entry_t),
           ({ cb := anim_cb.gfx_widgets_msg_queue_kill_end,
              duration := cfg.MSG_QUEUE_ANIMATION_DURATION,
              tag := h, userdata := none,
              subject := (h, anim_subject.alpha),
              target_value := 0 } : gfx_animation_ctx_entry_t)] := by
  have hc : gfx_widgets_iterate_consume cfg t = t := by
    unfold gfx_widgets_iterate_consume
    simp [hq, hl, gfx_widgets_iterate_consumes, fifo_read_avail, hb]
  have ht : gfx_widgets_iterate_loop_timer cfg t h = t := by
    unfold gfx_widgets_iterate_loop_timer
    simp [htp]
  have hkl : gfx_widgets_msg_queue_kill cfg t 0
      = gfx_widgets_msg_queue_kill_start cfg t 0 h := by
    unfold gfx_widgets_msg_queue_kill
    simp only [hl, hg, hs]
    rw [if_pos (by decide)]
    unfold gfx_widgets_msg_queue_move
    have : (gfx_widgets_msg_queue_kill_start cfg t 0 h).current_msgs = some l := by simp [hl]
    simp only [this, hs]
    unfold gfx_widgets_msg_queue_move_loop
    simp only [hg]
    have hd : ((gfx_widgets_msg_queue_kill_start cfg t 0 h).msgs h).dying = true := by
      simp [gfx_widgets_msg_queue_kill_start]
    rw [if_pos hd]
    unfold gfx_widgets_msg_queue_move_loop
    rfl
  have he : gfx_widgets_iterate cfg t none = gfx_widgets_msg_queue_kill_start cfg t 0 h := by
    unfold gfx_widgets_iterate
    simp only [hact, gfx_widgets_iterate_layout, hc]
    unfold gfx_widgets_iterate_expire
    simp only [hl, hs]
    unfold gfx_widgets_iterate_loop
    simp only [hl, hs, hg, ht, hex, hmov]
    simp [hkl]
  rw [he]
  unfold gfx_widgets_msg_queue_kill_start
  simp [hl, ha]


theorem trace_timer_fire (cfg : Config) (t : State) (h D : Nat)
    (hti : t.timers = [({ timer := (h, timer_field.expiration_timer),
                          cb := timer_cb.gfx_widgets_msg_queue_expired,
                          duration := D,
                          userdata := some h } : gfx_timer_ctx_entry_t)]) :
    ((gfx_timer_fire cfg t 0).msgs h).expired = true
    ∧ ((gfx_timer_fire cfg t 0).msgs h).offset_y = (t.msgs h).offset_y
    ∧ ((gfx_timer_fire cfg t 0).msgs h).dying = (t.msgs h).dying
    ∧ ((gfx_timer_fire cfg t 0).msgs h).task_ptr = (t.msgs h).task_ptr
    ∧ (gfx_timer_fire cfg t 0).widgets_moving = t.widgets_moving
    ∧ (gfx_timer_fire cfg t 0).anims = t.anims
    ∧ (gfx_timer_fire cfg t 0).timers = []
    ∧ (gfx_timer_fire cfg t 0).widgets_active = t.widgets_active
    ∧ (gfx_timer_fire cfg t 0).msg_queue = t.msg_queue
    ∧ (gfx_timer_fire cfg t 0).current_msgs = t.current_msgs
    ∧ (gfx_timer_fire cfg t 0).msg_queue_height = t.msg_queue_height := by
  have h3 : gfx_timer_fire cfg t 0
      = gfx_widgets_msg_queue_expired (set_timers t []) (some h) := by
    unfold gfx_timer_fire
    simp [hti]
  rw [h3]
  unfold gfx_widgets_msg_queue_expired
  by_cases he : (t.msgs h).expired = true <;> simp [he]

theorem trace_complete_nil (cfg : Config) (t : State) (ha : t.anims = []) :
    gfx_animation_complete cfg t 0 = t := by
  unfold gfx_animation_complete
  simp [ha]

theorem trace_move_done (cfg : Config) (t : State) (h : Nat) (y : Int)
    (ha : t.anims = [({ cb := anim_cb.gfx_widgets_move_end,
                        duration := cfg.MSG_QUEUE_ANIMATION_DURATION,
                        subject := (h, anim_subject.offset_y),
                        tag := h,
                        target_value := y,
                        userdata := none } : gfx_animation_ctx_entry_t)]) :
    ((gfx_animation_complete cfg t 0).msgs h).expired = (t.msgs h).expired
    ∧ ((gfx_animation_complete cfg t 0).msgs h).offset_y = y
    ∧ ((gfx_animation_complete cfg t 0).msgs h).dying = (t.msgs h).dying
    ∧ ((gfx_animation_complete cfg t 0).msgs h).task_ptr = (t.msgs h).task_ptr
    ∧ (gfx_animation_complete cfg t 0).widgets_moving = false
    ∧ (gfx_animation_complete cfg t 0).anims = []
    ∧ (gfx_animation_complete cfg t 0).timers = t.timers
    ∧ (gfx_animation_complete cfg t 0).widgets_active = t.widgets_active
    ∧ (gfx_animation_complete cfg t 0).msg_queue = t.msg_queue
    ∧ (gfx_animation_complete cfg t 0).current_msgs = t.current_msgs
    ∧ (gfx_animation_complete cfg t 0).msg_queue_height = t.msg_queue_height := by
  have h4 : gfx_animation_complete cfg t 0
      = set_widgets_moving
          (gfx_animation_set_subject (set_anims t []) (h, anim_subject.offset_y) y) false := by
    unfold gfx_animation_complete
    simp [ha, gfx_animation_run_cb, gfx_widgets_move_end]
  rw [h4]
  simp [gfx_animation_set_subject]

theorem trace_move_done_unfold (cfg : Config) (t : State) (h : Nat) (y : Int)
    (ha : t.anims = [({ cb := anim_cb.gfx_widgets_move_end,
                        duration := cfg.MSG_QUEUE_ANIMATION_DURATION,
                        subject := (h, anim_subject.offset_y),
                        tag := h,
                        target_value := y,
                        userdata := some h } : gfx_animation_ctx_entry_t)]) :
    ((gfx_animation_complete cfg t 0).msgs h).expired = (t.msgs h).expired
    ∧ ((gfx_animation_complete cfg t 0).msgs h).offset_y = y
    ∧ ((gfx_animation_complete cfg t 0).msgs h).dying = (t.msgs h).dying
    ∧ ((gfx_animation_complete cfg t 0).msgs h).task_ptr = (t.msgs h).task_ptr
    ∧ (gfx_animation_complete cfg t 0).anims
        = [({ cb := anim_cb.gfx_widgets_unfold_end,
              duration := cfg.MSG_QUEUE_ANIMATION_DURATION,
              subject := (h, anim_subject.unfold),
              tag := h,
              target_value := 1,
              userdata := some h } : gfx_animation_ctx_entry_t)]
    ∧ (gfx_animation_complete cfg t 0).timers = t.timers
    ∧ (gfx_animation_complete cfg t 0).widgets_active = t.widgets_active
    ∧ (gfx_animation_complete cfg t 0).msg_queue = t.msg_queue
    ∧ (gfx_animation_complete cfg t 0).current_msgs = t.current_msgs
    ∧ (gfx_animation_complete cfg t 0).msg_queue_height = t.msg_queue_height := by
  have h4 : gfx_animation_complete cfg t 0
      = gfx_widgets_move_end cfg
          (gfx_animation_set_subject (set_anims t []) (h, anim_subject.offset_y) y)
          (some h) := by
    unfold gfx_animation_complete
    simp [ha, gfx_animation_run_cb]
  rw [h4]
  simp [gfx_animation_set_subject, gfx_widgets_move_end]

theorem trace_unfold_done (cfg : Config) (t : State) (h : Nat)
    (ha : t.anims = [({ cb := anim_cb.gfx_widgets_unfold_end,
                        duration := cfg.MSG_QUEUE_ANIMATION_DURATION,
                        subject := (h, anim_subject.unfold),
                        tag := h,
                        target_value := 1,
                        userdata := some h } : gfx_animation_ctx_entry_t)]) :
    ((gfx_animation_complete cfg t 0).msgs h).expired = (t.msgs h).expired
    ∧ ((gfx_animation_complete cfg t 0).msgs h).offset_y = (t.msgs h).offset_y
    ∧ ((gfx_animation_complete cfg t 0).msgs h).dying = (t.msgs h).dying
    ∧ ((gfx_animation_complete cfg t 0).msgs h).task_ptr = (t.msgs h).task_ptr
    ∧ (gfx_animation_complete cfg t 0).widgets_moving = false
    ∧ (gfx_animation_complete cfg t 0).anims = []
    ∧ (gfx_animation_complete cfg t 0).timers = t.timers
    ∧ (gfx_animation_complete cfg t 0).widgets_active = t.widgets_active
    ∧ (gfx_animation_complete cfg t 0).msg_queue = t.msg_queue
    ∧ (gfx_animation_complete cfg t 0).current_msgs = t.current_msgs
    ∧ (gfx_animation_complete cfg t 0).msg_queue_height = t.msg_queue_height := by
  have h4 : gfx_animation_complete cfg t 0
      = gfx_widgets_unfold_end
          (gfx_animation_set_subject (set_anims t []) (h, anim_subject.unfold) 1) h := by
    unfold gfx_animation_complete
    simp [ha, gfx_animation_run_cb]
  rw [h4]
  simp [gfx_animation_set_subject, gfx_widgets_unfold_end]


theorem trace_consume_list (s : State) (l : file_list_t) (h : Nat)
    (hs : l.size = 0) (hc : s.msg_queue_tasks_count = 0) :
    (gfx_widgets_iterate_consume_list s l h).size = 1
    ∧ file_list_get_userdata (gfx_widgets_iterate_consume_list s l h) 0 = some h
    ∧ (gfx_widgets_iterate_consume_list s l h).entries = [some h] := by
  obtain ⟨list, size⟩ := l
  simp only at hs
  subst hs
  have h1 : u64 1 = 1 := by unfold u64; omega
  have h0 : u64 (1 + 18446744073709551615) = 0 := by unfold u64; omega
  have h2 : u64 18446744073709551616 = 0 := by unfold u64; omega
  unfold gfx_widgets_iterate_consume_list
  rw [if_pos (Or.inl hc)]
  cases list with
  | nil =>
    simp [file_list_append, file_list_expand, file_list_reserve, file_list_set_userdata,
      file_list_get_userdata, file_list_t.entries, h1, h0, h2]
  | cons a rest =>
    simp [file_list_append, file_list_expand, file_list_reserve, file_list_set_userdata,
      file_list_get_userdata, file_list_t.entries, h1, h0, h2]

theorem trace_first_tick (cfg : Config) (t : State) (q : fifo_buffer_t) (l : file_list_t)
    (h : Nat)
    (hact : t.widgets_active = true)
    (hq : t.msg_queue = some q) (hb : q.buffer = [h])
    (hl : t.current_msgs = some l) (hs : l.size = 0)
    (hmax : 0 < cfg.MSG_QUEUE_ONSCREEN_MAX)
    (hmov : t.widgets_moving = false)
    (hc : t.msg_queue_tasks_count = 0)
    (ha : t.anims = []) (hti : t.timers = [])
    (htp : (t.msgs h).task_ptr = none)
    (hst : (t.msgs h).expiration_timer_started = false)
    (hdy : (t.msgs h).dying = false)
    (hex : (t.msgs h).expired = false)
    (hof : (t.msgs h).offset_y = 0)
    (hstride : 0 < u32 (t.msg_queue_height + t.msg_queue_spacing)) :
    registry (gfx_widgets_iterate cfg t none) = [some h]
    ∧ (∃ l1, (gfx_widgets_iterate cfg t none).current_msgs = some l1 ∧ l1.size = 1
          ∧ file_list_get_userdata l1 0 = some h)
    ∧ (∃ q1, (gfx_widgets_iterate cfg t none).msg_queue = some q1 ∧ q1.buffer = [])
    ∧ (gfx_widgets_iterate cfg t none).timers
        = [({ timer := (h, timer_field.expiration_timer),
              cb := timer_cb.gfx_widgets_msg_queue_expired,
              duration := u32 (cfg.MSG_QUEUE_ANIMATION_DURATION * 2 + (t.msgs h).duration),
              userdata := some h } : gfx_timer_ctx_entry_t)]
    ∧ (gfx_widgets_iterate cfg t none).anims
        = [({ cb := anim_cb.gfx_widgets_move_end,
              duration := cfg.MSG_QUEUE_ANIMATION_DURATION,
              subject := (h, anim_subject.offset_y),
              tag := h,
              target_value := ((u32 (t.msg_queue_height + t.msg_queue_spacing) : Nat) : Int),
              userdata := if (t.msgs h).unfolded then none else some h }
              : gfx_animation_ctx_entry_t)]
    ∧ ((gfx_widgets_iterate cfg t none).msgs h).expiration_timer_started = true
    ∧ ((gfx_widgets_iterate cfg t none).msgs h).offset_y = 0
    ∧ ((gfx_widgets_iterate cfg t none).msgs h).expired = false
    ∧ ((gfx_widgets_iterate cfg t none).msgs h).dying = false
    ∧ ((gfx_widgets_iterate cfg t none).msgs h).task_ptr = none
    ∧ (gfx_widgets_iterate cfg t none).widgets_moving = true
    ∧ (gfx_widgets_iterate cfg t none).widgets_active = true
    ∧ (gfx_widgets_iterate cfg t none).msg_queue_height = t.msg_queue_height := by
  obtain ⟨l1s, l1g, l1e⟩ := trace_consume_list t l h hs hc
  have hcons : gfx_widgets_iterate_consumes cfg t q l = true := by
    simp [gfx_widgets_iterate_consumes, fifo_read_avail, hb, hmov, hs, hmax]
  have e1 := iterate_consume_eq cfg t q l h [] hq hl hb hcons (by rw [l1s]; decide)
  generalize gfx_widgets_iterate_consume_list t l h = l1 at *
  have e2 : gfx_widgets_iterate_consume_timer cfg
      (set_current_msgs (set_msg_queue t (some { q with buffer := [] })) (some l1)) h
      = gfx_widgets_start_msg_expiration_timer
          (set_current_msgs (set_msg_queue t (some { q with buffer := [] })) (some l1)) h
          (u32 (cfg.MSG_QUEUE_ANIMATION_DURATION * 2 + (t.msgs h).duration)) := by
    unfold gfx_widgets_iterate_consume_timer
    simp [htp, hst]
  rw [e2] at e1
  generalize ht2 : gfx_widgets_start_msg_expiration_timer
          (set_current_msgs (set_msg_queue t (some { q with buffer := [] })) (some l1)) h
          (u32 (cfg.MSG_QUEUE_ANIMATION_DURATION * 2 + (t.msgs h).duration)) = t2 at e1
  have f2 : t2.current_msgs = some l1 ∧ t2.msg_queue = some { q with buffer := [] }
      ∧ t2.widgets_active = true ∧ t2.widgets_moving = false
      ∧ t2.msg_queue_height = t.msg_queue_height
      ∧ t2.msg_queue_spacing = t.msg_queue_spacing
      ∧ t2.anims = [] := by
    rw [← ht2]; simp [hact, hmov, ha]
  have g2 : t2.timers
      = [({ timer := (h, timer_field.expiration_timer),
            cb := timer_cb.gfx_widgets_msg_queue_expired,
            duration := u32 (cfg.MSG_QUEUE_ANIMATION_DURATION * 2 + (t.msgs h).duration),
            userdata := some h } : gfx_timer_ctx_entry_t)] := by
    rw [← ht2]; simp [gfx_widgets_start_msg_expiration_timer, hti]
  have m2 : (t2.msgs h).expiration_timer_started = true ∧ (t2.msgs h).offset_y = 0
      ∧ (t2.msgs h).expired = false ∧ (t2.msgs h).dying = false
      ∧ (t2.msgs h).task_ptr = none ∧ (t2.msgs h).unfolded = (t.msgs h).unfolded := by
    rw [← ht2]; simp [gfx_widgets_start_msg_expiration_timer, hof, hex, hdy, htp]
  clear ht2 e2
  obtain ⟨f2l, f2q, f2a, f2m, f2h, f2s, f2n⟩ := f2
  obtain ⟨m2s, m2o, m2e, m2d, m2p, m2u⟩ := m2
  have hy : gfx_widgets_msg_queue_move_y t2 0 h
      = ((u32 (t.msg_queue_height + t.msg_queue_spacing) : Nat) : Int) := by
    simp [gfx_widgets_msg_queue_move_y, m2p, f2h, f2s]
  have hun : gfx_widgets_msg_queue_move_unfold t2 none h
      = if (t.msgs h).unfolded then none else some h := by
    unfold gfx_widgets_msg_queue_move_unfold
    rw [m2u]
    cases (t.msgs h).unfolded <;> rfl
  have e3 : gfx_widgets_iterate_consume cfg t
      = set_widgets_moving
          (gfx_animation_push t2
            { cb := anim_cb.gfx_widgets_move_end,
              duration := cfg.MSG_QUEUE_ANIMATION_DURATION,
              subject := (h, anim_subject.offset_y),
              tag := h,
              target_value := ((u32 (t.msg_queue_height + t.msg_queue_spacing) : Nat) : Int),
              userdata := if (t.msgs h).unfolded then none else some h })
          true := by
    rw [e1, l1s]
    unfold gfx_widgets_msg_queue_move_loop
    simp only [l1g, m2d]
    unfold gfx_widgets_msg_queue_move_loop
    rw [hy, hun]
    unfold gfx_widgets_msg_queue_move_entry
    have hne : (t2.msgs h).offset_y
        ≠ ((u32 (t.msg_queue_height + t.msg_queue_spacing) : Nat) : Int) := by
      rw [m2o]; omega
    simp [hne]
  generalize ht3 : gfx_widgets_iterate_consume cfg t = t3 at e3
  have e4 : gfx_widgets_iterate cfg t none = t3 := by
    unfold gfx_widgets_iterate
    simp only [hact, gfx_widgets_iterate_layout, ht3]
    have c3 : t3.current_msgs = some l1 := by rw [e3]; simp [f2l]
    have x3 : (t3.msgs h).expired = false := by rw [e3]; simp [m2e]
    have p3 : (t3.msgs h).task_ptr = none := by rw [e3]; simp [m2p]
    have lt : gfx_widgets_iterate_loop_timer cfg t3 h = t3 := by
      unfold gfx_widgets_iterate_loop_timer
      simp [p3]
    unfold gfx_widgets_iterate_expire
    simp only [c3, l1s]
    unfold gfx_widgets_iterate_loop
    simp only [c3, l1s, l1g, lt, x3]
    simp [gfx_widgets_iterate_loop]
  rw [e4, e3]
  refine ⟨?_, ⟨l1, ?_, l1s, l1g⟩, ⟨{ q with buffer := [] }, ?_, rfl⟩, ?_, ?_, ?_, ?_, ?_, ?_, ?_, ?_, ?_, ?_⟩
  · simp [registry, f2l, l1e]
  · simp [f2l]
  · simp [f2q]
  · simp [g2]
  · simp [f2n]
  · simp [m2s]
  · simp [m2o]
  · simp [m2e]
  · simp [m2d]
  · simp [m2p]
  · simp
  · simp [f2a]
  · simp [f2h]


theorem trace_after_shown (cfg : Config) (t : State) (q : fifo_buffer_t) (l : file_list_t)
    (h D : Nat) (y : Int) (u : Option Nat)
    (hu : u = none ∨ u = some h)
    (hact : t.widgets_active = true)
    (hq : t.msg_queue = some q) (hb : q.buffer = [])
    (hl : t.current_msgs = some l) (hs : l.size = 1)
    (hg : file_list_get_userdata l 0 = some h)
    (hr : registry t = [some h])
    (hdy : (t.msgs h).dying = false) (htp : (t.msgs h).task_ptr = none)
    (hti : t.timers = [({ timer := (h, timer_field.expiration_timer),
                          cb := timer_cb.gfx_widgets_msg_queue_expired,
                          duration := D,
                          userdata := some h } : gfx_timer_ctx_entry_t)])
    (ha : t.anims = [({ cb := anim_cb.gfx_widgets_move_end,
                        duration := cfg.MSG_QUEUE_ANIMATION_DURATION,
                        subject := (h, anim_subject.offset_y),
                        tag := h,
                        target_value := y,
                        userdata := u } : gfx_animation_ctx_entry_t)]) :
    let s5 := gfx_animation_complete cfg (gfx_animation_complete cfg (gfx_timer_fire cfg t 0) 0) 0
    let s6 := gfx_widgets_iterate cfg s5 none
    let s7 := gfx_animation_complete cfg s6 1
    (registry s5 = [some h]
      ∧ (s5.msgs h).expired = true
      ∧ (s5.msgs h).offset_y = y
      ∧ (s5.msgs h).dying = false
      ∧ s5.widgets_moving = false
      ∧ s5.anims = [] ∧ s5.timers = [])
    ∧ (registry s6 = [some h]
      ∧ (s6.msgs h).dying = true
      ∧ s6.anims.get? 1 = some { cb := anim_cb.gfx_widgets_msg_queue_kill_end,
                                 duration := cfg.MSG_QUEUE_ANIMATION_DURATION,
                                 tag := h, userdata := none,
                                 subject := (h, anim_subject.alpha),
                                 target_value := 0 })
    ∧ (registry s7 = [] ∧ h ∈ s7.msgs_freed ∧ s7.anims = []) := by
  have hle : l.entries = [some h] := by
    simpa [registry, hl] using hr
  -- the timer fires
  obtain ⟨b1, b2, b3, b4, b5, b6, b7, b8, b9, b10, b11⟩ := trace_timer_fire cfg t h D hti
  rw [ha] at b6
  generalize gfx_timer_fire cfg t 0 = s3 at *
  -- the reflow and the unfold complete
  have B : ∃ s5, gfx_animation_complete cfg (gfx_animation_complete cfg s3 0) 0 = s5
      ∧ (s5.msgs h).expired = true ∧ (s5.msgs h).offset_y = y
      ∧ (s5.msgs h).dying = false ∧ (s5.msgs h).task_ptr = none
      ∧ s5.widgets_moving = false ∧ s5.anims = [] ∧ s5.timers = []
      ∧ s5.widgets_active = true ∧ s5.msg_queue = some q ∧ s5.current_msgs = some l := by
    rcases hu with hu | hu
    · subst hu
      obtain ⟨c1, c2, c3, c4, c5, c6, c7, c8, c9, c10, c11⟩ := trace_move_done cfg s3 h y b6
      rw [trace_complete_nil cfg _ c6]
      exact ⟨_, rfl, by rw [c1, b1], c2, by rw [c3, b3, hdy], by rw [c4, b4, htp], c5, c6,
        by rw [c7, b7], by rw [c8, b8, hact], by rw [c9, b9, hq], by rw [c10, b10, hl]⟩
    · subst hu
      obtain ⟨c1, c2, c3, c4, c6, c7, c8, c9, c10, c11⟩ :=
        trace_move_done_unfold cfg s3 h y b6
      generalize gfx_animation_complete cfg s3 0 = s4 at *
      obtain ⟨d1, d2, d3, d4, d5, d6, d7, d8, d9, d10, d11⟩ := trace_unfold_done cfg s4 h c6
      exact ⟨_, rfl, by rw [d1, c1, b1], by rw [d2, c2], by rw [d3, c3, b3, hdy],
        by rw [d4, c4, b4, htp], d5, d6, by rw [d7, c7, b7], by rw [d8, c8, b8, hact],
        by rw [d9, c9, b9, hq], by rw [d10, c10, b10, hl]⟩
  obtain ⟨s5, hs5, e1, e2, e3, e4, e5, e6, e7, e8, e9, e10⟩ := B
  simp only [hs5]
  -- the second tick
  obtain ⟨f1, f2, f3, f4⟩ := trace_second_tick cfg s5 q l h e8 e9 hb e10 hs hg e5 e1 e4 e6
  generalize gfx_widgets_iterate cfg s5 none = s6 at *
  -- the kill animation completes
  obtain ⟨g1, g2, g3, g4⟩ := trace_kill_complete cfg s6 l h _ 0 f2 hs hg f3 rfl f4
  refine ⟨⟨?_, e1, e2, e3, e5, e6, e7⟩, ⟨?_, f1, ?_⟩, g1, g2, g4⟩
  · simp [registry, e10, hle]
  · simp [registry, f2, hle]
  · rw [f4]; rfl

theorem push_plain_msg_timer_fields (cfg : Config) (s : State) (title : String)
    (duration : Nat) (alive : Bool) :
    (gfx_widgets_msg_queue_push_plain_msg cfg s title duration alive).duration = duration
    ∧ (gfx_widgets_msg_queue_push_plain_msg cfg s title duration alive).expiration_timer_started
        = false := by
  unfold gfx_widgets_msg_queue_push_plain_msg
  generalize (if alive = true then s.msg_queue_default_rect_width_menu_alive
    else s.msg_queue_default_rect_width) = W
  split <;> simp [gfx_widgets_msg_queue_push_new_msg]

/-- C19: the scenario as one trace.  With the system active, the intake
queue and the registry empty, no reflow in progress and no animation or timer
pending, a push of a plain message with the duration 1000 followed by one
`gfx_widgets_iterate` puts the notification at the registry index 0, arms its
expiration timer with `2 * MSG_QUEUE_ANIMATION_DURATION + 1000` and schedules
the reflow from the offset 0 to `msg_queue_height + msg_queue_spacing`.  After
the timer has fired and the reflow (with the unfold it starts when the icons
are loaded) has completed, the next `gfx_widgets_iterate` marks the
notification dying, and the completion of its kill animation leaves the
registry empty. -/
theorem plain_message_trace (cfg : Config) (s : State) (q : fifo_buffer_t) (l : file_list_t)
    (msg : String) (title : Option String) (icon category prio : Nat) (flush alive : Bool)
    (hact : s.widgets_active = true)
    (hq : s.msg_queue = some q) (hb : q.buffer = []) (hroom : 0 < q.size)
    (hl : s.current_msgs = some l) (hs : l.size = 0)
    (hmax : 0 < cfg.MSG_QUEUE_ONSCREEN_MAX)
    (hmov : s.widgets_moving = false)
    (hc : s.msg_queue_tasks_count = 0)
    (ha : s.anims = []) (hti : s.timers = [])
    (hpos : 0 < s.msg_queue_height + s.msg_queue_spacing)
    (hstride : s.msg_queue_height + s.msg_queue_spacing < 4294967296)
    (hdur : cfg.MSG_QUEUE_ANIMATION_DURATION * 2 + 1000 < 4294967296) :
    let h := s.msgs_next
    let s2 := gfx_widgets_iterate cfg
      (gfx_widgets_msg_queue_push cfg s none msg 1000 title icon category prio flush alive) none
    let s5 := gfx_animation_complete cfg (gfx_animation_complete cfg (gfx_timer_fire cfg s2 0) 0) 0
    let s6 := gfx_widgets_iterate cfg s5 none
    let s7 := gfx_animation_complete cfg s6 1
    (registry s2 = [some h]
      ∧ s2.timers = [{ timer := (h, timer_field.expiration_timer),
                       cb := timer_cb.gfx_widgets_msg_queue_expired,
                       duration := 2 * cfg.MSG_QUEUE_ANIMATION_DURATION + 1000,
                       userdata := some h }]
      ∧ (s2.msgs h).expiration_timer_started = true
      ∧ (s2.msgs h).offset_y = 0
      ∧ s2.anims = [{ cb := anim_cb.gfx_widgets_move_end,
                      duration := cfg.MSG_QUEUE_ANIMATION_DURATION,
                      subject := (h, anim_subject.offset_y),
                      tag := h,
                      target_value := ((s.msg_queue_height + s.msg_queue_spacing : Nat) : Int),
                      userdata := if s.msg_queue_has_icons then some h else none }])
    ∧ (registry s5 = [some h]
      ∧ (s5.msgs h).expired = true
      ∧ (s5.msgs h).offset_y = ((s.msg_queue_height + s.msg_queue_spacing : Nat) : Int)
      ∧ (s5.msgs h).dying = false
      ∧ s5.widgets_moving = false
      ∧ s5.anims = [] ∧ s5.timers = [])
    ∧ (registry s6 = [some h]
      ∧ (s6.msgs h).dying = true
      ∧ s6.anims.get? 1 = some { cb := anim_cb.gfx_widgets_msg_queue_kill_end,
                                 duration := cfg.MSG_QUEUE_ANIMATION_DURATION,
                                 tag := h, userdata := none,
                                 subject := (h, anim_subject.alpha),
                                 target_value := 0 })
    ∧ (registry s7 = [] ∧ h ∈ s7.msgs_freed ∧ s7.anims = []) := by
  intro h s2 s5 s6 s7
  have hu32 : u32 (s.msg_queue_height + s.msg_queue_spacing)
      = s.msg_queue_height + s.msg_queue_spacing := by unfold u32; omega
  have hd32 : u32 (cfg.MSG_QUEUE_ANIMATION_DURATION * 2 + 1000)
      = 2 * cfg.MSG_QUEUE_ANIMATION_DURATION + 1000 := by unfold u32; omega
  -- the push
  have e1 : gfx_widgets_msg_queue_push cfg s none msg 1000 title icon category prio flush alive
      = gfx_widgets_msg_queue_push_spawn cfg s q none msg 1000 alive := by
    unfold gfx_widgets_msg_queue_push
    have : fifo_write_avail q > 0 := by simp [fifo_write_avail, hb]; exact hroom
    simp [hact, hq, this]
  obtain ⟨mp, md, mo, me, mu⟩ := push_plain_msg_fields cfg s msg 1000 alive
  obtain ⟨mdur, mst⟩ := push_plain_msg_timer_fields cfg s msg 1000 alive
  have s1m : ((gfx_widgets_msg_queue_push_spawn cfg s q none msg 1000 alive).msgs h)
      = gfx_widgets_msg_queue_push_plain_msg cfg s msg 1000 alive := by
    simp [gfx_widgets_msg_queue_push_spawn, h]
  have s1q : (gfx_widgets_msg_queue_push_spawn cfg s q none msg 1000 alive).msg_queue
      = some (fifo_write q h) := by
    simp [gfx_widgets_msg_queue_push_spawn, h]
  -- the first tick
  have A := trace_first_tick cfg
    (gfx_widgets_msg_queue_push_spawn cfg s q none msg 1000 alive) (fifo_write q h) l h
    (by simp [hact]) s1q (by simp [fifo_write, hb]) (by simp [hl]) hs hmax (by simp [hmov])
    (by simp [hc]) (by simp [ha]) (by simp [hti])
    (by rw [s1m]; exact mp) (by rw [s1m]; exact mst) (by rw [s1m]; exact md)
    (by rw [s1m]; exact me) (by rw [s1m]; exact mo)
    (by simp [hu32]; omega)
  rw [← e1] at A
  rw [← e1] at s1m
  obtain ⟨A1, ⟨l1, A2, l1s, l1g⟩, ⟨q1, A3, q1b⟩, A4, A5, A6, A7, A8, A9, A10, A11, A12, A13⟩ := A
  rw [s1m, mdur, hd32] at A4
  have s1h : (gfx_widgets_msg_queue_push_spawn cfg s q none msg 1000 alive).msg_queue_height
      = s.msg_queue_height := by simp
  have s1s : (gfx_widgets_msg_queue_push_spawn cfg s q none msg 1000 alive).msg_queue_spacing
      = s.msg_queue_spacing := by simp
  rw [← e1] at s1h s1s
  rw [s1h, s1s, s1m, mu, hu32] at A5
  have A5b : s2.anims
      = [({ cb := anim_cb.gfx_widgets_move_end,
            duration := cfg.MSG_QUEUE_ANIMATION_DURATION,
            subject := (h, anim_subject.offset_y),
            tag := h,
            target_value := ((s.msg_queue_height + s.msg_queue_spacing : Nat) : Int),
            userdata := if s.msg_queue_has_icons then some h else none }
            : gfx_animation_ctx_entry_t)] := by
    rw [A5]
    cases s.msg_queue_has_icons <;> rfl
  refine ⟨⟨A1, A4, A6, A7, A5b⟩, ?_⟩
  exact trace_after_shown cfg s2 q1 l1 h _ _ _
    (by cases s.msg_queue_has_icons <;> simp) A12 A3 q1b A2 l1s l1g A1 A9 A10 A4 A5b


theorem plain_message_trace_witness :
    (sample_init.widgets_active = true
      ∧ sample_init.msg_queue = some { buffer := [], size := 32 }
      ∧ sample_init.current_msgs = some { list := [none, none, none, none], size := 0 }
      ∧ sample_init.widgets_moving = false
      ∧ sample_init.msg_queue_tasks_count = 0
      ∧ sample_init.anims = [] ∧ sample_init.timers = []
      ∧ sample_init.msg_queue_height + sample_init.msg_queue_spacing = 40)
    ∧ (registry sample_one = [some 0]
      ∧ sample_one.timers = [{ timer := (0, timer_field.expiration_timer),
                               cb := timer_cb.gfx_widgets_msg_queue_expired,
                               duration := 1660,
                               userdata := some 0 }]
      ∧ (sample_one.msgs 0).expiration_timer_started = true
      ∧ (sample_one.msgs 0).offset_y = 0
      ∧ sample_one.anims = [{ cb := anim_cb.gfx_widgets_move_end,
                              duration := 330,
                              subject := (0, anim_subject.offset_y),
                              tag := 0,
                              target_value := 40,
                              userdata := some 0 }])
    ∧ (registry sample_one_settled = [some 0]
      ∧ (sample_one_settled.msgs 0).expired = true
      ∧ (sample_one_settled.msgs 0).offset_y = 40
      ∧ (sample_one_settled.msgs 0).dying = false
      ∧ sample_one_settled.widgets_moving = false
      ∧ sample_one_settled.anims = [] ∧ sample_one_settled.timers = [])
    ∧ (registry sample_one_dying = [some 0]
      ∧ (sample_one_dying.msgs 0).dying = true
      ∧ sample_one_dying.anims.get? 1
          = some { cb := anim_cb.gfx_widgets_msg_queue_kill_end,
                   duration := 330,
                   tag := 0, userdata := none,
                   subject := (0, anim_subject.alpha),
                   target_value := 0 })
    ∧ (registry sample_one_gone = [] ∧ 0 ∈ sample_one_gone.msgs_freed
      ∧ sample_one_gone.anims = []) :=
  ⟨⟨by decide, by decide, by decide, by decide, by decide, by decide, by decide, by decide⟩,
   plain_message_trace sample_cfg sample_init { buffer := [], size := 32 }
     { list := [none, none, none, none], size := 0 } "Saved state" none 0 0 0 false false
     (by decide) (by decide) rfl (by decide) (by decide) rfl (by decide) (by decide)
     (by decide) (by decide) (by decide) (by decide) (by decide) (by decide)⟩

/-! ### The update push of a task -/

theorem push_eq_update (cfg : Config) (s : State) (q : fifo_buffer_t) (t h : Nat)
    (msg : String) (duration : Nat) (title : Option String) (icon category prio : Nat)
    (flush alive : Bool)
    (hact : s.widgets_active = true) (hq : s.msg_queue = some q)
    (hroom : fifo_write_avail q > 0) (hb : (s.tasks t).frontend_userdata = some h) :
    gfx_widgets_msg_queue_push cfg s (some t) msg duration title icon category prio flush alive
      = gfx_widgets_msg_queue_push_update cfg
          (set_msg s h { s.msgs h with task_ptr := some t }) t h := by
  unfold gfx_widgets_msg_queue_push
  simp [hact, hq, hroom, hb]

theorem push_update_timer_fields (s : State) (h : Nat) :
    ((gfx_widgets_msg_queue_push_update_timer s h).msgs h
      = { s.msgs h with expiration_timer_started := false })
    ∧ (∀ k, k ≠ h → (gfx_widgets_msg_queue_push_update_timer s h).msgs k = s.msgs k)
    ∧ (gfx_widgets_msg_queue_push_update_timer s h).timers
        = (if (s.msgs h).expiration_timer_started then
            s.timers.filter (fun e => decide (e.timer ≠ (h, timer_field.expiration_timer)))
           else s.timers)
    ∧ (gfx_widgets_msg_queue_push_update_timer s h).anims = s.anims
    ∧ (gfx_widgets_msg_queue_push_update_timer s h).tasks = s.tasks := by
  unfold gfx_widgets_msg_queue_push_update_timer
  by_cases hs : (s.msgs h).expiration_timer_started = true
  · simp [hs, gfx_timer_kill]
    intro k hk
    simp [hk]
  · have hs2 : (s.msgs h).expiration_timer_started = false := by simpa using hs
    rw [if_neg hs, if_neg hs]
    refine ⟨?_, fun _ _ => rfl, rfl, rfl, rfl⟩
    rw [← hs2]

theorem push_update_title_same (cfg : Config) (s : State) (t h : Nat)
    (he : (s.msgs h).msg_new = some (s.tasks t).title) :
    gfx_widgets_msg_queue_push_update_title cfg s t h = s := by
  unfold gfx_widgets_msg_queue_push_update_title
  have : string_is_equal (some (s.tasks t).title) (s.msgs h).msg_new = true :=
    (string_is_equal_some _ _).2 he
  simp [this]

theorem push_update_title_new (cfg : Config) (s : State) (t h : Nat)
    (hne : (s.msgs h).msg_new ≠ some (s.tasks t).title) :
    ((gfx_widgets_msg_queue_push_update_title cfg s t h).msgs h
      = { s.msgs h with
            msg := if (s.tasks t).alternative_look then some (s.tasks t).title
                   else (s.msgs h).msg,
            msg_new := some (s.tasks t).title,
            msg_len := u32 (strlen (s.tasks t).title),
            task_title_ptr := (s.tasks t).title_ptr,
            msg_transition_animation := 0,
            task_count := ((s.msgs h).task_count + 1) % 256,
            width := cfg.font_driver_get_message_width (s.tasks t).title
                       (u32 (strlen (s.tasks t).title)) })
    ∧ (∀ k, k ≠ h → (gfx_widgets_msg_queue_push_update_title cfg s t h).msgs k = s.msgs k)
    ∧ (gfx_widgets_msg_queue_push_update_title cfg s t h).anims
        = (if (s.tasks t).alternative_look then s.anims
           else s.anims ++
             [{ tag := h,
                duration := cfg.MSG_QUEUE_ANIMATION_DURATION * 2,
                target_value := s.msg_queue_height,
                subject := (h, anim_subject.msg_transition_animation),
                cb := anim_cb.msg_widget_msg_transition_animation_done,
                userdata := some h }])
    ∧ (gfx_widgets_msg_queue_push_update_title cfg s t h).timers = s.timers
    ∧ (gfx_widgets_msg_queue_push_update_title cfg s t h).tasks = s.tasks := by
  unfold gfx_widgets_msg_queue_push_update_title
  have hf : string_is_equal (some (s.tasks t).title) (s.msgs h).msg_new = false := by
    cases hx : string_is_equal (some (s.tasks t).title) (s.msgs h).msg_new with
    | false => rfl
    | true => exact absurd ((string_is_equal_some _ _).1 hx) hne
  simp only [hf, Bool.not_false, if_true]
  cases ha : (s.tasks t).alternative_look with
  | false =>
    simp [gfx_animation_push]
    intro k hk
    simp [hk]
  | true =>
    simp [msg_widget_msg_transition_animation_done]
    intro k hk
    simp [hk]

theorem push_update_same (cfg : Config) (s : State) (t h : Nat)
    (he : (s.msgs h).msg_new = some (s.tasks t).title) :
    ((gfx_widgets_msg_queue_push_update cfg s t h).msgs h
      = { s.msgs h with
            expiration_timer_started := false,
            task_error := !string_is_empty (s.tasks t).error,
            task_cancelled := (s.tasks t).cancelled,
            task_finished := (s.tasks t).finished,
            task_progress := (s.tasks t).progress })
    ∧ (∀ k, k ≠ h → (gfx_widgets_msg_queue_push_update cfg s t h).msgs k = s.msgs k)
    ∧ (gfx_widgets_msg_queue_push_update cfg s t h).anims = s.anims
    ∧ (gfx_widgets_msg_queue_push_update cfg s t h).timers
        = (if (s.msgs h).expiration_timer_started then
            s.timers.filter (fun e => decide (e.timer ≠ (h, timer_field.expiration_timer)))
           else s.timers)
    ∧ (gfx_widgets_msg_queue_push_update cfg s t h).tasks = s.tasks := by
  obtain ⟨a1, a2, a3, a4, a5⟩ := push_update_timer_fields s h
  have he1 : ((gfx_widgets_msg_queue_push_update_timer s h).msgs h).msg_new
      = some ((gfx_widgets_msg_queue_push_update_timer s h).tasks t).title := by
    rw [a1, a5]; exact he
  have e := push_update_title_same cfg (gfx_widgets_msg_queue_push_update_timer s h) t h he1
  unfold gfx_widgets_msg_queue_push_update
  rw [e]
  refine ⟨?_, ?_, ?_, ?_, ?_⟩
  · simp [a1]
  · intro k hk
    simp [hk, a2 k hk]
  · simp [a4]
  · simp [a3]
  · simp [a5]

theorem push_update_new (cfg : Config) (s : State) (t h : Nat)
    (hne : (s.msgs h).msg_new ≠ some (s.tasks t).title) :
    ((gfx_widgets_msg_queue_push_update cfg s t h).msgs h
      = { s.msgs h with
            msg := if (s.tasks t).alternative_look then some (s.tasks t).title
                   else (s.msgs h).msg,
            msg_new := some (s.tasks t).title,
            msg_len := u32 (strlen (s.tasks t).title),
            task_title_ptr := (s.tasks t).title_ptr,
            msg_transition_animation := 0,
            task_count := ((s.msgs h).task_count + 1) % 256,
            width := cfg.font_driver_get_message_width (s.tasks t).title
                       (u32 (strlen (s.tasks t).title)),
            expiration_timer_started := false,
            task_error := !string_is_empty (s.tasks t).error,
            task_cancelled := (s.tasks t).cancelled,
            task_finished := (s.tasks t).finished,
            task_progress := (s.tasks t).progress })
    ∧ (∀ k, k ≠ h → (gfx_widgets_msg_queue_push_update cfg s t h).msgs k = s.msgs k)
    ∧ (gfx_widgets_msg_queue_push_update cfg s t h).anims
        = (if (s.tasks t).alternative_look then s.anims
           else s.anims ++
             [{ tag := h,
                duration := cfg.MSG_QUEUE_ANIMATION_DURATION * 2,
                target_value := s.msg_queue_height,
                subject := (h, anim_subject.msg_transition_animation),
                cb := anim_cb.msg_widget_msg_transition_animation_done,
                userdata := some h }])
    ∧ (gfx_widgets_msg_queue_push_update cfg s t h).timers
        = (if (s.msgs h).expiration_timer_started then
            s.timers.filter (fun e => decide (e.timer ≠ (h, timer_field.expiration_timer)))
           else s.timers)
    ∧ (gfx_widgets_msg_queue_push_update cfg s t h).tasks = s.tasks := by
  obtain ⟨a1, a2, a3, a4, a5⟩ := push_update_timer_fields s h
  have hh : (gfx_widgets_msg_queue_push_update_timer s h).msg_queue_height
      = s.msg_queue_height := by simp
  have hne1 : ((gfx_widgets_msg_queue_push_update_timer s h).msgs h).msg_new
      ≠ some ((gfx_widgets_msg_queue_push_update_timer s h).tasks t).title := by
    rw [a1, a5]; exact hne
  obtain ⟨b1, b2, b3, b4, b5⟩ :=
    push_update_title_new cfg (gfx_widgets_msg_queue_push_update_timer s h) t h hne1
  rw [a1, a5] at b1
  rw [a5, a4, hh] at b3
  unfold gfx_widgets_msg_queue_push_update
  refine ⟨?_, ?_, ?_, ?_, ?_⟩
  · simp [b1]
  · intro k hk
    simp [hk, b2 k hk, a2 k hk]
  · simp [b3]
  · simp [a3]
  · simp [a5]


/-- C27: an update push, that is a push for a task with a notification while
the intake queue has room.  When the title of the task has the content of
the pending text `msg_new`, the pending text, `task_count`, the width, the
shown text and the pending animations stay as they are, whatever the title
pointer is.  When the content differs, `msg_new` becomes the title,
`task_count` grows by one modulo 256, the width becomes the measured width
of the title, without the `simple_widget_padding / 2` that the creation
adds, and the transition value is 0; without `alternative_look` one
animation of the duration `MSG_QUEUE_ANIMATION_DURATION * 2` is pushed whose
completion makes the shown text the title and the transition value 0, and
with `alternative_look` the shown text is the title at once. -/
theorem msg_queue_push_update_title (cfg : Config) (s : State) (q : fifo_buffer_t) (t h : Nat)
    (msg : String) (duration : Nat) (title : Option String) (icon category prio : Nat)
    (flush alive : Bool)
    (hact : s.widgets_active = true) (hq : s.msg_queue = some q)
    (hroom : fifo_write_avail q > 0) (hb : (s.tasks t).frontend_userdata = some h) :
    ((s.msgs h).msg_new = some (s.tasks t).title →
      ((gfx_widgets_msg_queue_push cfg s (some t) msg duration title icon category prio flush
          alive).msgs h).msg_new = (s.msgs h).msg_new
      ∧ ((gfx_widgets_msg_queue_push cfg s (some t) msg duration title icon category prio flush
          alive).msgs h).task_count = (s.msgs h).task_count
      ∧ ((gfx_widgets_msg_queue_push cfg s (some t) msg duration title icon category prio flush
          alive).msgs h).width = (s.msgs h).width
      ∧ ((gfx_widgets_msg_queue_push cfg s (some t) msg duration title icon category prio flush
          alive).msgs h).msg = (s.msgs h).msg
      ∧ (gfx_widgets_msg_queue_push cfg s (some t) msg duration title icon category prio flush
          alive).anims = s.anims)
    ∧ ((s.msgs h).msg_new ≠ some (s.tasks t).title →
      ((gfx_widgets_msg_queue_push cfg s (some t) msg duration title icon category prio flush
          alive).msgs h).msg_new = some (s.tasks t).title
      ∧ ((gfx_widgets_msg_queue_push cfg s (some t) msg duration title icon category prio flush
          alive).msgs h).task_count = ((s.msgs h).task_count + 1) % 256
      ∧ ((gfx_widgets_msg_queue_push cfg s (some t) msg duration title icon category prio flush
          alive).msgs h).width
          = cfg.font_driver_get_message_width (s.tasks t).title
              (u32 (strlen (s.tasks t).title))
      ∧ ((gfx_widgets_msg_queue_push cfg s (some t) msg duration title icon category prio flush
          alive).msgs h).msg_transition_animation = 0
      ∧ ((s.tasks t).alternative_look = false →
          (gfx_widgets_msg_queue_push cfg s (some t) msg duration title icon category prio flush
            alive).anims
            = s.anims ++
                [{ tag := h,
                   duration := cfg.MSG_QUEUE_ANIMATION_DURATION * 2,
                   target_value := s.msg_queue_height,
                   subject := (h, anim_subject.msg_transition_animation),
                   cb := anim_cb.msg_widget_msg_transition_animation_done,
                   userdata := some h }]
          ∧ ((gfx_widgets_msg_queue_push cfg s (some t) msg duration title icon category prio
              flush alive).msgs h).msg = (s.msgs h).msg
          ∧ ((gfx_animation_complete cfg
                (gfx_widgets_msg_queue_push cfg s (some t) msg duration title icon category
                  prio flush alive) s.anims.length).msgs h).msg = some (s.tasks t).title
          ∧ ((gfx_animation_complete cfg
                (gfx_widgets_msg_queue_push cfg s (some t) msg duration title icon category
                  prio flush alive) s.anims.length).msgs h).msg_transition_animation = 0)
      ∧ ((s.tasks t).alternative_look = true →
          (gfx_widgets_msg_queue_push cfg s (some t) msg duration title icon category prio flush
            alive).anims = s.anims
          ∧ ((gfx_widgets_msg_queue_push cfg s (some t) msg duration title icon category prio
              flush alive).msgs h).msg = some (s.tasks t).title))
    ∧ (gfx_widgets_msg_queue_push_task_msg cfg s t duration).width
        = u32 (cfg.font_driver_get_message_width (s.tasks t).title
                (u32 (strlen (s.tasks t).title)) + s.simple_widget_padding / 2) := by
  rw [push_eq_update cfg s q t h msg duration title icon category prio flush alive hact hq
    hroom hb]
  have hm : (set_msg s h { s.msgs h with task_ptr := some t }).msgs h
      = { s.msgs h with task_ptr := some t } := by simp
  have ht : (set_msg s h { s.msgs h with task_ptr := some t }).tasks = s.tasks := by simp
  have ha : (set_msg s h { s.msgs h with task_ptr := some t }).anims = s.anims := by simp
  have hh : (set_msg s h { s.msgs h with task_ptr := some t }).msg_queue_height
      = s.msg_queue_height := by simp
  refine ⟨?_, ?_, ?_⟩
  · intro he
    obtain ⟨a1, _, a3, _, _⟩ := push_update_same cfg
      (set_msg s h { s.msgs h with task_ptr := some t }) t h (by rw [hm, ht]; exact he)
    rw [a1, a3, hm, ha]
    exact ⟨rfl, rfl, rfl, rfl, rfl⟩
  · intro hne
    obtain ⟨a1, _, a3, _, _⟩ := push_update_new cfg
      (set_msg s h { s.msgs h with task_ptr := some t }) t h (by rw [hm, ht]; exact hne)
    rw [hm, ht] at a1
    rw [ht, ha, hh] at a3
    refine ⟨by rw [a1], by rw [a1], by rw [a1], by rw [a1], ?_, ?_⟩
    · intro halt
      rw [halt] at a3 a1
      simp only [Bool.false_eq_true, if_false] at a3 a1
      refine ⟨a3, by rw [a1], ?_, ?_⟩
      · unfold gfx_animation_complete
        simp [a3, gfx_animation_set_subject, gfx_animation_run_cb,
          msg_widget_msg_transition_animation_done, a1]
      · unfold gfx_animation_complete
        simp [a3, gfx_animation_set_subject, gfx_animation_run_cb,
          msg_widget_msg_transition_animation_done, a1]
    · intro halt
      rw [halt] at a3 a1
      simp only [if_true] at a3 a1
      exact ⟨a3, by rw [a1]⟩
  · simp [gfx_widgets_msg_queue_push_task_msg]

theorem msg_queue_push_update_title_witness :
    sample_task_retitled.widgets_active = true
    ∧ (sample_task_retitled.tasks 0).frontend_userdata = some 0
    ∧ (sample_task_retitled.msgs 0).msg_new = some "Scanning"
    ∧ (sample_task_retitled.msgs 0).task_count = 1
    ∧ (sample_task_retitled.msgs 0).width = 90
    ∧ ((sample_push_task sample_task_retitled 0).msgs 0).msg_new = some "Scanning 50%"
    ∧ ((sample_push_task sample_task_retitled 0).msgs 0).task_count = 2
    ∧ ((sample_push_task sample_task_retitled 0).msgs 0).width = 120
    ∧ (sample_push_task sample_task_retitled 0).anims
        = [{ tag := 0,
             duration := 660,
             target_value := 30,
             subject := (0, anim_subject.msg_transition_animation),
             cb := anim_cb.msg_widget_msg_transition_animation_done,
             userdata := some 0 }]
    ∧ ((gfx_animation_complete sample_cfg (sample_push_task sample_task_retitled 0) 0).msgs
        0).msg = some "Scanning 50%" := by
  have h := (msg_queue_push_update_title sample_cfg sample_task_retitled
    { buffer := [0], size := 32 } 0 0 "" 0 none 0 0 0 false false
    (by decide) (by decide) (by decide) (by decide)).2.1 (by decide)
  exact ⟨by decide, by decide, by decide, by decide, by decide, h.1, h.2.1, h.2.2.1,
    (h.2.2.2.2.1 (by decide)).1, (h.2.2.2.2.1 (by decide)).2.2.1⟩

theorem start_msg_expiration_timer_status (s : State) (w duration h : Nat) :
    ((gfx_widgets_start_msg_expiration_timer s w duration).msgs h).task_status
      = (s.msgs h).task_status := by
  unfold gfx_widgets_start_msg_expiration_timer menu_widget_msg_t.task_status
  by_cases e : h = w <;> simp [e]

theorem hourglass_end_status (cfg : Config) (s : State) (w h : Nat) :
    ((gfx_widgets_hourglass_end cfg s w).msgs h).task_status = (s.msgs h).task_status := by
  unfold gfx_widgets_hourglass_end menu_widget_msg_t.task_status
  by_cases e : h = w <;> simp [e]

theorem iterate_loop_timer_status (cfg : Config) (s : State) (w h : Nat) :
    ((gfx_widgets_iterate_loop_timer cfg s w).msgs h).task_status
      = (s.msgs h).task_status := by
  unfold gfx_widgets_iterate_loop_timer
  split
  · exact start_msg_expiration_timer_status s w _ h
  · rfl

theorem iterate_consume_timer_status (cfg : Config) (s : State) (w h : Nat) :
    ((gfx_widgets_iterate_consume_timer cfg s w).msgs h).task_status
      = (s.msgs h).task_status := by
  unfold gfx_widgets_iterate_consume_timer
  split
  · split
    · exact start_msg_expiration_timer_status s w _ h
    · rfl
  · have := hourglass_end_status cfg
      (set_msg_queue_tasks_count s (u32 (s.msg_queue_tasks_count + 1))) w h
    simpa using this

theorem iterate_consume_status (cfg : Config) (s : State) (h : Nat) :
    ((gfx_widgets_iterate_consume cfg s).msgs h).task_status = (s.msgs h).task_status := by
  unfold gfx_widgets_iterate_consume
  split
  · split
    · split
      · rfl
      · split
        · simp only [gfx_widgets_msg_queue_move_frame]
          have := iterate_consume_timer_status cfg
            (set_current_msgs (set_msg_queue s (some (fifo_read ‹fifo_buffer_t›).2))
              (some (gfx_widgets_iterate_consume_list s ‹file_list_t› ‹Nat›))) ‹Nat› h
          simpa using this
        · have := iterate_consume_timer_status cfg
            (set_current_msgs (set_msg_queue s (some (fifo_read ‹fifo_buffer_t›).2))
              (some (gfx_widgets_iterate_consume_list s ‹file_list_t› ‹Nat›))) ‹Nat› h
          simpa using this
    · rfl
  · rfl

theorem msg_queue_kill_status (cfg : Config) (s : State) (i h : Nat) :
    ((gfx_widgets_msg_queue_kill cfg s i).msgs h).task_status = (s.msgs h).task_status := by
  unfold gfx_widgets_msg_queue_kill
  split
  · rfl
  · split
    · rfl
    · rename_i w _
      have e : ((gfx_widgets_msg_queue_kill_start cfg s i w).msgs h).task_status
          = (s.msgs h).task_status := by
        unfold gfx_widgets_msg_queue_kill_start menu_widget_msg_t.task_status
        by_cases e : h = w <;> simp [e]
      split
      · simp only [gfx_widgets_msg_queue_move_frame]
        exact e
      · exact e

theorem iterate_loop_status (cfg : Config) (h : Nat) :
    ∀ (n i : Nat) (s : State),
      ((gfx_widgets_iterate_loop cfg n i s).msgs h).task_status = (s.msgs h).task_status := by
  intro n
  induction n with
  | zero => intro i s; rfl
  | succ n ih =>
    intro i s
    unfold gfx_widgets_iterate_loop
    split
    · rfl
    · split
      · split
        · exact ih _ _
        · split
          · rw [msg_queue_kill_status, iterate_loop_timer_status]
          · rw [ih, iterate_loop_timer_status]
      · rfl

theorem iterate_status (cfg : Config) (s : State) (relayout : Option layout_t) (h : Nat) :
    ((gfx_widgets_iterate cfg s relayout).msgs h).task_status = (s.msgs h).task_status := by
  unfold gfx_widgets_iterate
  split
  · rfl
  · unfold gfx_widgets_iterate_expire
    have h0 : ((gfx_widgets_iterate_consume cfg (gfx_widgets_iterate_layout s relayout)).msgs
        h).task_status = (s.msgs h).task_status := by
      rw [iterate_consume_status]
      simp
    split
    · exact h0
    · rw [iterate_loop_status]
      exact h0


theorem push_update_registry (cfg : Config) (s : State) (t h : Nat) :
    (gfx_widgets_msg_queue_push_update cfg s t h).current_msgs = s.current_msgs
    ∧ (gfx_widgets_msg_queue_push_update cfg s t h).msg_queue = s.msg_queue :=
  ⟨(quiet_push_update cfg s t h).current_msgs, (quiet_push_update cfg s t h).msg_queue⟩

theorem push_update_status (cfg : Config) (s : State) (t h : Nat) :
    ((gfx_widgets_msg_queue_push_update cfg s t h).msgs h).task_status = (s.tasks t).status
    ∧ ((gfx_widgets_msg_queue_push_update cfg s t h).msgs h).expiration_timer_started = false
    ∧ ((gfx_widgets_msg_queue_push_update cfg s t h).msgs h).dying = (s.msgs h).dying := by
  by_cases he : (s.msgs h).msg_new = some (s.tasks t).title
  · obtain ⟨a1, _⟩ := push_update_same cfg s t h he
    rw [a1]
    exact ⟨rfl, rfl, rfl⟩
  · obtain ⟨a1, _⟩ := push_update_new cfg s t h he
    rw [a1]
    exact ⟨rfl, rfl, rfl⟩

/-- C21, as amended: in an active state whose intake queue has room,
whatever the registry holds, a push for a task whose back-reference points
to the notification `h` is carried out: afterwards `task_progress`,
`task_finished`, `task_cancelled` and `task_error` of `h` are the values of
the task, the pending text is the title of the task, and the registry and
the intake queue are as before. -/
theorem msg_queue_push_update_accepted (cfg : Config) (s : State) (q : fifo_buffer_t)
    (t h : Nat) (msg : String) (duration : Nat) (title : Option String)
    (icon category prio : Nat) (flush alive : Bool)
    (hact : s.widgets_active = true) (hq : s.msg_queue = some q)
    (hroom : fifo_write_avail q > 0) (hb : (s.tasks t).frontend_userdata = some h) :
    ((gfx_widgets_msg_queue_push cfg s (some t) msg duration title icon category prio flush
        alive).msgs h).task_progress = (s.tasks t).progress
    ∧ ((gfx_widgets_msg_queue_push cfg s (some t) msg duration title icon category prio flush
        alive).msgs h).task_finished = (s.tasks t).finished
    ∧ ((gfx_widgets_msg_queue_push cfg s (some t) msg duration title icon category prio flush
        alive).msgs h).task_cancelled = (s.tasks t).cancelled
    ∧ ((gfx_widgets_msg_queue_push cfg s (some t) msg duration title icon category prio flush
        alive).msgs h).task_error = !string_is_empty (s.tasks t).error
    ∧ ((gfx_widgets_msg_queue_push cfg s (some t) msg duration title icon category prio flush
        alive).msgs h).msg_new = some (s.tasks t).title
    ∧ registry (gfx_widgets_msg_queue_push cfg s (some t) msg duration title icon category prio
        flush alive) = registry s
    ∧ pending (gfx_widgets_msg_queue_push cfg s (some t) msg duration title icon category prio
        flush alive) = pending s := by
  rw [push_eq_update cfg s q t h msg duration title icon category prio flush alive hact hq
    hroom hb]
  obtain ⟨a1, _, _⟩ := push_update_status cfg
    (set_msg s h { s.msgs h with task_ptr := some t }) t h
  obtain ⟨r1, r2⟩ := push_update_registry cfg
    (set_msg s h { s.msgs h with task_ptr := some t }) t h
  have ht : (set_msg s h { s.msgs h with task_ptr := some t }).tasks = s.tasks := by simp
  rw [ht] at a1
  have b := push_update_msg_new cfg (set_msg s h { s.msgs h with task_ptr := some t }) t h
  rw [ht] at b
  unfold menu_widget_msg_t.task_status retro_task_t.status at a1
  simp only [Prod.mk.injEq] at a1
  obtain ⟨c1, c2, c3, c4⟩ := a1
  refine ⟨c3, c1, c2, c4, b, ?_, ?_⟩
  · apply registry_eq_of_current_msgs
    rw [r1]; simp
  · apply pending_eq_of_msg_queue
    rw [r2]; simp

theorem msg_queue_push_update_accepted_witness :
    sample_small_retitled.widgets_active = true
    ∧ sample_small_retitled.current_msgs.map (fun l => l.size)
        = some sample_small_cfg.MSG_QUEUE_ONSCREEN_MAX
    ∧ registry sample_small_retitled = [some 0]
    ∧ (sample_small_retitled.tasks 0).frontend_userdata = some 0
    ∧ (sample_small_retitled.msgs 0).task_progress = 0
    ∧ ((gfx_widgets_msg_queue_push sample_small_cfg sample_small_retitled (some 0) "" 0 none
          0 0 0 false false).msgs 0).task_progress = 50
    ∧ ((gfx_widgets_msg_queue_push sample_small_cfg sample_small_retitled (some 0) "" 0 none
          0 0 0 false false).msgs 0).msg_new = some "Scanning 50%" := by
  have h := msg_queue_push_update_accepted sample_small_cfg sample_small_retitled
    { buffer := [], size := 1 } 0 0 "" 0 none 0 0 0 false false
    (by decide) (by decide) (by decide) (by decide)
  exact ⟨by decide, by decide, by decide, by decide, by decide, h.1, h.2.2.2.2.1⟩

/-- C21 fails as stated: with the registry at its capacity and the intake
queue full as well, the push for the retitled task 0, whose notification is
registered, is dropped by the guard `fifo_write_avail > 0`: the progress and
the pending text of the notification keep their old values. -/
theorem msg_queue_push_update_counterexample :
    sample_small_blocked.widgets_active = true
    ∧ sample_small_blocked.current_msgs.map (fun l => l.size)
        = some sample_small_cfg.MSG_QUEUE_ONSCREEN_MAX
    ∧ registry sample_small_blocked = [some 0]
    ∧ sample_small_blocked.msg_queue.map fifo_write_avail = some 0
    ∧ (sample_small_blocked.tasks 0).frontend_userdata = some 0
    ∧ (sample_small_blocked.tasks 0).progress = 50
    ∧ (sample_small_blocked.tasks 0).title = "Scanning 50%"
    ∧ ((gfx_widgets_msg_queue_push sample_small_cfg sample_small_blocked (some 0) "" 0 none
          0 0 0 false false).msgs 0).task_progress = 0
    ∧ ((gfx_widgets_msg_queue_push sample_small_cfg sample_small_blocked (some 0) "" 0 none
          0 0 0 false false).msgs 0).msg_new = some "Scanning" :=
  ⟨by decide, by decide, by decide, by decide, by decide, by decide, by decide, by decide,
   by decide⟩

/-- C22, as amended: `gfx_widgets_msg_queue_push` does not read `dying`.  For
a task whose back-reference points to a dying notification `h`, the push is
ignored when the intake queue is full; when it has room the notification
stays dying and is updated like a live one: `expiration_timer_started` is
cleared and a started expiration timer stopped, the four status fields take
the values of the task, and the pending text, `task_count` and the width
stay as they are exactly when the title has the content of the pending
text. -/
theorem msg_queue_push_update_dying (cfg : Config) (s : State) (q : fifo_buffer_t)
    (t h : Nat) (msg : String) (duration : Nat) (title : Option String)
    (icon category prio : Nat) (flush alive : Bool)
    (hact : s.widgets_active = true) (hq : s.msg_queue = some q)
    (hb : (s.tasks t).frontend_userdata = some h) (hdy : (s.msgs h).dying = true) :
    (fifo_write_avail q = 0 →
      gfx_widgets_msg_queue_push cfg s (some t) msg duration title icon category prio flush
        alive = s)
    ∧ (fifo_write_avail q > 0 →
      ((gfx_widgets_msg_queue_push cfg s (some t) msg duration title icon category prio flush
          alive).msgs h).dying = true
      ∧ ((gfx_widgets_msg_queue_push cfg s (some t) msg duration title icon category prio flush
          alive).msgs h).expiration_timer_started = false
      ∧ (gfx_widgets_msg_queue_push cfg s (some t) msg duration title icon category prio flush
          alive).timers
          = (if (s.msgs h).expiration_timer_started then
              s.timers.filter (fun e => decide (e.timer ≠ (h, timer_field.expiration_timer)))
             else s.timers)
      ∧ ((gfx_widgets_msg_queue_push cfg s (some t) msg duration title icon category prio flush
          alive).msgs h).task_status = (s.tasks t).status
      ∧ ((s.msgs h).msg_new = some (s.tasks t).title →
          ((gfx_widgets_msg_queue_push cfg s (some t) msg duration title icon category prio
              flush alive).msgs h).msg_new = (s.msgs h).msg_new
          ∧ ((gfx_widgets_msg_queue_push cfg s (some t) msg duration title icon category prio
              flush alive).msgs h).task_count = (s.msgs h).task_count
          ∧ ((gfx_widgets_msg_queue_push cfg s (some t) msg duration title icon category prio
              flush alive).msgs h).width = (s.msgs h).width
          ∧ ((gfx_widgets_msg_queue_push cfg s (some t) msg duration title icon category prio
              flush alive).msgs h).msg = (s.msgs h).msg)
      ∧ ((s.msgs h).msg_new ≠ some (s.tasks t).title →
          ((gfx_widgets_msg_queue_push cfg s (some t) msg duration title icon category prio
              flush alive).msgs h).msg_new = some (s.tasks t).title
          ∧ ((gfx_widgets_msg_queue_push cfg s (some t) msg duration title icon category prio
              flush alive).msgs h).task_count = ((s.msgs h).task_count + 1) % 256
          ∧ ((gfx_widgets_msg_queue_push cfg s (some t) msg duration title icon category prio
              flush alive).msgs h).width
              = cfg.font_driver_get_message_width (s.tasks t).title
                  (u32 (strlen (s.tasks t).title)))) := by
  constructor
  · intro h0
    unfold gfx_widgets_msg_queue_push
    simp [hact, hq, h0]
  · intro hroom
    rw [push_eq_update cfg s q t h msg duration title icon category prio flush alive hact hq
      hroom hb]
    have hm : (set_msg s h { s.msgs h with task_ptr := some t }).msgs h
        = { s.msgs h with task_ptr := some t } := by simp
    have ht : (set_msg s h { s.msgs h with task_ptr := some t }).tasks = s.tasks := by simp
    have hti : (set_msg s h { s.msgs h with task_ptr := some t }).timers = s.timers := by simp
    obtain ⟨a1, a2, a3⟩ := push_update_status cfg
      (set_msg s h { s.msgs h with task_ptr := some t }) t h
    rw [ht] at a1
    rw [hm] at a3
    have a3b : ((gfx_widgets_msg_queue_push_update cfg
        (set_msg s h { s.msgs h with task_ptr := some t }) t h).msgs h).dying = true :=
      a3.trans hdy
    refine ⟨a3b, a2, ?_, a1, ?_, ?_⟩
    · by_cases he : (s.msgs h).msg_new = some (s.tasks t).title
      · obtain ⟨_, _, _, b4, _⟩ := push_update_same cfg
          (set_msg s h { s.msgs h with task_ptr := some t }) t h (by rw [hm, ht]; exact he)
        rw [b4, hm, hti]
      · obtain ⟨_, _, _, b4, _⟩ := push_update_new cfg
          (set_msg s h { s.msgs h with task_ptr := some t }) t h (by rw [hm, ht]; exact he)
        rw [b4, hm, hti]
    · intro he
      obtain ⟨b1, _⟩ := push_update_same cfg
        (set_msg s h { s.msgs h with task_ptr := some t }) t h (by rw [hm, ht]; exact he)
      rw [b1, hm]
      exact ⟨rfl, rfl, rfl, rfl⟩
    · intro hne
      obtain ⟨b1, _⟩ := push_update_new cfg
        (set_msg s h { s.msgs h with task_ptr := some t }) t h (by rw [hm, ht]; exact hne)
      rw [hm, ht] at b1
      rw [b1]
      exact ⟨rfl, rfl, rfl⟩

theorem msg_queue_push_update_dying_witness :
    sample_task_dying_retitled.widgets_active = true
    ∧ (sample_task_dying_retitled.tasks 0).frontend_userdata = some 0
    ∧ (sample_task_dying_retitled.msgs 0).dying = true
    ∧ ((sample_push_task sample_task_dying_retitled 0).msgs 0).dying = true
    ∧ ((sample_push_task sample_task_dying_retitled 0).msgs 0).expiration_timer_started = false
    ∧ ((sample_push_task sample_task_dying_retitled 0).msgs 0).msg_new = some "Done" := by
  have h := (msg_queue_push_update_dying sample_cfg sample_task_dying_retitled
    { buffer := [], size := 32 } 0 0 "" 0 none 0 0 0 false false
    (by decide) (by decide) (by decide) (by decide)).2 (by decide)
  exact ⟨by decide, by decide, by decide, h.1, h.2.1, (h.2.2.2.2.2 (by decide)).1⟩

/-- C22 fails as stated: the notification 0 of the task 0 is dying when the
task, retitled "Done", is pushed again; the push changes the pending text,
`task_count`, the width and `expiration_timer_started` of the dying
notification. -/
theorem msg_queue_push_update_dying_counterexample :
    registry sample_task_dying_retitled = [some 0]
    ∧ (sample_task_dying_retitled.msgs 0).dying = true
    ∧ (sample_task_dying_retitled.tasks 0).frontend_userdata = some 0
    ∧ ((sample_task_dying_retitled.msgs 0).msg_new,
        (sample_task_dying_retitled.msgs 0).task_count,
        (sample_task_dying_retitled.msgs 0).width,
        (sample_task_dying_retitled.msgs 0).expiration_timer_started)
        = (some "Scanning", 1, 90, true)
    ∧ (((sample_push_task sample_task_dying_retitled 0).msgs 0).msg_new,
        ((sample_push_task sample_task_dying_retitled 0).msgs 0).task_count,
        ((sample_push_task sample_task_dying_retitled 0).msgs 0).width,
        ((sample_push_task sample_task_dying_retitled 0).msgs 0).expiration_timer_started)
        = (some "Done", 2, 40, false) :=
  ⟨by decide, by decide, by decide, by decide, by decide⟩

/-- C24, as amended: `gfx_widgets_iterate` copies nothing from a task.  A
tick leaves `task_finished`, `task_cancelled`, `task_progress` and
`task_error` of every notification as they were; they take the values of the
task in a push for the task that finds its notification `h` while the intake
queue has room. -/
theorem iterate_keeps_task_status (cfg : Config) (s : State) (relayout : Option layout_t)
    (q : fifo_buffer_t) (t h : Nat) (msg : String) (duration : Nat) (title : Option String)
    (icon category prio : Nat) (flush alive : Bool)
    (hact : s.widgets_active = true) (hq : s.msg_queue = some q)
    (hroom : fifo_write_avail q > 0) (hb : (s.tasks t).frontend_userdata = some h) :
    (∀ k, ((gfx_widgets_iterate cfg s relayout).msgs k).task_status = (s.msgs k).task_status)
    ∧ ((gfx_widgets_msg_queue_push cfg s (some t) msg duration title icon category prio flush
        alive).msgs h).task_status = (s.tasks t).status
    ∧ ∀ k, ((gfx_widgets_iterate cfg
        (gfx_widgets_msg_queue_push cfg s (some t) msg duration title icon category prio flush
          alive) relayout).msgs k).task_status
        = ((gfx_widgets_msg_queue_push cfg s (some t) msg duration title icon category prio
          flush alive).msgs k).task_status := by
  refine ⟨fun k => iterate_status cfg s relayout k, ?_, fun k => iterate_status cfg _ relayout k⟩
  rw [push_eq_update cfg s q t h msg duration title icon category prio flush alive hact hq
    hroom hb]
  have := (push_update_status cfg (set_msg s h { s.msgs h with task_ptr := some t }) t h).1
  simpa using this

theorem iterate_keeps_task_status_witness :
    sample_small_retitled.widgets_active = true
    ∧ (sample_small_retitled.tasks 0).frontend_userdata = some 0
    ∧ ((gfx_widgets_iterate sample_small_cfg sample_small_retitled none).msgs 0).task_status
        = (false, false, 0, false)
    ∧ ((gfx_widgets_msg_queue_push sample_small_cfg sample_small_retitled (some 0) "" 0 none
          0 0 0 false false).msgs 0).task_status = (false, false, 50, false) := by
  have h := iterate_keeps_task_status sample_small_cfg sample_small_retitled none
    { buffer := [], size := 1 } 0 0 "" 0 none 0 0 0 false false
    (by decide) (by decide) (by decide) (by decide)
  exact ⟨by decide, by decide, (h.1 0).trans (by decide), h.2.1.trans (by decide)⟩

/-- C24 fails as stated: the task 0 has the progress 50 and its notification
0, registered, live and bound to the task, holds the progress 0; after a
tick the notification still holds 0. -/
theorem iterate_copies_no_status_counterexample :
    registry sample_small_retitled = [some 0]
    ∧ (sample_small_retitled.msgs 0).task_ptr = some 0
    ∧ (sample_small_retitled.msgs 0).dying = false
    ∧ (sample_small_retitled.tasks 0).progress = 50
    ∧ registry (gfx_widgets_iterate sample_small_cfg sample_small_retitled none) = [some 0]
    ∧ ((gfx_widgets_iterate sample_small_cfg sample_small_retitled none).msgs 0).task_progress
        = 0
    ∧ ((gfx_widgets_iterate sample_small_cfg sample_small_retitled none).tasks 0).progress
        = 50 :=
  ⟨by decide, by decide, by decide, by decide, by decide, by decide, by decide⟩

theorem loop_timer_armed (cfg : Config) (s : State) (x h : Nat)
    (ha : expiration_armed cfg s h) :
    expiration_armed cfg (gfx_widgets_iterate_loop_timer cfg s x) h := by
  unfold gfx_widgets_iterate_loop_timer
  split
  · rename_i hc
    have hxh : x ≠ h := by
      intro e
      rw [e, ha.1] at hc
      simp at hc
    have hhx : h ≠ x := fun e => hxh e.symm
    unfold expiration_armed gfx_widgets_start_msg_expiration_timer gfx_timer_start
    simp only [set_msg_proj, set_timers_proj, hhx, if_false]
    refine ⟨ha.1, ?_⟩
    apply List.mem_append_left
    rw [List.mem_filter]
    exact ⟨ha.2, by simp [hhx]⟩
  · exact ha

theorem loop_timer_arms (cfg : Config) (s : State) (h : Nat)
    (hp : (s.msgs h).task_ptr.isSome = true)
    (hf : (s.msgs h).task_finished = true ∨ (s.msgs h).task_cancelled = true)
    (hs : (s.msgs h).expiration_timer_started = false ∨ expiration_armed cfg s h) :
    expiration_armed cfg (gfx_widgets_iterate_loop_timer cfg s h) h := by
  rcases hs with hs | hs
  · unfold gfx_widgets_iterate_loop_timer
    have hc : ((s.msgs h).task_ptr.isSome
        && ((s.msgs h).task_finished || (s.msgs h).task_cancelled)
        && !(s.msgs h).expiration_timer_started) = true := by
      rw [hp, hs]
      rcases hf with hf | hf <;> simp [hf]
    rw [if_pos hc]
    unfold expiration_armed gfx_widgets_start_msg_expiration_timer gfx_timer_start
    simp
  · exact loop_timer_armed cfg s h h hs

theorem loop_timer_started (cfg : Config) (s : State) (x h : Nat) (hx : x ≠ h) :
    ((gfx_widgets_iterate_loop_timer cfg s x).msgs h).expiration_timer_started
      = (s.msgs h).expiration_timer_started := by
  have hhx : h ≠ x := fun e => hx e.symm
  unfold gfx_widgets_iterate_loop_timer
  split
  · unfold gfx_widgets_start_msg_expiration_timer
    simp [hhx]
  · rfl

theorem msg_queue_kill_armed (cfg : Config) (s : State) (i h : Nat)
    (ha : expiration_armed cfg s h) :
    expiration_armed cfg (gfx_widgets_msg_queue_kill cfg s i) h := by
  unfold expiration_armed
  have ht : (gfx_widgets_msg_queue_kill cfg s i).timers = s.timers := by simp
  rw [ht]
  refine ⟨?_, ha.2⟩
  unfold gfx_widgets_msg_queue_kill
  split
  · exact ha.1
  · split
    · exact ha.1
    · rename_i w _
      have e : ((gfx_widgets_msg_queue_kill_start cfg s i w).msgs h).expiration_timer_started
          = true := by
        unfold gfx_widgets_msg_queue_kill_start
        by_cases e : h = w
        · subst e; simpa using ha.1
        · simpa [e] using ha.1
      split
      · simp only [gfx_widgets_msg_queue_move_frame]
        exact e
      · exact e

theorem iterate_loop_armed (cfg : Config) (h : Nat) :
    ∀ (n i : Nat) (s : State), expiration_armed cfg s h →
      expiration_armed cfg (gfx_widgets_iterate_loop cfg n i s) h := by
  intro n
  induction n with
  | zero => intro i s ha; exact ha
  | succ n ih =>
    intro i s ha
    unfold gfx_widgets_iterate_loop
    split
    · exact ha
    · split
      · split
        · exact ih _ _ ha
        · split
          · exact msg_queue_kill_armed cfg _ i h (loop_timer_armed cfg s _ h ha)
          · exact ih _ _ (loop_timer_armed cfg s _ h ha)
      · exact ha

theorem iterate_loop_arms (cfg : Config) (l : file_list_t) (h : Nat) :
    ∀ (n i : Nat) (s : State) (j : Nat), s.current_msgs = some l →
      i ≤ j → j < i + n → j < l.size → file_list_get_userdata l j = some h →
      (∀ k, i ≤ k → k < j → ¬ stops_loop s (file_list_get_userdata l k)) →
      (s.msgs h).task_ptr.isSome = true →
      ((s.msgs h).task_finished = true ∨ (s.msgs h).task_cancelled = true) →
      ((s.msgs h).expiration_timer_started = false ∨ expiration_armed cfg s h) →
      expiration_armed cfg (gfx_widgets_iterate_loop cfg n i s) h := by
  intro n
  induction n with
  | zero => intro i s j _ h1 h2; omega
  | succ n ih =>
    intro i s j hl hij hjn hjl hg hvis hp hf hs
    unfold gfx_widgets_iterate_loop
    simp only [hl]
    have hil : i < l.size := by omega
    rw [if_pos hil]
    cases hx : file_list_get_userdata l i with
    | none =>
      simp only []
      have hne : i ≠ j := by
        intro e
        rw [e, hg] at hx
        exact absurd hx (by simp)
      exact ih (i + 1) s j hl (by omega) (by omega) hjl hg
        (fun k hk1 hk2 => hvis k (by omega) hk2) hp hf hs
    | some x =>
      simp only []
      have hfl := iterate_loop_timer_flags cfg s x
      have hst := iterate_loop_timer_status cfg s x
      have hmv : (gfx_widgets_iterate_loop_timer cfg s x).widgets_moving
          = s.widgets_moving := by simp
      have hcur : (gfx_widgets_iterate_loop_timer cfg s x).current_msgs = some l := by
        simp [hl]
      by_cases hij2 : i = j
      · have hxh : x = h := by
          rw [hij2, hg] at hx
          exact (Option.some.inj hx).symm
        subst hxh
        have ha := loop_timer_arms cfg s x hp hf hs
        split
        · exact msg_queue_kill_armed cfg _ i x ha
        · exact iterate_loop_armed cfg x n (i + 1) _ ha
      · have hnk := hvis i (le_refl i) (by omega)
        rw [hx] at hnk
        have hcond : (((gfx_widgets_iterate_loop_timer cfg s x).msgs x).expired
            && !(gfx_widgets_iterate_loop_timer cfg s x).widgets_moving) = false := by
          rw [(hfl x).2.1, hmv]
          cases he : (s.msgs x).expired with
          | false => rfl
          | true =>
            cases hm : s.widgets_moving with
            | true => rfl
            | false => exact absurd ⟨x, rfl, he, hm⟩ hnk
        rw [hcond]
        simp only [Bool.false_eq_true, if_false]
        have hp1 : ((gfx_widgets_iterate_loop_timer cfg s x).msgs h).task_ptr.isSome = true := by
          rw [(hfl h).2.2.2]; exact hp
        have hst1 := hst h
        unfold menu_widget_msg_t.task_status at hst1
        simp only [Prod.mk.injEq] at hst1
        have hf1 : ((gfx_widgets_iterate_loop_timer cfg s x).msgs h).task_finished = true
            ∨ ((gfx_widgets_iterate_loop_timer cfg s x).msgs h).task_cancelled = true := by
          rw [hst1.1, hst1.2.1]; exact hf
        have hs1 : ((gfx_widgets_iterate_loop_timer cfg s x).msgs h).expiration_timer_started
            = false ∨ expiration_armed cfg (gfx_widgets_iterate_loop_timer cfg s x) h := by
          by_cases hxh : x = h
          · subst hxh
            exact Or.inr (loop_timer_arms cfg s x hp hf hs)
          · rcases hs with hs | hs
            · left
              rw [loop_timer_started cfg s x h hxh]; exact hs
            · exact Or.inr (loop_timer_armed cfg s x h hs)
        refine ih (i + 1) _ j hcur (by omega) (by omega) hjl hg ?_ hp1 hf1 hs1
        intro k hk1 hk2 hstop
        apply hvis k (by omega) hk2
        obtain ⟨w, e1, e2, e3⟩ := hstop
        exact ⟨w, e1, by rw [← (hfl w).2.1]; exact e2, by rw [← hmv]; exact e3⟩

theorem timer_calm_refl (s : State) (h : Nat) : timer_calm s s h :=
  ⟨rfl, rfl, rfl, rfl, fun _ he _ => he⟩

theorem timer_calm_trans {s2 s1 s : State} {h : Nat} (a : timer_calm s2 s1 h)
    (b : timer_calm s1 s h) : timer_calm s2 s h :=
  ⟨a.task_ptr.trans b.task_ptr, a.task_finished.trans b.task_finished,
   a.task_cancelled.trans b.task_cancelled, a.started.trans b.started,
   fun e he hk => b.timers e (a.timers e he hk) hk⟩

theorem timer_calm_of_eq {s1 s : State} {h : Nat} (hm : s1.msgs = s.msgs)
    (ht : s1.timers = s.timers) : timer_calm s1 s h :=
  ⟨by rw [hm], by rw [hm], by rw [hm], by rw [hm], fun e he _ => by rw [← ht]; exact he⟩

theorem start_timer_calm (s : State) (x d h : Nat) (hx : x ≠ h) :
    timer_calm (gfx_widgets_start_msg_expiration_timer s x d) s h := by
  have hhx : h ≠ x := fun e => hx e.symm
  unfold gfx_widgets_start_msg_expiration_timer gfx_timer_start
  refine ⟨by simp [hhx], by simp [hhx], by simp [hhx], by simp [hhx], ?_⟩
  intro e he hk
  simp only [set_msg_proj, set_timers_proj, List.mem_append, List.mem_filter,
    List.mem_singleton] at he
  rcases he with he | he
  · exact he.1
  · rw [he] at hk
    simp only [Prod.mk.injEq, and_true] at hk
    exact absurd hk hx

theorem hourglass_end_calm (cfg : Config) (s : State) (x h : Nat) :
    timer_calm (gfx_widgets_hourglass_end cfg s x) s h := by
  unfold gfx_widgets_hourglass_end gfx_timer_start
  refine ⟨?_, ?_, ?_, ?_, ?_⟩
  · by_cases e : h = x <;> simp [e]
  · by_cases e : h = x <;> simp [e]
  · by_cases e : h = x <;> simp [e]
  · by_cases e : h = x <;> simp [e]
  · intro e he hk
    simp only [set_msg_proj, set_timers_proj, List.mem_append, List.mem_filter,
      List.mem_singleton] at he
    rcases he with he | he
    · exact he.1
    · rw [he] at hk
      simp at hk

theorem loop_timer_calm (cfg : Config) (s : State) (x h : Nat)
    (hf : (s.msgs h).task_finished = false) (hc : (s.msgs h).task_cancelled = false) :
    timer_calm (gfx_widgets_iterate_loop_timer cfg s x) s h := by
  unfold gfx_widgets_iterate_loop_timer
  split
  · rename_i hcond
    have hx : x ≠ h := by
      intro e
      rw [e, hf, hc] at hcond
      simp at hcond
    exact start_timer_calm s x _ h hx
  · exact timer_calm_refl s h

theorem consume_timer_calm (cfg : Config) (s : State) (x h : Nat)
    (hp : (s.msgs h).task_ptr.isSome = true) :
    timer_calm (gfx_widgets_iterate_consume_timer cfg s x) s h := by
  unfold gfx_widgets_iterate_consume_timer
  split
  · rename_i hcond
    split
    · have hx : x ≠ h := by
        intro e
        rw [e, hp] at hcond
        simp at hcond
      exact start_timer_calm s x _ h hx
    · exact timer_calm_refl s h
  · exact timer_calm_trans (hourglass_end_calm cfg _ x h)
      (timer_calm_of_eq (by simp) (by simp))

theorem msg_queue_move_calm (cfg : Config) (s : State) (h : Nat) :
    timer_calm (gfx_widgets_msg_queue_move cfg s) s h :=
  timer_calm_of_eq (by simp) (by simp)

theorem msg_queue_kill_calm (cfg : Config) (s : State) (i h : Nat) :
    timer_calm (gfx_widgets_msg_queue_kill cfg s i) s h := by
  unfold gfx_widgets_msg_queue_kill
  split
  · exact timer_calm_refl s h
  · split
    · exact timer_calm_refl s h
    · rename_i w _
      have e : timer_calm (gfx_widgets_msg_queue_kill_start cfg s i w) s h := by
        unfold gfx_widgets_msg_queue_kill_start
        refine ⟨?_, ?_, ?_, ?_, ?_⟩
        · by_cases e : h = w <;> simp [e]
        · by_cases e : h = w <;> simp [e]
        · by_cases e : h = w <;> simp [e]
        · by_cases e : h = w <;> simp [e]
        · intro e he _
          simpa using he
      split
      · exact timer_calm_trans (msg_queue_move_calm cfg _ h) e
      · exact e

theorem iterate_loop_calm (cfg : Config) (h : Nat) :
    ∀ (n i : Nat) (s : State), (s.msgs h).task_finished = false →
      (s.msgs h).task_cancelled = false →
      timer_calm (gfx_widgets_iterate_loop cfg n i s) s h := by
  intro n
  induction n with
  | zero => intro i s _ _; exact timer_calm_refl s h
  | succ n ih =>
    intro i s hf hc
    unfold gfx_widgets_iterate_loop
    split
    · exact timer_calm_refl s h
    · split
      · split
        · exact ih _ _ hf hc
        · rename_i x _
          have c := loop_timer_calm cfg s x h hf hc
          split
          · exact timer_calm_trans (msg_queue_kill_calm cfg _ i h) c
          · exact timer_calm_trans
              (ih _ _ (c.task_finished.trans hf) (c.task_cancelled.trans hc)) c
      · exact timer_calm_refl s h

theorem iterate_consume_calm (cfg : Config) (s : State) (h : Nat)
    (hp : (s.msgs h).task_ptr.isSome = true) :
    timer_calm (gfx_widgets_iterate_consume cfg s) s h := by
  unfold gfx_widgets_iterate_consume
  split
  · split
    · split
      · exact timer_calm_refl s h
      · have c := consume_timer_calm cfg
          (set_current_msgs (set_msg_queue s (some (fifo_read ‹fifo_buffer_t›).2))
            (some (gfx_widgets_iterate_consume_list s ‹file_list_t› ‹Nat›))) ‹Nat› h
          (by simpa using hp)
        have c0 : timer_calm
            (set_current_msgs (set_msg_queue s (some (fifo_read ‹fifo_buffer_t›).2))
              (some (gfx_widgets_iterate_consume_list s ‹file_list_t› ‹Nat›))) s h :=
          timer_calm_of_eq (by simp) (by simp)
        split
        · exact timer_calm_trans (msg_queue_move_calm cfg _ h) (timer_calm_trans c c0)
        · exact timer_calm_trans c c0
    · exact timer_calm_refl s h
  · exact timer_calm_refl s h

theorem iterate_calm (cfg : Config) (s : State) (relayout : Option layout_t) (h : Nat)
    (hp : (s.msgs h).task_ptr.isSome = true)
    (hf : (s.msgs h).task_finished = false) (hc : (s.msgs h).task_cancelled = false) :
    timer_calm (gfx_widgets_iterate cfg s relayout) s h := by
  unfold gfx_widgets_iterate
  split
  · exact timer_calm_refl s h
  · have c0 : timer_calm (gfx_widgets_iterate_layout s relayout) s h :=
      timer_calm_of_eq (by simp) (by simp)
    have c1 := iterate_consume_calm cfg (gfx_widgets_iterate_layout s relayout) h
      (c0.task_ptr.trans hp)
    have c2 := timer_calm_trans c1 c0
    unfold gfx_widgets_iterate_expire
    split
    · exact c2
    · exact timer_calm_trans
        (iterate_loop_calm cfg h _ _ _ (c2.task_finished.trans hf)
          (c2.task_cancelled.trans hc)) c2


/-- C28: the expiration timer of a task notification.  In a tick, with `l`
the registry after the admission block: every entry `h` of `l` that the loop
reaches (no entry before it stops the loop), that is bound to a task, has
`task_finished` or `task_cancelled` set and has no started expiration timer,
ends the tick with its expiration timer armed with `TASK_FINISHED_DURATION`.
For a notification bound to a task with neither flag set the tick arms no
expiration timer.  A push for a task that finds its notification `h` while
the intake queue has room stops a started timer and clears
`expiration_timer_started`. -/
theorem iterate_arms_task_timer (cfg : Config) (s : State) (relayout : Option layout_t) :
    (∀ (l : file_list_t) (j h : Nat), s.widgets_active = true →
      (gfx_widgets_iterate_consume cfg (gfx_widgets_iterate_layout s relayout)).current_msgs
        = some l →
      j < l.size → file_list_get_userdata l j = some h →
      (∀ k, k < j → ¬ stops_loop
        (gfx_widgets_iterate_consume cfg (gfx_widgets_iterate_layout s relayout))
        (file_list_get_userdata l k)) →
      ((gfx_widgets_iterate_consume cfg (gfx_widgets_iterate_layout s relayout)).msgs
        h).task_ptr.isSome = true →
      (((gfx_widgets_iterate_consume cfg (gfx_widgets_iterate_layout s relayout)).msgs
          h).task_finished = true
        ∨ ((gfx_widgets_iterate_consume cfg (gfx_widgets_iterate_layout s relayout)).msgs
          h).task_cancelled = true) →
      ((gfx_widgets_iterate_consume cfg (gfx_widgets_iterate_layout s relayout)).msgs
        h).expiration_timer_started = false →
      expiration_armed cfg (gfx_widgets_iterate cfg s relayout) h)
    ∧ (∀ h, (s.msgs h).task_ptr.isSome = true → (s.msgs h).task_finished = false →
        (s.msgs h).task_cancelled = false →
        timer_calm (gfx_widgets_iterate cfg s relayout) s h)
    ∧ (∀ (q : fifo_buffer_t) (t h : Nat) (msg : String) (duration : Nat)
        (title : Option String) (icon category prio : Nat) (flush alive : Bool),
        s.widgets_active = true → s.msg_queue = some q → fifo_write_avail q > 0 →
        (s.tasks t).frontend_userdata = some h →
        ((gfx_widgets_msg_queue_push cfg s (some t) msg duration title icon category prio flush
            alive).msgs h).expiration_timer_started = false
        ∧ (gfx_widgets_msg_queue_push cfg s (some t) msg duration title icon category prio flush
            alive).timers
            = (if (s.msgs h).expiration_timer_started then
                s.timers.filter
                  (fun e => decide (e.timer ≠ (h, timer_field.expiration_timer)))
               else s.timers)) := by
  refine ⟨?_, ?_, ?_⟩
  · intro l j h hact hl hj hg hvis hp hf hs
    rw [iterate_eq_expire_consume cfg s relayout hact]
    unfold gfx_widgets_iterate_expire
    simp only [hl]
    exact iterate_loop_arms cfg l h l.size 0 _ j hl (Nat.zero_le j) (by omega) hj hg
      (fun k _ hk => hvis k hk) hp hf (Or.inl hs)
  · intro h hp hf hc
    exact iterate_calm cfg s relayout h hp hf hc
  · intro q t h msg duration title icon category prio flush alive hact hq hroom hb
    rw [push_eq_update cfg s q t h msg duration title icon category prio flush alive hact hq
      hroom hb]
    have hm : (set_msg s h { s.msgs h with task_ptr := some t }).msgs h
        = { s.msgs h with task_ptr := some t } := by simp
    have ht : (set_msg s h { s.msgs h with task_ptr := some t }).tasks = s.tasks := by simp
    have hti : (set_msg s h { s.msgs h with task_ptr := some t }).timers = s.timers := by simp
    refine ⟨(push_update_status cfg _ t h).2.1, ?_⟩
    by_cases he : (s.msgs h).msg_new = some (s.tasks t).title
    · obtain ⟨_, _, _, b4, _⟩ := push_update_same cfg
        (set_msg s h { s.msgs h with task_ptr := some t }) t h (by rw [hm, ht]; exact he)
      rw [b4, hm, hti]
    · obtain ⟨_, _, _, b4, _⟩ := push_update_new cfg
        (set_msg s h { s.msgs h with task_ptr := some t }) t h (by rw [hm, ht]; exact he)
      rw [b4, hm, hti]

theorem iterate_arms_task_timer_witness :
    (sample_task_finished.msgs 0).task_finished = true
    ∧ (sample_task_finished.msgs 0).expiration_timer_started = false
    ∧ ((sample_tick sample_task_finished).msgs 0).expiration_timer_started = true
    ∧ ({ timer := (0, timer_field.expiration_timer),
         cb := timer_cb.gfx_widgets_msg_queue_expired,
         duration := 3000,
         userdata := some 0 } : gfx_timer_ctx_entry_t) ∈ (sample_tick sample_task_finished).timers
    ∧ ((sample_push_task (sample_tick sample_task_finished) 0).msgs 0).expiration_timer_started
        = false
    ∧ (sample_push_task (sample_tick sample_task_finished) 0).timers.map (fun e => e.timer)
        = [(0, timer_field.hourglass_timer)]
    ∧ expiration_armed sample_cfg
        (sample_tick (sample_push_task (sample_tick sample_task_finished) 0)) 0 := by
  have h1 := (iterate_arms_task_timer sample_cfg sample_task_finished none).1
    { list := [some 0, none, none, none], size := 1 } 0 0
    (by decide) (by decide) (by decide) (by decide) (fun k hk => absurd hk (Nat.not_lt_zero k))
    (by decide) (Or.inl (by decide)) (by decide)
  have h3 := (iterate_arms_task_timer sample_cfg (sample_tick sample_task_finished) none).2.2
    { buffer := [], size := 32 } 0 0 "" 0 none 0 0 0 false false
    (by decide) (by decide) (by decide) (by decide)
  have h4 := (iterate_arms_task_timer sample_cfg
    (sample_push_task (sample_tick sample_task_finished) 0) none).1
    { list := [some 0, none, none, none], size := 1 } 0 0
    (by decide) (by decide) (by decide) (by decide) (fun k hk => absurd hk (Nat.not_lt_zero k))
    (by decide) (Or.inl (by decide)) (by decide)
  exact ⟨by decide, by decide, h1.1, h1.2, h3.1, by decide, h4⟩

/-! ### The reflow -/

theorem reflow_target_size (s : State) (l : file_list_t) (i : Nat) (hi : l.size ≤ i) :
    reflow_target s l i = 0 := by
  unfold reflow_target
  have : l.size - i = 0 := by omega
  rw [this]
  rfl

theorem reflow_target_step (s : State) (l : file_list_t) (i : Nat) (hi : i < l.size) :
    reflow_target s l i = reflow_contribution s l i + reflow_target s l (i + 1) := by
  unfold reflow_target
  have : l.size - i = (l.size - (i + 1)) + 1 := by omega
  rw [this, List.range'_succ]
  simp

theorem reflow_unfold_size (s : State) (l : file_list_t) (i : Nat) (hi : l.size ≤ i) :
    reflow_unfold s l i = none := by
  unfold reflow_unfold
  have : l.size - i = 0 := by omega
  rw [this]
  rfl

theorem reflow_unfold_step (s : State) (l : file_list_t) (i : Nat) (hi : i < l.size) :
    reflow_unfold s l i
      = (match file_list_get_userdata l i with
         | none => reflow_unfold s l (i + 1)
         | some msg =>
           if (s.msgs msg).dying then reflow_unfold s l (i + 1)
           else if !(s.msgs msg).unfolded then some msg
           else reflow_unfold s l (i + 1)) := by
  unfold reflow_unfold
  have : l.size - i = (l.size - (i + 1)) + 1 := by omega
  rw [this, List.range'_succ, List.filterMap_cons]
  cases hg : file_list_get_userdata l i with
  | none => simp
  | some msg =>
    cases hd : (s.msgs msg).dying <;> cases hu : (s.msgs msg).unfolded <;> simp [hd, hu]

theorem move_loop_spec (cfg : Config) (l : file_list_t) (s0 : State) :
    ∀ (n : Nat) (s : State), n ≤ l.size → s.msgs = s0.msgs →
      s.msg_queue_height = s0.msg_queue_height →
      s.msg_queue_spacing = s0.msg_queue_spacing →
      (gfx_widgets_msg_queue_move_loop cfg l n (reflow_target s0 l n) (reflow_unfold s0 l n)
          s).anims = s.anims ++ reflow_animations cfg s0 l n
      ∧ (gfx_widgets_msg_queue_move_loop cfg l n (reflow_target s0 l n)
          (reflow_unfold s0 l n) s).widgets_moving
          = (if reflow_animations cfg s0 l n = [] then s.widgets_moving else true) := by
  intro n
  induction n with
  | zero =>
    intro s _ _ _ _
    simp [gfx_widgets_msg_queue_move_loop, reflow_animations]
  | succ i ih =>
    intro s hn hm hh hsp
    have hi : i < l.size := by omega
    have ht := reflow_target_step s0 l i hi
    have hu := reflow_unfold_step s0 l i hi
    unfold gfx_widgets_msg_queue_move_loop
    unfold reflow_animations
    cases hg : file_list_get_userdata l i with
    | none =>
      simp only []
      have e1 : reflow_target s0 l (i + 1) = reflow_target s0 l i := by
        rw [ht]; simp [reflow_contribution, hg]
      have e2 : reflow_unfold s0 l (i + 1) = reflow_unfold s0 l i := by
        rw [hu]; simp [hg]
      have e3 : reflow_animation cfg s0 l i = none := by
        simp [reflow_animation, hg]
      rw [e1, e2, e3]
      simpa using ih s (by omega) hm hh hsp
    | some msg =>
      simp only []
      rw [hm]
      by_cases hd : (s0.msgs msg).dying = true
      · rw [if_pos hd]
        have e1 : reflow_target s0 l (i + 1) = reflow_target s0 l i := by
          rw [ht]; simp [reflow_contribution, hg, hd]
        have e2 : reflow_unfold s0 l (i + 1) = reflow_unfold s0 l i := by
          rw [hu]; simp [hg, hd]
        have e3 : reflow_animation cfg s0 l i = none := by
          simp [reflow_animation, hg, hd]
        rw [e1, e2, e3]
        simpa using ih s (by omega) hm hh hsp
      · rw [if_neg hd]
        have hd2 : (s0.msgs msg).dying = false := by simpa using hd
        have e1 : gfx_widgets_msg_queue_move_y s (reflow_target s0 l (i + 1)) msg
            = reflow_target s0 l i := by
          rw [ht]
          unfold gfx_widgets_msg_queue_move_y reflow_contribution
          simp only [hg, hm, hh, hsp, hd2]
          simp
          omega
        have e2 : gfx_widgets_msg_queue_move_unfold s (reflow_unfold s0 l (i + 1)) msg
            = reflow_unfold s0 l i := by
          rw [hu]
          unfold gfx_widgets_msg_queue_move_unfold
          simp only [hg, hm, hd2]
          cases (s0.msgs msg).unfolded <;> simp
        rw [e1, e2]
        by_cases ho : (s0.msgs msg).offset_y = reflow_target s0 l i
        · have e3 : reflow_animation cfg s0 l i = none := by
            simp [reflow_animation, hg, hd2, ho]
          have e4 : gfx_widgets_msg_queue_move_entry cfg s i msg (reflow_target s0 l i)
              (reflow_unfold s0 l i) = s := by
            unfold gfx_widgets_msg_queue_move_entry
            rw [hm]
            simp [ho]
          rw [e3, e4]
          simpa using ih s (by omega) hm hh hsp
        · have e3 : reflow_animation cfg s0 l i
              = some { cb := if i = 0 then anim_cb.gfx_widgets_move_end else anim_cb.NULL,
                       duration := cfg.MSG_QUEUE_ANIMATION_DURATION,
                       subject := (msg, anim_subject.offset_y),
                       tag := msg,
                       target_value := reflow_target s0 l i,
                       userdata := reflow_unfold s0 l i } := by
            simp [reflow_animation, hg, hd2, ho]
          have e4 : gfx_widgets_msg_queue_move_entry cfg s i msg (reflow_target s0 l i)
              (reflow_unfold s0 l i)
              = set_widgets_moving
                  (gfx_animation_push s
                    { cb := if i = 0 then anim_cb.gfx_widgets_move_end else anim_cb.NULL,
                      duration := cfg.MSG_QUEUE_ANIMATION_DURATION,
                      subject := (msg, anim_subject.offset_y),
                      tag := msg,
                      target_value := reflow_target s0 l i,
                      userdata := reflow_unfold s0 l i })
                  true := by
            unfold gfx_widgets_msg_queue_move_entry
            rw [hm]
            simp [ho]
          rw [e3, e4]
          obtain ⟨a1, a2⟩ := ih
            (set_widgets_moving
              (gfx_animation_push s
                { cb := if i = 0 then anim_cb.gfx_widgets_move_end else anim_cb.NULL,
                  duration := cfg.MSG_QUEUE_ANIMATION_DURATION,
                  subject := (msg, anim_subject.offset_y),
                  tag := msg,
                  target_value := reflow_target s0 l i,
                  userdata := reflow_unfold s0 l i })
              true)
            (by omega) (by simpa using hm) (by simpa using hh) (by simpa using hsp)
          rw [a1, a2]
          constructor
          · simp [gfx_animation_push]
          · simp


theorem msg_queue_move_spec (cfg : Config) (s : State) (l : file_list_t)
    (hl : s.current_msgs = some l) :
    (gfx_widgets_msg_queue_move cfg s).anims = s.anims ++ reflow_animations cfg s l l.size
    ∧ (gfx_widgets_msg_queue_move cfg s).widgets_moving
        = (if reflow_animations cfg s l l.size = [] then s.widgets_moving else true) := by
  unfold gfx_widgets_msg_queue_move
  simp only [hl]
  have h := move_loop_spec cfg l s l.size s (le_refl _) rfl rfl rfl
  rw [reflow_target_size s l l.size (le_refl _), reflow_unfold_size s l l.size (le_refl _)] at h
  exact h

theorem mem_reflow_animations (cfg : Config) (s : State) (l : file_list_t)
    (e : gfx_animation_ctx_entry_t) :
    ∀ n, e ∈ reflow_animations cfg s l n ↔ ∃ i, i < n ∧ reflow_animation cfg s l i = some e := by
  intro n
  induction n with
  | zero => simp [reflow_animations]
  | succ n ih =>
    unfold reflow_animations
    rw [List.mem_append, ih]
    constructor
    · rintro (h | ⟨i, hi, h⟩)
      · exact ⟨n, by omega, by simpa [Option.mem_toList] using h⟩
      · exact ⟨i, by omega, h⟩
    · rintro ⟨i, hi, h⟩
      by_cases hin : i = n
      · left
        subst hin
        simpa [Option.mem_toList] using h
      · exact Or.inr ⟨i, by omega, h⟩

theorem reflow_animation_cb (cfg : Config) (s : State) (l : file_list_t) (i : Nat)
    (e : gfx_animation_ctx_entry_t) (h : reflow_animation cfg s l i = some e) :
    e.cb = (if i = 0 then anim_cb.gfx_widgets_move_end else anim_cb.NULL) := by
  unfold reflow_animation at h
  cases hg : file_list_get_userdata l i with
  | none => simp [hg] at h
  | some msg =>
    simp only [hg] at h
    split at h
    · simp at h
    · split at h
      · simp at h
      · simp only [Option.some.injEq] at h
        rw [← h]

theorem reflow_animations_cb (cfg : Config) (s : State) (l : file_list_t) (n : Nat) :
    ∀ e ∈ reflow_animations cfg s l n,
      e.cb = anim_cb.gfx_widgets_move_end ∨ e.cb = anim_cb.NULL := by
  intro e he
  obtain ⟨i, _, h⟩ := (mem_reflow_animations cfg s l e n).1 he
  rw [reflow_animation_cb cfg s l i e h]
  split
  · exact Or.inl rfl
  · exact Or.inr rfl

/-- C25: `gfx_widgets_msg_queue_move` on the registry `l`.  The animations it
pushes are, from the highest index down, the offset animations of the
entries that are not dying and whose offset differs from their target; the
target of the entry at `i` is the sum, over the entries at `i` and after
that are not dying, of `msg_queue_height` (halved by the `unsigned` division
for a task notification) plus `msg_queue_spacing`.  Nothing else is pushed
and no notification is changed.  `widgets_moving` is set when an animation
is pushed and is left as it is otherwise. -/
theorem msg_queue_move_reflow (cfg : Config) (s : State) (l : file_list_t)
    (hl : s.current_msgs = some l) :
    (gfx_widgets_msg_queue_move cfg s).anims = s.anims ++ reflow_animations cfg s l l.size
    ∧ (∀ e, e ∈ reflow_animations cfg s l l.size
        ↔ ∃ i msg, i < l.size ∧ file_list_get_userdata l i = some msg
            ∧ (s.msgs msg).dying = false
            ∧ (s.msgs msg).offset_y ≠ reflow_target s l i
            ∧ e.subject = (msg, anim_subject.offset_y)
            ∧ e.target_value = reflow_target s l i
            ∧ reflow_animation cfg s l i = some e)
    ∧ (gfx_widgets_msg_queue_move cfg s).widgets_moving
        = (if reflow_animations cfg s l l.size = [] then s.widgets_moving else true)
    ∧ (gfx_widgets_msg_queue_move cfg s).msgs = s.msgs
    ∧ (gfx_widgets_msg_queue_move cfg s).timers = s.timers := by
  obtain ⟨a1, a2⟩ := msg_queue_move_spec cfg s l hl
  refine ⟨a1, ?_, a2, by simp, by simp⟩
  intro e
  rw [mem_reflow_animations]
  constructor
  · rintro ⟨i, hi, h⟩
    unfold reflow_animation at h
    cases hg : file_list_get_userdata l i with
    | none => simp [hg] at h
    | some msg =>
      simp only [hg] at h
      by_cases hd : (s.msgs msg).dying = true
      · simp [hd] at h
      · have hd2 : (s.msgs msg).dying = false := by simpa using hd
        by_cases ho : (s.msgs msg).offset_y = reflow_target s l i
        · simp [hd2, ho] at h
        · simp only [hd2, Bool.false_eq_true, if_false, ho, Option.some.injEq] at h
          refine ⟨i, msg, hi, hg, hd2, ho, by rw [← h], by rw [← h], ?_⟩
          unfold reflow_animation
          simp only [hg, hd2, Bool.false_eq_true, if_false, ho]
          rw [h]
  · rintro ⟨i, msg, hi, _, _, _, _, _, h⟩
    exact ⟨i, hi, h⟩

theorem msg_queue_move_reflow_witness :
    registry sample_kill_started = [some 0, some 1]
    ∧ (sample_kill_started.msgs 1).dying = true
    ∧ (sample_kill_started.msgs 0).offset_y = 80
    ∧ (gfx_widgets_msg_queue_move sample_cfg sample_kill_started).anims
        = sample_kill_started.anims
          ++ [{ cb := anim_cb.gfx_widgets_move_end,
                duration := 330,
                subject := (0, anim_subject.offset_y),
                tag := 0,
                target_value := 40,
                userdata := none }]
    ∧ (gfx_widgets_msg_queue_move sample_cfg sample_kill_started).widgets_moving = true := by
  have h := msg_queue_move_reflow sample_cfg sample_kill_started
    { list := [some 0, some 1, none, none], size := 2 } (by decide)
  exact ⟨by decide, by decide, by decide, h.1.trans (by decide), h.2.2.1.trans (by decide)⟩

/-- C26, as amended: in a reflow the callback `gfx_widgets_move_end` is on
the animation of the entry at the registry index 0, the entry the loop
visits last, and on no other: an animation pushed by
`gfx_widgets_msg_queue_move` carries the callback exactly when it is the one
of the index 0, every other one carries no callback, and the reflow pushes
an animation with the callback exactly when the entry at the index 0 is not
dying and is not at its target. -/
theorem msg_queue_move_callback (cfg : Config) (s : State) (l : file_list_t)
    (hl : s.current_msgs = some l) :
    (gfx_widgets_msg_queue_move cfg s).anims = s.anims ++ reflow_animations cfg s l l.size
    ∧ (∀ e ∈ reflow_animations cfg s l l.size,
        (e.cb = anim_cb.gfx_widgets_move_end ↔ reflow_animation cfg s l 0 = some e)
        ∧ (e.cb = anim_cb.gfx_widgets_move_end ∨ e.cb = anim_cb.NULL))
    ∧ ((∃ e ∈ reflow_animations cfg s l l.size, e.cb = anim_cb.gfx_widgets_move_end)
        ↔ ∃ msg, 0 < l.size ∧ file_list_get_userdata l 0 = some msg
            ∧ (s.msgs msg).dying = false
            ∧ (s.msgs msg).offset_y ≠ reflow_target s l 0) := by
  obtain ⟨a1, _⟩ := msg_queue_move_spec cfg s l hl
  have hcb : ∀ i e, reflow_animation cfg s l i = some e →
      e.cb = (if i = 0 then anim_cb.gfx_widgets_move_end else anim_cb.NULL) := by
    intro i e h
    unfold reflow_animation at h
    cases hg : file_list_get_userdata l i with
    | none => simp [hg] at h
    | some msg =>
      simp only [hg] at h
      split at h
      · simp at h
      · split at h
        · simp at h
        · simp only [Option.some.injEq] at h
          rw [← h]
  have hzero : ∀ e, reflow_animation cfg s l 0 = some e →
      ∃ msg, file_list_get_userdata l 0 = some msg ∧ (s.msgs msg).dying = false
        ∧ (s.msgs msg).offset_y ≠ reflow_target s l 0 := by
    intro e h
    unfold reflow_animation at h
    cases hg : file_list_get_userdata l 0 with
    | none => simp [hg] at h
    | some msg =>
      simp only [hg] at h
      by_cases hd : (s.msgs msg).dying = true
      · simp [hd] at h
      · by_cases ho : (s.msgs msg).offset_y = reflow_target s l 0
        · simp [hd, ho] at h
        · exact ⟨msg, rfl, by simpa using hd, ho⟩
  refine ⟨a1, ?_, ?_⟩
  · intro e he
    obtain ⟨i, hi, h⟩ := (mem_reflow_animations cfg s l e l.size).1 he
    have hc := hcb i e h
    constructor
    · constructor
      · intro hm
        by_cases hi0 : i = 0
        · rw [← hi0]; exact h
        · rw [hc, if_neg hi0] at hm
          exact absurd hm (by decide)
      · intro h0
        rw [hcb 0 e h0]
        rfl
    · by_cases hi0 : i = 0
      · left; rw [hc, if_pos hi0]
      · right; rw [hc, if_neg hi0]
  · constructor
    · rintro ⟨e, he, hm⟩
      obtain ⟨i, hi, h⟩ := (mem_reflow_animations cfg s l e l.size).1 he
      have hc := hcb i e h
      by_cases hi0 : i = 0
      · subst hi0
        obtain ⟨msg, g1, g2, g3⟩ := hzero e h
        exact ⟨msg, hi, g1, g2, g3⟩
      · rw [hc, if_neg hi0] at hm
        exact absurd hm (by decide)
    · rintro ⟨msg, h0, hg, hd, ho⟩
      have h : reflow_animation cfg s l 0
          = some { cb := anim_cb.gfx_widgets_move_end,
                   duration := cfg.MSG_QUEUE_ANIMATION_DURATION,
                   subject := (msg, anim_subject.offset_y),
                   tag := msg,
                   target_value := reflow_target s l 0,
                   userdata := reflow_unfold s l 0 } := by
        unfold reflow_animation
        simp [hg, hd, ho]
      exact ⟨_, (mem_reflow_animations cfg s l _ l.size).2 ⟨0, h0, h⟩, rfl⟩

theorem msg_queue_move_callback_witness :
    registry sample_kill_started = [some 0, some 1]
    ∧ (sample_kill_started.msgs 0).dying = false
    ∧ (sample_kill_started.msgs 0).offset_y = 80
    ∧ reflow_target sample_kill_started { list := [some 0, some 1, none, none], size := 2 } 0
        = 40
    ∧ ∃ e ∈ reflow_animations sample_cfg sample_kill_started
          { list := [some 0, some 1, none, none], size := 2 } 2,
        e.cb = anim_cb.gfx_widgets_move_end :=
  ⟨by decide, by decide, by decide, by decide,
   (msg_queue_move_callback sample_cfg sample_kill_started
      { list := [some 0, some 1, none, none], size := 2 } (by decide)).2.2.2
      ⟨0, by decide, by decide, by decide, by decide⟩⟩

/-- C26 fails as stated.  In the tick that admits "B" below "A" both offsets
move: the animation of "B", at the highest index 1, carries no callback, and
`gfx_widgets_move_end` is on the animation of "A" at the index 0.  And when
the entry at the index 0 is dying, the reflow of the tick that admits "C" at
the index 1 sets `widgets_moving` and pushes no animation with a callback:
the two pending animations carry none. -/
theorem msg_queue_move_callback_counterexample :
    registry sample_second_admitted = [some 0, some 1]
    ∧ sample_second_admitted.anims
        = [{ cb := anim_cb.NULL,
             duration := 330,
             subject := (1, anim_subject.offset_y),
             tag := 1,
             target_value := 40,
             userdata := some 1 },
           { cb := anim_cb.gfx_widgets_move_end,
             duration := 330,
             subject := (0, anim_subject.offset_y),
             tag := 0,
             target_value := 80,
             userdata := some 1 }]
    ∧ (sample_push sample_wrong_release "C" 1000).widgets_moving = false
    ∧ registry sample_stuck = [some 1, some 2]
    ∧ (sample_stuck.msgs 1).dying = true
    ∧ sample_stuck.widgets_moving = true
    ∧ sample_stuck.anims.map (fun e => (e.subject, e.cb))
        = [((1, anim_subject.offset_y), anim_cb.NULL),
           ((2, anim_subject.offset_y), anim_cb.NULL)] :=
  ⟨by decide, by decide, by decide, by decide, by decide, by decide, by decide⟩

/-! ### The kill of a notification -/

theorem msg_queue_free_cancels (s : State) (msg : Nat) (touch_list : Bool) :
    (∀ e ∈ (gfx_widgets_msg_queue_free s msg touch_list).anims, e ∈ s.anims ∧ e.tag ≠ msg)
    ∧ (∀ e ∈ (gfx_widgets_msg_queue_free s msg touch_list).timers,
        e ∈ s.timers ∧ e.timer ≠ (msg, timer_field.hourglass_timer)
        ∧ ((s.msgs msg).expiration_timer_started = true →
            e.timer ≠ (msg, timer_field.expiration_timer))) := by
  have hk : (∀ e ∈ (gfx_widgets_msg_queue_free_kill (gfx_widgets_msg_queue_free_task s msg)
        msg).anims, e ∈ s.anims ∧ e.tag ≠ msg)
      ∧ (∀ e ∈ (gfx_widgets_msg_queue_free_kill (gfx_widgets_msg_queue_free_task s msg)
          msg).timers,
          e ∈ s.timers ∧ e.timer ≠ (msg, timer_field.hourglass_timer)
          ∧ ((s.msgs msg).expiration_timer_started = true →
              e.timer ≠ (msg, timer_field.expiration_timer))) := by
    have ha : (gfx_widgets_msg_queue_free_task s msg).anims = s.anims := by simp
    have ht : (gfx_widgets_msg_queue_free_task s msg).timers = s.timers := by simp
    have hm : (gfx_widgets_msg_queue_free_task s msg).msgs = s.msgs := by simp
    unfold gfx_widgets_msg_queue_free_kill
    rw [hm]
    by_cases hs : (s.msgs msg).expiration_timer_started = true
    · rw [if_pos hs]
      simp only [gfx_timer_kill, gfx_animation_kill_by_tag, set_timers_proj, set_anims_proj,
        ha, ht, List.mem_filter, decide_eq_true_eq]
      exact ⟨fun e he => ⟨he.1, he.2⟩, fun e he => ⟨he.1.1, he.1.2, fun _ => he.2⟩⟩
    · rw [if_neg hs]
      simp only [gfx_timer_kill, gfx_animation_kill_by_tag, set_timers_proj, set_anims_proj,
        ha, ht, List.mem_filter, decide_eq_true_eq]
      exact ⟨fun e he => ⟨he.1, he.2⟩, fun e he => ⟨he.1, he.2, fun h => absurd h hs⟩⟩
  unfold gfx_widgets_msg_queue_free
  cases touch_list with
  | false => simpa using hk
  | true => simpa using hk

theorem msg_queue_kill_spec (cfg : Config) (s : State) (l : file_list_t)
    (idx msg : Nat) (hl : s.current_msgs = some l)
    (hg : file_list_get_userdata l idx = some msg) :
    (gfx_widgets_msg_queue_kill cfg s idx).timers = s.timers
    ∧ (gfx_widgets_msg_queue_kill cfg s idx).anims
        = s.anims
          ++ [{ cb := anim_cb.NULL,
                duration := cfg.MSG_QUEUE_ANIMATION_DURATION,
                tag := msg,
                userdata := none,
                subject := (msg, anim_subject.offset_y),
                target_value := (s.msgs msg).offset_y - ((s.msg_queue_height / 4 : Nat) : Int) },
              { cb := anim_cb.gfx_widgets_msg_queue_kill_end,
                duration := cfg.MSG_QUEUE_ANIMATION_DURATION,
                tag := msg,
                userdata := none,
                subject := (msg, anim_subject.alpha),
                target_value := 0 }]
          ++ (if l.size ≠ 0 then
                reflow_animations cfg (gfx_widgets_msg_queue_kill_start cfg s idx msg) l l.size
              else [])
    ∧ ((gfx_widgets_msg_queue_kill cfg s idx).msgs msg).dying = true
    ∧ (gfx_widgets_msg_queue_kill cfg s idx).widgets_moving = true
    ∧ (gfx_widgets_msg_queue_kill cfg s idx).msg_queue_kill = idx
    ∧ ∀ (u : State) (touch_list : Bool),
        (∀ e ∈ (gfx_widgets_msg_queue_free u msg touch_list).anims, e.tag ≠ msg)
        ∧ (∀ e ∈ (gfx_widgets_msg_queue_free u msg touch_list).timers,
            e.timer ≠ (msg, timer_field.hourglass_timer)
            ∧ ((u.msgs msg).expiration_timer_started = true →
                e.timer ≠ (msg, timer_field.expiration_timer))) := by
  have hs1 : (gfx_widgets_msg_queue_kill_start cfg s idx msg).current_msgs = some l := by
    simp [hl]
  have ha1 : (gfx_widgets_msg_queue_kill_start cfg s idx msg).anims
      = s.anims
        ++ [{ cb := anim_cb.NULL,
              duration := cfg.MSG_QUEUE_ANIMATION_DURATION,
              tag := msg,
              userdata := none,
              subject := (msg, anim_subject.offset_y),
              target_value := (s.msgs msg).offset_y - ((s.msg_queue_height / 4 : Nat) : Int) },
            { cb := anim_cb.gfx_widgets_msg_queue_kill_end,
              duration := cfg.MSG_QUEUE_ANIMATION_DURATION,
              tag := msg,
              userdata := none,
              subject := (msg, anim_subject.alpha),
              target_value := 0 }] := by
    simp [gfx_widgets_msg_queue_kill_start, gfx_animation_push]
  have hd1 : ((gfx_widgets_msg_queue_kill_start cfg s idx msg).msgs msg).dying = true := by
    simp [gfx_widgets_msg_queue_kill_start]
  have hm1 : (gfx_widgets_msg_queue_kill_start cfg s idx msg).widgets_moving = true := by
    simp [gfx_widgets_msg_queue_kill_start, gfx_animation_push]
  have hk1 : (gfx_widgets_msg_queue_kill_start cfg s idx msg).msg_queue_kill = idx := by
    simp [gfx_widgets_msg_queue_kill_start, gfx_animation_push]
  have ht1 : (gfx_widgets_msg_queue_kill_start cfg s idx msg).timers = s.timers := by simp
  have hfree : ∀ (u : State) (touch_list : Bool),
      (∀ e ∈ (gfx_widgets_msg_queue_free u msg touch_list).anims, e.tag ≠ msg)
      ∧ (∀ e ∈ (gfx_widgets_msg_queue_free u msg touch_list).timers,
          e.timer ≠ (msg, timer_field.hourglass_timer)
          ∧ ((u.msgs msg).expiration_timer_started = true →
              e.timer ≠ (msg, timer_field.expiration_timer))) := by
    intro u touch_list
    obtain ⟨f1, f2⟩ := msg_queue_free_cancels u msg touch_list
    exact ⟨fun e he => (f1 e he).2, fun e he => (f2 e he).2⟩
  unfold gfx_widgets_msg_queue_kill
  simp only [hl, hg]
  by_cases hz : l.size ≠ 0
  · rw [if_pos hz, if_pos hz]
    obtain ⟨m1, m2⟩ := msg_queue_move_spec cfg _ l hs1
    refine ⟨by simp, by rw [m1, ha1], by simpa using hd1, ?_, by simpa using hk1, hfree⟩
    rw [m2, hm1]
    split <;> rfl
  · rw [if_neg hz, if_neg hz]
    exact ⟨ht1, by rw [ha1]; simp, hd1, hm1, hk1, hfree⟩

/-- C23, as amended: `gfx_widgets_msg_queue_kill` cancels nothing.  The
pending timers stay as they are and every pending animation stays pending;
the kill sets `widgets_moving`, `dying` and `msg_queue_kill`, pushes the
drop and the fade, and then, for a registry that is not empty, the reflow
of the notifications that are not dying.  The animations with the tag of
the notification, its hourglass timer and its started expiration timer are
cancelled by `gfx_widgets_msg_queue_free`, which the completion of the fade
calls. -/
theorem msg_queue_kill_cancels_nothing (cfg : Config) (s : State) (l : file_list_t)
    (idx msg : Nat) (hl : s.current_msgs = some l)
    (hg : file_list_get_userdata l idx = some msg) :
    (gfx_widgets_msg_queue_kill cfg s idx).timers = s.timers
    ∧ (gfx_widgets_msg_queue_kill cfg s idx).anims
        = s.anims
          ++ [{ cb := anim_cb.NULL,
                duration := cfg.MSG_QUEUE_ANIMATION_DURATION,
                tag := msg,
                userdata := none,
                subject := (msg, anim_subject.offset_y),
                target_value := (s.msgs msg).offset_y - ((s.msg_queue_height / 4 : Nat) : Int) },
              { cb := anim_cb.gfx_widgets_msg_queue_kill_end,
                duration := cfg.MSG_QUEUE_ANIMATION_DURATION,
                tag := msg,
                userdata := none,
                subject := (msg, anim_subject.alpha),
                target_value := 0 }]
          ++ (if l.size ≠ 0 then
                reflow_animations cfg (gfx_widgets_msg_queue_kill_start cfg s idx msg) l l.size
              else [])
    ∧ ((gfx_widgets_msg_queue_kill cfg s idx).msgs msg).dying = true
    ∧ (gfx_widgets_msg_queue_kill cfg s idx).widgets_moving = true
    ∧ (gfx_widgets_msg_queue_kill cfg s idx).msg_queue_kill = idx
    ∧ ∀ (u : State) (touch_list : Bool),
        (∀ e ∈ (gfx_widgets_msg_queue_free u msg touch_list).anims, e.tag ≠ msg)
        ∧ (∀ e ∈ (gfx_widgets_msg_queue_free u msg touch_list).timers,
            e.timer ≠ (msg, timer_field.hourglass_timer)
            ∧ ((u.msgs msg).expiration_timer_started = true →
                e.timer ≠ (msg, timer_field.expiration_timer))) :=
  msg_queue_kill_spec cfg s l idx msg hl hg

theorem msg_queue_kill_cancels_nothing_witness :
    sample_task_done_expired.current_msgs
        = some { list := [some 0, none, none, none], size := 1 }
    ∧ (sample_task_done_expired.msgs 0).expired = true
    ∧ (gfx_widgets_msg_queue_kill sample_cfg sample_task_done_expired 0).timers.map
        (fun e => e.timer) = [(0, timer_field.hourglass_timer)]
    ∧ (gfx_widgets_msg_queue_kill sample_cfg sample_task_done_expired 0).anims.map
        (fun e => (e.tag, e.subject.2, e.cb))
        = [(0, anim_subject.msg_transition_animation,
              anim_cb.msg_widget_msg_transition_animation_done),
           (0, anim_subject.offset_y, anim_cb.NULL),
           (0, anim_subject.alpha, anim_cb.gfx_widgets_msg_queue_kill_end)]
    ∧ ((gfx_widgets_msg_queue_kill sample_cfg sample_task_done_expired 0).msgs 0).dying
        = true := by
  have h := msg_queue_kill_cancels_nothing sample_cfg sample_task_done_expired
    { list := [some 0, none, none, none], size := 1 } 0 0 (by decide) (by decide)
  exact ⟨by decide, by decide, (congrArg (List.map (fun e => e.timer)) h.1).trans (by decide),
    (congrArg (List.map (fun e => (e.tag, e.subject.2, e.cb))) h.2.1).trans (by decide),
    h.2.2.1⟩

/-- C23 fails as stated: when the tick kills the notification 0, the
animation of its transition to the new title, which carries its tag, and its
hourglass timer are pending, and they are still pending after the kill,
behind them the drop and the fade. -/
theorem msg_queue_kill_counterexample :
    registry sample_task_done_expired = [some 0]
    ∧ (sample_task_done_expired.msgs 0).dying = false
    ∧ sample_task_done_expired.anims.map (fun e => (e.tag, e.cb))
        = [(0, anim_cb.msg_widget_msg_transition_animation_done)]
    ∧ sample_task_done_expired.timers.map (fun e => e.timer)
        = [(0, timer_field.hourglass_timer)]
    ∧ ((sample_tick sample_task_done_expired).msgs 0).dying = true
    ∧ (sample_tick sample_task_done_expired).anims.map (fun e => (e.tag, e.cb))
        = [(0, anim_cb.msg_widget_msg_transition_animation_done),
           (0, anim_cb.NULL),
           (0, anim_cb.gfx_widgets_msg_queue_kill_end)]
    ∧ (sample_tick sample_task_done_expired).timers.map (fun e => e.timer)
        = [(0, timer_field.hourglass_timer)] :=
  ⟨by decide, by decide, by decide, by decide, by decide, by decide, by decide⟩

/-! ### The size of a new plain notification -/

/-- C30: a new plain notification, with the measured width `t` of its text,
the default width `W` of the rectangle and the line height `h`.  When
`t <= W` its width is `t + simple_widget_padding / 2`, its `text_height` is
`h`, its text is the title and no wrap column is computed.  When `t > W` its
width is `min W (t - t / 4) + simple_widget_padding / 2`, its `text_height`
is `2 * h` and its text is the title wrapped at the column
`(title_length * min W (t - t / 4)) / t`.  The sums and products are
`unsigned`.  The division is reached with a divisor that is not zero. -/
theorem msg_queue_push_plain_size (cfg : Config) (s : State) (title : String) (duration : Nat)
    (alive : Bool) :
    (cfg.font_driver_get_message_width title (u32 (strlen title))
        ≤ (if alive then s.msg_queue_default_rect_width_menu_alive
           else s.msg_queue_default_rect_width) →
      (gfx_widgets_msg_queue_push_plain_msg cfg s title duration alive).width
          = u32 (cfg.font_driver_get_message_width title (u32 (strlen title))
                  + s.simple_widget_padding / 2)
      ∧ (gfx_widgets_msg_queue_push_plain_msg cfg s title duration alive).text_height
          = s.msg_queue_line_height
      ∧ (gfx_widgets_msg_queue_push_plain_msg cfg s title duration alive).msg = some title
      ∧ gfx_widgets_msg_queue_push_wrap_column (u32 (strlen title))
          (if alive then s.msg_queue_default_rect_width_menu_alive
           else s.msg_queue_default_rect_width)
          (cfg.font_driver_get_message_width title (u32 (strlen title))) = none)
    ∧ (cfg.font_driver_get_message_width title (u32 (strlen title))
        > (if alive then s.msg_queue_default_rect_width_menu_alive
           else s.msg_queue_default_rect_width) →
      (gfx_widgets_msg_queue_push_plain_msg cfg s title duration alive).width
          = u32 (min (if alive then s.msg_queue_default_rect_width_menu_alive
                      else s.msg_queue_default_rect_width)
                    (cfg.font_driver_get_message_width title (u32 (strlen title))
                      - cfg.font_driver_get_message_width title (u32 (strlen title)) / 4)
                  + s.simple_widget_padding / 2)
      ∧ (gfx_widgets_msg_queue_push_plain_msg cfg s title duration alive).text_height
          = u32 (2 * s.msg_queue_line_height)
      ∧ gfx_widgets_msg_queue_push_wrap_column (u32 (strlen title))
          (if alive then s.msg_queue_default_rect_width_menu_alive
           else s.msg_queue_default_rect_width)
          (cfg.font_driver_get_message_width title (u32 (strlen title)))
          = some (some
              (u32 (u32 (strlen title)
                    * min (if alive then s.msg_queue_default_rect_width_menu_alive
                           else s.msg_queue_default_rect_width)
                        (cfg.font_driver_get_message_width title (u32 (strlen title))
                          - cfg.font_driver_get_message_width title (u32 (strlen title)) / 4))
                / cfg.font_driver_get_message_width title (u32 (strlen title))))
      ∧ (gfx_widgets_msg_queue_push_plain_msg cfg s title duration alive).msg
          = some (cfg.word_wrap title
              (u32 (u32 (strlen title)
                    * min (if alive then s.msg_queue_default_rect_width_menu_alive
                           else s.msg_queue_default_rect_width)
                        (cfg.font_driver_get_message_width title (u32 (strlen title))
                          - cfg.font_driver_get_message_width title (u32 (strlen title)) / 4))
                / cfg.font_driver_get_message_width title (u32 (strlen title)))))
    ∧ gfx_widgets_msg_queue_push_wrap_column (u32 (strlen title))
        (if alive then s.msg_queue_default_rect_width_menu_alive
         else s.msg_queue_default_rect_width)
        (cfg.font_driver_get_message_width title (u32 (strlen title))) ≠ some none := by
  unfold gfx_widgets_msg_queue_push_plain_msg
  generalize (if alive = true then s.msg_queue_default_rect_width_menu_alive
    else s.msg_queue_default_rect_width) = W
  generalize cfg.font_driver_get_message_width title (u32 (strlen title)) = t
  have hmin : t > W → gfx_widgets_msg_queue_push_rect_width W t = min W (t - t / 4) := by
    intro h
    unfold gfx_widgets_msg_queue_push_rect_width
    rw [if_pos h]
    split
    · rw [Nat.min_eq_right (by omega)]
    · rw [Nat.min_eq_left (by omega)]
  have hfit : t ≤ W → gfx_widgets_msg_queue_push_rect_width W t = t := by
    intro h
    unfold gfx_widgets_msg_queue_push_rect_width
    rw [if_neg (by omega)]
  refine ⟨?_, ?_, ?_⟩
  · intro h
    have hn : ¬ t > W := by omega
    unfold gfx_widgets_msg_queue_push_wrap_column
    simp [hn, hfit h]
  · intro h
    unfold gfx_widgets_msg_queue_push_wrap_column unsigned_div
    have ht : t ≠ 0 := by omega
    simp [h, hmin h, ht, Nat.mul_comm 2]
  · unfold gfx_widgets_msg_queue_push_wrap_column unsigned_div
    split
    · have ht : t ≠ 0 := by omega
      simp [ht]
    · simp

theorem msg_queue_push_plain_size_witness :
    (gfx_widgets_msg_queue_push_plain_msg sample_cfg sample_init "Saved state" 1000
        false).width = 120
    ∧ (gfx_widgets_msg_queue_push_plain_msg sample_cfg sample_init "Saved state" 1000
        false).text_height = 12
    ∧ (gfx_widgets_msg_queue_push_plain_msg sample_cfg sample_init
        "The save state was written to the slot that was chosen in the menu" 1000
        true).width = 410
    ∧ (gfx_widgets_msg_queue_push_plain_msg sample_cfg sample_init
        "The save state was written to the slot that was chosen in the menu" 1000
        true).text_height = 24
    ∧ gfx_widgets_msg_queue_push_wrap_column 66 400 660 = some (some 40) :=
  ⟨((msg_queue_push_plain_size sample_cfg sample_init "Saved state" 1000 false).1
      (by decide)).1.trans (by decide),
   ((msg_queue_push_plain_size sample_cfg sample_init "Saved state" 1000 false).1
      (by decide)).2.1.trans (by decide),
   ((msg_queue_push_plain_size sample_cfg sample_init
      "The save state was written to the slot that was chosen in the menu" 1000 true).2.1
      (by decide)).1.trans (by decide),
   ((msg_queue_push_plain_size sample_cfg sample_init
      "The save state was written to the slot that was chosen in the menu" 1000 true).2.1
      (by decide)).2.1.trans (by decide),
   by decide⟩

/-! ### The completion of a kill -/

theorem kill_calm_refl (s : State) : kill_calm s s :=
  ⟨rfl, rfl, fun _ _ => rfl, fun _ h => Or.inl h⟩

theorem kill_calm_trans {s2 s1 s : State} (a : kill_calm s2 s1) (b : kill_calm s1 s)
    (hn : s.msgs_next ≤ s1.msgs_next) : kill_calm s2 s where
  current_msgs := a.current_msgs.trans b.current_msgs
  msg_queue_kill := a.msg_queue_kill.trans b.msg_queue_kill
  dying := fun h hh => (a.dying h (lt_of_lt_of_le hh hn)).trans (b.dying h hh)
  anims := by
    intro e he
    rcases a.anims e he with h1 | h1
    · exact b.anims e h1
    · exact Or.inr h1

theorem kill_calm_of_quiet {s1 s : State} (c : quiet s1 s)
    (hk : s1.msg_queue_kill = s.msg_queue_kill) : kill_calm s1 s where
  current_msgs := c.current_msgs
  msg_queue_kill := hk
  dying := fun h _ => c.dying h
  anims := by
    intro e he
    rcases c.anims e he with h1 | ⟨h1, _⟩
    · exact Or.inl h1
    · right
      rcases h1 with h1 | h1 | h1 <;> rw [h1] <;> decide

theorem kill_inv_calm {s1 s : State} (c : kill_calm s1 s) (i : kill_inv s)
    (hlt : ∀ h, some h ∈ registry s → h < s.msgs_next)
    (hwf : ∀ l, s.current_msgs = some l → l.size ≤ l.list.length) : kill_inv s1 := by
  intro e he hcb
  rcases c.anims e he with h1 | h1
  · obtain ⟨l, hl, hk, hg, hd⟩ := i e h1 hcb
    refine ⟨l, c.current_msgs.trans hl, by rw [c.msg_queue_kill]; exact hk,
      by rw [c.msg_queue_kill]; exact hg, ?_⟩
    rw [c.dying e.tag (hlt _ (mem_registry_of_get s l _ _ hl (hwf l hl) hk hg))]
    exact hd
  · exact absurd hcb h1

theorem kill_inv_of_none {s : State} (h : no_kill_pending s) : kill_inv s :=
  fun e he hcb => absurd hcb (h e he)

theorem kill_calm_timer_fire (cfg : Config) (s : State) (n : Nat) :
    kill_calm (gfx_timer_fire cfg s n) s := by
  refine kill_calm_of_quiet (quiet_timer_fire cfg s n) ?_
  unfold gfx_timer_fire
  cases s.timers.get? n with
  | none => rfl
  | some e =>
    simp only []
    split <;> simp

theorem kill_calm_set_task (s : State) (t : Nat) (r : retro_task_t) :
    kill_calm (set_task s t r) s :=
  kill_calm_of_quiet (quiet_set_task s t r) (by simp)

theorem kill_calm_spawn (cfg : Config) (s : State) (q : fifo_buffer_t) (task : Option Nat)
    (msg : String) (duration : Nat) (alive : Bool) :
    kill_calm (gfx_widgets_msg_queue_push_spawn cfg s q task msg duration alive) s := by
  obtain ⟨_, _, h3, _⟩ := push_spawn_spec cfg s q task msg duration alive
  refine ⟨by simp, by simp, ?_, ?_⟩
  · intro h hh
    rw [h3 h (Nat.ne_of_lt hh)]
  · intro e he
    left
    simpa using he

theorem kill_calm_push (cfg : Config) (s : State) (task : Option Nat) (msg : String)
    (duration : Nat) (title : Option String) (icon category prio : Nat)
    (flush alive : Bool) :
    kill_calm
      (gfx_widgets_msg_queue_push cfg s task msg duration title icon category prio flush
        alive) s := by
  unfold gfx_widgets_msg_queue_push
  split
  · exact kill_calm_refl s
  · cases hq : s.msg_queue with
    | none => exact kill_calm_refl s
    | some q =>
      simp only []
      split
      · cases task with
        | none => exact kill_calm_spawn cfg s q none msg duration alive
        | some t =>
          simp only []
          cases hu : (s.tasks t).frontend_userdata with
          | none => exact kill_calm_spawn cfg s q (some t) msg duration alive
          | some h =>
            simp only []
            refine kill_calm_trans
              (kill_calm_of_quiet (quiet_push_update _ _ _ _) (by simp)) ?_ (by simp)
            refine ⟨by simp, by simp, ?_, ?_⟩
            · intro k _
              by_cases e : k = h <;> simp [e]
            · intro e he
              left
              simpa using he
      · exact kill_calm_refl s

theorem kill_calm_move_end (cfg : Config) (s : State) (u : Option Nat) :
    kill_calm (gfx_widgets_move_end cfg s u) s := by
  unfold gfx_widgets_move_end
  cases u with
  | none => exact ⟨by simp, by simp, fun _ _ => by simp, fun e he => Or.inl (by simpa using he)⟩
  | some w =>
    simp only []
    refine ⟨by simp, by simp, ?_, ?_⟩
    · intro k _
      by_cases e : k = w <;> simp [e, gfx_animation_push]
    · intro e he
      simp only [set_msg_proj, gfx_animation_push, set_anims_proj, List.mem_append,
        List.mem_singleton] at he
      rcases he with h1 | h1
      · exact Or.inl h1
      · right
        rw [h1]
        simp

theorem kill_calm_unfold_end (s : State) (u : Nat) :
    kill_calm (gfx_widgets_unfold_end s u) s := by
  unfold gfx_widgets_unfold_end
  refine ⟨by simp, by simp, ?_, fun e he => Or.inl (by simpa using he)⟩
  intro k _
  by_cases e : k = u <;> simp [e]

theorem kill_calm_animation (cfg : Config) (s : State) (n : Nat)
    (e : gfx_animation_ctx_entry_t) (hn : s.anims.get? n = some e)
    (hcb : e.cb ≠ anim_cb.gfx_widgets_msg_queue_kill_end) :
    kill_calm (gfx_animation_complete cfg s n) s := by
  have hmem : e ∈ s.anims := List.get?_mem hn
  have c0 : kill_calm (gfx_animation_set_subject (set_anims s (s.anims.eraseIdx n)) e.subject
      e.target_value) s :=
    kill_calm_of_quiet (quiet_set_subject_erase s n e hmem) (by simp)
  have hnext : s.msgs_next ≤ (gfx_animation_set_subject (set_anims s (s.anims.eraseIdx n))
      e.subject e.target_value).msgs_next := by simp
  unfold gfx_animation_complete
  simp only [hn]
  unfold gfx_animation_run_cb
  split
  · exact c0
  · exact kill_calm_trans (kill_calm_move_end _ _ _) c0 hnext
  · exact kill_calm_trans (kill_calm_unfold_end _ _) c0 hnext
  · rename_i h
    exact absurd h hcb
  · exact kill_calm_trans (kill_calm_of_quiet (quiet_transition_done _ _) (by simp)) c0 hnext
  · exact kill_calm_trans (kill_calm_of_quiet (quiet_hourglass_end _ _ _) (by simp)) c0 hnext
  · exact c0

theorem iterate_consume_moving (cfg : Config) (s : State) (h : s.widgets_moving = true) :
    gfx_widgets_iterate_consume cfg s = s := by
  unfold gfx_widgets_iterate_consume
  split
  · rw [if_neg]
    simp [gfx_widgets_iterate_consumes, h]
  · rfl

theorem iterate_loop_kill_calm (cfg : Config) :
    ∀ (n i : Nat) (s : State), s.widgets_moving = true →
      kill_calm (gfx_widgets_iterate_loop cfg n i s) s := by
  intro n
  induction n with
  | zero =>
    intro i s _
    simpa [gfx_widgets_iterate_loop] using kill_calm_refl s
  | succ n ih =>
    intro i s hm
    unfold gfx_widgets_iterate_loop
    split
    · exact kill_calm_refl s
    · split
      · split
        · exact ih _ _ hm
        · rename_i w _
          have c := kill_calm_of_quiet (quiet_iterate_loop_timer cfg s w) (by simp)
          have hm1 : (gfx_widgets_iterate_loop_timer cfg s w).widgets_moving = true := by
            simpa using hm
          rw [if_neg (by simp [hm])]
          exact kill_calm_trans (ih _ _ hm1) c (by simp)
      · exact kill_calm_refl s

theorem iterate_loop_kill_inv (cfg : Config) :
    ∀ (n i : Nat) (s : State), no_kill_pending s →
      kill_inv (gfx_widgets_iterate_loop cfg n i s) := by
  intro n
  induction n with
  | zero =>
    intro i s h
    simpa [gfx_widgets_iterate_loop] using kill_inv_of_none h
  | succ n ih =>
    intro i s h
    unfold gfx_widgets_iterate_loop
    cases hl : s.current_msgs with
    | none => exact kill_inv_of_none h
    | some l =>
      simp only []
      split
      · rename_i hi
        split
        · exact ih _ _ h
        · rename_i w hw
          have h1 : no_kill_pending (gfx_widgets_iterate_loop_timer cfg s w) := by
            intro e he
            exact h e (by simpa using he)
          have hl1 : (gfx_widgets_iterate_loop_timer cfg s w).current_msgs = some l := by
            simpa using hl
          split
          · obtain ⟨_, k2, k3, _, k5, _⟩ :=
              msg_queue_kill_spec cfg (gfx_widgets_iterate_loop_timer cfg s w) l i w hl1 hw
            intro e he hcb
            rw [k2] at he
            simp only [List.mem_append, List.mem_cons, List.mem_singleton,
              List.not_mem_nil, or_false] at he
            rcases he with (he | he | he) | he
            · exact absurd hcb (h1 e he)
            · rw [he] at hcb
              simp at hcb
            · refine ⟨l, by simpa using hl1, by rw [k5]; exact hi, by rw [k5, he]; exact hw,
                by rw [he]; exact k3⟩
            · split at he
              · rcases reflow_animations_cb cfg _ l l.size e he with h2 | h2 <;>
                  rw [h2] at hcb <;> simp at hcb
              · simp at he
          · exact ih _ _ h1
      · exact kill_inv_of_none h

theorem iterate_consume_no_kill (cfg : Config) (s : State) (h : no_kill_pending s) :
    no_kill_pending (gfx_widgets_iterate_consume cfg s) := by
  have hmove : ∀ s1 : State, no_kill_pending s1 →
      no_kill_pending (gfx_widgets_msg_queue_move cfg s1) := by
    intro s1 h1 e he
    unfold gfx_widgets_msg_queue_move at he
    cases hl : s1.current_msgs with
    | none =>
      simp only [hl] at he
      exact h1 e he
    | some l =>
      have h2 := (msg_queue_move_spec cfg s1 l hl).1
      unfold gfx_widgets_msg_queue_move at h2
      rw [h2] at he
      rcases List.mem_append.1 he with h3 | h3
      · exact h1 e h3
      · rcases reflow_animations_cb cfg _ l l.size e h3 with h4 | h4 <;> rw [h4] <;> simp
  have htimer : ∀ (s1 : State) (w : Nat), s1.anims = s.anims →
      no_kill_pending (gfx_widgets_iterate_consume_timer cfg s1 w) := by
    intro s1 w e1 e he
    apply h e
    rw [← e1]
    simpa using he
  unfold gfx_widgets_iterate_consume
  split
  · split
    · split
      · exact h
      · split
        · exact hmove _ (htimer _ _ (by simp))
        · exact htimer _ _ (by simp)
    · exact h
  · exact h

theorem kill_inv_iterate (cfg : Config) (s : State) (relayout : Option layout_t)
    (i : kill_inv s)
    (hlt : ∀ h, some h ∈ registry s → h < s.msgs_next)
    (hwf : ∀ l, s.current_msgs = some l → l.size ≤ l.list.length)
    (hg : s.widgets_moving = false → no_kill_pending s) :
    kill_inv (gfx_widgets_iterate cfg s relayout) := by
  unfold gfx_widgets_iterate
  split
  · exact i
  · cases hm : s.widgets_moving with
    | true =>
      have hm1 : (gfx_widgets_iterate_layout s relayout).widgets_moving = true := by
        simpa using hm
      rw [iterate_consume_moving cfg _ hm1]
      have c0 : kill_calm (gfx_widgets_iterate_layout s relayout) s :=
        ⟨by simp, by simp, fun _ _ => by simp, fun e he => Or.inl (by simpa using he)⟩
      refine kill_inv_calm (kill_calm_trans ?_ c0 (by simp)) i hlt hwf
      unfold gfx_widgets_iterate_expire
      split
      · exact kill_calm_refl _
      · exact iterate_loop_kill_calm cfg _ _ _ hm1
    | false =>
      have h0 : no_kill_pending (gfx_widgets_iterate_layout s relayout) := by
        intro e he
        exact hg hm e (by simpa using he)
      have h1 := iterate_consume_no_kill cfg _ h0
      unfold gfx_widgets_iterate_expire
      split
      · exact kill_inv_of_none h1
      · exact iterate_loop_kill_inv cfg _ _ _ h1

theorem kill_end_no_kill (cfg : Config) (s : State) (n : Nat)
    (e : gfx_animation_ctx_entry_t) (i : kill_inv s) (hn : s.anims.get? n = some e)
    (hcb : e.cb = anim_cb.gfx_widgets_msg_queue_kill_end) :
    no_kill_pending (gfx_animation_complete cfg s n) := by
  have hmem : e ∈ s.anims := List.get?_mem hn
  obtain ⟨l, hl, hk, hg, hd⟩ := i e hmem hcb
  have hrun : gfx_animation_complete cfg s n
      = gfx_widgets_msg_queue_free
          (gfx_animation_set_subject (set_anims s (s.anims.eraseIdx n)) e.subject
            e.target_value) e.tag true := by
    unfold gfx_animation_complete
    simp only [hn]
    unfold gfx_animation_run_cb
    rw [hcb]
    simp only []
    unfold gfx_widgets_msg_queue_kill_end
    simp [hl, hg]
  rw [hrun]
  intro x hx hxcb
  obtain ⟨h1, h2⟩ := (msg_queue_free_cancels _ e.tag true).1 x hx
  have h3 : x ∈ s.anims := by
    have : x ∈ s.anims.eraseIdx n := by simpa using h1
    exact List.mem_of_mem_eraseIdx this
  obtain ⟨l2, hl2, _, hg2, _⟩ := i x h3 hxcb
  rw [hl] at hl2
  have : l2 = l := (Option.some.inj hl2).symm
  subst this
  rw [hg] at hg2
  exact h2 (Option.some.inj hg2).symm

theorem reachable_of_guarded (cfg : Config) (s : State) (h : ReachableGuarded cfg s) :
    Reachable cfg s := by
  induction h with
  | init has_icons layout => exact Reachable.init has_icons layout
  | push s task msg duration title icon category prio flush alive _ ih =>
    exact Reachable.push s task msg duration title icon category prio flush alive ih
  | iterate s relayout _ _ ih => exact Reachable.iterate s relayout ih
  | animation s n _ ih => exact Reachable.animation s n ih
  | timer s n _ ih => exact Reachable.timer s n ih
  | task s t r _ hr ih => exact Reachable.task s t r ih hr

theorem reachable_guarded_kill_inv (cfg : Config)
    (hmax : cfg.MSG_QUEUE_ONSCREEN_MAX < 4294967296) (s : State)
    (h : ReachableGuarded cfg s) : kill_inv s := by
  have hb : ∀ s0 : State, ReachableGuarded cfg s0 →
      (∀ h, some h ∈ registry s0 → h < s0.msgs_next)
      ∧ (∀ l, s0.current_msgs = some l → l.size ≤ l.list.length) := by
    intro s0 h0
    obtain ⟨q, l, P, T, ri⟩ := reachable_registry_inv cfg hmax s0 (reachable_of_guarded cfg s0 h0)
    refine ⟨registry_lt ri, ?_⟩
    intro l1 hl1
    rw [ri.hl] at hl1
    rw [← Option.some.inj hl1]
    exact le_trans ri.hsize ri.hcap
  induction h with
  | init has_icons layout =>
    apply kill_inv_of_none
    intro e he
    unfold gfx_widgets_init at he
    simp [dispwidget_st] at he
  | push s task msg duration title icon category prio flush alive hr ih =>
    exact kill_inv_calm (kill_calm_push cfg s task msg duration title icon category prio flush
      alive) ih (hb s hr).1 (hb s hr).2
  | iterate s relayout hr hg ih =>
    exact kill_inv_iterate cfg s relayout ih (hb s hr).1 (hb s hr).2 hg
  | animation s n hr ih =>
    cases hn : s.anims.get? n with
    | none =>
      have : gfx_animation_complete cfg s n = s := by
        unfold gfx_animation_complete
        simp only [hn]
      rw [this]
      exact ih
    | some e =>
      by_cases hcb : e.cb = anim_cb.gfx_widgets_msg_queue_kill_end
      · exact kill_inv_of_none (kill_end_no_kill cfg s n e ih hn hcb)
      · exact kill_inv_calm (kill_calm_animation cfg s n e hn hcb) ih (hb s hr).1 (hb s hr).2
  | timer s n hr ih =>
    exact kill_inv_calm (kill_calm_timer_fire cfg s n) ih (hb s hr).1 (hb s hr).2
  | task s t r hr _ ih =>
    exact kill_inv_calm (kill_calm_set_task s t r) ih (hb s hr).1 (hb s hr).2

theorem kill_end_release (cfg : Config) (s : State) (q : fifo_buffer_t) (l : file_list_t)
    (P T : List Nat) (ri : registry_inv cfg s q l P T) (n : Nat)
    (e : gfx_animation_ctx_entry_t) (hn : s.anims.get? n = some e)
    (hcb : e.cb = anim_cb.gfx_widgets_msg_queue_kill_end)
    (hk : s.msg_queue_kill < l.size)
    (hg : file_list_get_userdata l s.msg_queue_kill = some e.tag) :
    registry (gfx_animation_complete cfg s n) = (registry s).eraseIdx s.msg_queue_kill
    ∧ (gfx_animation_complete cfg s n).msgs_freed = s.msgs_freed ++ [e.tag] := by
  have hl1 : (gfx_animation_set_subject (set_anims s (s.anims.eraseIdx n)) e.subject
      e.target_value).current_msgs = some l := by
    simpa using ri.hl
  have hrun : gfx_animation_complete cfg s n
      = gfx_widgets_msg_queue_free
          (gfx_animation_set_subject (set_anims s (s.anims.eraseIdx n)) e.subject
            e.target_value) e.tag true := by
    unfold gfx_animation_complete
    simp only [hn]
    unfold gfx_animation_run_cb
    rw [hcb]
    simp only []
    unfold gfx_widgets_msg_queue_kill_end
    simp [ri.hl, hg]
  have hwf : l.size ≤ l.list.length := le_trans ri.hsize ri.hcap
  obtain ⟨_, f2, _⟩ := free_touch_spec _ l e.tag hl1
  have hsz : u64 (l.size + 18446744073709551615) = l.size - 1 := by
    have := ri.hcap2
    unfold u64
    omega
  rw [hsz] at f2
  rw [hrun]
  constructor
  · unfold registry
    rw [f2, ri.hl]
    simp only [gfx_animation_set_subject_frame, set_anims_proj]
    have := free_shift_entries l.list l.size s.msg_queue_kill hk hwf
    unfold file_list_t.entries
    simp only []
    exact this
  · unfold gfx_widgets_msg_queue_free gfx_widgets_msg_queue_free_list
    simp [ri.hl, hg]

theorem sample_killing_guarded : ReachableGuarded sample_cfg sample_killing := by
  have h0 : ReachableGuarded sample_cfg sample_pushed_two :=
    ReachableGuarded.push (sample_push sample_init "A" 5000) none "B" 1000 none 0 0 0 false
      false
      (ReachableGuarded.push sample_init none "A" 5000 none 0 0 0 false false
        (ReachableGuarded.init true sample_layout))
  have h1 : ReachableGuarded sample_cfg sample_first_admitted :=
    ReachableGuarded.iterate sample_pushed_two none h0 (by decide)
  have h2 := ReachableGuarded.animation sample_first_admitted 0 h1
  have h3 := ReachableGuarded.animation _ 0 h2
  have h4 : ReachableGuarded sample_cfg
      (sample_tick
        (gfx_animation_complete sample_cfg
          (gfx_animation_complete sample_cfg sample_first_admitted 0) 0)) :=
    ReachableGuarded.iterate _ none h3 (by decide)
  have h5 := ReachableGuarded.animation _ 0 h4
  have h6 := ReachableGuarded.animation _ 0 h5
  have h7 : ReachableGuarded sample_cfg sample_both_unfolded :=
    ReachableGuarded.animation _ 0 h6
  have h8 : ReachableGuarded sample_cfg (gfx_timer_fire sample_cfg sample_both_unfolded 1) :=
    ReachableGuarded.timer sample_both_unfolded 1 h7
  exact ReachableGuarded.iterate (gfx_timer_fire sample_cfg sample_both_unfolded 1) none h8
    (by decide)

theorem sample_double_kill_reachable : Reachable sample_cfg sample_double_kill := by
  have h1 : Reachable sample_cfg (gfx_timer_fire sample_cfg sample_both_unfolded 1) :=
    Reachable.timer sample_both_unfolded 1 sample_both_unfolded_reachable
  have h2 : Reachable sample_cfg sample_killing :=
    Reachable.iterate (gfx_timer_fire sample_cfg sample_both_unfolded 1) none h1
  have h3 : Reachable sample_cfg sample_released := Reachable.animation sample_killing 2 h2
  have h4 : Reachable sample_cfg (gfx_timer_fire sample_cfg sample_released 0) :=
    Reachable.timer sample_released 0 h3
  exact Reachable.iterate (gfx_timer_fire sample_cfg sample_released 0) none h4

/-- C29, as amended: in every state reached by pushes, ticks, completions of
pending animations and timers in any order and changes of the tasks, in a run
in which a tick that finds `widgets_moving` clear runs only while no
completion `gfx_widgets_msg_queue_kill_end` is pending, a pending completion
`gfx_widgets_msg_queue_kill_end` of a kill started on the notification `m`,
which it carries as its tag, finds `msg_queue_kill` inside the registry and
`m` at that index, and `m` is dying; when it runs, the registry loses exactly
the entry at `msg_queue_kill` and `m` is the notification released. -/
theorem kill_end_releases_dying (cfg : Config)
    (hmax : cfg.MSG_QUEUE_ONSCREEN_MAX < 4294967296) (s : State)
    (hr : ReachableGuarded cfg s) (n : Nat) (e : gfx_animation_ctx_entry_t)
    (hn : s.anims.get? n = some e)
    (hcb : e.cb = anim_cb.gfx_widgets_msg_queue_kill_end) :
    ∃ l, s.current_msgs = some l
      ∧ s.msg_queue_kill < l.size
      ∧ file_list_get_userdata l s.msg_queue_kill = some e.tag
      ∧ (s.msgs e.tag).dying = true
      ∧ registry (gfx_animation_complete cfg s n) = (registry s).eraseIdx s.msg_queue_kill
      ∧ (gfx_animation_complete cfg s n).msgs_freed = s.msgs_freed ++ [e.tag] := by
  obtain ⟨l, hl, hk, hg, hd⟩ :=
    reachable_guarded_kill_inv cfg hmax s hr e (List.get?_mem hn) hcb
  obtain ⟨q, l1, P, T, ri⟩ := reachable_registry_inv cfg hmax s (reachable_of_guarded cfg s hr)
  have e1 : l1 = l := by
    have := ri.hl
    rw [hl] at this
    exact (Option.some.inj this).symm
  subst e1
  obtain ⟨r1, r2⟩ := kill_end_release cfg s q l1 P T ri n e hn hcb hk hg
  exact ⟨l1, hl, hk, hg, hd, r1, r2⟩

theorem kill_end_releases_dying_witness :
    sample_killing.anims.map (fun e => (e.tag, e.subject.2, e.cb))
        = [(1, anim_subject.offset_y, anim_cb.NULL),
           (1, anim_subject.alpha, anim_cb.gfx_widgets_msg_queue_kill_end),
           (0, anim_subject.offset_y, anim_cb.gfx_widgets_move_end)]
    ∧ registry sample_killing = [some 0, some 1]
    ∧ sample_killing.msg_queue_kill = 1
    ∧ (sample_killing.msgs 1).dying = true
    ∧ registry (gfx_animation_complete sample_cfg sample_killing 1) = [some 0]
    ∧ (gfx_animation_complete sample_cfg sample_killing 1).msgs_freed = [1] := by
  obtain ⟨_, _, _, _, h4, h5, h6⟩ := kill_end_releases_dying sample_cfg (by decide)
    sample_killing sample_killing_guarded 1
    { cb := anim_cb.gfx_widgets_msg_queue_kill_end,
      duration := 330,
      tag := 1,
      userdata := none,
      subject := (1, anim_subject.alpha),
      target_value := 0 } (by decide) rfl
  exact ⟨by decide, by decide, by decide, h4, h5.trans (by decide), h6.trans (by decide)⟩

/-- C29 fails as stated: the reflow of "A" completed before the fade of "B",
killed at the index 1, and released `widgets_moving`; the expiration timer of
"A" fired and the tick started the kill of "A" at the index 0.  The fade of
"B" is still pending with `gfx_widgets_msg_queue_kill_end`, `msg_queue_kill`
is 0 and the entry there is "A"; when the fade of "B" completes, "A" is
removed and released and the dying "B" stays in the registry. -/
theorem kill_end_releases_dying_counterexample :
    Reachable sample_cfg sample_double_kill
    ∧ (gfx_timer_fire sample_cfg sample_released 0).widgets_moving = false
    ∧ (gfx_timer_fire sample_cfg sample_released 0).anims.map (fun e => (e.tag, e.cb))
        = [(1, anim_cb.NULL), (1, anim_cb.gfx_widgets_msg_queue_kill_end)]
    ∧ sample_double_kill.anims.map (fun e => (e.tag, e.subject.2, e.cb))
        = [(1, anim_subject.offset_y, anim_cb.NULL),
           (1, anim_subject.alpha, anim_cb.gfx_widgets_msg_queue_kill_end),
           (0, anim_subject.offset_y, anim_cb.NULL),
           (0, anim_subject.alpha, anim_cb.gfx_widgets_msg_queue_kill_end)]
    ∧ registry sample_double_kill = [some 0, some 1]
    ∧ sample_double_kill.msg_queue_kill = 0
    ∧ (sample_double_kill.msgs 1).dying = true
    ∧ registry (gfx_animation_complete sample_cfg sample_double_kill 1) = [some 1]
    ∧ (gfx_animation_complete sample_cfg sample_double_kill 1).msgs_freed = [0] :=
  ⟨sample_double_kill_reachable, by decide, by decide, by decide, by decide, by decide,
   by decide, by decide, by decide⟩

end GfxWidgets
